import Mathlib

/-!
# ESAstro: the calculation cache and the astronomy facade

A shallow embedding of `ESAstronomyCache.cpp/.hpp` and of the parts of
`ESAstronomy.cpp` that decide which cache slots are read and written and which
instants the rise/set/transit search evaluates.

Conventions of the embedding:

* a C `double` is an `ESDouble`: either an ordinary value, idealised as an exact
  rational (no rounding, no infinities), or a NaN that carries its payload;
* `unsigned int` flags are natural numbers below `2 ^ 32`; every `++` wraps;
* a pointer to one of the five caches owned by a pool is a `CacheRef`, a nullable
  pointer is an `Option CacheRef`;
* debug-only `ESAssert`s are not executed (they compile away in release builds);
  where a claim speaks about an assertion, its condition is a separate predicate.
-/

namespace ESAstro

/-! ## Doubles -/

/-- A C `double`: an ordinary number or a NaN with a payload. -/
inductive ESDouble where
  | num (q : ℚ)
  | nan (payload : Nat)
deriving DecidableEq

/-- An instant: seconds since the reference date. -/
abbrev ESTimeInterval := ESDouble

namespace ESDouble

/-- The C macro `isnan`. -/
def isnan : ESDouble → Bool
  | num _ => false
  | nan _ => true

/-- IEEE addition on the idealised doubles; a NaN operand propagates. -/
def add : ESDouble → ESDouble → ESDouble
  | num a, num b => num (a + b)
  | nan p, _ => nan p
  | num _, nan p => nan p

/-- IEEE subtraction on the idealised doubles; a NaN operand propagates. -/
def sub : ESDouble → ESDouble → ESDouble
  | num a, num b => num (a - b)
  | nan p, _ => nan p
  | num _, nan p => nan p

/-- Unary minus. -/
def neg : ESDouble → ESDouble
  | num a => num (-a)
  | nan p => nan p

/-- The C function `fabs`. -/
def fabs : ESDouble → ESDouble
  | num a => num |a|
  | nan p => nan p

/-- IEEE multiplication on the idealised doubles; a NaN operand propagates. -/
def mul : ESDouble → ESDouble → ESDouble
  | num a, num b => num (a * b)
  | nan p, _ => nan p
  | num _, nan p => nan p

/-- IEEE division on the idealised doubles; a NaN operand propagates, and a division
by zero, whose IEEE result is an infinity or a NaN, is the generic NaN here. -/
def div : ESDouble → ESDouble → ESDouble
  | num a, num b => if b = 0 then nan 0 else num (a / b)
  | nan p, _ => nan p
  | num _, nan p => nan p

/-- A library function with ordinary results on ordinary arguments; a NaN argument
propagates. -/
def map (f : ℚ → ℚ) : ESDouble → ESDouble
  | num a => num (f a)
  | nan p => nan p

/-- A library function that may signal a domain error by a NaN; a NaN argument
propagates. -/
def bind (f : ℚ → ESDouble) : ESDouble → ESDouble
  | num a => f a
  | nan p => nan p

/-- A library function of two arguments; a NaN argument propagates. -/
def map2 (f : ℚ → ℚ → ℚ) : ESDouble → ESDouble → ESDouble
  | num a, num b => num (f a b)
  | nan p, _ => nan p
  | num _, nan p => nan p

/-- The C comparison `a > b`: false as soon as one side is a NaN. -/
def gt : ESDouble → ESDouble → Bool
  | num a, num b => decide (b < a)
  | _, _ => false

/-- The C comparison `a < b`: false as soon as one side is a NaN. -/
def lt : ESDouble → ESDouble → Bool
  | num a, num b => decide (a < b)
  | _, _ => false

/-- The C comparison `a >= b`: false as soon as one side is a NaN. -/
def ge : ESDouble → ESDouble → Bool
  | num a, num b => decide (b ≤ a)
  | _, _ => false

/-- The C comparison `a <= b`: false as soon as one side is a NaN. -/
def le : ESDouble → ESDouble → Bool
  | num a, num b => decide (a ≤ b)
  | _, _ => false

/-- The C comparison `a != b`: true as soon as one side is a NaN. -/
def ne : ESDouble → ESDouble → Bool
  | num a, num b => decide (a ≠ b)
  | _, _ => true

end ESDouble

/-! ## Cache slots (`ESAstronomyCache.hpp`) -/

/-- The enumerator `firstLocationDependentSlotIndex` of `CacheSlotIndex`. -/
def firstLocationDependentSlotIndex : Nat := 138

/-- The enumerator `numCacheSlots` of `CacheSlotIndex`. -/
def numCacheSlots : Nat := 452

/-- A slot index, `0 ≤ i < numCacheSlots`. -/
abbrev CacheSlotIndex := Fin numCacheSlots

/-- Increment of an `unsigned int`. -/
def uincr (n : Nat) : Nat := (n + 1) % 2 ^ 32

/-- The struct `ECAstroCache`. -/
structure ECAstroCache where
  dateInterval : ESTimeInterval
  astroSlop : ESTimeInterval
  currentFlag : Nat
  globalValidFlag : Nat
  inUseCount : Int
  cacheSlotValidFlag : CacheSlotIndex → Nat
  cacheSlots : CacheSlotIndex → ESDouble

/-- A pointer to one of the five caches a pool owns. -/
inductive CacheRef where
  | finalCache
  | tempCache
  | refinementCache
  | midnightCache
  | year2000Cache
deriving DecidableEq

/-- The struct `ECAstroCachePool`. -/
structure ECAstroCachePool where
  observerLatitude : ESDouble
  observerLongitude : ESDouble
  runningBackward : Bool
  tzOffsetSeconds : Int
  inActionButton : Bool
  currentGlobalCacheFlag : Nat
  finalCache : ECAstroCache
  tempCache : ECAstroCache
  refinementCache : ECAstroCache
  midnightCache : ECAstroCache
  year2000Cache : ECAstroCache
  currentCache : Option CacheRef

/-- Dereference a cache pointer of the pool. -/
def ECAstroCachePool.getCache (p : ECAstroCachePool) : CacheRef → ECAstroCache
  | .finalCache => p.finalCache
  | .tempCache => p.tempCache
  | .refinementCache => p.refinementCache
  | .midnightCache => p.midnightCache
  | .year2000Cache => p.year2000Cache

/-- Store through a cache pointer of the pool. -/
def ECAstroCachePool.setCache (p : ECAstroCachePool) (r : CacheRef) (c : ECAstroCache) :
    ECAstroCachePool :=
  match r with
  | .finalCache => { p with finalCache := c }
  | .tempCache => { p with tempCache := c }
  | .refinementCache => { p with refinementCache := c }
  | .midnightCache => { p with midnightCache := c }
  | .year2000Cache => { p with year2000Cache := c }

/-- A slot is valid when its flag equals the cache's `currentFlag`
(comment on `ECAstroCache::currentFlag`). -/
def ECAstroCache.slotValid (c : ECAstroCache) (i : CacheSlotIndex) : Prop :=
  c.cacheSlotValidFlag i = c.currentFlag

instance (c : ECAstroCache) (i : CacheSlotIndex) : Decidable (c.slotValid i) := by
  unfold ECAstroCache.slotValid; infer_instance

/-- The macro `ASTRO_SLOP_RAW`. -/
def ASTRO_SLOP_RAW : ESDouble := .num 2

/-! ## Cache operations (`ESAstronomyCache.cpp`) -/

/-- The loop of `bumpValidFlagsForLocationIndependentSlotsWithFlagValue`: every slot
below `firstLocationDependentSlotIndex` whose flag equals `oldGlobalFlag` is
incremented. -/
def bumpValidFlagsForLocationIndependentSlotsWithFlagValue (cache : ECAstroCache)
    (oldGlobalFlag : Nat) : ECAstroCache :=
  { cache with
    cacheSlotValidFlag := fun i =>
      if i.val < firstLocationDependentSlotIndex ∧ cache.cacheSlotValidFlag i = oldGlobalFlag then
        uincr (cache.cacheSlotValidFlag i)
      else cache.cacheSlotValidFlag i }

/-- The function `setupGlobalCacheFlag`. -/
def setupGlobalCacheFlag (cachePool : ECAstroCachePool) (observerLatitude observerLongitude : ESDouble)
    (runningBackward : Bool) (tzOffsetSeconds : Int) : ECAstroCachePool :=
  if runningBackward ≠ cachePool.runningBackward then
    { cachePool with
      runningBackward := runningBackward
      currentGlobalCacheFlag := uincr cachePool.currentGlobalCacheFlag }
  else if tzOffsetSeconds ≠ cachePool.tzOffsetSeconds ∨
      ESDouble.ne observerLatitude cachePool.observerLatitude = true ∨
      ESDouble.ne observerLongitude cachePool.observerLongitude = true then
    let oldGlobalFlag := cachePool.currentGlobalCacheFlag
    { cachePool with
      observerLatitude := observerLatitude
      observerLongitude := observerLongitude
      tzOffsetSeconds := tzOffsetSeconds
      currentGlobalCacheFlag := uincr cachePool.currentGlobalCacheFlag
      finalCache :=
        bumpValidFlagsForLocationIndependentSlotsWithFlagValue cachePool.finalCache oldGlobalFlag
      midnightCache :=
        bumpValidFlagsForLocationIndependentSlotsWithFlagValue cachePool.midnightCache oldGlobalFlag
      year2000Cache :=
        bumpValidFlagsForLocationIndependentSlotsWithFlagValue cachePool.year2000Cache oldGlobalFlag }
  else cachePool

/-- The function `reinitializeECAstroCache`. -/
def reinitializeECAstroCache (valueCache : ECAstroCache) : ECAstroCache :=
  { valueCache with currentFlag := 1, cacheSlotValidFlag := fun _ => 0 }

/-- The code after the label `invalid:` in `pushECAstroCacheWithSlopInPool`. -/
def pushInvalid (valueCache : ECAstroCache) (dateInterval : ESTimeInterval) : ECAstroCache :=
  let c :=
    if valueCache.currentFlag = 0xffffffff then reinitializeECAstroCache valueCache
    else { valueCache with currentFlag := uincr valueCache.currentFlag }
  { c with dateInterval := dateInterval }

/-- The first statements of `pushECAstroCacheWithSlopInPool` on a non-null
`valueCache`: store the slop, and give a never-used cache the flag 1. -/
def pushPrepare (valueCache : ECAstroCache) (slop : ESTimeInterval) : ECAstroCache :=
  let c := { valueCache with astroSlop := slop }
  if c.currentFlag = 0 then { c with currentFlag := 1 } else c

/-- What `pushECAstroCacheWithSlopInPool` does to the cache it is given, for a
non-null `valueCache` and the pool's `currentGlobalCacheFlag`. -/
def pushCache (currentGlobalCacheFlag : Nat) (valueCache : ECAstroCache)
    (dateInterval slop : ESTimeInterval) : ECAstroCache :=
  let c := pushPrepare valueCache slop
  if c.globalValidFlag ≠ currentGlobalCacheFlag then
    pushInvalid { c with globalValidFlag := currentGlobalCacheFlag } dateInterval
  else if dateInterval.isnan then
    if !c.dateInterval.isnan then pushInvalid c dateInterval else c
  else if c.dateInterval.isnan then
    pushInvalid c dateInterval
  else if ESDouble.gt (ESDouble.fabs (ESDouble.sub dateInterval c.dateInterval)) slop then
    pushInvalid c dateInterval
  else c

/-- The function `pushECAstroCacheWithSlopInPool`: returns the previously current
cache and the new pool. -/
def pushECAstroCacheWithSlopInPool (cachePool : ECAstroCachePool) (valueCache : Option CacheRef)
    (dateInterval slop : ESTimeInterval) : Option CacheRef × ECAstroCachePool :=
  let oldCache := cachePool.currentCache
  let cachePool := { cachePool with currentCache := valueCache }
  match valueCache with
  | none => (oldCache, cachePool)
  | some r =>
    (oldCache,
      cachePool.setCache r
        (pushCache cachePool.currentGlobalCacheFlag (cachePool.getCache r) dateInterval slop))

/-- The function `pushECAstroCacheInPool`. -/
def pushECAstroCacheInPool (cachePool : ECAstroCachePool) (valueCache : Option CacheRef)
    (dateInterval : ESTimeInterval) : Option CacheRef × ECAstroCachePool :=
  pushECAstroCacheWithSlopInPool cachePool valueCache dateInterval ASTRO_SLOP_RAW

/-- The function `popECAstroCacheToInPool`. -/
def popECAstroCacheToInPool (cachePool : ECAstroCachePool) (valueCache : Option CacheRef) :
    ECAstroCachePool :=
  { cachePool with currentCache := valueCache }

/-- The function `initializeCachePool`; both branches on `inActionButton` push the
final cache and differ only in their assertion. -/
def initializeCachePool (pool : ECAstroCachePool) (dateInterval : ESTimeInterval)
    (observerLatitude observerLongitude : ESDouble) (runningBackward : Bool)
    (tzOffsetSeconds : Int) : ECAstroCachePool :=
  let pool :=
    setupGlobalCacheFlag pool observerLatitude observerLongitude runningBackward tzOffsetSeconds
  if pool.inActionButton then
    (pushECAstroCacheInPool pool (some .finalCache) dateInterval).2
  else
    (pushECAstroCacheInPool pool (some .finalCache) dateInterval).2

/-- The slot write used throughout `ESAstronomy.cpp`:
`cacheSlotValidFlag[i] = currentFlag; cacheSlots[i] = v`. -/
def ECAstroCache.writeSlot (c : ECAstroCache) (i : CacheSlotIndex) (v : ESDouble) : ECAstroCache :=
  { c with
    cacheSlotValidFlag := fun j => if j = i then c.currentFlag else c.cacheSlotValidFlag j
    cacheSlots := fun j => if j = i then v else c.cacheSlots j }

/-- A cache in zero-initialised static storage. -/
def zeroCache : ECAstroCache where
  dateInterval := .num 0
  astroSlop := .num 0
  currentFlag := 0
  globalValidFlag := 0
  inUseCount := 0
  cacheSlotValidFlag := fun _ => 0
  cacheSlots := fun _ => .num 0

/-- A pool of `astroCachePools` after `initializeAstroCache`: zero-initialised static
storage with `currentGlobalCacheFlag = 1`. -/
def initialPool : ECAstroCachePool where
  observerLatitude := .num 0
  observerLongitude := .num 0
  runningBackward := false
  tzOffsetSeconds := 0
  inActionButton := false
  currentGlobalCacheFlag := 1
  finalCache := zeroCache
  tempCache := zeroCache
  refinementCache := zeroCache
  midnightCache := zeroCache
  year2000Cache := zeroCache
  currentCache := none

/-! ## Reachable pool states -/

/-- One operation on a pool. -/
inductive PoolOp where
  | setup (observerLatitude observerLongitude : ESDouble) (runningBackward : Bool)
      (tzOffsetSeconds : Int)
  | initPool (dateInterval : ESTimeInterval) (observerLatitude observerLongitude : ESDouble)
      (runningBackward : Bool) (tzOffsetSeconds : Int)
  | push (valueCache : Option CacheRef) (dateInterval slop : ESTimeInterval)
  | pop (valueCache : Option CacheRef)
  | write (i : CacheSlotIndex) (v : ESDouble)

/-- The effect of one operation. A slot write goes to the current cache, as every
`_currentCache->cacheSlots[..] = ..` of the facade does, and does nothing when no
cache is current. -/
def PoolOp.apply (p : ECAstroCachePool) : PoolOp → ECAstroCachePool
  | .setup lat long rb tz => setupGlobalCacheFlag p lat long rb tz
  | .initPool d lat long rb tz => initializeCachePool p d lat long rb tz
  | .push r d slop => (pushECAstroCacheWithSlopInPool p r d slop).2
  | .pop r => popECAstroCacheToInPool p r
  | .write i v =>
    match p.currentCache with
    | none => p
    | some r => p.setCache r ((p.getCache r).writeSlot i v)

/-- Run a sequence of operations, first operation first. -/
def runOps (p : ECAstroCachePool) (ops : List PoolOp) : ECAstroCachePool :=
  ops.foldl PoolOp.apply p

/-- The pool states reachable from the initial pool. -/
def Reachable (p : ECAstroCachePool) : Prop :=
  ∃ ops : List PoolOp, runOps initialPool ops = p

/-- Operations that neither push the cache `r` nor can change the global flag. -/
def PoolOp.quietFor (r : CacheRef) : PoolOp → Prop
  | .setup _ _ _ _ => False
  | .initPool _ _ _ _ _ => False
  | .push valueCache _ _ => valueCache ≠ some r
  | .pop _ => True
  | .write _ _ => True

/-- The flags of a cache that bound its location-dependent slots. -/
def CacheInv (c : ECAstroCache) : Prop :=
  c.currentFlag < 2 ^ 32 ∧
  ∀ i : CacheSlotIndex, firstLocationDependentSlotIndex ≤ i.val →
    c.cacheSlotValidFlag i ≤ c.currentFlag

/-- Every cache of the pool satisfies `CacheInv`. -/
def PoolInv (p : ECAstroCachePool) : Prop := ∀ r : CacheRef, CacheInv (p.getCache r)

/-- The fields of cache `r` that a quiet operation cannot change. -/
def sameFlags (c c' : ECAstroCache) : Prop :=
  c'.globalValidFlag = c.globalValidFlag ∧ c'.currentFlag = c.currentFlag ∧
    c'.dateInterval = c.dateInterval

/-! ## Slot indices and example traces -/

/-- The enumerator `sunRASlotIndex` (location independent). -/
def sunRASlotIndex : CacheSlotIndex := ⟨2, by decide⟩

/-- The enumerator `tdtCenturiesSlotIndex` (location independent). -/
def tdtCenturiesSlotIndex : CacheSlotIndex := ⟨45, by decide⟩

/-- The enumerator `sunAzimuthSlotIndex` (location dependent). -/
def sunAzimuthSlotIndex : CacheSlotIndex := ⟨158, by decide⟩

/-- The test `fabs(a - b) > slop` of `pushECAstroCacheWithSlopInPool`. -/
def differsByMoreThan (a b slop : ESDouble) : Prop :=
  ESDouble.gt (ESDouble.fabs (ESDouble.sub a b)) slop = true

instance (a b slop : ESDouble) : Decidable (differsByMoreThan a b slop) := by
  unfold differsByMoreThan; infer_instance

/-- A trace in which the midnight cache is filled and the observer then moves before
the midnight cache is pushed again: bind the final cache at latitude 1/2, longitude 1;
push the midnight cache at instant 0, store the TDT centuries there, pop back to the
final cache; release the pool; and bind the final cache again at longitude 2. -/
def staleMidnightOps : List PoolOp :=
  [ .initPool (.num 0) (.num (1 / 2)) (.num 1) false 0,
    .push (some .midnightCache) (.num 0) ASTRO_SLOP_RAW,
    .write tdtCenturiesSlotIndex (.num 5),
    .pop (some .finalCache),
    .pop none,
    .initPool (.num 0) (.num (1 / 2)) (.num 2) false 0 ]

/-- The pool after `staleMidnightOps`. -/
def staleMidnightPool : ECAstroCachePool := runOps initialPool staleMidnightOps

/-- Bind the final cache at instant 0 at latitude 1/2, longitude 1; release the pool;
bind the final cache again at instant 10; and cache the Sun's right ascension. -/
def sunRACachedOps : List PoolOp :=
  [ .initPool (.num 0) (.num (1 / 2)) (.num 1) false 0,
    .pop none,
    .initPool (.num 10) (.num (1 / 2)) (.num 1) false 0,
    .write sunRASlotIndex (.num 5) ]

/-- The pool after `sunRACachedOps`. -/
def sunRACachedPool : ECAstroCachePool := runOps initialPool sunRACachedOps

/-- Bind the final cache at instant 0 and cache the Sun's azimuth. -/
def sunAzimuthCachedOps : List PoolOp :=
  [ .initPool (.num 0) (.num 0) (.num 0) false 0,
    .write sunAzimuthSlotIndex (.num 5) ]

/-- Call `setupGlobalCacheFlag` `n` times, each time with the opposite
running-backward flag and the pool's own location. -/
def toggleRunningBackward : Nat → ECAstroCachePool → ECAstroCachePool
  | 0, p => p
  | n + 1, p =>
    toggleRunningBackward n
      (setupGlobalCacheFlag p p.observerLatitude p.observerLongitude (!p.runningBackward)
        p.tzOffsetSeconds)

/-- The pool after `sunAzimuthCachedOps` and `2 ^ 32 - 1` changes of clock direction:
the global flag has wrapped around to 0. -/
def wrappedPool : ECAstroCachePool :=
  toggleRunningBackward (2 ^ 32 - 1) (runOps initialPool sunAzimuthCachedOps)

/-- Bind the final cache at instant 0, cache the Sun's right ascension, and push the
final cache again at instant 2, within the slop of the stored instant 0. -/
def driftOps : List PoolOp :=
  [ .push (some .finalCache) (.num 0) ASTRO_SLOP_RAW,
    .write sunRASlotIndex (.num 5),
    .push (some .finalCache) (.num 2) ASTRO_SLOP_RAW ]

/-- The pool after `driftOps`. -/
def driftPool : ECAstroCachePool := runOps initialPool driftOps

/-! ## The astronomy facade (`ESAstronomy.cpp`) -/

/-- The macro `kECAlwaysBelowHorizon`, `nan("1")`. -/
def kECAlwaysBelowHorizon : ESDouble := .nan 1

/-- The macro `kECAlwaysAboveHorizon`, `nan("2")`. -/
def kECAlwaysAboveHorizon : ESDouble := .nan 2

/-- The generic NaN `nan("")` returned for invalid or unavailable results. -/
def genericNaN : ESDouble := .nan 0

/-- The constant `M_PI`: the double nearest to pi, exactly. -/
def M_PI : ℚ := 884279719003555 / 281474976710656

/-- The macro `kECLimitingAzimuthLatitude`. -/
def kECLimitingAzimuthLatitude : ℚ := 89.9999 * M_PI / 180

/-- Modelled from the spec: the planet enumeration is declared in a header that is
not among the sources; the numbering is the one the comments beside `planetRadiiInAU`
list. The Sun is planet 0. -/
def ECPlanetSun : Nat := 0

/-- Modelled from the spec: the planet enumeration (see `ECPlanetSun`). The Moon is
planet 1. -/
def ECPlanetMoon : Nat := 1

/-- Modelled from the spec: the planet enumeration (see `ECPlanetSun`). The Earth is
planet 4. -/
def ECPlanetEarth : Nat := 4

/-- Modelled from the spec: the planet enumeration (see `ECPlanetSun`). The last legal
planet is Neptune, planet 9: the slot table reserves ten slots per quantity, "up to
Neptune". -/
def ECLastLegalPlanet : Nat := 9

/-- The enumerator `planetGeocentricDistanceSlotIndex`. -/
def planetGeocentricDistanceSlotIndex : Nat := 108

/-- The enumerator `nextPlanettransitSlotIndex`. -/
def nextPlanettransitSlotIndex : Nat := 202

/-- The enumerator `nextPlanettransitLowSlotIndex`. -/
def nextPlanettransitLowSlotIndex : Nat := 212

/-- The enumerator `prevPlanettransitSlotIndex`. -/
def prevPlanettransitSlotIndex : Nat := 242

/-- The enumerator `prevPlanettransitLowSlotIndex`. -/
def prevPlanettransitLowSlotIndex : Nat := 252

/-- The enumerator `planetAltitudeSlotIndex`. -/
def planetAltitudeSlotIndex : Nat := 382

/-- The enumerator `planetAzimuthSlotIndex`. -/
def planetAzimuthSlotIndex : Nat := 392

/-- The enumerator `planetRASlotIndex`. -/
def planetRASlotIndex : Nat := 402

/-- The enumerator `planetDeclSlotIndex`. -/
def planetDeclSlotIndex : Nat := 412

/-- The array index `slotBase + planetNumber`. An index past the end of the slot
arrays is undefined behaviour in C; here it wraps, so that the function is total. -/
def planetSlot (slotBase planetNumber : Nat) : CacheSlotIndex :=
  ⟨(slotBase + planetNumber) % numCacheSlots, Nat.mod_lt _ (by decide)⟩

/-- The test `_currentCache && _currentCache->cacheSlotValidFlag[i] ==
_currentCache->currentFlag`. -/
def cacheHit (cache : Option ECAstroCache) (i : CacheSlotIndex) : Bool :=
  match cache with
  | none => false
  | some c => decide (c.slotValid i)

/-- The read `_currentCache->cacheSlots[i]`, made after `cacheHit` succeeded. -/
def cacheRead (cache : Option ECAstroCache) (i : CacheSlotIndex) : ESDouble :=
  match cache with
  | none => genericNaN
  | some c => c.cacheSlots i

/-- The guarded write `if (_currentCache) { flag[i] = currentFlag; slots[i] = v; }`. -/
def cacheWrite (cache : Option ECAstroCache) (i : CacheSlotIndex) (v : ESDouble) :
    Option ECAstroCache :=
  cache.map fun c => c.writeSlot i v

/-- Modelled from the spec: the precision levels (low, medium, full) of the series
provider, whose header is not among the sources. -/
inductive ECWBPrecision where
  | low
  | mid
  | full
deriving DecidableEq

/-- The outputs of `WB_planetApparentPosition`. -/
structure PlanetPosition where
  eclipticLongitude : ESDouble
  eclipticLatitude : ESDouble
  geocentricDistance : ESDouble
  rightAscension : ESDouble
  declination : ESDouble

/-- The type `CalculationMethod`: from the trial instant, the observer, the
rise-or-set flag, the planet, the override altitude and the pool to the returned
instant, the value stored through `riseSetOrTransit`, and the pool afterwards. -/
abbrev CalculationMethod :=
  ESTimeInterval → ESDouble → ESDouble → Bool → Nat → ESDouble → ECAstroCachePool →
    ESTimeInterval × ESDouble × ECAstroCachePool

/-- The functions the embedded code calls and that are taken as given: the C math
library, the series provider, and the time conversions and solvers of
`ESAstronomy.cpp` whose arithmetic is not reproduced here. A function that takes the
cache or the pool returns it as it leaves it. -/
structure AstroFunctions where
  sin : ℚ → ℚ
  cos : ℚ → ℚ
  asin : ℚ → ESDouble
  acos : ℚ → ESDouble
  atan2 : ℚ → ℚ → ℚ
  julianCenturiesSince2000EpochForDateInterval :
    ESTimeInterval → Option ECAstroCache → ESDouble × Option ECAstroCache
  WB_planetApparentPosition :
    Nat → ESDouble → Option ECAstroCache → ECWBPrecision → PlanetPosition × Option ECAstroCache
  convertUTToGSTP03 : ESTimeInterval → Option ECAstroCache → ESDouble × Option ECAstroCache
  topocentricParallax :
    ESDouble → ESDouble → ESDouble → ESDouble → ESDouble → ESDouble → ESDouble × ESDouble
  convertGSTtoUTclosest :
    ESDouble → ESTimeInterval → Option ECAstroCachePool →
      ESTimeInterval × Option ECAstroCachePool
  planettransitTimeRefined : CalculationMethod
  planetaryRiseSetTimeRefined : CalculationMethod

/-- The function `convertLSTtoGST`: the Greenwich sidereal time and the day offset. -/
def convertLSTtoGST (lst observerLongitude : ESDouble) : ESDouble × Int :=
  let gst := ESDouble.sub lst observerLongitude
  if ESDouble.lt gst (.num 0) then (ESDouble.add gst (.num (M_PI * 2)), -1)
  else if ESDouble.gt gst (.num (M_PI * 2)) then (ESDouble.sub gst (.num (M_PI * 2)), 1)
  else (gst, 0)

/-- The function `convertGSTtoLST`. -/
def convertGSTtoLST (gst observerLongitude : ESDouble) : ESDouble :=
  let lst := ESDouble.add gst observerLongitude
  if ESDouble.lt lst (.num 0) then ESDouble.add lst (.num (M_PI * 2))
  else if ESDouble.gt lst (.num (M_PI * 2)) then ESDouble.sub lst (.num (M_PI * 2))
  else lst

/-- The quantity `cosH` of `riseSetTime`:
`(sin(alt) - sin(lat)*sin(decl)) / (cos(lat)*cos(decl))`. -/
def riseSetCosH (fn : AstroFunctions) (declination observerLatitude altAtRiseSet : ESDouble) :
    ESDouble :=
  ESDouble.div
    (ESDouble.sub (ESDouble.map fn.sin altAtRiseSet)
      (ESDouble.mul (ESDouble.map fn.sin observerLatitude) (ESDouble.map fn.sin declination)))
    (ESDouble.mul (ESDouble.map fn.cos observerLatitude) (ESDouble.map fn.cos declination))

/-- The function `riseSetTime`. -/
def riseSetTime (fn : AstroFunctions) (riseNotSet : Bool)
    (rightAscension declination observerLatitude observerLongitude altAtRiseSet : ESDouble)
    (calculationDateInterval : ESTimeInterval) (cachePool : Option ECAstroCachePool) :
    ESTimeInterval × Option ECAstroCachePool :=
  let cosH := riseSetCosH fn declination observerLatitude altAtRiseSet
  if ESDouble.lt cosH (.num (-1)) then (kECAlwaysAboveHorizon, cachePool)
  else if ESDouble.gt cosH (.num 1) then (kECAlwaysBelowHorizon, cachePool)
  else
    let H := ESDouble.bind fn.acos cosH
    let LST_rs :=
      ESDouble.add rightAscension (if riseNotSet then ESDouble.sub (.num (M_PI * 2)) H else H)
    let LST_rs :=
      if ESDouble.gt LST_rs (.num (M_PI * 2)) then ESDouble.sub LST_rs (.num (M_PI * 2))
      else LST_rs
    let GST_rs := (convertLSTtoGST LST_rs observerLongitude).1
    fn.convertGSTtoUTclosest GST_rs calculationDateInterval cachePool

/-- The condition of the assertion that opens `planetAltAz` and the other cached
computations: no cache, or `fabs(cache->dateInterval - date) <= ASTRO_SLOP`, where
`ASTRO_SLOP` is the cache's `astroSlop`. -/
def cacheDateGuard (cache : Option ECAstroCache) (calculationDateInterval : ESTimeInterval) :
    Bool :=
  match cache with
  | none => true
  | some c =>
    ESDouble.le (ESDouble.fabs (ESDouble.sub c.dateInterval calculationDateInterval)) c.astroSlop

/-- The function `planetAltAz`: the angle and the cache as the call leaves it. -/
def planetAltAz (fn : AstroFunctions) (planetNumber : Nat)
    (calculationDateInterval : ESTimeInterval) (observerLatitude observerLongitude : ESDouble)
    (correctForParallax altNotAz : Bool) (currentCache : Option ECAstroCache) :
    ESDouble × Option ECAstroCache :=
  let slotBase := if altNotAz then planetAltitudeSlotIndex else planetAzimuthSlotIndex
  if cacheHit currentCache (planetSlot slotBase planetNumber) then
    (cacheRead currentCache (planetSlot slotBase planetNumber), currentCache)
  else
    let observerLatitude :=
      if ESDouble.gt observerLatitude (.num kECLimitingAzimuthLatitude) then
        .num kECLimitingAzimuthLatitude
      else if ESDouble.lt observerLatitude (.num (-kECLimitingAzimuthLatitude)) then
        .num (-kECLimitingAzimuthLatitude)
      else observerLatitude
    let position : (ESDouble × ESDouble × ESDouble) × Option ECAstroCache :=
      if cacheHit currentCache (planetSlot planetRASlotIndex planetNumber) then
        ((cacheRead currentCache (planetSlot planetRASlotIndex planetNumber),
          cacheRead currentCache (planetSlot planetDeclSlotIndex planetNumber),
          cacheRead currentCache (planetSlot planetGeocentricDistanceSlotIndex planetNumber)),
          currentCache)
      else
        let jc := fn.julianCenturiesSince2000EpochForDateInterval calculationDateInterval
          currentCache
        let wb := fn.WB_planetApparentPosition planetNumber (ESDouble.div jc.1 (.num 100)) jc.2
          .full
        ((wb.1.rightAscension, wb.1.declination, wb.1.geocentricDistance), wb.2)
    let planetRightAscension := position.1.1
    let planetDeclination := position.1.2.1
    let planetGeocentricDistance := position.1.2.2
    let gst := fn.convertUTToGSTP03 calculationDateInterval position.2
    let lst := convertGSTtoLST gst.1 observerLongitude
    let planetHourAngle := ESDouble.sub lst planetRightAscension
    let topo : ESDouble × ESDouble :=
      if correctForParallax then
        let t := fn.topocentricParallax planetRightAscension planetDeclination planetHourAngle
          planetGeocentricDistance observerLatitude (.num 0)
        (t.2, t.1)
      else (planetDeclination, planetHourAngle)
    let planetDeclination := topo.1
    let planetHourAngle := topo.2
    let sinAlt :=
      ESDouble.add
        (ESDouble.mul (ESDouble.map fn.sin planetDeclination) (ESDouble.map fn.sin observerLatitude))
        (ESDouble.mul
          (ESDouble.mul (ESDouble.map fn.cos planetDeclination)
            (ESDouble.map fn.cos observerLatitude))
          (ESDouble.map fn.cos planetHourAngle))
    let planetAzimuth :=
      ESDouble.map2 fn.atan2
        (ESDouble.mul
          (ESDouble.mul (ESDouble.neg (ESDouble.map fn.cos planetDeclination))
            (ESDouble.map fn.cos observerLatitude))
          (ESDouble.map fn.sin planetHourAngle))
        (ESDouble.sub (ESDouble.map fn.sin planetDeclination)
          (ESDouble.mul (ESDouble.map fn.sin observerLatitude) sinAlt))
    let planetAltitude := ESDouble.bind fn.asin sinAlt
    let cache :=
      cacheWrite
        (cacheWrite gst.2 (planetSlot planetAltitudeSlotIndex planetNumber) planetAltitude)
        (planetSlot planetAzimuthSlotIndex planetNumber) planetAzimuth
    (if altNotAz then planetAltitude else planetAzimuth, cache)

/-- The state of an `ESAstronomyManager` between setup and cleanup: the pool
`_astroCachePool` points to, the pointer `_currentCache` into that pool, the bound
instant and observer, and the clock direction `_watchTime->runningBackward()`. -/
structure ESAstronomyManager where
  astroCachePool : ECAstroCachePool
  currentCache : Option CacheRef
  calculationDateInterval : ESTimeInterval
  observerLatitude : ESDouble
  observerLongitude : ESDouble
  locationValid : Bool
  runningBackward : Bool

/-- The cache `_currentCache` points to, if any. -/
def ESAstronomyManager.cache (m : ESAstronomyManager) : Option ECAstroCache :=
  m.currentCache.map m.astroCachePool.getCache

/-- Store what a callee left in `*_currentCache` back into the pool. -/
def ESAstronomyManager.storeCache (m : ESAstronomyManager) (cache : Option ECAstroCache) :
    ESAstronomyManager :=
  match m.currentCache, cache with
  | some r, some c => { m with astroCachePool := m.astroCachePool.setCache r c }
  | _, _ => m

/-- The guard that opens every per-planet query. -/
def planetNumberIllegal (planetNumber : Int) : Bool :=
  decide (planetNumber < 0) || decide (planetNumber > ECLastLegalPlanet) ||
    decide (planetNumber = ECPlanetEarth)

/-- The method `ESAstronomyManager::planetAltitude(int)`. -/
def ESAstronomyManager.planetAltitude (fn : AstroFunctions) (m : ESAstronomyManager)
    (planetNumber : Int) : ESDouble × ESAstronomyManager :=
  if planetNumberIllegal planetNumber then (genericNaN, m)
  else
    let r := planetAltAz fn planetNumber.toNat m.calculationDateInterval m.observerLatitude
      m.observerLongitude true true m.cache
    (r.1, m.storeCache r.2)

/-- The method `ESAstronomyManager::planetAzimuth(int)`. -/
def ESAstronomyManager.planetAzimuth (fn : AstroFunctions) (m : ESAstronomyManager)
    (planetNumber : Int) : ESDouble × ESAstronomyManager :=
  if planetNumberIllegal planetNumber then (genericNaN, m)
  else
    let r := planetAltAz fn planetNumber.toNat m.calculationDateInterval m.observerLatitude
      m.observerLongitude true false m.cache
    (r.1, m.storeCache r.2)

/-- The method `ESAstronomyManager::planetAltitude(int, ESTimeInterval)`: the cache
argument of `planetAltAz` is `NULL`. -/
def ESAstronomyManager.planetAltitudeAt (fn : AstroFunctions) (m : ESAstronomyManager)
    (planetNumber : Int) (atDateInterval : ESTimeInterval) : ESDouble × ESAstronomyManager :=
  if planetNumberIllegal planetNumber then (genericNaN, m)
  else
    let r := planetAltAz fn planetNumber.toNat atDateInterval m.observerLatitude
      m.observerLongitude true true none
    (r.1, m)

/-- The method `ESAstronomyManager::planetAzimuth(int, ESTimeInterval)`: the cache
argument of `planetAltAz` is `_currentCache`. -/
def ESAstronomyManager.planetAzimuthAt (fn : AstroFunctions) (m : ESAstronomyManager)
    (planetNumber : Int) (atDateInterval : ESTimeInterval) : ESDouble × ESAstronomyManager :=
  if planetNumberIllegal planetNumber then (genericNaN, m)
  else
    let r := planetAltAz fn planetNumber.toNat atDateInterval m.observerLatitude
      m.observerLongitude true false m.cache
    (r.1, m.storeCache r.2)

/-- The static variable `fudgeFactorSeconds`. -/
def fudgeFactorSeconds : ESDouble := .num 5

/-- The look-ahead `3600 * 13.2` seconds passed by the rise, set and transit queries. -/
def riseSetLookahead : ESDouble := .num (3600 * 13.2)

/-- The acceptance test of `nextPrevRiseSetInternalWithFudgeInterval`:
`isNext ? *riseSetOrTransit >= fudgeDate : *riseSetOrTransit < fudgeDate`. -/
def onRequestedSide (isNext : Bool) (riseSetOrTransit fudgeDate : ESDouble) : Bool :=
  if isNext then ESDouble.ge riseSetOrTransit fudgeDate else ESDouble.lt riseSetOrTransit fudgeDate

/-- The method `ESAstronomyManager::nextPrevRiseSetInternalWithFudgeInterval`: the
returned instant, the value left in `*riseSetOrTransit`, and the facade afterwards. -/
def ESAstronomyManager.nextPrevRiseSetInternalWithFudgeInterval (m : ESAstronomyManager)
    (fudgeSeconds : ESDouble) (calculationMethod : CalculationMethod)
    (overrideAltitudeDesired : ESDouble) (planetNumber : Nat) (riseNotSet isNext : Bool)
    (lookahead : ESTimeInterval) : ESTimeInterval × ESDouble × ESAstronomyManager :=
  let fudgeSeconds := if !isNext then ESDouble.neg fudgeSeconds else fudgeSeconds
  let lookahead := if !isNext then ESDouble.neg lookahead else lookahead
  let fudgeDate := ESDouble.add m.calculationDateInterval fudgeSeconds
  let first := calculationMethod fudgeDate m.observerLatitude m.observerLongitude riseNotSet
    planetNumber overrideAltitudeDesired m.astroCachePool
  if onRequestedSide isNext first.2.1 fudgeDate then
    (first.1, first.2.1, { m with astroCachePool := first.2.2 })
  else
    let tryDate := ESDouble.add fudgeDate lookahead
    let second := calculationMethod tryDate m.observerLatitude m.observerLongitude riseNotSet
      planetNumber overrideAltitudeDesired first.2.2
    (second.1, second.2.1, { m with astroCachePool := second.2.2 })

/-- The search as the specification words it: evaluate the method at the bound instant
plus the fudge (minus the fudge for a previous-event search); keep the result if its
`riseSetOrTransit` is on the requested side of the fudged instant (`>=` for next, `<`
for previous); otherwise evaluate the method a look-ahead further (earlier for a
previous-event search) and return that. -/
def twoPhaseSearch (m : ESAstronomyManager) (fudgeSeconds : ESDouble)
    (calculationMethod : CalculationMethod) (overrideAltitudeDesired : ESDouble)
    (planetNumber : Nat) (riseNotSet isNext : Bool) (lookahead : ESTimeInterval) :
    ESTimeInterval × ESDouble × ESAstronomyManager :=
  match isNext with
  | true =>
    let fudged := ESDouble.add m.calculationDateInterval fudgeSeconds
    let first := calculationMethod fudged m.observerLatitude m.observerLongitude riseNotSet
      planetNumber overrideAltitudeDesired m.astroCachePool
    if ESDouble.ge first.2.1 fudged then
      (first.1, first.2.1, { m with astroCachePool := first.2.2 })
    else
      let second := calculationMethod (ESDouble.add fudged lookahead) m.observerLatitude
        m.observerLongitude riseNotSet planetNumber overrideAltitudeDesired first.2.2
      (second.1, second.2.1, { m with astroCachePool := second.2.2 })
  | false =>
    let fudged := ESDouble.sub m.calculationDateInterval fudgeSeconds
    let first := calculationMethod fudged m.observerLatitude m.observerLongitude riseNotSet
      planetNumber overrideAltitudeDesired m.astroCachePool
    if ESDouble.lt first.2.1 fudged then
      (first.1, first.2.1, { m with astroCachePool := first.2.2 })
    else
      let second := calculationMethod (ESDouble.sub fudged lookahead) m.observerLatitude
        m.observerLongitude riseNotSet planetNumber overrideAltitudeDesired first.2.2
      (second.1, second.2.1, { m with astroCachePool := second.2.2 })

/-- The slot base chosen by `nextPrevPlanettransit`. -/
def transitSlotIndexBase (nextNotPrev wantHighTransit : Bool) : Nat :=
  if nextNotPrev then
    if wantHighTransit then nextPlanettransitSlotIndex else nextPlanettransitLowSlotIndex
  else
    if wantHighTransit then prevPlanettransitSlotIndex else prevPlanettransitLowSlotIndex

/-- The method `ESAstronomyManager::nextPrevPlanettransit`. -/
def ESAstronomyManager.nextPrevPlanettransit (fn : AstroFunctions) (m : ESAstronomyManager)
    (planetNumber : Nat) (nextNotPrev : Bool) (wantHighTransit : Bool) :
    ESTimeInterval × ESAstronomyManager :=
  if !m.locationValid then (genericNaN, m)
  else
    let slotIndex := planetSlot (transitSlotIndexBase nextNotPrev wantHighTransit) planetNumber
    if cacheHit m.cache slotIndex then (cacheRead m.cache slotIndex, m)
    else
      let r :=
        if m.runningBackward then
          m.nextPrevRiseSetInternalWithFudgeInterval fudgeFactorSeconds
            fn.planettransitTimeRefined genericNaN planetNumber wantHighTransit (!nextNotPrev)
            riseSetLookahead
        else
          m.nextPrevRiseSetInternalWithFudgeInterval fudgeFactorSeconds
            fn.planettransitTimeRefined genericNaN planetNumber wantHighTransit nextNotPrev
            riseSetLookahead
      (r.1, r.2.2.storeCache (cacheWrite r.2.2.cache slotIndex r.1))

/-- The method `ESAstronomyManager::prevSuntransit`. -/
def ESAstronomyManager.prevSuntransit (fn : AstroFunctions) (m : ESAstronomyManager) :
    ESTimeInterval × ESAstronomyManager :=
  m.nextPrevPlanettransit fn ECPlanetSun false true

/-- The method `ESAstronomyManager::nextSuntransit`. -/
def ESAstronomyManager.nextSuntransit (fn : AstroFunctions) (m : ESAstronomyManager) :
    ESTimeInterval × ESAstronomyManager :=
  m.nextPrevPlanettransit fn ECPlanetSun true true

/-- The method `ESAstronomyManager::nextPlanettransit`. -/
def ESAstronomyManager.nextPlanettransit (fn : AstroFunctions) (m : ESAstronomyManager)
    (planetNumber : Nat) : ESTimeInterval × ESAstronomyManager :=
  m.nextPrevPlanettransit fn planetNumber true true

/-- The method `ESAstronomyManager::prevPlanettransit`. -/
def ESAstronomyManager.prevPlanettransit (fn : AstroFunctions) (m : ESAstronomyManager)
    (planetNumber : Nat) : ESTimeInterval × ESAstronomyManager :=
  m.nextPrevPlanettransit fn planetNumber true true

/-! ## A small concrete sky for evaluating the facade -/

/-- A transit solver for a body that transits at every multiple of 86400 seconds: it
returns the transit nearest to the trial instant. -/
def dailyTransit : CalculationMethod :=
  fun calculationDate _ _ _ _ _ cachePool =>
    let t := ESDouble.map (fun q => 86400 * (⌊q / 86400 + 1 / 2⌋ : ℤ)) calculationDate
    (t, t, cachePool)

/-- Stand-ins for the functions taken as given, simple enough to evaluate: the hour
angle of every body grows with the instant, `sin x = x`, `cos x = 1`,
`atan2 y x = y`, and no function touches the cache. -/
def sampleFunctions : AstroFunctions where
  sin := fun x => x
  cos := fun _ => 1
  asin := fun x => .num x
  acos := fun x => .num (1 - x)
  atan2 := fun y _ => y
  julianCenturiesSince2000EpochForDateInterval := fun d c => (d, c)
  WB_planetApparentPosition := fun _ t c _ => (⟨t, t, .num 1, t, t⟩, c)
  convertUTToGSTP03 := fun d c => (d, c)
  topocentricParallax := fun _ decl H _ _ _ => (H, decl)
  convertGSTtoUTclosest := fun gst d pool => (ESDouble.add d gst, pool)
  planettransitTimeRefined := dailyTransit
  planetaryRiseSetTimeRefined := dailyTransit

/-- A facade bound at instant 0 at latitude 0, longitude 0, with an empty final
cache current. -/
def boundManager : ESAstronomyManager where
  astroCachePool := initializeCachePool initialPool (.num 0) (.num 0) (.num 0) false 0
  currentCache := some .finalCache
  calculationDateInterval := .num 0
  observerLatitude := .num 0
  observerLongitude := .num 0
  locationValid := true
  runningBackward := false

/-- The facade `boundManager` bound at instant 1000 instead. -/
def boundManagerAt1000 : ESAstronomyManager :=
  { boundManager with
    astroCachePool := initializeCachePool initialPool (.num 1000) (.num 0) (.num 0) false 0
    calculationDateInterval := .num 1000 }

/-- A method that agrees with `dailyTransit` at the instants 1005 and 48525 and
returns NaNs everywhere else. -/
def dailyTransitAtTwoInstants : CalculationMethod :=
  fun calculationDate lat long riseNotSet planetNumber overrideAltitude cachePool =>
    if calculationDate = .num 1005 ∨ calculationDate = .num 48525 then
      dailyTransit calculationDate lat long riseNotSet planetNumber overrideAltitude cachePool
    else (genericNaN, genericNaN, cachePool)

/-! ## Time conversions (`ESAstronomy.cpp`) -/

/-- The macro `kEC1990Epoch`. -/
def kEC1990Epoch : ℚ := -347241600

/-- The macro `kECJulianDateOf1990Epoch`. -/
def kECJulianDateOf1990Epoch : ℚ := 2447891.5

/-- The macro `kECJulianDateOf2000Epoch`. -/
def kECJulianDateOf2000Epoch : ℚ := 2451545

/-- The function `julianDateForDate`. -/
def julianDateForDate (dateInterval : ESTimeInterval) : ESDouble :=
  let secondsSince1990Epoch := ESDouble.sub dateInterval (.num kEC1990Epoch)
  ESDouble.add (.num kECJulianDateOf1990Epoch)
    (ESDouble.div secondsSince1990Epoch (.num (24 * 3600)))

/-- The branches of the `if` chain of `espenakDeltaT`, in source order, and the
fall-through to the trailing `return 0`. -/
inductive EspenakBranch where
  | from2005to2050
  | outside
  | before500
  | before1600
  | before1700
  | before1800
  | before1860
  | before1900
  | before1920
  | before1941
  | before1961
  | before1986
  | before2005
  | before2150
  | fallThrough
deriving DecidableEq

/-- The conditions of the `if` chain of `espenakDeltaT`, tested in source order. -/
def espenakBranch (yearValue : ESDouble) : EspenakBranch :=
  if ESDouble.ge yearValue (.num 2005) && ESDouble.le yearValue (.num 2050) then .from2005to2050
  else if ESDouble.lt yearValue (.num (-500)) || ESDouble.ge yearValue (.num 2150) then .outside
  else if ESDouble.lt yearValue (.num 500) then .before500
  else if ESDouble.lt yearValue (.num 1600) then .before1600
  else if ESDouble.lt yearValue (.num 1700) then .before1700
  else if ESDouble.lt yearValue (.num 1800) then .before1800
  else if ESDouble.lt yearValue (.num 1860) then .before1860
  else if ESDouble.lt yearValue (.num 1900) then .before1900
  else if ESDouble.lt yearValue (.num 1920) then .before1920
  else if ESDouble.lt yearValue (.num 1941) then .before1941
  else if ESDouble.lt yearValue (.num 1961) then .before1961
  else if ESDouble.lt yearValue (.num 1986) then .before1986
  else if ESDouble.lt yearValue (.num 2005) then .before2005
  else if ESDouble.lt yearValue (.num 2150) then .before2150
  else .fallThrough

/-- The value each branch of `espenakDeltaT` returns, as a function of the year. -/
def espenakPolynomial : EspenakBranch → ℚ → ℚ
  | .from2005to2050, yearValue =>
    let t := yearValue - 2000
    let t2 := t * t
    62.92 + 0.32217 * t + 0.005589 * t2
  | .outside, yearValue =>
    let u := (yearValue - 1820) / 100
    (-20) + 32 * u * u
  | .before500, yearValue =>
    let u := yearValue / 100
    let u2 := u * u
    let u3 := u2 * u
    let u4 := u2 * u2
    let u5 := u3 * u2
    let u6 := u3 * u3
    10583.6 - 1014.41 * u + 33.78311 * u2 - 5.952053 * u3
      - 0.1798452 * u4 + 0.022174192 * u5 + 0.0090316521 * u6
  | .before1600, yearValue =>
    let u := (yearValue - 1000) / 100
    let u2 := u * u
    let u3 := u2 * u
    let u4 := u2 * u2
    let u5 := u3 * u2
    let u6 := u3 * u3
    1574.2 - 556.01 * u + 71.23472 * u2 + 0.319781 * u3
      - 0.8503463 * u4 - 0.005050998 * u5 + 0.0083572073 * u6
  | .before1700, yearValue =>
    let t := yearValue - 1600
    let t2 := t * t
    let t3 := t2 * t
    120 - 0.9808 * t - 0.01532 * t2 + t3 / 7129
  | .before1800, yearValue =>
    let t := yearValue - 1700
    let t2 := t * t
    let t3 := t2 * t
    let t4 := t2 * t2
    8.83 + 0.1603 * t - 0.0059285 * t2 + 0.00013336 * t3 - t4 / 1174000
  | .before1860, yearValue =>
    let t := yearValue - 1800
    let t2 := t * t
    let t3 := t2 * t
    let t4 := t2 * t2
    let t5 := t3 * t2
    let t6 := t3 * t3
    let t7 := t4 * t3
    13.72 - 0.332447 * t + 0.0068612 * t2 + 0.0041116 * t3 - 0.00037436 * t4
      + 0.0000121272 * t5 - 0.0000001699 * t6 + 0.000000000875 * t7
  | .before1900, yearValue =>
    let t := yearValue - 1860
    let t2 := t * t
    let t3 := t2 * t
    let t4 := t2 * t2
    let t5 := t3 * t2
    7.62 + 0.5737 * t - 0.251754 * t2 + 0.01680668 * t3
      - 0.0004473624 * t4 + t5 / 233174
  | .before1920, yearValue =>
    let t := yearValue - 1900
    let t2 := t * t
    let t3 := t2 * t
    let t4 := t2 * t2
    (-2.79) + 1.494119 * t - 0.0598939 * t2 + 0.0061966 * t3 - 0.000197 * t4
  | .before1941, yearValue =>
    let t := yearValue - 1920
    let t2 := t * t
    let t3 := t2 * t
    21.20 + 0.84493 * t - 0.076100 * t2 + 0.0020936 * t3
  | .before1961, yearValue =>
    let t := yearValue - 1950
    let t2 := t * t
    let t3 := t2 * t
    29.07 + 0.407 * t - t2 / 233 + t3 / 2547
  | .before1986, yearValue =>
    let t := yearValue - 1975
    let t2 := t * t
    let t3 := t2 * t
    45.45 + 1.067 * t - t2 / 260 - t3 / 718
  | .before2005, yearValue =>
    let t := yearValue - 2000
    let t2 := t * t
    let t3 := t2 * t
    let t4 := t2 * t2
    let t5 := t3 * t2
    63.86 + 0.3345 * t - 0.060374 * t2 + 0.0017275 * t3 + 0.000651814 * t4
      + 0.00002373599 * t5
  | .before2150, yearValue =>
    let t1 := (yearValue - 1820) / 100
    (-20) + 32 * t1 * t1 - 0.5628 * (2150 - yearValue)
  | .fallThrough, _ => 0

/-- The function `espenakDeltaT`: the branch chosen by the `if` chain and the value
that branch returns; when no condition of the chain holds, the trailing `return 0`. -/
def espenakDeltaT (yearValue : ESDouble) : ESDouble :=
  match espenakBranch yearValue with
  | .fallThrough => .num 0
  | branch => ESDouble.map (espenakPolynomial branch) yearValue

/-- The year interval the documentation assigns to each polynomial of `espenakDeltaT`. -/
def espenakInterval (y : ℚ) : EspenakBranch → Prop
  | .from2005to2050 => 2005 ≤ y ∧ y ≤ 2050
  | .outside => y < -500 ∨ 2150 ≤ y
  | .before500 => -500 ≤ y ∧ y < 500
  | .before1600 => 500 ≤ y ∧ y < 1600
  | .before1700 => 1600 ≤ y ∧ y < 1700
  | .before1800 => 1700 ≤ y ∧ y < 1800
  | .before1860 => 1800 ≤ y ∧ y < 1860
  | .before1900 => 1860 ≤ y ∧ y < 1900
  | .before1920 => 1900 ≤ y ∧ y < 1920
  | .before1941 => 1920 ≤ y ∧ y < 1941
  | .before1961 => 1941 ≤ y ∧ y < 1961
  | .before1986 => 1961 ≤ y ∧ y < 1986
  | .before2005 => 1986 ≤ y ∧ y < 2005
  | .before2150 => 2050 < y ∧ y < 2150
  | .fallThrough => False

/-! ## Rise and set queries (`ESAstronomy.cpp`) -/

/-- The enumerator `nextPlanetriseSlotIndex`. -/
def nextPlanetriseSlotIndex : Nat := 182

/-- The enumerator `nextPlanetsetSlotIndex`. -/
def nextPlanetsetSlotIndex : Nat := 192

/-- The enumerator `prevPlanetriseSlotIndex`. -/
def prevPlanetriseSlotIndex : Nat := 222

/-- The enumerator `prevPlanetsetSlotIndex`. -/
def prevPlanetsetSlotIndex : Nat := 232

/-- The slot base chosen by `nextPrevPlanetRiseSetForPlanet`. -/
def riseSetSlotIndexBase (riseNotSet nextNotPrev : Bool) : Nat :=
  if riseNotSet then
    if nextNotPrev then nextPlanetriseSlotIndex else prevPlanetriseSlotIndex
  else
    if nextNotPrev then nextPlanetsetSlotIndex else prevPlanetsetSlotIndex

/-- The method `ESAstronomyManager::nextPrevPlanetRiseSetForPlanet`; `isNext` is
`_watchTime->runningBackward() ^ nextNotPrev`. -/
def ESAstronomyManager.nextPrevPlanetRiseSetForPlanet (fn : AstroFunctions)
    (m : ESAstronomyManager) (planetNumber : Nat) (riseNotSet nextNotPrev : Bool) :
    ESTimeInterval × ESAstronomyManager :=
  if !m.locationValid then (genericNaN, m)
  else
    let slotIndex := planetSlot (riseSetSlotIndexBase riseNotSet nextNotPrev) planetNumber
    if cacheHit m.cache slotIndex then (cacheRead m.cache slotIndex, m)
    else
      let r := m.nextPrevRiseSetInternalWithFudgeInterval fudgeFactorSeconds
        fn.planetaryRiseSetTimeRefined genericNaN planetNumber riseNotSet
        (xor m.runningBackward nextNotPrev) riseSetLookahead
      (r.1, r.2.2.storeCache (cacheWrite r.2.2.cache slotIndex r.1))

/-- The method `ESAstronomyManager::nextSunrise`. -/
def ESAstronomyManager.nextSunrise (fn : AstroFunctions) (m : ESAstronomyManager) :
    ESTimeInterval × ESAstronomyManager :=
  m.nextPrevPlanetRiseSetForPlanet fn ECPlanetSun true true

/-- The method `ESAstronomyManager::nextSunset`. -/
def ESAstronomyManager.nextSunset (fn : AstroFunctions) (m : ESAstronomyManager) :
    ESTimeInterval × ESAstronomyManager :=
  m.nextPrevPlanetRiseSetForPlanet fn ECPlanetSun false true

/-- The method `ESAstronomyManager::prevSunrise`. -/
def ESAstronomyManager.prevSunrise (fn : AstroFunctions) (m : ESAstronomyManager) :
    ESTimeInterval × ESAstronomyManager :=
  m.nextPrevPlanetRiseSetForPlanet fn ECPlanetSun true false

/-- The method `ESAstronomyManager::prevSunset`. -/
def ESAstronomyManager.prevSunset (fn : AstroFunctions) (m : ESAstronomyManager) :
    ESTimeInterval × ESAstronomyManager :=
  m.nextPrevPlanetRiseSetForPlanet fn ECPlanetSun false false

/-- The method `ESAstronomyManager::nextMoonrise`. -/
def ESAstronomyManager.nextMoonrise (fn : AstroFunctions) (m : ESAstronomyManager) :
    ESTimeInterval × ESAstronomyManager :=
  m.nextPrevPlanetRiseSetForPlanet fn ECPlanetMoon true true

/-- The method `ESAstronomyManager::nextMoonset`. -/
def ESAstronomyManager.nextMoonset (fn : AstroFunctions) (m : ESAstronomyManager) :
    ESTimeInterval × ESAstronomyManager :=
  m.nextPrevPlanetRiseSetForPlanet fn ECPlanetMoon false true

/-- The method `ESAstronomyManager::prevMoonrise`. -/
def ESAstronomyManager.prevMoonrise (fn : AstroFunctions) (m : ESAstronomyManager) :
    ESTimeInterval × ESAstronomyManager :=
  m.nextPrevPlanetRiseSetForPlanet fn ECPlanetMoon true false

/-- The method `ESAstronomyManager::prevMoonset`. -/
def ESAstronomyManager.prevMoonset (fn : AstroFunctions) (m : ESAstronomyManager) :
    ESTimeInterval × ESAstronomyManager :=
  m.nextPrevPlanetRiseSetForPlanet fn ECPlanetMoon false false

/-- The method `ESAstronomyManager::nextPlanetriseForPlanetNumber`. -/
def ESAstronomyManager.nextPlanetriseForPlanetNumber (fn : AstroFunctions)
    (m : ESAstronomyManager) (planetNumber : Nat) : ESTimeInterval × ESAstronomyManager :=
  m.nextPrevPlanetRiseSetForPlanet fn planetNumber true true

/-- The method `ESAstronomyManager::nextPlanetsetForPlanetNumber`. -/
def ESAstronomyManager.nextPlanetsetForPlanetNumber (fn : AstroFunctions)
    (m : ESAstronomyManager) (planetNumber : Nat) : ESTimeInterval × ESAstronomyManager :=
  m.nextPrevPlanetRiseSetForPlanet fn planetNumber false true

/-- The method `ESAstronomyManager::prevPlanetriseForPlanetNumber`. -/
def ESAstronomyManager.prevPlanetriseForPlanetNumber (fn : AstroFunctions)
    (m : ESAstronomyManager) (planetNumber : Nat) : ESTimeInterval × ESAstronomyManager :=
  m.nextPrevPlanetRiseSetForPlanet fn planetNumber true false

/-- The method `ESAstronomyManager::prevPlanetsetForPlanetNumber`. -/
def ESAstronomyManager.prevPlanetsetForPlanetNumber (fn : AstroFunctions)
    (m : ESAstronomyManager) (planetNumber : Nat) : ESTimeInterval × ESAstronomyManager :=
  m.nextPrevPlanetRiseSetForPlanet fn planetNumber false false

/-- The facade `m` with the environment clock running in the given direction. -/
def ESAstronomyManager.withClockDirection (m : ESAstronomyManager) (runningBackward : Bool) :
    ESAstronomyManager :=
  { m with runningBackward := runningBackward }

/-! ## Extrapolation to the fixed point (`ESAstronomy.cpp`) -/

/-- The C comparison `a == b`: false as soon as one side is a NaN. -/
def ESDouble.eq : ESDouble → ESDouble → Bool
  | .num a, .num b => decide (a = b)
  | _, _ => false

/-- The function `linearFit`. -/
def linearFit (X1 Y1 X2 Y2 : ESDouble) : ESDouble :=
  let offset := X1
  let X1 := ESDouble.num 0
  let Y1 := ESDouble.sub Y1 offset
  let X2 := ESDouble.sub X2 offset
  let Y2 := ESDouble.sub Y2 offset
  let denom := ESDouble.add (ESDouble.sub (ESDouble.sub X2 X1) Y2) Y1
  if ESDouble.eq denom (.num 0) then ESDouble.add Y2 offset
  else
    let root := ESDouble.div
      (ESDouble.sub (ESDouble.mul Y1 (ESDouble.sub X2 X1)) (ESDouble.mul X1 (ESDouble.sub Y2 Y1)))
      denom
    if ESDouble.gt (ESDouble.fabs (ESDouble.sub root Y2)) (.num (12 * 3600)) then
      ESDouble.add Y2 offset
    else ESDouble.add offset root

/-- The function `extrapolateToYEqualX`; `sqrt` is the library square root, the arrays are
functions of the index, and `numValues - k` is the index the C code computes for
`numValues >= k`. -/
def extrapolateToYEqualX (sqrt : ℚ → ℚ) (x y : Nat → ESDouble) (numValues : Nat) : ESDouble :=
  if numValues = 1 then y 0
  else
    let linear := linearFit (x (numValues - 2)) (y (numValues - 2)) (x (numValues - 1))
      (y (numValues - 1))
    if numValues > 2 then
      let offset := x (numValues - 3)
      let X1 := ESDouble.num 0
      let Y1 := ESDouble.sub (y (numValues - 3)) offset
      let X2 := ESDouble.sub (x (numValues - 2)) offset
      let Y2 := ESDouble.sub (y (numValues - 2)) offset
      let X3 := ESDouble.sub (x (numValues - 1)) offset
      let Y3 := ESDouble.sub (y (numValues - 1)) offset
      if ESDouble.ne X1 X2 && ESDouble.ne X1 X3 && ESDouble.ne X2 X3 then
        let k1 := ESDouble.div Y1 (ESDouble.mul (ESDouble.sub X1 X2) (ESDouble.sub X1 X3))
        let k2 := ESDouble.div Y2 (ESDouble.mul (ESDouble.sub X2 X1) (ESDouble.sub X2 X3))
        let k3 := ESDouble.div Y3 (ESDouble.mul (ESDouble.sub X3 X1) (ESDouble.sub X3 X2))
        let C2 := ESDouble.add (ESDouble.add k1 k2) k3
        let C1 := ESDouble.add
          (ESDouble.add (ESDouble.mul k1 (ESDouble.add X2 X3)) (ESDouble.mul k2 (ESDouble.add X1 X3)))
          (ESDouble.mul k3 (ESDouble.add X1 X2))
        let C0 := ESDouble.add
          (ESDouble.add (ESDouble.mul (ESDouble.mul k1 X2) X3) (ESDouble.mul (ESDouble.mul k2 X1) X3))
          (ESDouble.mul (ESDouble.mul k3 X1) X2)
        if ESDouble.ne C2 (.num 0) then
          let p := ESDouble.div (ESDouble.sub (ESDouble.neg C1) (.num 1)) C2
          let q := ESDouble.div C0 C2
          let D := ESDouble.sub (ESDouble.div (ESDouble.mul p p) (.num 4)) q
          if ESDouble.ge D (.num 0) then
            let sqrtTerm := ESDouble.map sqrt D
            let root1 := ESDouble.add (ESDouble.div (ESDouble.neg p) (.num 2)) sqrtTerm
            let root2 := ESDouble.sub (ESDouble.div (ESDouble.neg p) (.num 2)) sqrtTerm
            if ESDouble.lt (ESDouble.fabs (ESDouble.sub root1 Y3))
                (ESDouble.fabs (ESDouble.sub root2 Y3)) then
              if ESDouble.lt (ESDouble.fabs (ESDouble.sub root1 Y3)) (.num (24 * 3600)) then
                ESDouble.add root1 offset
              else linear
            else
              if ESDouble.lt (ESDouble.fabs (ESDouble.sub root2 Y3)) (.num (24 * 3600)) then
                ESDouble.add root2 offset
              else linear
          else linear
        else linear
      else linear
    else linear

/-- The coefficient of `x²` of the Lagrange parabola. -/
def lagrangeLeadingCoefficient (x1 y1 x2 y2 x3 y3 : ℚ) : ℚ :=
  y1 / ((x1 - x2) * (x1 - x3)) + y2 / ((x2 - x1) * (x2 - x3)) + y3 / ((x3 - x1) * (x3 - x2))

/-- The coefficient of `x` of the Lagrange parabola. -/
def lagrangeLinearCoefficient (x1 y1 x2 y2 x3 y3 : ℚ) : ℚ :=
  -(y1 * (x2 + x3) / ((x1 - x2) * (x1 - x3)) + y2 * (x1 + x3) / ((x2 - x1) * (x2 - x3)) +
    y3 * (x1 + x2) / ((x3 - x1) * (x3 - x2)))

/-- The constant coefficient of the Lagrange parabola. -/
def lagrangeConstantCoefficient (x1 y1 x2 y2 x3 y3 : ℚ) : ℚ :=
  y1 * (x2 * x3) / ((x1 - x2) * (x1 - x3)) + y2 * (x1 * x3) / ((x2 - x1) * (x2 - x3)) +
    y3 * (x1 * x2) / ((x3 - x1) * (x3 - x2))

/-- The discriminant of `P(x) = x` for the Lagrange parabola `P`, normalised by the leading
coefficient as in `x² + p x + q = 0`: `(p / 2)² - q`. -/
def fixedPointDiscriminant (x1 y1 x2 y2 x3 y3 : ℚ) : ℚ :=
  ((lagrangeLinearCoefficient x1 y1 x2 y2 x3 y3 - 1) /
      lagrangeLeadingCoefficient x1 y1 x2 y2 x3 y3) ^ 2 / 4 -
    lagrangeConstantCoefficient x1 y1 x2 y2 x3 y3 / lagrangeLeadingCoefficient x1 y1 x2 y2 x3 y3

/-- A square root that is exact on the squares of the halves `k / 2`, `k < 200`, and 0
elsewhere. -/
def sampleSqrt (d : ℚ) : ℚ :=
  match (List.range 200).find? (fun k : Nat => decide (((k : ℚ) / 2) * ((k : ℚ) / 2) = d)) with
  | some k => (k : ℚ) / 2
  | none => 0

/-! ## Per-planet queries (`ESAstronomy.cpp`) -/

/-- The enumerator `planetEclipticLongitudeSlotIndex`. -/
def planetEclipticLongitudeSlotIndex : Nat := 118

/-- The enumerator `planetEclipticLatitudeSlotIndex`. -/
def planetEclipticLatitudeSlotIndex : Nat := 128

/-- The enumerator `planetIsUpSlotIndex`. -/
def planetIsUpSlotIndex : Nat := 172

/-- The enumerator `planetRATopoSlotIndex`. -/
def planetRATopoSlotIndex : Nat := 422

/-- The enumerator `planetDeclTopoSlotIndex`. -/
def planetDeclTopoSlotIndex : Nat := 432

/-- The macro `kECRefractionAtHorizonX`: 34 arcminutes. -/
def kECRefractionAtHorizonX : ℚ := 34 / 60 * (M_PI / 180)

/-- Further functions and tables the embedded code uses and that are taken as given: more of
the C math library, `ESUtil::fmod`, the table `planetRadiiInAU` (its entries divide by a
constant of a header that is not among the sources) and `distanceOfPlanetInAU` (which reads the
series provider). -/
structure AstroFunctionsExt where
  atan : ℚ → ℚ
  sqrt : ℚ → ℚ
  fmod : ℚ → ℚ → ℚ
  rint : ℚ → ℚ
  planetRadiiInAU : Nat → ℚ
  distanceOfPlanetInAU :
    Nat → ESDouble → Option ECAstroCache → ECWBPrecision → ESDouble × Option ECAstroCache

/-- The function `planetSizeAndParallax`: the angular size and the parallax. -/
def planetSizeAndParallax (fn : AstroFunctions) (ex : AstroFunctionsExt) (planetNumber : Nat)
    (distanceInAU : ESDouble) : ESDouble × ESDouble :=
  let radiusInAU := ESDouble.num (ex.planetRadiiInAU planetNumber)
  (ESDouble.mul (.num 2) (ESDouble.map ex.atan (ESDouble.div radiusInAU distanceInAU)),
    ESDouble.bind fn.asin
      (ESDouble.div (.num (fn.sin (8.794 / 3600 * M_PI / 180))) distanceInAU))

/-- The function `angularSizeAndParallaxForPlanet`: the angular size, the parallax and the
cache as the call leaves it. -/
def angularSizeAndParallaxForPlanet (fn : AstroFunctions) (ex : AstroFunctionsExt)
    (julianCenturiesSince2000Epoch : ESDouble) (planetNumber : Nat)
    (currentCache : Option ECAstroCache) (moonPrecision : ECWBPrecision) :
    (ESDouble × ESDouble) × Option ECAstroCache :=
  let planetDistance :=
    ex.distanceOfPlanetInAU planetNumber julianCenturiesSince2000Epoch currentCache moonPrecision
  (planetSizeAndParallax fn ex planetNumber planetDistance.1, planetDistance.2)

/-- The function `altitudeAtRiseSet`. -/
def altitudeAtRiseSet (fn : AstroFunctions) (ex : AstroFunctionsExt)
    (julianCenturiesSince2000Epoch : ESDouble) (planetNumber : Nat)
    (wantGeocentricAltitude : Bool) (currentCache : Option ECAstroCache)
    (moonPrecision : ECWBPrecision) : ESDouble × Option ECAstroCache :=
  let sp := angularSizeAndParallaxForPlanet fn ex julianCenturiesSince2000Epoch planetNumber
    currentCache moonPrecision
  let angularDiameter := sp.1.1
  let parallax := sp.1.2
  (ESDouble.sub
    (ESDouble.sub (if wantGeocentricAltitude then parallax else .num 0)
      (.num kECRefractionAtHorizonX))
    (ESDouble.div angularDiameter (.num 2)), sp.2)

/-- The conversion of a `double` to `bool`: zero is `false`, every other value, a NaN
included, is `true`. -/
def doubleToBool : ESDouble → Bool
  | .num q => decide (q ≠ 0)
  | .nan _ => true

/-- The cast `(int)` of a `double`: truncation toward zero. The cast of a NaN is undefined
behaviour in C; here it is 0. -/
def doubleToInt : ESDouble → Int
  | .num q => if 0 ≤ q then ⌊q⌋ else ⌈q⌉
  | .nan _ => 0

/-- The five guarded slot writes that follow each call of `WB_planetApparentPosition` in the
per-planet queries. -/
def cacheWritePlanetPosition (cache : Option ECAstroCache) (planetNumber : Nat)
    (position : PlanetPosition) : Option ECAstroCache :=
  cacheWrite
    (cacheWrite
      (cacheWrite
        (cacheWrite
          (cacheWrite cache (planetSlot planetEclipticLongitudeSlotIndex planetNumber)
            position.eclipticLongitude)
          (planetSlot planetEclipticLatitudeSlotIndex planetNumber) position.eclipticLatitude)
        (planetSlot planetDeclSlotIndex planetNumber) position.declination)
      (planetSlot planetRASlotIndex planetNumber) position.rightAscension)
    (planetSlot planetGeocentricDistanceSlotIndex planetNumber) position.geocentricDistance

/-- The block shared by `planetRA(int, bool)` and `planetDecl(int, bool)`: right ascension,
declination and distance from the three geocentric slots when parallax is wanted and all three
are valid, from the series provider (and into five slots) otherwise. -/
def planetGeocentricPosition (fn : AstroFunctions) (m : ESAstronomyManager) (planetNumber : Nat)
    (correctForParallax : Bool) : (ESDouble × ESDouble × ESDouble) × Option ECAstroCache :=
  if correctForParallax && cacheHit m.cache (planetSlot planetDeclSlotIndex planetNumber) &&
      cacheHit m.cache (planetSlot planetRASlotIndex planetNumber) &&
      cacheHit m.cache (planetSlot planetGeocentricDistanceSlotIndex planetNumber) then
    ((cacheRead m.cache (planetSlot planetRASlotIndex planetNumber),
      cacheRead m.cache (planetSlot planetDeclSlotIndex planetNumber),
      cacheRead m.cache (planetSlot planetGeocentricDistanceSlotIndex planetNumber)), m.cache)
  else
    let jc := fn.julianCenturiesSince2000EpochForDateInterval m.calculationDateInterval m.cache
    let wb := fn.WB_planetApparentPosition planetNumber (ESDouble.div jc.1 (.num 100)) jc.2 .full
    ((wb.1.rightAscension, wb.1.declination, wb.1.geocentricDistance),
      cacheWritePlanetPosition wb.2 planetNumber wb.1)

/-- The method `ESAstronomyManager::planetRA(int, bool)`. -/
def ESAstronomyManager.planetRA (fn : AstroFunctions) (m : ESAstronomyManager)
    (planetNumber : Int) (correctForParallax : Bool) : ESDouble × ESAstronomyManager :=
  if planetNumberIllegal planetNumber then (genericNaN, m)
  else
    let slotIndexBase := if correctForParallax then planetRATopoSlotIndex else planetRASlotIndex
    if cacheHit m.cache (planetSlot slotIndexBase planetNumber.toNat) then
      (cacheRead m.cache (planetSlot slotIndexBase planetNumber.toNat), m)
    else
      let position := planetGeocentricPosition fn m planetNumber.toNat correctForParallax
      let planetRightAscension := position.1.1
      let planetDeclination := position.1.2.1
      let planetGeocentricDistance := position.1.2.2
      if correctForParallax then
        let gst := fn.convertUTToGSTP03 m.calculationDateInterval position.2
        let lst := convertGSTtoLST gst.1 m.observerLongitude
        let planetHourAngle := ESDouble.sub lst planetRightAscension
        let t := fn.topocentricParallax planetRightAscension planetDeclination planetHourAngle
          planetGeocentricDistance m.observerLatitude (.num 0)
        let planetTopoHourAngle := t.1
        let planetTopoDeclination := t.2
        let planetTopoRightAscension := ESDouble.sub lst planetTopoHourAngle
        let planetTopoRightAscension :=
          if ESDouble.lt planetTopoRightAscension (.num 0) then
            ESDouble.add planetTopoRightAscension (.num (M_PI * 2))
          else planetTopoRightAscension
        let cache :=
          cacheWrite
            (cacheWrite gst.2 (planetSlot planetDeclTopoSlotIndex planetNumber.toNat)
              planetTopoDeclination)
            (planetSlot planetRATopoSlotIndex planetNumber.toNat) planetTopoRightAscension
        (planetTopoRightAscension, m.storeCache cache)
      else (planetRightAscension, m.storeCache position.2)

/-- The method `ESAstronomyManager::planetDecl(int, bool)`; the first output of
`topocentricParallax`, the topocentric hour angle, is what the code names
`planetTopoRightAscension` and stores in the topocentric right-ascension slot. -/
def ESAstronomyManager.planetDecl (fn : AstroFunctions) (m : ESAstronomyManager)
    (planetNumber : Int) (correctForParallax : Bool) : ESDouble × ESAstronomyManager :=
  if planetNumberIllegal planetNumber then (genericNaN, m)
  else
    let slotIndexBase :=
      if correctForParallax then planetDeclTopoSlotIndex else planetDeclSlotIndex
    if cacheHit m.cache (planetSlot slotIndexBase planetNumber.toNat) then
      (cacheRead m.cache (planetSlot slotIndexBase planetNumber.toNat), m)
    else
      let position := planetGeocentricPosition fn m planetNumber.toNat correctForParallax
      let planetRightAscension := position.1.1
      let planetDeclination := position.1.2.1
      let planetGeocentricDistance := position.1.2.2
      if correctForParallax then
        let gst := fn.convertUTToGSTP03 m.calculationDateInterval position.2
        let lst := convertGSTtoLST gst.1 m.observerLongitude
        let planetHourAngle := ESDouble.sub lst planetRightAscension
        let t := fn.topocentricParallax planetRightAscension planetDeclination planetHourAngle
          planetGeocentricDistance m.observerLatitude (.num 0)
        let planetTopoRightAscension := t.1
        let planetTopoDeclination := t.2
        let cache :=
          cacheWrite
            (cacheWrite gst.2 (planetSlot planetDeclTopoSlotIndex planetNumber.toNat)
              planetTopoDeclination)
            (planetSlot planetRATopoSlotIndex planetNumber.toNat) planetTopoRightAscension
        (planetTopoDeclination, m.storeCache cache)
      else (planetDeclination, m.storeCache position.2)

/-- Store what a callee left in `*cachePool->currentCache` back into the pool. -/
def ECAstroCachePool.storeCurrent (pool : ECAstroCachePool) (cache : Option ECAstroCache) :
    ECAstroCachePool :=
  match pool.currentCache, cache with
  | some r, some c => pool.setCache r c
  | _, _ => pool

/-- The method `ESAstronomyManager::planetRA(int, ESTimeInterval, bool)`. -/
def ESAstronomyManager.planetRAAt (fn : AstroFunctions) (m : ESAstronomyManager)
    (planetNumber : Int) (atTime : ESTimeInterval) (correctForParallax : Bool) :
    ESDouble × ESAstronomyManager :=
  if planetNumberIllegal planetNumber then (genericNaN, m)
  else
    let pushed := pushECAstroCacheWithSlopInPool m.astroCachePool (some .refinementCache) atTime
      (.num 0)
    let priorCache := pushed.1
    let jc := fn.julianCenturiesSince2000EpochForDateInterval atTime
      (pushed.2.currentCache.map pushed.2.getCache)
    let wb := fn.WB_planetApparentPosition planetNumber.toNat (ESDouble.div jc.1 (.num 100)) jc.2
      .full
    let planetRightAscension := wb.1.rightAscension
    let planetDeclination := wb.1.declination
    let planetGeocentricDistance := wb.1.geocentricDistance
    let m := { m with
      astroCachePool := popECAstroCacheToInPool (pushed.2.storeCurrent wb.2) priorCache }
    if correctForParallax then
      let gst := fn.convertUTToGSTP03 atTime m.cache
      let lst := convertGSTtoLST gst.1 m.observerLongitude
      let planetHourAngle := ESDouble.sub lst planetRightAscension
      let t := fn.topocentricParallax planetRightAscension planetDeclination planetHourAngle
        planetGeocentricDistance m.observerLatitude (.num 0)
      let planetTopoHourAngle := t.1
      let planetTopoRightAscension := ESDouble.sub lst planetTopoHourAngle
      let planetTopoRightAscension :=
        if ESDouble.lt planetTopoRightAscension (.num 0) then
          ESDouble.add planetTopoRightAscension (.num (M_PI * 2))
        else planetTopoRightAscension
      (planetTopoRightAscension, m.storeCache gst.2)
    else (planetRightAscension, m)

/-- The block shared by `planetEclipticLongitude`, `planetEclipticLatitude` and
`planetGeocentricDistance` on a cache miss: the series provider's position, written into five
slots. -/
def ESAstronomyManager.planetApparentPosition (fn : AstroFunctions) (m : ESAstronomyManager)
    (planetNumber : Nat) : PlanetPosition × ESAstronomyManager :=
  let jc := fn.julianCenturiesSince2000EpochForDateInterval m.calculationDateInterval m.cache
  let wb := fn.WB_planetApparentPosition planetNumber (ESDouble.div jc.1 (.num 100)) jc.2 .full
  (wb.1, m.storeCache (cacheWritePlanetPosition wb.2 planetNumber wb.1))

/-- The method `ESAstronomyManager::planetEclipticLongitude`. -/
def ESAstronomyManager.planetEclipticLongitude (fn : AstroFunctions) (m : ESAstronomyManager)
    (planetNumber : Int) : ESDouble × ESAstronomyManager :=
  if planetNumberIllegal planetNumber then (genericNaN, m)
  else if cacheHit m.cache (planetSlot planetEclipticLongitudeSlotIndex planetNumber.toNat) then
    (cacheRead m.cache (planetSlot planetEclipticLongitudeSlotIndex planetNumber.toNat), m)
  else
    let r := m.planetApparentPosition fn planetNumber.toNat
    (r.1.eclipticLongitude, r.2)

/-- The method `ESAstronomyManager::planetEclipticLatitude`. -/
def ESAstronomyManager.planetEclipticLatitude (fn : AstroFunctions) (m : ESAstronomyManager)
    (planetNumber : Int) : ESDouble × ESAstronomyManager :=
  if planetNumberIllegal planetNumber then (genericNaN, m)
  else if cacheHit m.cache (planetSlot planetEclipticLatitudeSlotIndex planetNumber.toNat) then
    (cacheRead m.cache (planetSlot planetEclipticLatitudeSlotIndex planetNumber.toNat), m)
  else
    let r := m.planetApparentPosition fn planetNumber.toNat
    (r.1.eclipticLatitude, r.2)

/-- The method `ESAstronomyManager::planetGeocentricDistance`. -/
def ESAstronomyManager.planetGeocentricDistance (fn : AstroFunctions) (m : ESAstronomyManager)
    (planetNumber : Int) : ESDouble × ESAstronomyManager :=
  if planetNumberIllegal planetNumber then (genericNaN, m)
  else if cacheHit m.cache (planetSlot planetGeocentricDistanceSlotIndex planetNumber.toNat) then
    (cacheRead m.cache (planetSlot planetGeocentricDistanceSlotIndex planetNumber.toNat), m)
  else
    let r := m.planetApparentPosition fn planetNumber.toNat
    (r.1.geocentricDistance, r.2)

/-- The method `ESAstronomyManager::planetIsUp`; its return type is `bool`, and the guard's
`return nan("")` converts the NaN to `bool`. -/
def ESAstronomyManager.planetIsUp (fn : AstroFunctions) (ex : AstroFunctionsExt)
    (m : ESAstronomyManager) (planetNumber : Int) : Bool × ESAstronomyManager :=
  if planetNumberIllegal planetNumber then (doubleToBool genericNaN, m)
  else if !m.locationValid then (false, m)
  else if cacheHit m.cache (planetSlot planetIsUpSlotIndex planetNumber.toNat) then
    (decide
      (doubleToInt (cacheRead m.cache (planetSlot planetIsUpSlotIndex planetNumber.toNat)) ≠ 0), m)
  else
    let altitude := planetAltAz fn planetNumber.toNat m.calculationDateInterval
      m.observerLatitude m.observerLongitude true true m.cache
    let jc := fn.julianCenturiesSince2000EpochForDateInterval m.calculationDateInterval altitude.2
    let altAtRiseSet := altitudeAtRiseSet fn ex jc.1 planetNumber.toNat false jc.2 .full
    let isUp := ESDouble.gt altitude.1 altAtRiseSet.1
    (isUp,
      m.storeCache
        (cacheWrite altAtRiseSet.2 (planetSlot planetIsUpSlotIndex planetNumber.toNat)
          (.num (if isUp then 1 else 0))))

/-- Stand-ins for the further functions, simple enough to evaluate: `atan x = x`, an exact
square root on small squares, `fmod x y = x - y ⌊x / y⌋`, `rint` by rounding half up, bodies of
radius 1/200 AU at a distance of 1 AU. -/
def sampleFunctionsExt : AstroFunctionsExt where
  atan := fun x => x
  sqrt := sampleSqrt
  fmod := fun x y => x - y * (⌊x / y⌋ : ℤ)
  rint := fun x => (⌊x + 1 / 2⌋ : ℤ)
  planetRadiiInAU := fun _ => 1 / 200
  distanceOfPlanetInAU := fun _ _ c _ => (.num 1, c)

/-! ## Setup and cleanup of the facade (`ESAstronomy.cpp`, `ESAstronomyCache.cpp`) -/

/-- What the setup reads from the `ESWatchTime` it is given: `currentTime()`,
`runningBackward()` and `tzOffsetUsingEnv(_environment)`. -/
structure ESWatchTime where
  currentTime : ESTimeInterval
  runningBackward : Bool
  tzOffsetUsingEnv : Int
deriving DecidableEq

/-- What the setup reads from `_environment` and `_location`: the time zone handle
`_environment->estz()` and the observer's latitude and longitude in radians. -/
structure ESLocationEnvironment where
  estz : Nat
  latitudeRadians : ESDouble
  longitudeRadians : ESDouble

/-- The members of an `ESAstronomyManager` that setup and cleanup touch, together with the
static array `astroCachePools` the pool pointer points into. `astroCachePool` is the index of
the pool `_astroCachePool` points to, `currentCache` points into that pool, and
`scratchWatchTime` tells whether `_scratchWatchTime` is allocated. -/
structure ESAstronomyManagerState where
  astroCachePools : Fin 2 → ECAstroCachePool
  astroCachePool : Option (Fin 2)
  watchTime : Option ESWatchTime
  currentCache : Option CacheRef
  calculationDateInterval : ESTimeInterval
  observerLatitude : ESDouble
  observerLongitude : ESDouble
  locationValid : Bool
  estz : Option Nat
  scratchWatchTime : Bool
  inActionButton : Bool

/-- The function `releaseCachePoolForThisThread`. -/
def releaseCachePoolForThisThread (cachePool : ECAstroCachePool) : ECAstroCachePool :=
  popECAstroCacheToInPool cachePool none

/-- The method `ESAstronomyManager::setupLocalEnvironmentForThreadFromActionButton`, called
on the thread whose pool is `astroCachePools[cacheIndex]`. -/
def setupLocalEnvironmentForThreadFromActionButton (fromActionButton : Bool)
    (watchTime : ESWatchTime) (environment : ESLocationEnvironment) (cacheIndex : Fin 2)
    (s : ESAstronomyManagerState) : ESAstronomyManagerState :=
  match s.astroCachePool with
  | some bound =>
    match s.currentCache with
    | some r =>
      let cache := (s.astroCachePools bound).getCache r
      if ESDouble.gt (ESDouble.fabs (ESDouble.sub cache.dateInterval s.calculationDateInterval))
          cache.astroSlop then
        { s with
          astroCachePools := Function.update s.astroCachePools bound
            (pushECAstroCacheInPool (s.astroCachePools bound) (some .finalCache)
              s.calculationDateInterval).2 }
      else s
    | none => s
  | none =>
    let calculationDateInterval := watchTime.currentTime
    let observerLatitude := environment.latitudeRadians
    let observerLongitude := environment.longitudeRadians
    let pool := initializeCachePool (s.astroCachePools cacheIndex) calculationDateInterval
      observerLatitude observerLongitude watchTime.runningBackward watchTime.tzOffsetUsingEnv
    { astroCachePools := Function.update s.astroCachePools cacheIndex
        (if fromActionButton then { pool with inActionButton := true } else pool)
      astroCachePool := some cacheIndex
      watchTime := some watchTime
      currentCache := pool.currentCache
      calculationDateInterval := calculationDateInterval
      observerLatitude := observerLatitude
      observerLongitude := observerLongitude
      locationValid := true
      estz := some environment.estz
      scratchWatchTime := true
      inActionButton := if fromActionButton then true else s.inActionButton }

/-- The assignments that end `cleanupLocalEnvironmentForThreadFromActionButton`. -/
def ESAstronomyManagerState.unbind (s : ESAstronomyManagerState) : ESAstronomyManagerState :=
  { s with
    astroCachePool := none
    watchTime := none
    currentCache := none
    locationValid := false
    observerLatitude := .num 0
    observerLongitude := .num 0
    calculationDateInterval := .num 0
    estz := none
    scratchWatchTime := false }

/-- The method `ESAstronomyManager::cleanupLocalEnvironmentForThreadFromActionButton`; with a
null `_astroCachePool` the code dereferences a null pointer, and there is no result. -/
def cleanupLocalEnvironmentForThreadFromActionButton (fromActionButton : Bool)
    (s : ESAstronomyManagerState) : Option ESAstronomyManagerState :=
  match s.astroCachePool with
  | none => none
  | some bound =>
    if fromActionButton then
      some
        { s with
          inActionButton := false
          astroCachePools := Function.update s.astroCachePools bound
            (releaseCachePoolForThisThread
              { s.astroCachePools bound with inActionButton := false }) }.unbind
    else if s.inActionButton then some s
    else if !(s.astroCachePools bound).inActionButton then
      some
        { s with
          astroCachePools := Function.update s.astroCachePools bound
            (releaseCachePoolForThisThread (s.astroCachePools bound)) }.unbind
    else some s.unbind

/-- A call made between `setup(true)` and `cleanup(true)`: a nested `setup(false)` with its
own watch time, or a nested `cleanup(false)`. -/
inductive NestedCall where
  | setup (watchTime : ESWatchTime)
  | cleanup

/-- Run nested calls in order on one thread; no result as soon as one call has none. -/
def runNestedCalls (environment : ESLocationEnvironment) (cacheIndex : Fin 2) :
    List NestedCall → ESAstronomyManagerState → Option ESAstronomyManagerState
  | [], s => some s
  | .setup watchTime :: rest, s =>
    runNestedCalls environment cacheIndex rest
      (setupLocalEnvironmentForThreadFromActionButton false watchTime environment cacheIndex s)
  | .cleanup :: rest, s =>
    (cleanupLocalEnvironmentForThreadFromActionButton false s).bind
      (runNestedCalls environment cacheIndex rest)

/-- The members as the constructor `ESAstronomyManager(environment, location)` leaves them,
with the two static pools as `initializeAstroCache` leaves them. The constructor does not
initialise `_locationValid`; here it is `false`. -/
def newManagerState : ESAstronomyManagerState where
  astroCachePools := fun _ => initialPool
  astroCachePool := none
  watchTime := none
  currentCache := none
  calculationDateInterval := .num 0
  observerLatitude := .num 0
  observerLongitude := .num 0
  locationValid := false
  estz := none
  scratchWatchTime := false
  inActionButton := false

/-! ## Eclipses (`ESAstronomy.cpp`) -/

/-- The enumerator `eclipseAngularSeparationSlotIndex`. -/
def eclipseAngularSeparationSlotIndex : CacheSlotIndex := ⟨168, by decide⟩

/-- The enumerator `eclipseSeparationSlotIndex`. -/
def eclipseSeparationSlotIndex : CacheSlotIndex := ⟨169, by decide⟩

/-- The enumerator `eclipseShadowAngularSizeSlotIndex`. -/
def eclipseShadowAngularSizeSlotIndex : CacheSlotIndex := ⟨170, by decide⟩

/-- The enumerator `eclipseKindSlotIndex`. -/
def eclipseKindSlotIndex : CacheSlotIndex := ⟨171, by decide⟩

/-- Modelled from the spec: the enumeration `ECEclipseKind` is declared in a header that is not
among the sources; the enumerators are those of the switches in `nameOfEclipseKind` and
`eclipseKindIsMoreSolarThanLunar`. -/
inductive ECEclipseKind where
  | ECEclipseNoneSolar
  | ECEclipseNoneLunar
  | ECEclipseSolarNotUp
  | ECEclipsePartialSolar
  | ECEclipseAnnularSolar
  | ECEclipseTotalSolar
  | ECEclipseLunarNotUp
  | ECEclipsePartialLunar
  | ECEclipseTotalLunar
deriving DecidableEq

/-- Modelled from the spec: the integer value of an `ECEclipseKind`, numbered from 0 in the
order of the switches that list the enumerators. -/
def ECEclipseKind.toNat : ECEclipseKind → Nat
  | .ECEclipseNoneSolar => 0
  | .ECEclipseNoneLunar => 1
  | .ECEclipseSolarNotUp => 2
  | .ECEclipsePartialSolar => 3
  | .ECEclipseAnnularSolar => 4
  | .ECEclipseTotalSolar => 5
  | .ECEclipseLunarNotUp => 6
  | .ECEclipsePartialLunar => 7
  | .ECEclipseTotalLunar => 8

/-- Modelled from the spec: the cast `(ECEclipseKind)` of an integer (see
`ECEclipseKind.toNat`); a value that names no enumerator is kept as `ECEclipseNoneSolar`. -/
def ECEclipseKind.ofInt (i : Int) : ECEclipseKind :=
  if i = 1 then .ECEclipseNoneLunar
  else if i = 2 then .ECEclipseSolarNotUp
  else if i = 3 then .ECEclipsePartialSolar
  else if i = 4 then .ECEclipseAnnularSolar
  else if i = 5 then .ECEclipseTotalSolar
  else if i = 6 then .ECEclipseLunarNotUp
  else if i = 7 then .ECEclipsePartialLunar
  else if i = 8 then .ECEclipseTotalLunar
  else .ECEclipseNoneSolar

/-- The method `ESAstronomyManager::eclipseKindIsMoreSolarThanLunar`. -/
def eclipseKindIsMoreSolarThanLunar : ECEclipseKind → Bool
  | .ECEclipseNoneSolar => true
  | .ECEclipseNoneLunar => false
  | .ECEclipseSolarNotUp => true
  | .ECEclipsePartialSolar => true
  | .ECEclipseAnnularSolar => true
  | .ECEclipseTotalSolar => true
  | .ECEclipseLunarNotUp => false
  | .ECEclipsePartialLunar => false
  | .ECEclipseTotalLunar => false

/-- The function `umbralAngularRadius`. -/
def umbralAngularRadius (moonParallax sunAngularRadius sunParallax : ESDouble) : ESDouble :=
  ESDouble.add (ESDouble.sub (ESDouble.mul (.num 1.01) moonParallax) sunAngularRadius) sunParallax

/-- The function `angularSeparation`. -/
def angularSeparation (fn : AstroFunctions) (ex : AstroFunctionsExt)
    (rightAscension1 declination1 rightAscension2 declination2 : ESDouble) : ESDouble :=
  let sinDecl1 := ESDouble.map fn.sin declination1
  let cosDecl1 := ESDouble.map fn.cos declination1
  let sinDecl2 := ESDouble.map fn.sin declination2
  let cosDecl2 := ESDouble.map fn.cos declination2
  let sinRADelta := ESDouble.map fn.sin (ESDouble.sub rightAscension2 rightAscension1)
  let cosRADelta := ESDouble.map fn.cos (ESDouble.sub rightAscension2 rightAscension1)
  let x := ESDouble.sub (ESDouble.mul cosDecl1 sinDecl2)
    (ESDouble.mul (ESDouble.mul sinDecl1 cosDecl2) cosRADelta)
  let y := ESDouble.mul cosDecl2 sinRADelta
  let z := ESDouble.add (ESDouble.mul sinDecl1 sinDecl2)
    (ESDouble.mul (ESDouble.mul cosDecl1 cosDecl2) cosRADelta)
  ESDouble.map2 fn.atan2 (ESDouble.map ex.sqrt (ESDouble.add (ESDouble.mul x x) (ESDouble.mul y y)))
    z

/-- The unguarded store `_currentCache->cacheSlots[i] = v` inside `if (_currentCache)`: the
slot's flag is not touched. -/
def cacheStore (cache : Option ECAstroCache) (i : CacheSlotIndex) (v : ESDouble) :
    Option ECAstroCache :=
  cache.map fun c => { c with cacheSlots := fun j => if j = i then v else c.cacheSlots j }

/-- The quantities `calculateEclipse` computes on a cache miss before its quick check: the
local sidereal time, the positions, sizes and parallaxes of Sun and Moon, and the cache as
the calls leave it. -/
structure EclipseBodies where
  lst : ESDouble
  sunRightAscension : ESDouble
  sunDeclination : ESDouble
  sunGeocentricDistance : ESDouble
  sunAngularSize : ESDouble
  sunParallax : ESDouble
  moonRightAscension : ESDouble
  moonDeclination : ESDouble
  moonGeocentricDistance : ESDouble
  moonAngularSize : ESDouble
  moonParallax : ESDouble
  cache : Option ECAstroCache

/-- The first part of the cache-miss branch of `calculateEclipse`, up to the quick check. -/
def eclipseBodies (fn : AstroFunctions) (ex : AstroFunctionsExt)
    (calculationDateInterval : ESTimeInterval) (observerLongitude : ESDouble)
    (currentCache : Option ECAstroCache) : EclipseBodies :=
  let gst := fn.convertUTToGSTP03 calculationDateInterval currentCache
  let lst := convertGSTtoLST gst.1 observerLongitude
  let jc := fn.julianCenturiesSince2000EpochForDateInterval calculationDateInterval gst.2
  let sun := fn.WB_planetApparentPosition ECPlanetSun (ESDouble.div jc.1 (.num 100)) jc.2 .full
  let sunSP := planetSizeAndParallax fn ex ECPlanetSun sun.1.geocentricDistance
  let moon := fn.WB_planetApparentPosition ECPlanetMoon (ESDouble.div jc.1 (.num 100)) sun.2 .full
  let moonSP := planetSizeAndParallax fn ex ECPlanetMoon moon.1.geocentricDistance
  { lst := lst
    sunRightAscension := sun.1.rightAscension
    sunDeclination := sun.1.declination
    sunGeocentricDistance := sun.1.geocentricDistance
    sunAngularSize := sunSP.1
    sunParallax := sunSP.2
    moonRightAscension := moon.1.rightAscension
    moonDeclination := moon.1.declination
    moonGeocentricDistance := moon.1.geocentricDistance
    moonAngularSize := moonSP.1
    moonParallax := moonSP.2
    cache := moon.2 }

/-- The quantity `raDelta` of the quick check:
`ESUtil::fmod(fabs(moonRightAscension - sunRightAscension), M_PI * 2)`. -/
def eclipseRADelta (ex : AstroFunctionsExt) (b : EclipseBodies) : ESDouble :=
  ESDouble.map (fun v => ex.fmod v (M_PI * 2))
    (ESDouble.fabs (ESDouble.sub b.moonRightAscension b.sunRightAscension))

/-- What one branch of the quick check leaves for the rest of `calculateEclipse`. -/
structure EclipseBranch where
  physicalSeparation : ESDouble
  separationAtPartialEclipse : ESDouble
  separationAtTotalEclipse : ESDouble
  altitude : ESDouble
  altAtRiseSet : ESDouble
  eclipseKind : ECEclipseKind
  solarNotLunar : Bool
  shadowAngularSize : ESDouble
  cache : Option ECAstroCache

/-- The branch `raDelta < M_PI / 2` ("might be solar") of `calculateEclipse`. -/
def eclipseSolarBranch (fn : AstroFunctions) (ex : AstroFunctionsExt)
    (calculationDateInterval : ESTimeInterval) (observerLatitude observerLongitude : ESDouble)
    (b : EclipseBodies) : EclipseBranch :=
  let sunHourAngle := ESDouble.sub b.lst b.sunRightAscension
  let sunTopo := fn.topocentricParallax b.sunRightAscension b.sunDeclination sunHourAngle
    b.sunGeocentricDistance observerLatitude (.num 0)
  let sunTopoRA := ESDouble.sub b.lst sunTopo.1
  let moonHourAngle := ESDouble.sub b.lst b.moonRightAscension
  let moonTopo := fn.topocentricParallax b.moonRightAscension b.moonDeclination moonHourAngle
    b.moonGeocentricDistance observerLatitude (.num 0)
  let moonTopoRA := ESDouble.sub b.lst moonTopo.1
  let physicalSeparation := angularSeparation fn ex sunTopoRA sunTopo.2 moonTopoRA moonTopo.2
  let separationAtPartialEclipse :=
    ESDouble.add (ESDouble.div b.sunAngularSize (.num 2)) (ESDouble.div b.moonAngularSize (.num 2))
  let separationAtTotalEclipse :=
    ESDouble.sub (ESDouble.div b.moonAngularSize (.num 2)) (ESDouble.div b.sunAngularSize (.num 2))
  let separationAtAnnularEclipse :=
    ESDouble.sub (ESDouble.div b.sunAngularSize (.num 2)) (ESDouble.div b.moonAngularSize (.num 2))
  let altitude := planetAltAz fn ECPlanetSun calculationDateInterval observerLatitude
    observerLongitude true true b.cache
  let jc := fn.julianCenturiesSince2000EpochForDateInterval calculationDateInterval altitude.2
  let altAtRiseSet := altitudeAtRiseSet fn ex jc.1 ECPlanetSun false jc.2 .full
  { physicalSeparation := physicalSeparation
    separationAtPartialEclipse := separationAtPartialEclipse
    separationAtTotalEclipse := separationAtTotalEclipse
    altitude := altitude.1
    altAtRiseSet := altAtRiseSet.1
    eclipseKind :=
      if ESDouble.lt altitude.1 altAtRiseSet.1 then .ECEclipseSolarNotUp
      else if ESDouble.gt physicalSeparation separationAtPartialEclipse then .ECEclipseNoneSolar
      else if ESDouble.lt physicalSeparation separationAtAnnularEclipse then
        .ECEclipseAnnularSolar
      else if ESDouble.gt physicalSeparation separationAtTotalEclipse then
        .ECEclipsePartialSolar
      else .ECEclipseTotalSolar
    solarNotLunar := true
    shadowAngularSize := .num 0
    cache := altAtRiseSet.2 }

/-- The branch "might be lunar" of `calculateEclipse`. -/
def eclipseLunarBranch (fn : AstroFunctions) (ex : AstroFunctionsExt)
    (calculationDateInterval : ESTimeInterval) (observerLatitude observerLongitude : ESDouble)
    (b : EclipseBodies) : EclipseBranch :=
  let shadowAngularSize := ESDouble.mul (.num 2)
    (umbralAngularRadius b.moonParallax (ESDouble.div b.sunAngularSize (.num 2)) b.sunParallax)
  let shadowRA := ESDouble.add b.sunRightAscension (.num M_PI)
  let shadowRA :=
    if ESDouble.gt shadowRA (.num (2 * M_PI)) then ESDouble.sub shadowRA (.num (2 * M_PI))
    else shadowRA
  let shadowDecl := ESDouble.neg b.sunDeclination
  let physicalSeparation :=
    angularSeparation fn ex shadowRA shadowDecl b.moonRightAscension b.moonDeclination
  let separationAtPartialEclipse :=
    ESDouble.add (ESDouble.div b.moonAngularSize (.num 2)) (ESDouble.div shadowAngularSize (.num 2))
  let separationAtTotalEclipse :=
    ESDouble.sub (ESDouble.div shadowAngularSize (.num 2)) (ESDouble.div b.moonAngularSize (.num 2))
  let altitude := planetAltAz fn ECPlanetMoon calculationDateInterval observerLatitude
    observerLongitude true true b.cache
  let jc := fn.julianCenturiesSince2000EpochForDateInterval calculationDateInterval altitude.2
  let altAtRiseSet := altitudeAtRiseSet fn ex jc.1 ECPlanetMoon false jc.2 .full
  { physicalSeparation := physicalSeparation
    separationAtPartialEclipse := separationAtPartialEclipse
    separationAtTotalEclipse := separationAtTotalEclipse
    altitude := altitude.1
    altAtRiseSet := altAtRiseSet.1
    eclipseKind :=
      if ESDouble.lt altitude.1 altAtRiseSet.1 then .ECEclipseLunarNotUp
      else if ESDouble.gt physicalSeparation separationAtPartialEclipse then .ECEclipseNoneLunar
      else if ESDouble.gt physicalSeparation separationAtTotalEclipse then
        .ECEclipsePartialLunar
      else .ECEclipseTotalLunar
    solarNotLunar := false
    shadowAngularSize := shadowAngularSize
    cache := altAtRiseSet.2 }

/-- The branch the quick check of `calculateEclipse` selects. -/
def eclipseBranch (fn : AstroFunctions) (ex : AstroFunctionsExt)
    (calculationDateInterval : ESTimeInterval) (observerLatitude observerLongitude : ESDouble)
    (b : EclipseBodies) : EclipseBranch :=
  if ESDouble.lt (eclipseRADelta ex b) (.num (M_PI / 2)) then
    eclipseSolarBranch fn ex calculationDateInterval observerLatitude observerLongitude b
  else eclipseLunarBranch fn ex calculationDateInterval observerLatitude observerLongitude b

/-- The outputs of `calculateEclipse` and the cache as the call leaves it. -/
structure EclipseResult where
  abstractSeparation : ESDouble
  angularSep : ESDouble
  shadowAngularSize : ESDouble
  eclipseKind : ECEclipseKind
  cache : Option ECAstroCache

/-- The value `1 + (physicalSeparation - separationAtTotalEclipse) /
(separationAtPartialEclipse - separationAtTotalEclipse)` before it is clamped. -/
def eclipseRawSeparation (br : EclipseBranch) : ESDouble :=
  ESDouble.add (.num 1)
    (ESDouble.div (ESDouble.sub br.physicalSeparation br.separationAtTotalEclipse)
      (ESDouble.sub br.separationAtPartialEclipse br.separationAtTotalEclipse))

/-- The end of the cache-miss branch of `calculateEclipse`: the separation clamped to
`[0, 3]`, and the kind, overridden by "none" when the separation is clamped at 3. -/
def eclipseClamp (br : EclipseBranch) : ESDouble × ECEclipseKind :=
  let abstractSeparation := eclipseRawSeparation br
  if ESDouble.lt abstractSeparation (.num 0) then (.num 0, br.eclipseKind)
  else if ESDouble.gt abstractSeparation (.num 3) then
    (.num 3, if br.solarNotLunar then .ECEclipseNoneSolar else .ECEclipseNoneLunar)
  else (abstractSeparation, br.eclipseKind)

/-- The function `calculateEclipse`. -/
def calculateEclipse (fn : AstroFunctions) (ex : AstroFunctionsExt)
    (calculationDateInterval : ESTimeInterval) (observerLatitude observerLongitude : ESDouble)
    (currentCache : Option ECAstroCache) : EclipseResult :=
  if cacheHit currentCache eclipseSeparationSlotIndex &&
      cacheHit currentCache eclipseKindSlotIndex then
    { abstractSeparation := cacheRead currentCache eclipseSeparationSlotIndex
      angularSep := cacheRead currentCache eclipseAngularSeparationSlotIndex
      eclipseKind := ECEclipseKind.ofInt (doubleToInt
        (ESDouble.map ex.rint (cacheRead currentCache eclipseKindSlotIndex)))
      shadowAngularSize := cacheRead currentCache eclipseShadowAngularSizeSlotIndex
      cache := currentCache }
  else
    let b := eclipseBodies fn ex calculationDateInterval observerLongitude currentCache
    let br := eclipseBranch fn ex calculationDateInterval observerLatitude observerLongitude b
    let clamped := eclipseClamp br
    { abstractSeparation := clamped.1
      angularSep := br.physicalSeparation
      shadowAngularSize := br.shadowAngularSize
      eclipseKind := clamped.2
      cache :=
        cacheStore
          (cacheStore
            (cacheWrite
              (cacheWrite br.cache eclipseSeparationSlotIndex clamped.1)
              eclipseKindSlotIndex (.num clamped.2.toNat))
            eclipseAngularSeparationSlotIndex br.physicalSeparation)
          eclipseShadowAngularSizeSlotIndex br.shadowAngularSize }

/-- The kinds the documentation calls total. -/
def ECEclipseKind.isTotal : ECEclipseKind → Bool
  | .ECEclipseTotalSolar => true
  | .ECEclipseTotalLunar => true
  | _ => false

/-- The kinds the documentation calls partial or annular. -/
def ECEclipseKind.isPartialOrAnnular : ECEclipseKind → Bool
  | .ECEclipsePartialSolar => true
  | .ECEclipseAnnularSolar => true
  | .ECEclipsePartialLunar => true
  | _ => false

/-- The kinds the documentation calls none. -/
def ECEclipseKind.isNone : ECEclipseKind → Bool
  | .ECEclipseNoneSolar => true
  | .ECEclipseNoneLunar => true
  | _ => false

/-- A sky for the quick check of `calculateEclipse`: as `sampleFunctions`, but with the Sun at
right ascension 1/10 and the Moon at right ascension 31/5, both on the equator at 1 AU. -/
def sampleFunctionsAcrossWrap : AstroFunctions :=
  { sampleFunctions with
    WB_planetApparentPosition := fun planetNumber _ c _ =>
      (if planetNumber = ECPlanetSun then ⟨.num 0, .num 0, .num 1, .num (1 / 10), .num 0⟩
        else ⟨.num 0, .num 0, .num 1, .num (31 / 5), .num 0⟩, c) }

/-! ## Rise, set and twilight for the day (`ESAstronomy.cpp`) -/

/-- The enumerator `sunGoldenHourMorning`. -/
def sunGoldenHourMorning : CacheSlotIndex := ⟨342, by decide⟩

/-- The enumerator `sunRiseMorning`. -/
def sunRiseMorning : CacheSlotIndex := ⟨343, by decide⟩

/-- The enumerator `sunCivilTwilightMorning`. -/
def sunCivilTwilightMorning : CacheSlotIndex := ⟨344, by decide⟩

/-- The enumerator `sunNauticalTwilightMorning`. -/
def sunNauticalTwilightMorning : CacheSlotIndex := ⟨345, by decide⟩

/-- The enumerator `sunAstroTwilightMorning`. -/
def sunAstroTwilightMorning : CacheSlotIndex := ⟨346, by decide⟩

/-- The enumerator `sunGoldenHourEvening`. -/
def sunGoldenHourEvening : CacheSlotIndex := ⟨347, by decide⟩

/-- The enumerator `sunSetEvening`. -/
def sunSetEvening : CacheSlotIndex := ⟨348, by decide⟩

/-- The enumerator `sunCivilTwilightEvening`. -/
def sunCivilTwilightEvening : CacheSlotIndex := ⟨349, by decide⟩

/-- The enumerator `sunNauticalTwilightEvening`. -/
def sunNauticalTwilightEvening : CacheSlotIndex := ⟨350, by decide⟩

/-- The enumerator `sunAstroTwilightEvening`. -/
def sunAstroTwilightEvening : CacheSlotIndex := ⟨351, by decide⟩

/-- The enumerator `planetriseForDaySlotIndex`. -/
def planetriseForDaySlotIndex : Nat := 352

/-- The enumerator `planetsetForDaySlotIndex`. -/
def planetsetForDaySlotIndex : Nat := 362

/-- The era, year, month and day that `ESCalendar_localDateComponentsFromTimeInterval` gives for
an instant in the facade's time zone; the calendar is not among the sources and is taken as
given. -/
abbrev LocalDateComponents := ESTimeInterval → Int × Int × Int × Int

/-- The function `timesAreOnSameDay`. -/
def timesAreOnSameDay (localDateComponents : LocalDateComponents) (dt1 dt2 : ESTimeInterval) :
    Bool :=
  let cs1 := localDateComponents dt1
  let cs2 := localDateComponents dt2
  decide (cs1.1 = cs2.1) && decide (cs1.2.1 = cs2.2.1) && decide (cs1.2.2.1 = cs2.2.2.1) &&
    decide (cs1.2.2.2 = cs2.2.2.2)

/-- The part shared by `planetRiseSetForDay` and `sunTimeForDayForAltitudeKind` on a cache
miss: search forward from just before the bound instant; if the event found is not on the
bound instant's day, search backward, and give up with a NaN if that event is not on the day
either. -/
def ESAstronomyManager.riseSetForDaySearch (fn : AstroFunctions)
    (localDateComponents : LocalDateComponents) (m : ESAstronomyManager)
    (overrideAltitudeDesired : ESDouble) (planetNumber : Nat) (riseNotSet : Bool) :
    ESTimeInterval × ESAstronomyManager :=
  let next := m.nextPrevRiseSetInternalWithFudgeInterval (ESDouble.neg fudgeFactorSeconds)
    fn.planetaryRiseSetTimeRefined overrideAltitudeDesired planetNumber riseNotSet true
    riseSetLookahead
  if !timesAreOnSameDay localDateComponents next.2.1 m.calculationDateInterval then
    let prev := next.2.2.nextPrevRiseSetInternalWithFudgeInterval
      (ESDouble.neg fudgeFactorSeconds) fn.planetaryRiseSetTimeRefined overrideAltitudeDesired
      planetNumber riseNotSet false riseSetLookahead
    if !prev.1.isnan &&
        !timesAreOnSameDay localDateComponents prev.1 m.calculationDateInterval then
      (genericNaN, prev.2.2)
    else (prev.1, prev.2.2)
  else (next.1, next.2.2)

/-- The method `ESAstronomyManager::planetRiseSetForDay`. -/
def ESAstronomyManager.planetRiseSetForDay (fn : AstroFunctions)
    (localDateComponents : LocalDateComponents) (m : ESAstronomyManager) (planetNumber : Nat)
    (riseNotSet : Bool) : ESTimeInterval × ESAstronomyManager :=
  if !m.locationValid then (genericNaN, m)
  else
    let slotIndex := planetSlot
      (if riseNotSet then planetriseForDaySlotIndex else planetsetForDaySlotIndex) planetNumber
    if cacheHit m.cache slotIndex then (cacheRead m.cache slotIndex, m)
    else
      let r := m.riseSetForDaySearch fn localDateComponents genericNaN planetNumber riseNotSet
      (r.1, r.2.storeCache (cacheWrite r.2.cache slotIndex r.1))

/-- The function `getParamsForAltitudeKind`: the altitude and the rise-or-set flag. -/
def getParamsForAltitudeKind (altitudeKind : CacheSlotIndex) : ESDouble × Bool :=
  if altitudeKind = sunRiseMorning then (genericNaN, true)
  else if altitudeKind = sunSetEvening then (genericNaN, false)
  else if altitudeKind = sunGoldenHourMorning then (.num (15 * M_PI / 180), true)
  else if altitudeKind = sunGoldenHourEvening then (.num (15 * M_PI / 180), false)
  else if altitudeKind = sunCivilTwilightMorning then (.num (-6 * M_PI / 180), true)
  else if altitudeKind = sunCivilTwilightEvening then (.num (-6 * M_PI / 180), false)
  else if altitudeKind = sunNauticalTwilightMorning then (.num (-12 * M_PI / 180), true)
  else if altitudeKind = sunNauticalTwilightEvening then (.num (-12 * M_PI / 180), false)
  else if altitudeKind = sunAstroTwilightMorning then (.num (-18 * M_PI / 180), true)
  else if altitudeKind = sunAstroTwilightEvening then (.num (-18 * M_PI / 180), false)
  else (genericNaN, false)

/-- The method `ESAstronomyManager::sunTimeForDayForAltitudeKind`. -/
def ESAstronomyManager.sunTimeForDayForAltitudeKind (fn : AstroFunctions)
    (localDateComponents : LocalDateComponents) (m : ESAstronomyManager)
    (altitudeKind : CacheSlotIndex) : ESTimeInterval × ESAstronomyManager :=
  if !m.locationValid then (genericNaN, m)
  else
    let params := getParamsForAltitudeKind altitudeKind
    let altitude := params.1
    let riseNotSet := params.2
    if altitude.isnan then (altitude, m)
    else if cacheHit m.cache altitudeKind then (cacheRead m.cache altitudeKind, m)
    else
      let r := m.riseSetForDaySearch fn localDateComponents altitude ECPlanetSun riseNotSet
      (r.1, r.2.storeCache (cacheWrite r.2.cache altitudeKind r.1))

/-- The method `ESAstronomyManager::sunriseForDay`. -/
def ESAstronomyManager.sunriseForDay (fn : AstroFunctions)
    (localDateComponents : LocalDateComponents) (m : ESAstronomyManager) :
    ESTimeInterval × ESAstronomyManager :=
  m.planetRiseSetForDay fn localDateComponents ECPlanetSun true

/-- The method `ESAstronomyManager::sunsetForDay`. -/
def ESAstronomyManager.sunsetForDay (fn : AstroFunctions)
    (localDateComponents : LocalDateComponents) (m : ESAstronomyManager) :
    ESTimeInterval × ESAstronomyManager :=
  m.planetRiseSetForDay fn localDateComponents ECPlanetSun false

/-- A calendar of days of 86400 seconds counted from instant 0, in one era, year and month. -/
def sampleLocalDateComponents : LocalDateComponents
  | .num t => (1, 0, 0, ⌊t / 86400⌋)
  | .nan _ => (0, 0, 0, 0)

/-! ## Julian centuries and the start-of-year memo (`ESAstronomy.cpp`) -/

/-- The enumerator `tdtCenturiesDeltaTSlotIndex`. -/
def tdtCenturiesDeltaTSlotIndex : CacheSlotIndex := ⟨46, by decide⟩

/-- The enumerator `tdtHundredCenturiesSlotIndex`. -/
def tdtHundredCenturiesSlotIndex : CacheSlotIndex := ⟨47, by decide⟩

/-- The macro `kECJulianDaysPerCentury`. -/
def kECJulianDaysPerCentury : ℚ := 36525

/-- Modelled from the spec: the fields of `ESDateComponents` that the code reads and writes;
the struct is declared in a header that is not among the sources. -/
structure ESDateComponents where
  era : Int
  year : Int
  month : Int
  day : Int
  hour : Int
  minute : Int
  seconds : ESDouble

/-- The two calendar conversions of `ESCalendar`, which is not among the sources; they are
taken as given. -/
structure ESCalendarFunctions where
  UTCDateComponentsFromTimeInterval : ESTimeInterval → ESDateComponents
  timeIntervalFromUTCDateComponents : ESDateComponents → ESTimeInterval

/-- The function `convertUTtoET`; the static `useMeeusDeltaT` is `false` and is assigned only
in code that is compiled out. -/
def convertUTtoET (ut yearValue : ESDouble) : ESDouble :=
  ESDouble.add ut (espenakDeltaT yearValue)

/-- The function-local statics `lastCalculatedFirstInterval` and `lastYearValue` of
`julianCenturiesSince2000EpochForDateInterval`. -/
structure YearMemo where
  lastCalculatedFirstInterval : ESTimeInterval
  lastYearValue : Int
deriving DecidableEq

/-- The statics as initialised: `lastCalculatedFirstInterval = 0`, `lastYearValue = 0`. -/
def initialYearMemo : YearMemo := ⟨.num 0, 0⟩

/-- The start of the calendar year of an instant and the year value
`cs.era ? cs.year : 1 - cs.year`, as the memo-miss branch computes them. -/
def firstOfYearAndYearValue (calendar : ESCalendarFunctions) (dateInterval : ESTimeInterval) :
    ESTimeInterval × Int :=
  let cs := calendar.UTCDateComponentsFromTimeInterval dateInterval
  let cs1 : ESDateComponents :=
    { cs with month := 1, day := 1, hour := 0, minute := 0, seconds := ESDouble.num 0 }
  (calendar.timeIntervalFromUTCDateComponents cs1, if cs.era ≠ 0 then cs.year else 1 - cs.year)

/-- The computation that follows the memo in `julianCenturiesSince2000EpochForDateInterval`:
the Julian centuries and `deltaT` from the instant, the start of its year and the year
value. -/
def julianCenturiesFromYearStart (utSeconds firstOfThisYearInterval : ESTimeInterval)
    (lastYearValue : Int) : ESDouble × ESDouble :=
  let yearValue := ESDouble.add (.num lastYearValue)
    (ESDouble.div (ESDouble.sub utSeconds firstOfThisYearInterval) (.num (365.25 * 24 * 3600)))
  let etSeconds := convertUTtoET utSeconds yearValue
  let julianDaysSince2000Epoch :=
    ESDouble.sub (julianDateForDate etSeconds) (.num kECJulianDateOf2000Epoch)
  (ESDouble.div julianDaysSince2000Epoch (.num kECJulianDaysPerCentury),
    ESDouble.sub etSeconds utSeconds)

/-- The function `julianCenturiesSince2000EpochForDateInterval` with its statics passed
explicitly: the Julian centuries, the value stored through `deltaT` when that pointer is not
null, the cache and the statics as the call leaves them. -/
def julianCenturiesSince2000EpochForDateInterval (calendar : ESCalendarFunctions)
    (dateInterval : ESTimeInterval) (currentCache : Option ECAstroCache) (memo : YearMemo) :
    (ESDouble × ESDouble) × Option ECAstroCache × YearMemo :=
  if cacheHit currentCache tdtCenturiesSlotIndex then
    ((cacheRead currentCache tdtCenturiesSlotIndex,
      cacheRead currentCache tdtCenturiesDeltaTSlotIndex), currentCache, memo)
  else
    let utSeconds := dateInterval
    let memo :=
      if ESDouble.gt utSeconds memo.lastCalculatedFirstInterval &&
          ESDouble.lt utSeconds
            (ESDouble.add memo.lastCalculatedFirstInterval (.num (24 * 3600 * 330))) then memo
      else
        let fresh := firstOfYearAndYearValue calendar dateInterval
        { lastCalculatedFirstInterval := fresh.1, lastYearValue := fresh.2 }
    let firstOfThisYearInterval := memo.lastCalculatedFirstInterval
    let r := julianCenturiesFromYearStart utSeconds firstOfThisYearInterval memo.lastYearValue
    ((r.1, r.2),
      cacheStore
        (cacheWrite (cacheWrite currentCache tdtCenturiesSlotIndex r.1)
          tdtHundredCenturiesSlotIndex (ESDouble.div r.1 (.num 100)))
        tdtCenturiesDeltaTSlotIndex r.2, memo)

/-- The un-memoised computation, as the specification words it: convert the instant through
the calendar and use the year value `calendar year + (instant - start of that year) /
(365.25 days)`. -/
def julianCenturiesUnmemoised (calendar : ESCalendarFunctions) (dateInterval : ESTimeInterval) :
    ESDouble × ESDouble :=
  let fresh := firstOfYearAndYearValue calendar dateInterval
  julianCenturiesFromYearStart dateInterval fresh.1 fresh.2

/-- A calendar of years of 365 days of 86400 seconds, year 2001 starting at instant 0; it
agrees with the Gregorian calendar throughout 2001. -/
def sampleCalendar : ESCalendarFunctions where
  UTCDateComponentsFromTimeInterval := fun d =>
    match d with
    | .num t =>
      { era := 1, year := 2001 + ⌊t / 31536000⌋, month := 1,
        day := 1 + ⌊(t - 31536000 * (⌊t / 31536000⌋ : ℤ)) / 86400⌋, hour := 0, minute := 0,
        seconds := .num 0 }
    | .nan p =>
      { era := 1, year := 0, month := 0, day := 0, hour := 0, minute := 0, seconds := .nan p }
  timeIntervalFromUTCDateComponents := fun cs =>
    .num (31536000 * ((cs.year - 2001 : ℤ) : ℚ) + 86400 * ((cs.day - 1 : ℤ) : ℚ))

/-! ## Precession between J2000 and the equinox of date (`ESAstronomy.cpp`) -/

/-- The outputs of `generalPrecessionQuantities`. -/
structure PrecessionQuantities where
  pA : ESDouble
  eA : ESDouble
  chiA : ESDouble
  zetaA : ESDouble
  zA : ESDouble
  thetaA : ESDouble

/-- The conversion `arcSeconds * M_PI/(3600 * 180)`. -/
def arcSecondsToRadians (arcSeconds : ℚ) : ℚ := arcSeconds * M_PI / (3600 * 180)

/-- The function `generalPrecessionQuantities` (P03). -/
def generalPrecessionQuantities (julianCenturiesSince2000Epoch : ESDouble) :
    PrecessionQuantities :=
  let poly (f : ℚ → ℚ) : ESDouble :=
    ESDouble.map (fun t => arcSecondsToRadians (f t)) julianCenturiesSince2000Epoch
  { pA := poly fun t =>
      let t2 := t * t
      let t3 := t * t2
      let t4 := t2 * t2
      let t5 := t2 * t3
      5028.796195 * t + 1.1054348 * t2 + 0.00007964 * t3 - 0.000023857 * t4 - 0.0000000383 * t5
    eA := poly fun t =>
      let t2 := t * t
      let t3 := t * t2
      let t4 := t2 * t2
      let t5 := t2 * t3
      84381.406 - 46.836769 * t - 0.0001831 * t2 + 0.00200340 * t3 - 0.000000576 * t4 -
        0.0000000434 * t5
    chiA := poly fun t =>
      let t2 := t * t
      let t3 := t * t2
      let t4 := t2 * t2
      let t5 := t2 * t3
      10.556403 * t - 2.3814292 * t2 - 0.00121197 * t3 + 0.000170663 * t4 - 0.0000000560 * t5
    zetaA := poly fun t =>
      let t2 := t * t
      let t3 := t * t2
      let t4 := t2 * t2
      let t5 := t2 * t3
      2.650545 + 2306.083227 * t + 0.2988499 * t2 + 0.01801828 * t3 - 0.000005971 * t4 -
        0.0000003173 * t5
    zA := poly fun t =>
      let t2 := t * t
      let t3 := t * t2
      let t4 := t2 * t2
      let t5 := t2 * t3
      (-2.650545) + 2306.077181 * t + 1.0927348 * t2 + 0.01826837 * t3 - 0.000028596 * t4 -
        0.0000002904 * t5
    thetaA := poly fun t =>
      let t2 := t * t
      let t3 := t * t2
      let t4 := t2 * t2
      let t5 := t2 * t3
      2004.19103 * t - 0.4294934 * t2 - 0.04182264 * t3 - 0.000007089 * t4 - 0.0000001274 * t5 }

/-- The rotation shared by `convertJ2000ToOfDate` and `convertToJ2000FromOfDate`, from the
statement `double cosDecl = cos(decl)` to the end: the right ascension and declination
rotated by the angles `zetaA`, `zA`, `thetaA`. -/
def precessionRotation (fn : AstroFunctions) (ex : AstroFunctionsExt)
    (zetaA zA thetaA ra decl : ESDouble) : ESDouble × ESDouble :=
  let cosDecl := ESDouble.map fn.cos decl
  let sinDecl := ESDouble.map fn.sin decl
  let cosTheta := ESDouble.map fn.cos thetaA
  let sinTheta := ESDouble.map fn.sin thetaA
  let term := ESDouble.mul cosDecl (ESDouble.map fn.cos (ESDouble.add ra zetaA))
  let A := ESDouble.mul cosDecl (ESDouble.map fn.sin (ESDouble.add ra zetaA))
  let B := ESDouble.sub (ESDouble.mul cosTheta term) (ESDouble.mul sinTheta sinDecl)
  let C := ESDouble.add (ESDouble.mul sinTheta term) (ESDouble.mul cosTheta sinDecl)
  let raMinusZ := ESDouble.map2 fn.atan2 A B
  let ra := ESDouble.map (fun v => ex.fmod v (M_PI * 2)) (ESDouble.add raMinusZ zA)
  let ra := if ESDouble.lt ra (.num 0) then ESDouble.add ra (.num (M_PI * 2)) else ra
  (ra, ESDouble.bind fn.asin C)

/-- The function `convertJ2000ToOfDate` (P03): right ascension and declination of date. -/
def convertJ2000ToOfDate (fn : AstroFunctions) (ex : AstroFunctionsExt)
    (julianCenturiesSince2000Epoch raJ2000 declJ2000 : ESDouble) : ESDouble × ESDouble :=
  let q := generalPrecessionQuantities julianCenturiesSince2000Epoch
  precessionRotation fn ex q.zetaA q.zA q.thetaA raJ2000 declJ2000

/-- The function `convertToJ2000FromOfDate` (Meeus): right ascension and declination at
J2000. -/
def convertToJ2000FromOfDate (fn : AstroFunctions) (ex : AstroFunctionsExt)
    (julianCenturiesSince2000Epoch raOfDate declOfDate : ESDouble) : ESDouble × ESDouble :=
  let angle (f : ℚ → ℚ) : ESDouble :=
    ESDouble.map (fun T => arcSecondsToRadians (f T)) julianCenturiesSince2000Epoch
  let zetaA := angle fun T =>
    let T2 := T * T
    let t := -T
    let t2 := t * t
    let t3 := t2 * t
    (2306.2181 + 1.39656 * T - 0.000139 * T2) * t + (0.30188 - 0.000344 * T) * t2 +
      0.017998 * t3
  let zA := angle fun T =>
    let T2 := T * T
    let t := -T
    let t2 := t * t
    let t3 := t2 * t
    (2306.2181 + 1.39656 * T - 0.000139 * T2) * t + (1.09468 + 0.000066 * T) * t2 +
      0.018203 * t3
  let thetaA := angle fun T =>
    let T2 := T * T
    let t := -T
    let t2 := t * t
    let t3 := t2 * t
    (2004.3109 - 0.85330 * T - 0.000217 * T2) * t - (0.42665 + 0.000217 * T) * t2 -
      0.041833 * t3
  precessionRotation fn ex zetaA zA thetaA raOfDate declOfDate

/-- One call made by `refineConvertToJ2000FromOfDate`, with its right ascension and
declination arguments. -/
inductive ConversionCall where
  | toJ2000FromOfDate (ra decl : ESDouble)
  | J2000ToOfDate (ra decl : ESDouble)
deriving DecidableEq

/-- Whether a call is the forward (P03, J2000 to of-date) conversion. -/
def ConversionCall.isForward : ConversionCall → Bool
  | .J2000ToOfDate _ _ => true
  | .toJ2000FromOfDate _ _ => false

/-- The function `refineConvertToJ2000FromOfDate`: the right ascension and declination at
J2000, and the conversions it called, in order. -/
def refineConvertToJ2000FromOfDate (fn : AstroFunctions) (ex : AstroFunctionsExt)
    (julianCenturiesSince2000Epoch raOfDate declOfDate : ESDouble) :
    (ESDouble × ESDouble) × List ConversionCall :=
  let try2000 := convertToJ2000FromOfDate fn ex julianCenturiesSince2000Epoch raOfDate declOfDate
  let roundTrip := convertJ2000ToOfDate fn ex julianCenturiesSince2000Epoch try2000.1 try2000.2
  let raOfDateTweak := ESDouble.add raOfDate (ESDouble.sub raOfDate roundTrip.1)
  let declOfDateTweak := ESDouble.add declOfDate (ESDouble.sub declOfDate roundTrip.2)
  let try2000b := convertToJ2000FromOfDate fn ex julianCenturiesSince2000Epoch raOfDateTweak
    declOfDateTweak
  let roundTripb := convertJ2000ToOfDate fn ex julianCenturiesSince2000Epoch try2000b.1
    try2000b.2
  let raOfDateTweakb := ESDouble.add raOfDateTweak (ESDouble.sub raOfDate roundTripb.1)
  let declOfDateTweakb := ESDouble.add declOfDateTweak (ESDouble.sub declOfDate roundTripb.2)
  let try2000c := convertToJ2000FromOfDate fn ex julianCenturiesSince2000Epoch raOfDateTweakb
    declOfDateTweakb
  (try2000c,
    [.toJ2000FromOfDate raOfDate declOfDate, .J2000ToOfDate try2000.1 try2000.2,
      .toJ2000FromOfDate raOfDateTweak declOfDateTweak, .J2000ToOfDate try2000b.1 try2000b.2,
      .toJ2000FromOfDate raOfDateTweakb declOfDateTweakb])

/-- The schedule as the specification words it, for a reverse conversion `R` and a forward
conversion `F` on pairs (right ascension, declination): `x1 = x0 + (x0 - F(R(x0)))`,
`x2 = x1 + (x0 - F(R(x1)))` componentwise, result `R(x2)`. -/
def refinementSchedule (R F : ESDouble × ESDouble → ESDouble × ESDouble)
    (x0 : ESDouble × ESDouble) : ESDouble × ESDouble :=
  let x1 : ESDouble × ESDouble :=
    (ESDouble.add x0.1 (ESDouble.sub x0.1 (F (R x0)).1),
      ESDouble.add x0.2 (ESDouble.sub x0.2 (F (R x0)).2))
  let x2 : ESDouble × ESDouble :=
    (ESDouble.add x1.1 (ESDouble.sub x0.1 (F (R x1)).1),
      ESDouble.add x1.2 (ESDouble.sub x0.2 (F (R x1)).2))
  R x2

/-! ## The iterative solvers (`ESAstronomy.cpp`) -/

/-- Modelled from the spec: `ESUtil::nansEqual`, the payload-preserving comparison of NaNs,
whose definition is not among the sources: both values are NaNs and they carry the same
payload. -/
def nansEqual (a b : ESDouble) : Bool :=
  match a, b with
  | .nan p, .nan q => decide (p = q)
  | _, _ => false

/-- The function `transitTime`: the instant and the cache as the call leaves it. -/
def transitTime (fn : AstroFunctions) (ex : AstroFunctionsExt) (dateInterval : ESTimeInterval)
    (wantHighTransit : Bool) (observerLongitude rightAscension : ESDouble)
    (currentCache : Option ECAstroCache) : ESTimeInterval × Option ECAstroCache :=
  let gst := fn.convertUTToGSTP03 dateInterval currentCache
  let rightAscension :=
    if !wantHighTransit then ESDouble.add rightAscension (.num M_PI) else rightAscension
  let hourAngle := ESDouble.map (fun v => ex.fmod v (M_PI * 2))
    (ESDouble.sub (ESDouble.add gst.1 observerLongitude) rightAscension)
  let hourAngle :=
    if ESDouble.gt hourAngle (.num M_PI) then ESDouble.sub hourAngle (.num (M_PI * 2))
    else if ESDouble.lt hourAngle (.num (-M_PI)) then ESDouble.add hourAngle (.num (M_PI * 2))
    else hourAngle
  (ESDouble.sub dateInterval
    (ESDouble.div (ESDouble.mul hourAngle (.num (12 * 3600))) (.num M_PI)), gst.2)

/-- The constant `numIterations` of `planettransitTimeRefined`: the length of its arrays
`tryDates` and `results` and the bound of its loop counter. -/
def transitNumIterations : Nat := 7

/-- The local variables of `planettransitTimeRefined` at the head of its loop, the pool, and
two counters that the code does not keep: `bodies`, the number of executions of the loop
body so far, and `slotsReached`, the largest index written into the arrays so far plus one.
The arrays are functions of the index, so that a write at any index is recorded. -/
structure TransitState where
  i : Nat
  precision : ECWBPrecision
  fitTries : Nat
  tryDate : ESTimeInterval
  tryDates : Nat → ESDouble
  results : Nat → ESDouble
  cachePool : ECAstroCachePool
  bodies : Nat
  slotsReached : Nat

/-- What a call of `planettransitTimeRefined` leaves: the returned instant, the value
stored through `riseSetOrTransit`, the pool, the two counters of `TransitState`, and
whether the evaluation of the loop stopped for lack of fuel instead of by the code. -/
structure TransitResult where
  returnDate : ESTimeInterval
  riseSetOrTransit : ESDouble
  cachePool : ECAstroCachePool
  bodies : Nat
  slotsReached : Nat
  ranOutOfFuel : Bool

/-- One execution of a loop body: the function returns, or the loop goes on. -/
inductive TransitOutcome where
  | done (result : TransitResult)
  | next (state : TransitState)

/-- The statement that opens the loop body of `planettransitTimeRefined`: on the last pass
the Moon, still at low precision, goes to full precision, steps the counter back and drops
the points recorded so far. -/
def transitLoopHead (planetNumber : Nat) (st : TransitState) : TransitState :=
  if planetNumber = ECPlanetMoon ∧ st.i = transitNumIterations - 1 ∧ st.precision ≠ .full then
    { st with precision := .full, i := st.i - 1, fitTries := 0 }
  else st

/-- The evaluation that each pass of `planettransitTimeRefined` makes at its trial instant:
the refinement cache is pushed at the instant with slop 0, the body is placed by the series
provider, `transitTime` is taken, and the cache is popped. The instant found and the pool.
The assertion `!isnan(newDate)` is not part of the model. -/
def transitTimeAt (fn : AstroFunctions) (ex : AstroFunctionsExt) (observerLongitude : ESDouble)
    (wantHighTransit : Bool) (planetNumber : Nat) (tryDate : ESTimeInterval)
    (precision : ECWBPrecision) (cachePool : ECAstroCachePool) :
    ESTimeInterval × ECAstroCachePool :=
  let pushed :=
    pushECAstroCacheWithSlopInPool cachePool (some .refinementCache) tryDate (.num 0)
  let jc := fn.julianCenturiesSince2000EpochForDateInterval tryDate
    (pushed.2.currentCache.map pushed.2.getCache)
  let wb := fn.WB_planetApparentPosition planetNumber (ESDouble.div jc.1 (.num 100)) jc.2
    precision
  let newDate := transitTime fn ex tryDate wantHighTransit observerLongitude
    wb.1.rightAscension wb.2
  (newDate.1, popECAstroCacheToInPool (pushed.2.storeCurrent newDate.2) pushed.1)

/-- The rest of the loop body of `planettransitTimeRefined` once `newDate` is known: the
test of convergence, the recording of the point, the extrapolation, and the increment of the
counter. -/
def transitAdvance (ex : AstroFunctionsExt) (planetNumber : Nat) (st : TransitState)
    (newDate : ESTimeInterval) (cachePool : ECAstroCachePool) : TransitOutcome :=
  let closeEnough := ESDouble.lt (ESDouble.fabs (ESDouble.sub newDate st.tryDate)) (.num 0.1)
  if closeEnough = true ∧ ¬ (planetNumber = ECPlanetMoon ∧ st.precision ≠ .full) then
    .done
      { returnDate := newDate
        riseSetOrTransit := newDate
        cachePool := cachePool
        bodies := st.bodies
        slotsReached := st.slotsReached
        ranOutOfFuel := false }
  else
    let tryDates := Function.update st.tryDates st.fitTries st.tryDate
    let results := Function.update st.results st.fitTries newDate
    .next
      { i := st.i + 1
        precision := if closeEnough then .full else st.precision
        fitTries := st.fitTries + 1
        tryDate := extrapolateToYEqualX ex.sqrt tryDates results (st.fitTries + 1)
        tryDates := tryDates
        results := results
        cachePool := cachePool
        bodies := st.bodies
        slotsReached := max st.slotsReached (st.fitTries + 1) }

/-- The loop body of `planettransitTimeRefined`, the increment of the counter included. -/
def transitLoopBody (fn : AstroFunctions) (ex : AstroFunctionsExt) (observerLongitude : ESDouble)
    (wantHighTransit : Bool) (planetNumber : Nat) (entry : TransitState) : TransitOutcome :=
  let st := transitLoopHead planetNumber entry
  let found := transitTimeAt fn ex observerLongitude wantHighTransit planetNumber st.tryDate
    st.precision st.cachePool
  transitAdvance ex planetNumber { st with bodies := st.bodies + 1 } found.1 found.2

/-- The loop of `planettransitTimeRefined` and the statements after it; each test of the
loop condition takes one unit of fuel. -/
def transitLoop (fn : AstroFunctions) (ex : AstroFunctionsExt) (observerLongitude : ESDouble)
    (wantHighTransit : Bool) (planetNumber : Nat) : Nat → TransitState → TransitResult
  | 0, st =>
    { returnDate := st.tryDate
      riseSetOrTransit := st.tryDate
      cachePool := st.cachePool
      bodies := st.bodies
      slotsReached := st.slotsReached
      ranOutOfFuel := true }
  | fuel + 1, st =>
    if st.i < transitNumIterations then
      match transitLoopBody fn ex observerLongitude wantHighTransit planetNumber st with
      | .done result => result
      | .next state => transitLoop fn ex observerLongitude wantHighTransit planetNumber fuel state
    else
      { returnDate := st.tryDate
        riseSetOrTransit := st.tryDate
        cachePool := st.cachePool
        bodies := st.bodies
        slotsReached := st.slotsReached
        ranOutOfFuel := false }

/-- The state in which `planettransitTimeRefined` enters its loop. The arrays are not
initialised by the code; no index is read before it is written. -/
def transitEntry (calculationDateInterval : ESTimeInterval) (planetNumber : Nat)
    (cachePool : ECAstroCachePool) : TransitState where
  i := 0
  precision := if planetNumber = ECPlanetMoon then .low else .full
  fitTries := 0
  tryDate := calculationDateInterval
  tryDates := fun _ => .num 0
  results := fun _ => .num 0
  cachePool := cachePool
  bodies := 0
  slotsReached := 0

/-- The function `planettransitTimeRefined`; its parameters `observerLatitude` and
`overrideAltitudeDesired` are not used by the code. The loop is run with fuel for nine tests
of its condition. -/
def planettransitTimeRefined (fn : AstroFunctions) (ex : AstroFunctionsExt)
    (calculationDateInterval : ESTimeInterval) (_observerLatitude observerLongitude : ESDouble)
    (wantHighTransit : Bool) (planetNumber : Nat) (_overrideAltitudeDesired : ESDouble)
    (cachePool : ECAstroCachePool) : TransitResult :=
  transitLoop fn ex observerLongitude wantHighTransit planetNumber (transitNumIterations + 2)
    (transitEntry calculationDateInterval planetNumber cachePool)

/-- The ghost measure of the loop of `planettransitTimeRefined`: the passes left by the
counter, and one more while the Moon is still at low precision. -/
def transitMeasure (planetNumber : Nat) (st : TransitState) : Nat :=
  (transitNumIterations - st.i) +
    (if planetNumber = ECPlanetMoon ∧ st.precision ≠ .full then 1 else 0)

/-- The invariant of the loop of `planettransitTimeRefined`. -/
def TransitInv (planetNumber : Nat) (st : TransitState) : Prop :=
  st.i ≤ transitNumIterations ∧ st.fitTries ≤ st.i ∧ st.slotsReached ≤ transitNumIterations ∧
    (planetNumber ≠ ECPlanetMoon → st.precision = .full)

/-- A sky in which every body stays at right ascension 0 and declination 0 at distance 1,
the sidereal time stays `2π - π/432`, so that every transit is 100 seconds after the trial
instant, and `convertGSTtoUTclosest` answers 100 seconds after the instant it is given, so
that every rise or set is 100 seconds after the trial instant as well. -/
def driftingSky : AstroFunctions :=
  { sampleFunctions with
    WB_planetApparentPosition := fun _ _ c _ => (PlanetPosition.mk (.num 0) (.num 0) (.num 1) (.num 0) (.num 0), c)
    convertUTToGSTP03 := fun _ c => (.num (M_PI * 2 - M_PI / 432), c)
    convertGSTtoUTclosest := fun _ d pool => (ESDouble.add d (.num 100), pool) }

/-- The parameters of a call of `planetaryRiseSetTimeRefined` that the loop only reads. -/
structure RiseSetCall where
  observerLatitude : ESDouble
  observerLongitude : ESDouble
  riseNotSet : Bool
  planetNumber : Nat
  overrideAltitudeDesired : ESDouble

/-- The places of `planetaryRiseSetTimeRefined` that call `riseSetTime`: at the trial
instant of a pass, at the transit instant, 13 hours before the transit, 13 hours after the
trial instant, and at a split of the binary search. -/
inductive EvaluationKind where
  | trial
  | transit
  | priorPolar
  | nextPolar
  | split
deriving DecidableEq

/-- A record, which the code does not keep, of one call of `riseSetTime`: where it was
made, the instant, the target altitude it was given, and the instant it returned. -/
structure RiseSetEvaluation where
  kind : EvaluationKind
  instant : ESTimeInterval
  altitude : ESDouble
  event : ESTimeInterval
deriving DecidableEq

/-- What one evaluation of `riseSetTime` inside `planetaryRiseSetTimeRefined` gives: the
instant returned, the target altitude that was passed, and the pool afterwards. -/
structure RiseSetTrial where
  event : ESTimeInterval
  altitude : ESDouble
  cachePool : ECAstroCachePool

/-- The block that `planetaryRiseSetTimeRefined` repeats at each of its evaluations: the
refinement cache is pushed at the instant with slop 0, the body is placed by the series
provider, the target altitude is chosen, `riseSetTime` is called, and the cache is popped.
At the trial and transit instants the target is
`isnan(overrideAltitudeDesired) ? altitudeAtRiseSet(...) : overrideAltitudeDesired`
(`honourOverride`); at the polar instants it is `altitudeAtRiseSet(...)`. -/
def riseSetTimeAt (fn : AstroFunctions) (ex : AstroFunctionsExt) (call : RiseSetCall)
    (honourOverride : Bool) (instant : ESTimeInterval) (precision : ECWBPrecision)
    (cachePool : ECAstroCachePool) : RiseSetTrial :=
  let pushed :=
    pushECAstroCacheWithSlopInPool cachePool (some .refinementCache) instant (.num 0)
  let jc := fn.julianCenturiesSince2000EpochForDateInterval instant
    (pushed.2.currentCache.map pushed.2.getCache)
  let wb := fn.WB_planetApparentPosition call.planetNumber (ESDouble.div jc.1 (.num 100)) jc.2
    precision
  let altitude : ESDouble × Option ECAstroCache :=
    if honourOverride = true ∧ call.overrideAltitudeDesired.isnan = false then
      (call.overrideAltitudeDesired, wb.2)
    else altitudeAtRiseSet fn ex jc.1 call.planetNumber true wb.2 precision
  let found := riseSetTime fn call.riseNotSet wb.1.rightAscension wb.1.declination
    call.observerLatitude call.observerLongitude altitude.1 instant
    (some (pushed.2.storeCurrent altitude.2))
  { event := found.1
    altitude := altitude.1
    cachePool :=
      popECAstroCacheToInPool (found.2.getD (pushed.2.storeCurrent altitude.2)) pushed.1 }

/-- The constant `numIterations` of `planetaryRiseSetTimeRefined`. -/
def riseSetNumIterations : Nat := 20

/-- The constant `numPolarTries` of `planetaryRiseSetTimeRefined`. -/
def numPolarTries : Nat := 10

/-- The variable `polarSpecial` of `planetaryRiseSetTimeRefined`:
`fabs(observerLatitude) > M_PI / 180 * 89`. -/
def polarSpecial (observerLatitude : ESDouble) : Bool :=
  ESDouble.gt (ESDouble.fabs observerLatitude) (.num (M_PI / 180 * 89))

/-- The local variables of `planetaryRiseSetTimeRefined` at the head of its loop, the pool,
and three records that the code does not keep: `bodies`, the number of executions of the
loop body so far, `slotsReached`, the largest index written into the arrays so far plus one,
and `log`, the calls of `riseSetTime` so far, oldest first. -/
structure RiseSetState where
  i : Nat
  precision : ECWBPrecision
  fitTries : Nat
  tryDate : ESTimeInterval
  lastValidResultDate : ESTimeInterval
  lastValidTryDate : ESTimeInterval
  convergedToInvalid : Bool
  lastDelta : ESDouble
  firstNan : ESDouble
  firstTransit : ESDouble
  tryDates : Nat → ESDouble
  results : Nat → ESDouble
  cachePool : ECAstroCachePool
  bodies : Nat
  slotsReached : Nat
  log : List RiseSetEvaluation

/-- What a call of `planetaryRiseSetTimeRefined` leaves: the returned instant, the value
stored through `riseSetOrTransit`, the pool, the three records of `RiseSetState`, and whether
the evaluation of the loop stopped for lack of fuel instead of by the code. -/
structure RiseSetResult where
  returnDate : ESTimeInterval
  riseSetOrTransit : ESDouble
  cachePool : ECAstroCachePool
  bodies : Nat
  slotsReached : Nat
  log : List RiseSetEvaluation
  ranOutOfFuel : Bool

/-- One execution of the loop body: the function returns, or the loop goes on. -/
inductive RiseSetOutcome where
  | done (result : RiseSetResult)
  | next (state : RiseSetState)

/-- A `return` of `planetaryRiseSetTimeRefined` from inside its loop. -/
def RiseSetState.returning (st : RiseSetState) (returnDate : ESTimeInterval)
    (riseSetOrTransit : ESDouble) : RiseSetResult where
  returnDate := returnDate
  riseSetOrTransit := riseSetOrTransit
  cachePool := st.cachePool
  bodies := st.bodies
  slotsReached := st.slotsReached
  log := st.log
  ranOutOfFuel := false

/-- The variables of the polar branch of `planetaryRiseSetTimeRefined`, with the pool and the
record of the calls of `riseSetTime`. -/
structure PolarState where
  binaryLow : ESTimeInterval
  binaryHigh : ESTimeInterval
  binaryLowEvent : ESTimeInterval
  binaryHighEvent : ESTimeInterval
  tryDate : ESTimeInterval
  transitT : ESTimeInterval
  newDate : ESTimeInterval
  cachePool : ECAstroCachePool
  log : List RiseSetEvaluation

/-- How the polar branch ends: `giveUp` is one of its statements
`*riseSetOrTransit = transitT; return newDate;`, `found` leaves the branch with a crossing
in `newDate`. -/
inductive PolarOutcome where
  | giveUp (s : PolarState)
  | found (s : PolarState)

/-- The loop `while (polarTries--)` of the polar branch, by recursion on `polarTries`. -/
def polarBinarySearch (fn : AstroFunctions) (ex : AstroFunctionsExt) (call : RiseSetCall)
    (precision : ECWBPrecision) : Nat → PolarState → PolarState
  | 0, s => s
  | polarTries + 1, s =>
    let split := ESDouble.div (ESDouble.add s.binaryLow s.binaryHigh) (.num 2)
    let found := riseSetTimeAt fn ex call false split precision s.cachePool
    let s :=
      { s with
        cachePool := found.cachePool
        log := s.log ++ [RiseSetEvaluation.mk .split split found.altitude found.event] }
    if found.event.isnan = false then { s with transitT := split, newDate := found.event }
    else if nansEqual found.event s.binaryLowEvent then
      polarBinarySearch fn ex call precision polarTries
        { s with binaryLow := split, binaryLowEvent := found.event }
    else
      polarBinarySearch fn ex call precision polarTries
        { s with binaryHigh := split, binaryHighEvent := found.event }

/-- The end of the polar branch: the binary search, when bounds were found for it, and the
return when `newDate` is still a NaN after it. -/
def polarFinish (fn : AstroFunctions) (ex : AstroFunctionsExt) (call : RiseSetCall)
    (precision : ECWBPrecision) (s : PolarState) : PolarOutcome :=
  if s.binaryLow.isnan = false then
    let searched := polarBinarySearch fn ex call precision numPolarTries s
    if searched.newDate.isnan then .giveUp searched else .found searched
  else .found s

/-- The polar branch of `planetaryRiseSetTimeRefined`, entered when the evaluation at the
transit instant gave the NaN `newDate`: the evaluations 13 hours before `transitT` and 13
hours after `tryDate`, then `polarFinish`. -/
def polarSearch (fn : AstroFunctions) (ex : AstroFunctionsExt) (call : RiseSetCall)
    (precision : ECWBPrecision) (tryDate transitT newDate : ESTimeInterval)
    (cachePool : ECAstroCachePool) (log : List RiseSetEvaluation) : PolarOutcome :=
  let priorPolar := ESDouble.sub transitT (.num (13 * 3600))
  let prior := riseSetTimeAt fn ex call false priorPolar precision cachePool
  let s : PolarState :=
    { binaryLow := genericNaN
      binaryHigh := genericNaN
      binaryLowEvent := genericNaN
      binaryHighEvent := genericNaN
      tryDate := tryDate
      transitT := transitT
      newDate := newDate
      cachePool := prior.cachePool
      log := log ++ [RiseSetEvaluation.mk .priorPolar priorPolar prior.altitude prior.event] }
  if prior.event.isnan then
    let s :=
      if nansEqual prior.event newDate = false then
        { s with
          binaryLow := priorPolar
          binaryLowEvent := prior.event
          binaryHigh := transitT
          binaryHighEvent := newDate }
      else s
    let nextPolar := ESDouble.add tryDate (.num (13 * 3600))
    let next := riseSetTimeAt fn ex call false nextPolar precision s.cachePool
    let s :=
      { s with
        cachePool := next.cachePool
        log := s.log ++ [RiseSetEvaluation.mk .nextPolar nextPolar next.altitude next.event] }
    if next.event.isnan then
      if nansEqual next.event newDate = false then
        polarFinish fn ex call precision
          { s with
            binaryLow := transitT
            binaryLowEvent := newDate
            binaryHigh := nextPolar
            binaryHighEvent := next.event }
      else if s.binaryLow.isnan then .giveUp s
      else polarFinish fn ex call precision s
    else if ESDouble.gt next.event (ESDouble.add tryDate (.num (24 * 3600))) then .giveUp s
    else polarFinish fn ex call precision { s with tryDate := nextPolar, newDate := next.event }
  else if ESDouble.lt prior.event (ESDouble.sub tryDate (.num (24 * 3600))) then .giveUp s
  else polarFinish fn ex call precision { s with tryDate := priorPolar, newDate := prior.event }

/-- The statement that opens the loop body of `planetaryRiseSetTimeRefined`: on the last pass
the Moon, still at low precision, goes to full precision, steps the counter back and drops
the points recorded so far. -/
def riseSetLoopHead (planetNumber : Nat) (st : RiseSetState) : RiseSetState :=
  if planetNumber = ECPlanetMoon ∧ st.i = riseSetNumIterations - 1 ∧ st.precision ≠ .full then
    { st with precision := .full, i := st.i - 1, fitTries := 0 }
  else st

/-- The statements that follow a valid crossing `newDate` found at `tryDate`: it becomes the
last valid pair, it is written into the arrays at `fitTries`, and the next trial instant is
extrapolated. -/
def RiseSetState.recordValid (st : RiseSetState) (ex : AstroFunctionsExt)
    (tryDate newDate : ESTimeInterval) : RiseSetState :=
  let tryDates := Function.update st.tryDates st.fitTries tryDate
  let results := Function.update st.results st.fitTries newDate
  { st with
    lastValidTryDate := tryDate
    lastValidResultDate := newDate
    tryDates := tryDates
    results := results
    fitTries := st.fitTries + 1
    tryDate := extrapolateToYEqualX ex.sqrt tryDates results (st.fitTries + 1)
    slotsReached := max st.slotsReached (st.fitTries + 1) }

/-- The end of the loop body of `planetaryRiseSetTimeRefined`: `lastDelta`, the test of
convergence, and the increment of the counter. -/
def riseSetConvergenceTest (planetNumber : Nat) (entry : RiseSetState) : RiseSetOutcome :=
  let lastDelta := ESDouble.sub entry.lastValidResultDate entry.lastValidTryDate
  let st := { entry with lastDelta := lastDelta }
  if ESDouble.lt (ESDouble.fabs lastDelta) (.num 0.1) then
    if planetNumber = ECPlanetMoon ∧ st.precision ≠ .full then
      .next { st with precision := .full, i := st.i + 1 }
    else .done (st.returning st.lastValidResultDate st.lastValidResultDate)
  else .next { st with i := st.i + 1 }

/-- What the loop body does with the way the polar branch ended: it returns the NaN with the
transit instant, or it goes on with the crossing found as a valid point. -/
def riseSetAfterPolar (ex : AstroFunctionsExt) (planetNumber : Nat) (st : RiseSetState) :
    PolarOutcome → RiseSetOutcome
  | .giveUp s =>
    .done ({ st with cachePool := s.cachePool, log := s.log }.returning s.newDate s.transitT)
  | .found s =>
    riseSetConvergenceTest planetNumber
      ({ st with tryDate := s.tryDate, cachePool := s.cachePool, log := s.log }.recordValid ex
        s.transitT s.newDate)

/-- The first statements of the branch `if (!convergedToInvalid)`: the transit nearest the
trial instant is solved by `planettransitTimeRefined`, the high one when the trial gave
`kECAlwaysBelowHorizon`, and `riseSetTime` is evaluated there. The transit instant and the
evaluation. -/
def riseSetAtTransit (fn : AstroFunctions) (ex : AstroFunctionsExt) (call : RiseSetCall)
    (entry : RiseSetState) (newDate : ESTimeInterval) : ESTimeInterval × RiseSetTrial :=
  let wantHighTransit := nansEqual newDate kECAlwaysBelowHorizon
  let pushed :=
    pushECAstroCacheWithSlopInPool entry.cachePool (some .refinementCache) entry.tryDate (.num 0)
  let solved := planettransitTimeRefined fn ex entry.tryDate call.observerLatitude
    call.observerLongitude wantHighTransit call.planetNumber genericNaN pushed.2
  (solved.returnDate,
    riseSetTimeAt fn ex call true solved.returnDate entry.precision
      (popECAstroCacheToInPool solved.cachePool pushed.1))

/-- The branch `if (!convergedToInvalid)` of the loop body, entered the first time the trial
gives a NaN `newDate`: the transit is solved, `riseSetTime` is evaluated there, and when
that is a NaN as well the polar branch is taken at a polar latitude and the function returns
at any other. -/
def riseSetFirstInvalid (fn : AstroFunctions) (ex : AstroFunctionsExt) (call : RiseSetCall)
    (entry : RiseSetState) (newDate : ESTimeInterval) : RiseSetOutcome :=
  let located := riseSetAtTransit fn ex call entry newDate
  let transitT := located.1
  let atTransit := located.2
  let st :=
    { entry with
      convergedToInvalid := true
      firstTransit := transitT
      firstNan := newDate
      cachePool := atTransit.cachePool
      log :=
        entry.log ++ [RiseSetEvaluation.mk .transit transitT atTransit.altitude atTransit.event] }
  if atTransit.event.isnan then
    if polarSpecial call.observerLatitude then
      riseSetAfterPolar ex call.planetNumber st
        (polarSearch fn ex call st.precision st.tryDate transitT atTransit.event st.cachePool
          st.log)
    else .done (st.returning atTransit.event transitT)
  else riseSetConvergenceTest call.planetNumber (st.recordValid ex transitT atTransit.event)

/-- The loop body of `planetaryRiseSetTimeRefined`, the increment of the counter included. -/
def riseSetLoopBody (fn : AstroFunctions) (ex : AstroFunctionsExt) (call : RiseSetCall)
    (entry : RiseSetState) : RiseSetOutcome :=
  let hd := riseSetLoopHead call.planetNumber entry
  let trial := riseSetTimeAt fn ex call true hd.tryDate hd.precision hd.cachePool
  let st :=
    { hd with
      bodies := hd.bodies + 1
      cachePool := trial.cachePool
      log := hd.log ++ [RiseSetEvaluation.mk .trial hd.tryDate trial.altitude trial.event] }
  if trial.event.isnan then
    if st.convergedToInvalid = false then riseSetFirstInvalid fn ex call st trial.event
    else
      riseSetConvergenceTest call.planetNumber
        { st with tryDate := ESDouble.div (ESDouble.add st.tryDate st.lastValidTryDate) (.num 2) }
  else riseSetConvergenceTest call.planetNumber (st.recordValid ex st.tryDate trial.event)

/-- The statements of `planetaryRiseSetTimeRefined` after its loop. -/
def riseSetExhausted (st : RiseSetState) : RiseSetResult :=
  if st.lastValidResultDate.isnan then st.returning st.lastValidResultDate st.tryDate
  else if ESDouble.gt (ESDouble.fabs st.lastDelta) (.num 60) then
    st.returning st.firstNan st.firstTransit
  else st.returning st.lastValidResultDate st.lastValidResultDate

/-- The loop of `planetaryRiseSetTimeRefined` and the statements after it; each test of the
loop condition takes one unit of fuel. -/
def riseSetLoop (fn : AstroFunctions) (ex : AstroFunctionsExt) (call : RiseSetCall) :
    Nat → RiseSetState → RiseSetResult
  | 0, st => { st.returning st.lastValidResultDate st.tryDate with ranOutOfFuel := true }
  | fuel + 1, st =>
    if st.i < riseSetNumIterations then
      match riseSetLoopBody fn ex call st with
      | .done result => result
      | .next state => riseSetLoop fn ex call fuel state
    else riseSetExhausted st

/-- The state in which `planetaryRiseSetTimeRefined` enters its loop. The arrays are not
initialised by the code; no index is read before it is written. -/
def riseSetEntry (calculationDateInterval : ESTimeInterval) (observerLatitude : ESDouble)
    (planetNumber : Nat) (cachePool : ECAstroCachePool) : RiseSetState where
  i := 0
  precision :=
    if polarSpecial observerLatitude then .full
    else if planetNumber = ECPlanetMoon then .low else .full
  fitTries := 0
  tryDate := calculationDateInterval
  lastValidResultDate := genericNaN
  lastValidTryDate := genericNaN
  convergedToInvalid := false
  lastDelta := .num 0
  firstNan := genericNaN
  firstTransit := calculationDateInterval
  tryDates := fun _ => .num 0
  results := fun _ => .num 0
  cachePool := cachePool
  bodies := 0
  slotsReached := 0
  log := []

/-- The function `planetaryRiseSetTimeRefined`. The loop is run with fuel for 22 tests of its
condition. -/
def planetaryRiseSetTimeRefined (fn : AstroFunctions) (ex : AstroFunctionsExt)
    (calculationDateInterval : ESTimeInterval) (observerLatitude observerLongitude : ESDouble)
    (riseNotSet : Bool) (planetNumber : Nat) (overrideAltitudeDesired : ESDouble)
    (cachePool : ECAstroCachePool) : RiseSetResult :=
  riseSetLoop fn ex ⟨observerLatitude, observerLongitude, riseNotSet, planetNumber,
      overrideAltitudeDesired⟩ (riseSetNumIterations + 2)
    (riseSetEntry calculationDateInterval observerLatitude planetNumber cachePool)

/-- The number of binary-search evaluations in a record of calls of `riseSetTime`. -/
def splitEvaluations (log : List RiseSetEvaluation) : Nat :=
  log.countP (fun e => decide (e.kind = .split))

/-- The number of evaluations of the polar branch in a record of calls of `riseSetTime`. -/
def polarEvaluations (log : List RiseSetEvaluation) : Nat :=
  log.countP (fun e => decide (e.kind ≠ .trial ∧ e.kind ≠ .transit))

/-- The ghost measure of the loop of `planetaryRiseSetTimeRefined`: the passes left by the
counter, and one more while the Moon is still at low precision. -/
def riseSetMeasure (planetNumber : Nat) (st : RiseSetState) : Nat :=
  (riseSetNumIterations - st.i) +
    (if planetNumber = ECPlanetMoon ∧ st.precision ≠ .full then 1 else 0)

/-- A sky in which every body stays at right ascension 0 and declination 10 at distance 1
and the sidereal time stays 0, so that every transit is at the trial instant and no body
crosses the horizon at a latitude above 1/5. -/
def polarSky : AstroFunctions :=
  { sampleFunctions with
    WB_planetApparentPosition := fun _ _ c _ => (PlanetPosition.mk (.num 0) (.num 0) (.num 1) (.num 0) (.num 10), c)
    convertUTToGSTP03 := fun _ c => (.num 0, c) }

/-- The variables with which the polar branch ends, on either way out. -/
def PolarOutcome.state : PolarOutcome → PolarState
  | .giveUp s => s
  | .found s => s

/-- The invariant of the loop of `planetaryRiseSetTimeRefined`. -/
def RiseSetInv (call : RiseSetCall) (st : RiseSetState) : Prop :=
  st.i ≤ riseSetNumIterations ∧ st.fitTries ≤ st.i ∧ st.slotsReached ≤ riseSetNumIterations ∧
    splitEvaluations st.log ≤ (if st.convergedToInvalid then numPolarTries else 0) ∧
    (polarSpecial call.observerLatitude = false → polarEvaluations st.log = 0) ∧
    st.firstNan.isnan = true

/-- What one execution of the loop body of `planetaryRiseSetTimeRefined` that starts from
`hd` guarantees. -/
def RiseSetStep (call : RiseSetCall) (hd : RiseSetState) : RiseSetOutcome → Prop
  | .done r => r.ranOutOfFuel = false ∧ r.bodies = hd.bodies + 1 ∧
      r.slotsReached ≤ riseSetNumIterations ∧ splitEvaluations r.log ≤ numPolarTries ∧
      (polarSpecial call.observerLatitude = false → polarEvaluations r.log = 0)
  | .next st1 => RiseSetInv call st1 ∧ st1.bodies = hd.bodies + 1 ∧
      riseSetMeasure call.planetNumber st1 + 1 ≤ riseSetMeasure call.planetNumber hd

/-- The length `numIterations + numPolarTries + 1` of the arrays `tryDates` and `results` of
`planetaryRiseSetTimeRefined`. -/
def riseSetArrayLength : Nat := riseSetNumIterations + numPolarTries + 1

/-- A state at the end of the loop of `planetaryRiseSetTimeRefined`, with the counters and the
last valid pair that twenty passes of the Sun in `driftingSky` leave: the last crossing at
2000 found from the trial instant 1900. The arrays, the pool and the record of evaluations
are those of the entry. -/
def exhaustedState : RiseSetState :=
  { riseSetEntry (.num 0) (.num 0) ECPlanetSun initialPool with
    i := 20
    fitTries := 20
    tryDate := .num 2000
    lastValidResultDate := .num 2000
    lastValidTryDate := .num 1900
    lastDelta := .num 100
    bodies := 20
    slotsReached := 20 }

/-- The call of `planetaryRiseSetTimeRefined` for the rise of the Sun seen from latitude 1/2
and longitude 0, with no override altitude. -/
def midLatitudeCall : RiseSetCall :=
  ⟨.num (1 / 2), .num 0, true, ECPlanetSun, genericNaN⟩

/-! ## Binary64 arithmetic

The claims about the numerical functions are settled over IEEE 754 binary64 arithmetic: every
operation rounds its exact result to the nearest representable number, ties to even, with
gradual underflow, overflow to an infinity, signed zeros and NaN propagation. Each C operator
is rounded on its own (no fused multiply-add, no extended precision). -/

namespace IEEE

/-- The power `2 ^ e` for an integer exponent. -/
def twoPow (e : ℤ) : ℚ :=
  if 0 ≤ e then ((2 ^ e.toNat : ℕ) : ℚ) else 1 / ((2 ^ (-e).toNat : ℕ) : ℚ)

/-- The integer part of the binary logarithm of `n`, for `n ≤ fuel`; 0 for `n = 0`. -/
def log2Fuel : Nat → Nat → Nat
  | 0, _ => 0
  | fuel + 1, n => if 2 ≤ n then log2Fuel fuel (n / 2) + 1 else 0

/-- The integer part of the binary logarithm of a natural number; 0 for 0. -/
def natLog2 (n : Nat) : Nat := log2Fuel n n

/-- The integer part of the binary logarithm of a positive rational `n / d`: with `a` and `b`
the binary logarithms of `n` and `d` it is `a - b` or `a - b - 1`. -/
def floorLog2 (q : ℚ) : ℤ :=
  let e : ℤ := (natLog2 q.num.natAbs : ℤ) - (natLog2 q.den : ℤ)
  if twoPow e ≤ q then e else e - 1

/-- The least exponent of a normal binary64 number. -/
def minExponent : ℤ := -1022

/-- The exponent of the binade of a non-zero rational in binary64: the integer part of the
binary logarithm of its magnitude, and `minExponent` in the subnormal range. -/
def exponentOf (q : ℚ) : ℤ := max (floorLog2 |q|) minExponent

/-- The spacing of the binary64 numbers in the binade of `q` (53 significant bits). -/
def ulpOf (q : ℚ) : ℚ := twoPow (exponentOf q - 52)

/-- Rounding of a non-negative rational to the nearest integer, ties to the even one. -/
def roundHalfEven (x : ℚ) : ℤ :=
  if x - ⌊x⌋ < 1 / 2 then ⌊x⌋
  else if 1 / 2 < x - ⌊x⌋ then ⌊x⌋ + 1
  else if ⌊x⌋ % 2 = 0 then ⌊x⌋ else ⌊x⌋ + 1

/-- Rounding of the magnitude of a rational to the nearest point of the binary64 grid of its
binade, ties to even, with the exponent range unbounded above; the sign is kept. -/
def roundToGrid (q : ℚ) : ℚ :=
  if q = 0 then 0
  else if 0 < q then (roundHalfEven (q / ulpOf q) : ℚ) * ulpOf q
  else -((roundHalfEven (-q / ulpOf q) : ℚ) * ulpOf q)

/-- The bits of the integer square root of `n` from bit `k - 1` down, added to `r`. -/
def sqrtBits : Nat → Nat → Nat → Nat
  | 0, _, r => r
  | k + 1, n, r =>
    if (r + 2 ^ k) * (r + 2 ^ k) ≤ n then sqrtBits k n (r + 2 ^ k) else sqrtBits k n r

/-- The integer part of the square root of a natural number. -/
def natSqrt (n : Nat) : Nat := sqrtBits (natLog2 n / 2 + 1) n 0

/-- The square root of a positive rational rounded to the nearest point of the binary64 grid,
ties to even: with `u` the spacing in the binade of the root and `m` the integer part of
`√q / u`, the root rounds up exactly when `q` is above `((m + 1/2) u)²`. -/
def roundSqrt (q : ℚ) : ℚ :=
  let u := twoPow (⌊(floorLog2 q : ℚ) / 2⌋ - 52)
  let m : ℤ := natSqrt ⌊q / (u * u)⌋.toNat
  let half := ((m : ℚ) + 1 / 2) * u
  if q < half * half then m * u
  else if half * half < q then (m + 1) * u
  else if m % 2 = 0 then m * u else (m + 1) * u

/-- The bound `2 ^ 1024` that no finite binary64 number reaches. -/
def overflowThreshold : ℚ := twoPow 1024

end IEEE

/-- A binary64 value: an ordinary number (the zero here is `+0`), the negative zero, an
infinity, or a NaN with a payload. -/
inductive Binary64 where
  | finite (q : ℚ)
  | negZero
  | infinity (negative : Bool)
  | nan (payload : Nat)
deriving DecidableEq

namespace Binary64

/-- The zero with the given sign. -/
def zero (negative : Bool) : Binary64 := if negative then negZero else finite 0

/-- The sign bit of a value that is not a NaN. -/
def isNegative : Binary64 → Bool
  | finite q => decide (q < 0)
  | negZero => true
  | infinity negative => negative
  | nan _ => false

/-- The number a finite value stands for; 0 for the other values. -/
def toRat : Binary64 → ℚ
  | finite q => q
  | _ => 0

/-- The binary64 result of an operation whose exact result is `q`: the nearest binary64
number, an infinity when the rounded magnitude reaches `2 ^ 1024`, and a zero with the sign of
`q` when it rounds to zero; `negativeZero` is the sign the operation gives an exact zero. -/
def ofExact (q : ℚ) (negativeZero : Bool) : Binary64 :=
  if q = 0 then zero negativeZero
  else if IEEE.roundToGrid q = 0 then zero (decide (q < 0))
  else if IEEE.overflowThreshold ≤ |IEEE.roundToGrid q| then infinity (decide (q < 0))
  else finite (IEEE.roundToGrid q)

/-- A decimal constant of the source: the nearest binary64 number. -/
def lit (q : ℚ) : Binary64 := ofExact q false

/-- The C macro `isnan`. -/
def isnan : Binary64 → Bool
  | nan _ => true
  | _ => false

/-- Whether the value is an ordinary number or a zero. -/
def isFinite : Binary64 → Bool
  | finite _ => true
  | negZero => true
  | _ => false

/-- An ordinary number or zero of magnitude at most `2 ^ k`. -/
@[reducible] def Bounded (a : Binary64) (k : ℤ) : Prop :=
  a.isFinite = true ∧ |a.toRat| ≤ IEEE.twoPow k

/-- Unary minus: the sign bit is flipped. -/
def neg : Binary64 → Binary64
  | finite q => if q = 0 then negZero else finite (-q)
  | negZero => finite 0
  | infinity negative => infinity (!negative)
  | nan p => nan p

/-- The C function `fabs`: the sign bit is cleared. -/
def fabs : Binary64 → Binary64
  | finite q => finite |q|
  | negZero => finite 0
  | infinity _ => infinity false
  | nan p => nan p

/-- IEEE addition. A NaN operand propagates, the first one when both are NaNs; infinities of
opposite signs give the default NaN; an exact zero sum is `-0` only when both operands are
negative. -/
def add : Binary64 → Binary64 → Binary64
  | nan p, _ => nan p
  | finite _, nan p => nan p
  | negZero, nan p => nan p
  | infinity _, nan p => nan p
  | infinity a, infinity b => if a = b then infinity a else nan 0
  | infinity a, finite _ => infinity a
  | infinity a, negZero => infinity a
  | finite _, infinity b => infinity b
  | negZero, infinity b => infinity b
  | finite a, finite b => ofExact (a + b) (decide (a < 0) && decide (b < 0))
  | finite a, negZero => ofExact a false
  | negZero, finite b => ofExact b false
  | negZero, negZero => negZero

/-- IEEE subtraction: the addition of the negated second operand. -/
def sub (a b : Binary64) : Binary64 := add a (neg b)

/-- IEEE multiplication. A NaN operand propagates; zero times infinity is the default NaN;
the sign of a zero or infinite product is the exclusive or of the signs. -/
def mul : Binary64 → Binary64 → Binary64
  | nan p, _ => nan p
  | finite _, nan p => nan p
  | negZero, nan p => nan p
  | infinity _, nan p => nan p
  | infinity a, infinity b => infinity (xor a b)
  | infinity a, finite b => if b = 0 then nan 0 else infinity (xor a (decide (b < 0)))
  | infinity _, negZero => nan 0
  | finite a, infinity b => if a = 0 then nan 0 else infinity (xor (decide (a < 0)) b)
  | negZero, infinity _ => nan 0
  | finite a, finite b => ofExact (a * b) (xor (decide (a < 0)) (decide (b < 0)))
  | finite a, negZero => zero (!decide (a < 0))
  | negZero, finite b => zero (!decide (b < 0))
  | negZero, negZero => finite 0

/-- IEEE division. A NaN operand propagates; zero by zero and infinity by infinity are the
default NaN; a non-zero number by a zero is an infinity; the sign of a zero or infinite
quotient is the exclusive or of the signs. -/
def div : Binary64 → Binary64 → Binary64
  | nan p, _ => nan p
  | finite _, nan p => nan p
  | negZero, nan p => nan p
  | infinity _, nan p => nan p
  | infinity _, infinity _ => nan 0
  | infinity a, finite b => infinity (xor a (decide (b < 0)))
  | infinity a, negZero => infinity (!a)
  | finite a, infinity b => zero (xor (decide (a < 0)) b)
  | negZero, infinity b => zero (!b)
  | finite a, finite b =>
    if b = 0 then (if a = 0 then nan 0 else infinity (decide (a < 0)))
    else ofExact (a / b) (xor (decide (a < 0)) (decide (b < 0)))
  | finite a, negZero => if a = 0 then nan 0 else infinity (!decide (a < 0))
  | negZero, finite b => if b = 0 then nan 0 else zero (!decide (b < 0))
  | negZero, negZero => nan 0

/-- The C function `sqrt`, correctly rounded as IEEE 754 requires; the root of a negative
number is the default NaN. -/
def sqrt : Binary64 → Binary64
  | finite q => if q < 0 then nan 0 else if q = 0 then finite 0 else finite (IEEE.roundSqrt q)
  | negZero => negZero
  | infinity negative => if negative then nan 0 else infinity false
  | nan p => nan p

/-- The C comparison `a < b`: false as soon as one side is a NaN; the zeros are equal. -/
def lt : Binary64 → Binary64 → Bool
  | nan _, _ => false
  | _, nan _ => false
  | infinity a, infinity b => a && !b
  | infinity a, _ => a
  | _, infinity b => !b
  | a, b => decide (a.toRat < b.toRat)

/-- The C comparison `a > b`. -/
def gt (a b : Binary64) : Bool := lt b a

/-- The C comparison `a <= b`: false as soon as one side is a NaN. -/
def le : Binary64 → Binary64 → Bool
  | nan _, _ => false
  | _, nan _ => false
  | infinity a, infinity b => a || !b
  | infinity a, _ => a
  | _, infinity b => !b
  | a, b => decide (a.toRat ≤ b.toRat)

/-- The C comparison `a >= b`. -/
def ge (a b : Binary64) : Bool := le b a

/-- The C comparison `a == b`: false as soon as one side is a NaN; the zeros are equal. -/
def eq : Binary64 → Binary64 → Bool
  | nan _, _ => false
  | _, nan _ => false
  | infinity a, infinity b => a == b
  | infinity _, _ => false
  | _, infinity _ => false
  | a, b => decide (a.toRat = b.toRat)

/-- The C comparison `a != b`: true as soon as one side is a NaN. -/
def ne (a b : Binary64) : Bool := !eq a b

end Binary64

namespace Binary64

instance : Add Binary64 := ⟨Binary64.add⟩

instance : Sub Binary64 := ⟨Binary64.sub⟩

instance : Mul Binary64 := ⟨Binary64.mul⟩

instance : Div Binary64 := ⟨Binary64.div⟩

instance : Neg Binary64 := ⟨Binary64.neg⟩

instance (n : Nat) : OfNat Binary64 n := ⟨Binary64.lit n⟩

instance : OfScientific Binary64 :=
  ⟨fun mantissa exponentSign decimalExponent =>
    Binary64.lit (OfScientific.ofScientific mantissa exponentSign decimalExponent)⟩

end Binary64

/-! ## The numerical functions over binary64 arithmetic

The functions below are the same C functions as their namesakes above, with every arithmetic
operator, comparison and constant of the source taken in binary64; the operators `+ - * /`
and the numerals stand for the binary64 operations and the rounded constants. -/

namespace IEEE

open Binary64

/-- The macro `M_PI` of `math.h`. -/
def M_PI : Binary64 := 3.14159265358979323846

/-- The macro `kEC1990Epoch`. -/
def kEC1990Epoch : Binary64 := -347241600.0

/-- The macro `kECJulianDateOf1990Epoch`. -/
def kECJulianDateOf1990Epoch : Binary64 := 2447891.5

/-- The function `julianDateForDate`. -/
def julianDateForDate (dateInterval : Binary64) : Binary64 :=
  let secondsSince1990Epoch := dateInterval - kEC1990Epoch
  kECJulianDateOf1990Epoch + (secondsSince1990Epoch / (24 * 3600))

/-- The function `convertLSTtoGST`: the Greenwich sidereal time and the day offset. -/
def convertLSTtoGST (lst observerLongitude : Binary64) : Binary64 × Int :=
  let gst := lst - observerLongitude
  if lt gst 0 then (gst + (M_PI * 2), -1)
  else if gt gst (M_PI * 2) then (gst - (M_PI * 2), 1)
  else (gst, 0)

/-- The function `convertGSTtoLST`. -/
def convertGSTtoLST (gst observerLongitude : Binary64) : Binary64 :=
  let lst := gst + observerLongitude
  if lt lst 0 then lst + (M_PI * 2)
  else if gt lst (M_PI * 2) then lst - (M_PI * 2)
  else lst

/-- The function `espenakDeltaT`, with the `return` statement that was executed; when no
condition of the chain holds, the trailing `return 0`. -/
def espenakDeltaT (yearValue : Binary64) : Binary64 × EspenakBranch :=
  if ge yearValue 2005 && le yearValue 2050 then
    let t := yearValue - 2000
    let t2 := t * t
    (62.92 + 0.32217 * t + 0.005589 * t2, .from2005to2050)
  else if lt yearValue (-500) || ge yearValue 2150 then
    let u := (yearValue - 1820) / 100
    (-20 + 32 * u * u, .outside)
  else if lt yearValue 500 then
    let u := yearValue / 100
    let u2 := u * u
    let u3 := u2 * u
    let u4 := u2 * u2
    let u5 := u3 * u2
    let u6 := u3 * u3
    (10583.6 - 1014.41 * u + 33.78311 * u2 - 5.952053 * u3
      - 0.1798452 * u4 + 0.022174192 * u5 + 0.0090316521 * u6, .before500)
  else if lt yearValue 1600 then
    let u := (yearValue - 1000) / 100
    let u2 := u * u
    let u3 := u2 * u
    let u4 := u2 * u2
    let u5 := u3 * u2
    let u6 := u3 * u3
    (1574.2 - 556.01 * u + 71.23472 * u2 + 0.319781 * u3
      - 0.8503463 * u4 - 0.005050998 * u5 + 0.0083572073 * u6, .before1600)
  else if lt yearValue 1700 then
    let t := yearValue - 1600
    let t2 := t * t
    let t3 := t2 * t
    (120 - 0.9808 * t - 0.01532 * t2 + t3 / 7129, .before1700)
  else if lt yearValue 1800 then
    let t := yearValue - 1700
    let t2 := t * t
    let t3 := t2 * t
    let t4 := t2 * t2
    (8.83 + 0.1603 * t - 0.0059285 * t2 + 0.00013336 * t3 - t4 / 1174000, .before1800)
  else if lt yearValue 1860 then
    let t := yearValue - 1800
    let t2 := t * t
    let t3 := t2 * t
    let t4 := t2 * t2
    let t5 := t3 * t2
    let t6 := t3 * t3
    let t7 := t4 * t3
    (13.72 - 0.332447 * t + 0.0068612 * t2 + 0.0041116 * t3 - 0.00037436 * t4
      + 0.0000121272 * t5 - 0.0000001699 * t6 + 0.000000000875 * t7, .before1860)
  else if lt yearValue 1900 then
    let t := yearValue - 1860
    let t2 := t * t
    let t3 := t2 * t
    let t4 := t2 * t2
    let t5 := t3 * t2
    (7.62 + 0.5737 * t - 0.251754 * t2 + 0.01680668 * t3
      - 0.0004473624 * t4 + t5 / 233174, .before1900)
  else if lt yearValue 1920 then
    let t := yearValue - 1900
    let t2 := t * t
    let t3 := t2 * t
    let t4 := t2 * t2
    (-2.79 + 1.494119 * t - 0.0598939 * t2 + 0.0061966 * t3 - 0.000197 * t4, .before1920)
  else if lt yearValue 1941 then
    let t := yearValue - 1920
    let t2 := t * t
    let t3 := t2 * t
    (21.20 + 0.84493 * t - 0.076100 * t2 + 0.0020936 * t3, .before1941)
  else if lt yearValue 1961 then
    let t := yearValue - 1950
    let t2 := t * t
    let t3 := t2 * t
    (29.07 + 0.407 * t - t2 / 233 + t3 / 2547, .before1961)
  else if lt yearValue 1986 then
    let t := yearValue - 1975
    let t2 := t * t
    let t3 := t2 * t
    (45.45 + 1.067 * t - t2 / 260 - t3 / 718, .before1986)
  else if lt yearValue 2005 then
    let t := yearValue - 2000
    let t2 := t * t
    let t3 := t2 * t
    let t4 := t2 * t2
    let t5 := t3 * t2
    (63.86 + 0.3345 * t - 0.060374 * t2 + 0.0017275 * t3 + 0.000651814 * t4
      + 0.00002373599 * t5, .before2005)
  else if lt yearValue 2150 then
    let t1 := (yearValue - 1820) / 100
    (-20 + 32 * t1 * t1 - 0.5628 * (2150 - yearValue), .before2150)
  else (0, .fallThrough)

/-- The polynomial of each segment of `espenakDeltaT`: the body of the branch of the source
with that label, as a function of the year; the fall-through is the trailing `return 0`. -/
def espenakSegment : EspenakBranch → Binary64 → Binary64
  | .from2005to2050, yearValue =>
    let t := yearValue - 2000
    let t2 := t * t
    62.92 + 0.32217 * t + 0.005589 * t2
  | .outside, yearValue =>
    let u := (yearValue - 1820) / 100
    (-20 + 32 * u * u)
  | .before500, yearValue =>
    let u := yearValue / 100
    let u2 := u * u
    let u3 := u2 * u
    let u4 := u2 * u2
    let u5 := u3 * u2
    let u6 := u3 * u3
    10583.6 - 1014.41 * u + 33.78311 * u2 - 5.952053 * u3
      - 0.1798452 * u4 + 0.022174192 * u5 + 0.0090316521 * u6
  | .before1600, yearValue =>
    let u := (yearValue - 1000) / 100
    let u2 := u * u
    let u3 := u2 * u
    let u4 := u2 * u2
    let u5 := u3 * u2
    let u6 := u3 * u3
    1574.2 - 556.01 * u + 71.23472 * u2 + 0.319781 * u3
      - 0.8503463 * u4 - 0.005050998 * u5 + 0.0083572073 * u6
  | .before1700, yearValue =>
    let t := yearValue - 1600
    let t2 := t * t
    let t3 := t2 * t
    120 - 0.9808 * t - 0.01532 * t2 + t3 / 7129
  | .before1800, yearValue =>
    let t := yearValue - 1700
    let t2 := t * t
    let t3 := t2 * t
    let t4 := t2 * t2
    8.83 + 0.1603 * t - 0.0059285 * t2 + 0.00013336 * t3 - t4 / 1174000
  | .before1860, yearValue =>
    let t := yearValue - 1800
    let t2 := t * t
    let t3 := t2 * t
    let t4 := t2 * t2
    let t5 := t3 * t2
    let t6 := t3 * t3
    let t7 := t4 * t3
    13.72 - 0.332447 * t + 0.0068612 * t2 + 0.0041116 * t3 - 0.00037436 * t4
      + 0.0000121272 * t5 - 0.0000001699 * t6 + 0.000000000875 * t7
  | .before1900, yearValue =>
    let t := yearValue - 1860
    let t2 := t * t
    let t3 := t2 * t
    let t4 := t2 * t2
    let t5 := t3 * t2
    7.62 + 0.5737 * t - 0.251754 * t2 + 0.01680668 * t3
      - 0.0004473624 * t4 + t5 / 233174
  | .before1920, yearValue =>
    let t := yearValue - 1900
    let t2 := t * t
    let t3 := t2 * t
    let t4 := t2 * t2
    (-2.79 + 1.494119 * t - 0.0598939 * t2 + 0.0061966 * t3 - 0.000197 * t4)
  | .before1941, yearValue =>
    let t := yearValue - 1920
    let t2 := t * t
    let t3 := t2 * t
    21.20 + 0.84493 * t - 0.076100 * t2 + 0.0020936 * t3
  | .before1961, yearValue =>
    let t := yearValue - 1950
    let t2 := t * t
    let t3 := t2 * t
    29.07 + 0.407 * t - t2 / 233 + t3 / 2547
  | .before1986, yearValue =>
    let t := yearValue - 1975
    let t2 := t * t
    let t3 := t2 * t
    45.45 + 1.067 * t - t2 / 260 - t3 / 718
  | .before2005, yearValue =>
    let t := yearValue - 2000
    let t2 := t * t
    let t3 := t2 * t
    let t4 := t2 * t2
    let t5 := t3 * t2
    63.86 + 0.3345 * t - 0.060374 * t2 + 0.0017275 * t3 + 0.000651814 * t4
      + 0.00002373599 * t5
  | .before2150, yearValue =>
    let t1 := (yearValue - 1820) / 100
    (-20 + 32 * t1 * t1 - 0.5628 * (2150 - yearValue))
  | .fallThrough, _ => 0

/-- The function `linearFit`. -/
def linearFit (X1 Y1 X2 Y2 : Binary64) : Binary64 :=
  let offset := X1
  let X1 : Binary64 := 0
  let Y1 := Y1 - offset
  let X2 := X2 - offset
  let Y2 := Y2 - offset
  let denom := X2 - X1 - Y2 + Y1
  if eq denom 0 then Y2 + offset
  else
    let root := (Y1 * (X2 - X1) - X1 * (Y2 - Y1)) / denom
    if gt (fabs (root - Y2)) (12 * 3600) then Y2 + offset
    else offset + root

/-- The straight-line part of `extrapolateToYEqualX` for three or more points: the offset
points and, in the order of the source, the quantities of the quadratic through them. -/
structure QuadraticFit where
  offset : Binary64
  X1 : Binary64
  Y1 : Binary64
  X2 : Binary64
  Y2 : Binary64
  X3 : Binary64
  Y3 : Binary64
  C2 : Binary64
  p : Binary64
  q : Binary64
  D : Binary64
  root1 : Binary64
  root2 : Binary64

/-- The quantities `extrapolateToYEqualX` computes from the last three points. The code
computes `C2` only when the three abscissae differ, `p`, `q` and `D` only when `C2 != 0`,
and the roots only when `D >= 0`; the operations have no effect besides their value. -/
def quadraticFit (x y : Nat → Binary64) (numValues : Nat) : QuadraticFit :=
  let offset := x (numValues - 3)
  let X1 : Binary64 := 0
  let Y1 := y (numValues - 3) - offset
  let X2 := x (numValues - 2) - offset
  let Y2 := y (numValues - 2) - offset
  let X3 := x (numValues - 1) - offset
  let Y3 := y (numValues - 1) - offset
  let k1 := Y1 / ((X1 - X2) * (X1 - X3))
  let k2 := Y2 / ((X2 - X1) * (X2 - X3))
  let k3 := Y3 / ((X3 - X1) * (X3 - X2))
  let C2 := k1 + k2 + k3
  let C1 := k1 * (X2 + X3) + k2 * (X1 + X3) + k3 * (X1 + X2)
  let C0 := k1 * X2 * X3 + k2 * X1 * X3 + k3 * X1 * X2
  let p := (-C1 - 1) / C2
  let q := C0 / C2
  let D := p * p / 4 - q
  let sqrtTerm := sqrt D
  { offset := offset, X1 := X1, Y1 := Y1, X2 := X2, Y2 := Y2, X3 := X3, Y3 := Y3, C2 := C2,
    p := p, q := q, D := D, root1 := -p / 2 + sqrtTerm, root2 := -p / 2 - sqrtTerm }

/-- The function `extrapolateToYEqualX`; the arrays are functions of the index, and
`numValues - k` is the index the C code computes for `numValues >= k`. -/
def extrapolateToYEqualX (x y : Nat → Binary64) (numValues : Nat) : Binary64 :=
  if numValues = 1 then y 0
  else
    let linear := linearFit (x (numValues - 2)) (y (numValues - 2)) (x (numValues - 1))
      (y (numValues - 1))
    if numValues > 2 then
      let f := quadraticFit x y numValues
      if ne f.X1 f.X2 && ne f.X1 f.X3 && ne f.X2 f.X3 then
        if ne f.C2 0 then
          if ge f.D 0 then
            if lt (fabs (f.root1 - f.Y3)) (fabs (f.root2 - f.Y3)) then
              if lt (fabs (f.root1 - f.Y3)) (24 * 3600) then f.root1 + f.offset else linear
            else if lt (fabs (f.root2 - f.Y3)) (24 * 3600) then f.root2 + f.offset
            else linear
          else linear
        else linear
      else linear
    else linear

end IEEE

/-! ## Sample inputs for the binary64 functions -/

namespace IEEE

/-- The binary64 instant 189617120.90466553 (seconds since 2001-01-01 00:00 UT), in 2007. -/
def sampleInstant : Binary64 := .finite (3181247394715689 / 16777216)

/-- The binary64 instant one day of seconds after `sampleInstant`. -/
def sampleInstantNextDay : Binary64 := .finite (3181247394715689 / 16777216 + 86400)

/-- An array of three values (the last value at every further index). -/
def threeValues (v0 v1 v2 : Binary64) : Nat → Binary64 :=
  fun i => if i = 0 then v0 else if i = 1 then v1 else v2

end IEEE

/-! ## The eclipse scale over binary64 arithmetic -/

namespace IEEE

open Binary64

/-- The function `umbralAngularRadius`. -/
def umbralAngularRadius (moonParallax sunAngularRadius sunParallax : Binary64) : Binary64 :=
  1.01 * moonParallax - sunAngularRadius + sunParallax

/-- The values `calculateEclipse` obtains on a cache miss from the routines it calls: the
angle `raDelta` of the quick check (`ESUtil::fmod` of the difference of the right ascensions),
the angular sizes and parallaxes of Sun and Moon (`planetSizeAndParallax`), the result of
`angularSeparation` in the solar branch (Sun and Moon, topocentric) and in the lunar branch
(shadow and Moon), and the altitudes of Sun and Moon with their altitudes at rise and set
(`planetAltAz`, `altitudeAtRiseSet`). -/
structure EclipseCallResults where
  raDelta : Binary64
  sunAngularSize : Binary64
  sunParallax : Binary64
  moonAngularSize : Binary64
  moonParallax : Binary64
  solarSeparation : Binary64
  lunarSeparation : Binary64
  sunAltitude : Binary64
  sunAltAtRiseSet : Binary64
  moonAltitude : Binary64
  moonAltAtRiseSet : Binary64

/-- The outputs of `calculateEclipse` (`abstractSeparation`, `angularSep`,
`shadowAngularSize`, `eclipseKind`) and its local variables `physicalSeparation`,
`separationAtPartialEclipse`, `separationAtTotalEclipse`, `solarNotLunar`; `notUp` is the
outcome of the test `altitude < altAtRiseSet`, `branchKind` the kind set by the branch and
`rawSeparation` the abstract separation before it is clamped. -/
structure EclipseValues where
  abstractSeparation : Binary64
  angularSep : Binary64
  shadowAngularSize : Binary64
  eclipseKind : ECEclipseKind
  physicalSeparation : Binary64
  separationAtPartialEclipse : Binary64
  separationAtTotalEclipse : Binary64
  solarNotLunar : Bool
  notUp : Bool
  branchKind : ECEclipseKind
  rawSeparation : Binary64

/-- The cache-miss branch of `calculateEclipse`, from the quick check on, as a function of the
values the called routines return. -/
def calculateEclipse (v : EclipseCallResults) : EclipseValues :=
  let solarNotLunar := lt v.raDelta (M_PI / 2)
  let shadowAngularSize : Binary64 :=
    if solarNotLunar then 0
    else 2 * umbralAngularRadius v.moonParallax (v.sunAngularSize / 2) v.sunParallax
  let physicalSeparation := if solarNotLunar then v.solarSeparation else v.lunarSeparation
  let separationAtPartialEclipse :=
    if solarNotLunar then v.sunAngularSize / 2 + v.moonAngularSize / 2
    else v.moonAngularSize / 2 + shadowAngularSize / 2
  let separationAtTotalEclipse :=
    if solarNotLunar then v.moonAngularSize / 2 - v.sunAngularSize / 2
    else shadowAngularSize / 2 - v.moonAngularSize / 2
  let separationAtAnnularEclipse := v.sunAngularSize / 2 - v.moonAngularSize / 2
  let notUp :=
    if solarNotLunar then lt v.sunAltitude v.sunAltAtRiseSet
    else lt v.moonAltitude v.moonAltAtRiseSet
  let branchKind : ECEclipseKind :=
    if solarNotLunar then
      if notUp then .ECEclipseSolarNotUp
      else if gt physicalSeparation separationAtPartialEclipse then .ECEclipseNoneSolar
      else if lt physicalSeparation separationAtAnnularEclipse then .ECEclipseAnnularSolar
      else if gt physicalSeparation separationAtTotalEclipse then .ECEclipsePartialSolar
      else .ECEclipseTotalSolar
    else
      if notUp then .ECEclipseLunarNotUp
      else if gt physicalSeparation separationAtPartialEclipse then .ECEclipseNoneLunar
      else if gt physicalSeparation separationAtTotalEclipse then .ECEclipsePartialLunar
      else .ECEclipseTotalLunar
  let rawSeparation := 1 + (physicalSeparation - separationAtTotalEclipse) /
    (separationAtPartialEclipse - separationAtTotalEclipse)
  { abstractSeparation :=
      if lt rawSeparation 0 then 0 else if gt rawSeparation 3 then 3 else rawSeparation
    angularSep := physicalSeparation
    shadowAngularSize := shadowAngularSize
    eclipseKind :=
      if lt rawSeparation 0 then branchKind
      else if gt rawSeparation 3 then
        (if solarNotLunar then .ECEclipseNoneSolar else .ECEclipseNoneLunar)
      else branchKind
    physicalSeparation := physicalSeparation
    separationAtPartialEclipse := separationAtPartialEclipse
    separationAtTotalEclipse := separationAtTotalEclipse
    solarNotLunar := solarNotLunar
    notUp := notUp
    branchKind := branchKind
    rawSeparation := rawSeparation }

/-- Sample results of the called routines for the solar branch with the Sun up: the quick-check
angle 0, the altitude 1 above the altitude 0 at rise and set, no parallax, and the given
angular sizes and separation. -/
def sampleSolarEclipse (sun moon separation : Binary64) : EclipseCallResults :=
  { raDelta := 0
    sunAngularSize := sun
    sunParallax := 0
    moonAngularSize := moon
    moonParallax := 0
    solarSeparation := separation
    lunarSeparation := separation
    sunAltitude := 1
    sunAltAtRiseSet := 0
    moonAltitude := 1
    moonAltAtRiseSet := 0 }

end IEEE

/-! ## `riseSetTime` over binary64 arithmetic

`riseSetTime` and the routines it reaches, with the cache pool, the function-local statics and
every arithmetic operator in binary64. The routines whose code is not among the sources are
parameters: the functions of the C library, the two conversions of the calendar library and
`ESUtil::fmod`. The `ESAssert` checks, which compute nothing, are left out. -/

namespace IEEE

open Binary64

/-- The functions of the C library that `riseSetTime` calls. -/
structure MathLibrary where
  sin : Binary64 → Binary64
  cos : Binary64 → Binary64
  acos : Binary64 → Binary64

/-- Modelled from the spec: the fields of `ESDateComponents` that the code reads and writes;
the struct is declared in a header that is not among the sources. -/
structure ESDateComponents where
  era : Int
  year : Int
  month : Int
  day : Int
  hour : Int
  minute : Int
  seconds : Binary64

/-- The routines of the libraries `ESCalendar` and `ESUtil` that the time conversions call;
their code is not among the sources and they are taken as given. -/
structure TimeBase where
  UTCDateComponentsFromTimeInterval : Binary64 → ESDateComponents
  timeIntervalFromUTCDateComponents : ESDateComponents → Binary64
  fmod : Binary64 → Binary64 → Binary64

/-- The conversion of a C `int` to `double`. -/
def ofInt (n : Int) : Binary64 := .ofExact n false

/-! ### The cache pool (`ESAstronomyCache.cpp`) -/

/-- The struct `ECAstroCache`. -/
structure ECAstroCache where
  dateInterval : Binary64
  astroSlop : Binary64
  currentFlag : Nat
  globalValidFlag : Nat
  inUseCount : Int
  cacheSlotValidFlag : CacheSlotIndex → Nat
  cacheSlots : CacheSlotIndex → Binary64

/-- The struct `ECAstroCachePool`; `currentCache` points to one of the five caches or is
null. -/
structure ECAstroCachePool where
  observerLatitude : Binary64
  observerLongitude : Binary64
  runningBackward : Bool
  tzOffsetSeconds : Int
  inActionButton : Bool
  currentGlobalCacheFlag : Nat
  finalCache : ECAstroCache
  tempCache : ECAstroCache
  refinementCache : ECAstroCache
  midnightCache : ECAstroCache
  year2000Cache : ECAstroCache
  currentCache : Option CacheRef

/-- Dereference a cache pointer of the pool. -/
def ECAstroCachePool.getCache (p : ECAstroCachePool) : CacheRef → ECAstroCache
  | .finalCache => p.finalCache
  | .tempCache => p.tempCache
  | .refinementCache => p.refinementCache
  | .midnightCache => p.midnightCache
  | .year2000Cache => p.year2000Cache

/-- Store through a cache pointer of the pool. -/
def ECAstroCachePool.setCache (p : ECAstroCachePool) (r : CacheRef) (c : ECAstroCache) :
    ECAstroCachePool :=
  match r with
  | .finalCache => { p with finalCache := c }
  | .tempCache => { p with tempCache := c }
  | .refinementCache => { p with refinementCache := c }
  | .midnightCache => { p with midnightCache := c }
  | .year2000Cache => { p with year2000Cache := c }

/-- The macro `ASTRO_SLOP_RAW`. -/
def ASTRO_SLOP_RAW : Binary64 := 2.0

/-- The function `reinitializeECAstroCache`. -/
def reinitializeECAstroCache (valueCache : ECAstroCache) : ECAstroCache :=
  { valueCache with currentFlag := 1, cacheSlotValidFlag := fun _ => 0 }

/-- The code after the label `invalid:` in `pushECAstroCacheWithSlopInPool`. -/
def pushInvalid (valueCache : ECAstroCache) (dateInterval : Binary64) : ECAstroCache :=
  let c :=
    if valueCache.currentFlag = 0xffffffff then reinitializeECAstroCache valueCache
    else { valueCache with currentFlag := uincr valueCache.currentFlag }
  { c with dateInterval := dateInterval }

/-- The first statements of `pushECAstroCacheWithSlopInPool` on a non-null `valueCache`:
store the slop, and give a never-used cache the flag 1. -/
def pushPrepare (valueCache : ECAstroCache) (slop : Binary64) : ECAstroCache :=
  let c := { valueCache with astroSlop := slop }
  if c.currentFlag = 0 then { c with currentFlag := 1 } else c

/-- What `pushECAstroCacheWithSlopInPool` does to the cache it is given, for a non-null
`valueCache` and the pool's `currentGlobalCacheFlag`. -/
def pushCache (currentGlobalCacheFlag : Nat) (valueCache : ECAstroCache)
    (dateInterval slop : Binary64) : ECAstroCache :=
  let c := pushPrepare valueCache slop
  if c.globalValidFlag ≠ currentGlobalCacheFlag then
    pushInvalid { c with globalValidFlag := currentGlobalCacheFlag } dateInterval
  else if dateInterval.isnan then
    if !c.dateInterval.isnan then pushInvalid c dateInterval else c
  else if c.dateInterval.isnan then
    pushInvalid c dateInterval
  else if gt (fabs (dateInterval - c.dateInterval)) slop then
    pushInvalid c dateInterval
  else c

/-- The function `pushECAstroCacheWithSlopInPool`: the previously current cache and the new
pool. -/
def pushECAstroCacheWithSlopInPool (cachePool : ECAstroCachePool) (valueCache : Option CacheRef)
    (dateInterval slop : Binary64) : Option CacheRef × ECAstroCachePool :=
  let oldCache := cachePool.currentCache
  let cachePool := { cachePool with currentCache := valueCache }
  match valueCache with
  | none => (oldCache, cachePool)
  | some r =>
    (oldCache,
      cachePool.setCache r
        (pushCache cachePool.currentGlobalCacheFlag (cachePool.getCache r) dateInterval slop))

/-- The function `pushECAstroCacheInPool`. -/
def pushECAstroCacheInPool (cachePool : ECAstroCachePool) (valueCache : Option CacheRef)
    (dateInterval : Binary64) : Option CacheRef × ECAstroCachePool :=
  pushECAstroCacheWithSlopInPool cachePool valueCache dateInterval ASTRO_SLOP_RAW

/-- The function `popECAstroCacheToInPool`. -/
def popECAstroCacheToInPool (cachePool : ECAstroCachePool) (valueCache : Option CacheRef) :
    ECAstroCachePool :=
  { cachePool with currentCache := valueCache }

/-- The slot write `cacheSlots[i] = v; cacheSlotValidFlag[i] = currentFlag`. -/
def ECAstroCache.writeSlot (c : ECAstroCache) (i : CacheSlotIndex) (v : Binary64) :
    ECAstroCache :=
  { c with
    cacheSlotValidFlag := fun j => if j = i then c.currentFlag else c.cacheSlotValidFlag j
    cacheSlots := fun j => if j = i then v else c.cacheSlots j }

/-- The test `_currentCache && _currentCache->cacheSlotValidFlag[i] ==
_currentCache->currentFlag`. -/
def cacheHit (cache : Option ECAstroCache) (i : CacheSlotIndex) : Bool :=
  match cache with
  | none => false
  | some c => decide (c.cacheSlotValidFlag i = c.currentFlag)

/-- The read `_currentCache->cacheSlots[i]`, made after `cacheHit` succeeded. -/
def cacheRead (cache : Option ECAstroCache) (i : CacheSlotIndex) : Binary64 :=
  match cache with
  | none => .nan 0
  | some c => c.cacheSlots i

/-- The guarded write `if (_currentCache) { slots[i] = v; flag[i] = currentFlag; }`. -/
def cacheWrite (cache : Option ECAstroCache) (i : CacheSlotIndex) (v : Binary64) :
    Option ECAstroCache :=
  cache.map fun c => c.writeSlot i v

/-- The store `_currentCache->cacheSlots[i] = v` inside `if (_currentCache)`: the flag of the
slot is not touched. -/
def cacheStore (cache : Option ECAstroCache) (i : CacheSlotIndex) (v : Binary64) :
    Option ECAstroCache :=
  cache.map fun c => { c with cacheSlots := fun j => if j = i then v else c.cacheSlots j }

/-- The argument `cachePool ? cachePool->currentCache : NULL`. -/
def currentCacheOf (cachePool : Option ECAstroCachePool) : Option ECAstroCache :=
  match cachePool with
  | none => none
  | some pool => pool.currentCache.map pool.getCache

/-- Store what a callee left in `*cachePool->currentCache` back into the pool. -/
def storeCurrent (cachePool : Option ECAstroCachePool) (cache : Option ECAstroCache) :
    Option ECAstroCachePool :=
  match cachePool with
  | none => none
  | some pool =>
    match pool.currentCache, cache with
    | some r, some c => some (pool.setCache r c)
    | _, _ => some pool

/-- The enumerator `priorUTMidnightSlotIndex`. -/
def priorUTMidnightSlotIndex : CacheSlotIndex := ⟨0, by decide⟩

/-! ### The time conversions (`ESAstronomy.cpp`) -/

/-- The macro `kECJulianDateOf2000Epoch`. -/
def kECJulianDateOf2000Epoch : Binary64 := 2451545.0

/-- The macro `kECJulianDaysPerCentury`. -/
def kECJulianDaysPerCentury : Binary64 := 36525.0

/-- The macro `kECUTUnitsPerGSTUnit`. -/
def kECUTUnitsPerGSTUnit : Binary64 := 1 / 1.00273790935

/-- The macro `kECAlwaysBelowHorizon`, `nan("1")`. -/
def kECAlwaysBelowHorizon : Binary64 := .nan 1

/-- The macro `kECAlwaysAboveHorizon`, `nan("2")`. -/
def kECAlwaysAboveHorizon : Binary64 := .nan 2

/-- The function `convertUTtoET`; the static `useMeeusDeltaT` is `false` and is assigned only
in code that is compiled out. -/
def convertUTtoET (ut yearValue : Binary64) : Binary64 :=
  ut + (espenakDeltaT yearValue).1

/-- The function `priorUTMidnightForDateRaw`. -/
def priorUTMidnightForDateRaw (tb : TimeBase) (dateInterval : Binary64) : Binary64 :=
  let cs := tb.UTCDateComponentsFromTimeInterval dateInterval
  tb.timeIntervalFromUTCDateComponents { cs with hour := 0, minute := 0, seconds := 0 }

/-- The function `priorUTMidnightForDateInterval` with its static `lastCalculatedMidnight`
passed explicitly: the value, the cache and the static as the call leaves them. -/
def priorUTMidnightForDateInterval (tb : TimeBase) (calculationDateInterval : Binary64)
    (currentCache : Option ECAstroCache) (lastCalculatedMidnight : Binary64) :
    Binary64 × Option ECAstroCache × Binary64 :=
  if cacheHit currentCache priorUTMidnightSlotIndex then
    (cacheRead currentCache priorUTMidnightSlotIndex, currentCache, lastCalculatedMidnight)
  else
    let lastCalculatedMidnight :=
      if gt calculationDateInterval lastCalculatedMidnight &&
          lt calculationDateInterval (lastCalculatedMidnight + 24 * 3600) then
        lastCalculatedMidnight
      else priorUTMidnightForDateRaw tb calculationDateInterval
    (lastCalculatedMidnight,
      cacheWrite currentCache priorUTMidnightSlotIndex lastCalculatedMidnight,
      lastCalculatedMidnight)

/-- The function-local statics `lastCalculatedFirstInterval` and `lastYearValue` of
`julianCenturiesSince2000EpochForDateInterval`. -/
structure YearMemo where
  lastCalculatedFirstInterval : Binary64
  lastYearValue : Int

/-- The start of the calendar year of an instant and the year value
`cs.era ? cs.year : 1 - cs.year`, as the memo-miss branch computes them. -/
def firstOfYearAndYearValue (tb : TimeBase) (dateInterval : Binary64) : Binary64 × Int :=
  let cs := tb.UTCDateComponentsFromTimeInterval dateInterval
  (tb.timeIntervalFromUTCDateComponents
      { cs with month := 1, day := 1, hour := 0, minute := 0, seconds := 0 },
    if cs.era ≠ 0 then cs.year else 1 - cs.year)

/-- The computation that follows the memo in `julianCenturiesSince2000EpochForDateInterval`:
the Julian centuries and `etSeconds - utSeconds` from the instant, the start of its year and
the year value. -/
def julianCenturiesFromYearStart (utSeconds firstOfThisYearInterval : Binary64)
    (lastYearValue : Int) : Binary64 × Binary64 :=
  let yearValue := ofInt lastYearValue +
    (utSeconds - firstOfThisYearInterval) / (365.25 * 24 * 3600)
  let etSeconds := convertUTtoET utSeconds yearValue
  let julianDaysSince2000Epoch := julianDateForDate etSeconds - kECJulianDateOf2000Epoch
  (julianDaysSince2000Epoch / kECJulianDaysPerCentury, etSeconds - utSeconds)

/-- The function `julianCenturiesSince2000EpochForDateInterval` with its statics passed
explicitly: the Julian centuries, the value stored through `deltaT` when that pointer is not
null, the cache and the statics as the call leaves them. -/
def julianCenturiesSince2000EpochForDateInterval (tb : TimeBase) (dateInterval : Binary64)
    (currentCache : Option ECAstroCache) (memo : YearMemo) :
    (Binary64 × Binary64) × Option ECAstroCache × YearMemo :=
  if cacheHit currentCache tdtCenturiesSlotIndex then
    ((cacheRead currentCache tdtCenturiesSlotIndex,
      cacheRead currentCache tdtCenturiesDeltaTSlotIndex), currentCache, memo)
  else
    let utSeconds := dateInterval
    let memo :=
      if gt utSeconds memo.lastCalculatedFirstInterval &&
          lt utSeconds (memo.lastCalculatedFirstInterval + 24 * 3600 * 330) then memo
      else
        let fresh := firstOfYearAndYearValue tb dateInterval
        { lastCalculatedFirstInterval := fresh.1, lastYearValue := fresh.2 }
    let firstOfThisYearInterval := memo.lastCalculatedFirstInterval
    let r := julianCenturiesFromYearStart utSeconds firstOfThisYearInterval memo.lastYearValue
    (r,
      cacheStore
        (cacheWrite (cacheWrite currentCache tdtCenturiesSlotIndex r.1)
          tdtHundredCenturiesSlotIndex (r.1 / 100))
        tdtCenturiesDeltaTSlotIndex r.2, memo)

/-- The function `convertUTToGSTP03x`. -/
def convertUTToGSTP03x (tb : TimeBase) (centuriesSinceEpochTDT deltaTSeconds
    utSinceMidnightRadians : Binary64) : Binary64 :=
  let t := centuriesSinceEpochTDT
  let tu := t - deltaTSeconds / (24 * 3600 * kECJulianDaysPerCentury)
  let t2 := t * t
  let t3 := t2 * t
  let t4 := t2 * t2
  let t5 := t3 * t2
  let gmst := 24110.5493771
    + 8640184.79447825 * tu
    + 307.4771013 * (t - tu)
    + 0.092772110 * t2
    - 0.0000002926 * t3
    - 0.00000199708 * t4
    - 0.000000002454 * t5
  let gmst := gmst * (M_PI / (12.0 * 3600))
  let gmst := gmst + utSinceMidnightRadians
  let gmst := tb.fmod gmst (M_PI * 2)
  if lt gmst 0 then gmst + M_PI * 2 else gmst

/-- The statements of `convertGSTtoUT` after the cache is popped: the universal time and the
second universal time `*ut2` for the same sidereal time, -1 when there is none. -/
def universalTimesFromT0 (gst T0 : Binary64) : Binary64 × Binary64 :=
  let ut := gst - T0
  let ut :=
    if lt ut 0 then ut + (M_PI * 2)
    else if gt ut (M_PI * 2) then ut - (M_PI * 2)
    else ut
  let ut := ut * kECUTUnitsPerGSTUnit
  let ut2 := ut + (kECUTUnitsPerGSTUnit * (M_PI * 2))
  (ut, if gt ut2 (M_PI * 2) then -1 else ut2)

/-- The function `convertGSTtoUT`: the pair of the returned universal time and `*ut2`, the
pool (`none` for a null `cachePool`) and the statics as the call leaves them. With a pool the
midnight cache is pushed at `priorUTMidnight` for the call of
`julianCenturiesSince2000EpochForDateInterval` and popped after it. -/
def convertGSTtoUT (tb : TimeBase) (gst priorUTMidnight : Binary64)
    (cachePool : Option ECAstroCachePool) (memo : YearMemo) :
    (Binary64 × Binary64) × Option ECAstroCachePool × YearMemo :=
  match cachePool with
  | none =>
    let centuries := julianCenturiesSince2000EpochForDateInterval tb priorUTMidnight none memo
    let T0 := convertUTToGSTP03x tb centuries.1.1 centuries.1.2 0
    (universalTimesFromT0 gst T0, none, centuries.2.2)
  | some pool =>
    let pushed := pushECAstroCacheInPool pool (some .midnightCache) priorUTMidnight
    let priorCache := pushed.1
    let centuries := julianCenturiesSince2000EpochForDateInterval tb priorUTMidnight
      (currentCacheOf (some pushed.2)) memo
    let T0 := convertUTToGSTP03x tb centuries.1.1 centuries.1.2 0
    let cachePool := (storeCurrent (some pushed.2) centuries.2.1).map
      fun p => popECAstroCacheToInPool p priorCache
    (universalTimesFromT0 gst T0, cachePool, centuries.2.2)

/-- What the time conversions read and write besides their arguments: the pool `cachePool`
points to (`none` for a null pointer), and the function-local statics
`lastCalculatedMidnight`, `lastCalculatedFirstInterval` and `lastYearValue`. -/
structure TimeState where
  cachePool : Option ECAstroCachePool
  lastCalculatedMidnight : Binary64
  yearMemo : YearMemo

/-- The function `convertGSTtoUTclosest`: the returned instant, and the pool and the statics
as the call leaves them. -/
def convertGSTtoUTclosest (tb : TimeBase) (gst closestToThisDate : Binary64) (s : TimeState) :
    Binary64 × TimeState :=
  let prior := priorUTMidnightForDateInterval tb closestToThisDate (currentCacheOf s.cachePool)
    s.lastCalculatedMidnight
  let priorUTMidnightD := prior.1
  let cachePool := storeCurrent s.cachePool prior.2.1
  let first := convertGSTtoUT tb gst priorUTMidnightD cachePool s.yearMemo
  let ut0 := first.1.1
  let ut0_2 := first.1.2
  let utSecondsSinceMidnight := ut0 * (12 * 3600) / M_PI
  let utD := priorUTMidnightD + utSecondsSinceMidnight
  if lt utD (closestToThisDate - 12 * 3600.0 * kECUTUnitsPerGSTUnit) then
    if gt ut0_2 0 then
      (priorUTMidnightD + ut0_2 * (12 * 3600) / M_PI,
        { cachePool := first.2.1, lastCalculatedMidnight := prior.2.2, yearMemo := first.2.2 })
    else
      let priorUTMidnightD := priorUTMidnightD + 24 * 3600.0
      let next := convertGSTtoUT tb gst priorUTMidnightD first.2.1 first.2.2
      (priorUTMidnightD + next.1.1 * (12 * 3600) / M_PI,
        { cachePool := next.2.1, lastCalculatedMidnight := prior.2.2, yearMemo := next.2.2 })
  else if gt utD (closestToThisDate + 12 * 3600.0 * kECUTUnitsPerGSTUnit) then
    let priorUTMidnightD := priorUTMidnightD - 24 * 3600.0
    let previous := convertGSTtoUT tb gst priorUTMidnightD first.2.1 first.2.2
    let ut0 := if gt previous.1.2 0 then previous.1.2 else previous.1.1
    (priorUTMidnightD + ut0 * (12 * 3600) / M_PI,
      { cachePool := previous.2.1, lastCalculatedMidnight := prior.2.2,
        yearMemo := previous.2.2 })
  else
    (utD, { cachePool := first.2.1, lastCalculatedMidnight := prior.2.2, yearMemo := first.2.2 })

/-- The quantity `cosH` of `riseSetTime`. -/
def riseSetCosH (lib : MathLibrary) (declination observerLatitude altAtRiseSet : Binary64) :
    Binary64 :=
  (lib.sin altAtRiseSet - lib.sin observerLatitude * lib.sin declination) /
    (lib.cos observerLatitude * lib.cos declination)

/-- The function `riseSetTime`: the returned instant or sentinel, and the pool and the statics
as the call leaves them. -/
def riseSetTime (lib : MathLibrary) (tb : TimeBase) (riseNotSet : Bool)
    (rightAscension declination observerLatitude observerLongitude altAtRiseSet
      calculationDateInterval : Binary64) (s : TimeState) : Binary64 × TimeState :=
  let cosH := riseSetCosH lib declination observerLatitude altAtRiseSet
  if lt cosH (-1.0) then (kECAlwaysAboveHorizon, s)
  else if gt cosH 1.0 then (kECAlwaysBelowHorizon, s)
  else
    let H := lib.acos cosH
    let LST_rs := rightAscension + (if riseNotSet then M_PI * 2 - H else H)
    let LST_rs := if gt LST_rs (M_PI * 2) then LST_rs - M_PI * 2 else LST_rs
    let GST_rs := (convertLSTtoGST LST_rs observerLongitude).1
    convertGSTtoUTclosest tb GST_rs calculationDateInterval s

/-! ### The precondition on the state -/

/-- The slots that the time conversions read hold ordinary numbers: the prior midnight of
magnitude at most `2 ^ 37` seconds, the Julian centuries and delta T of magnitude at most
`2 ^ 110`. -/
def ECAstroCache.SlotsBounded (c : ECAstroCache) : Prop :=
  (c.cacheSlots priorUTMidnightSlotIndex).Bounded 37 ∧
    (c.cacheSlots tdtCenturiesSlotIndex).Bounded 110 ∧
    (c.cacheSlots tdtCenturiesDeltaTSlotIndex).Bounded 110

/-- The cache a pointer refers to, if the pointer is not null, has bounded slots. -/
def CacheBounded (cache : Option ECAstroCache) : Prop :=
  ∀ c, cache = some c → c.SlotsBounded

/-- Every cache of the pool, if `cachePool` is not null, has bounded slots. -/
def PoolBounded (cachePool : Option ECAstroCachePool) : Prop :=
  ∀ pool, cachePool = some pool → ∀ r : CacheRef, (pool.getCache r).SlotsBounded

/-- The precondition on the state: every cache of the pool has bounded slots, and the static
`lastYearValue` is in the range of a C `int`. -/
def TimeState.Bounded (s : TimeState) : Prop :=
  PoolBounded s.cachePool ∧ |s.yearMemo.lastYearValue| ≤ 2 ^ 31

/-! ### Sample data -/

/-- A table of the library functions at the arguments of the sample below, each value the
correctly rounded one: `sin(-π/2) = -1`, `sin(1e-10) = 1e-10`, `cos(1e-10) = 1`,
`acos(-1) = π`; elsewhere the sine is its argument when that is an ordinary number of
magnitude at most 1 and 0 otherwise, the cosine is 1 and the arc cosine `π/2`. -/
def sampleLibrary : MathLibrary :=
  { sin := fun x =>
      if x = -(M_PI / 2) then -1
      else if x.isFinite = true ∧ |x.toRat| ≤ 1 then x else 0
    cos := fun _ => 1
    acos := fun x => if x = -1 then M_PI else M_PI / 2 }

/-- The start of the sample calendar year of an instant: years of 365 days, the year 2001
starting at instant 0. -/
def sampleYearStart (t : ℚ) : ℚ := (⌊t / 31536000⌋ : ℤ) * 31536000

/-- A sample time base. The calendar has years of 365 days of 86400 seconds, the year 2001
starting at instant 0; it keeps the year and, in `day`, the day of the year, which are the
fields the code does not overwrite. `fmod` is, for ordinary numbers, the remainder of the
quotient truncated towards zero, as the C function `fmod`. -/
def sampleTimeBase : TimeBase :=
  { UTCDateComponentsFromTimeInterval := fun d =>
      { era := 1
        year := 2001 + ⌊d.toRat / 31536000⌋
        month := 1
        day := 1 + ⌊(d.toRat - sampleYearStart d.toRat) / 86400⌋
        hour := 0
        minute := 0
        seconds := 0 }
    timeIntervalFromUTCDateComponents := fun cs =>
      ofExact (31536000 * ((cs.year - 2001 : ℤ) : ℚ) + 86400 * ((cs.day - 1 : ℤ) : ℚ)) false
    fmod := fun x m =>
      if m.toRat = 0 then .nan 0
      else .finite ((if x.toRat < 0 then -1 else 1) *
        (|x.toRat| - |m.toRat| * (⌊|x.toRat| / |m.toRat|⌋ : ℤ))) }

/-- The state of a fresh process called without a pool: a null `cachePool` and the statics as
initialised, all zero. -/
def initialTimeState : TimeState :=
  { cachePool := none
    lastCalculatedMidnight := 0
    yearMemo := { lastCalculatedFirstInterval := 0, lastYearValue := 0 } }

/-- A cache in zero-initialised static storage. -/
def zeroCache : ECAstroCache :=
  { dateInterval := 0
    astroSlop := 0
    currentFlag := 0
    globalValidFlag := 0
    inUseCount := 0
    cacheSlotValidFlag := fun _ => 0
    cacheSlots := fun _ => 0 }

/-- A pool in zero-initialised static storage. -/
def zeroPool : ECAstroCachePool :=
  { observerLatitude := 0
    observerLongitude := 0
    runningBackward := false
    tzOffsetSeconds := 0
    inActionButton := false
    currentGlobalCacheFlag := 0
    finalCache := zeroCache
    tempCache := zeroCache
    refinementCache := zeroCache
    midnightCache := zeroCache
    year2000Cache := zeroCache
    currentCache := none }

/-- The state of a fresh process whose pool has had its final cache pushed at the sample
instant. -/
def sampleTimeState : TimeState :=
  { cachePool := some (pushECAstroCacheInPool zeroPool (some .finalCache) sampleInstant).2
    lastCalculatedMidnight := 0
    yearMemo := { lastCalculatedFirstInterval := 0, lastYearValue := 0 } }

end IEEE

/-! ## The precession conversions over binary64 arithmetic -/

namespace IEEE

open Binary64

/-- The functions of the C library that the precession conversions call, and `ESUtil::fmod`,
whose code is not among the sources. -/
structure AngleLibrary where
  sin : Binary64 → Binary64
  cos : Binary64 → Binary64
  asin : Binary64 → Binary64
  atan2 : Binary64 → Binary64 → Binary64
  fmod : Binary64 → Binary64 → Binary64

/-- The six outputs of `generalPrecessionQuantities`. -/
structure PrecessionQuantities where
  pA : Binary64
  eA : Binary64
  chiA : Binary64
  zetaA : Binary64
  zA : Binary64
  thetaA : Binary64

/-- The function `generalPrecessionQuantities`. -/
def generalPrecessionQuantities (julianCenturiesSince2000Epoch : Binary64) :
    PrecessionQuantities :=
  let t := julianCenturiesSince2000Epoch
  let t2 := t * t
  let t3 := t * t2
  let t4 := t2 * t2
  let t5 := t2 * t3
  let arcSeconds := 5028.796195 * t + 1.1054348 * t2 + 0.00007964 * t3 - 0.000023857 * t4
    - 0.0000000383 * t5
  let pA := arcSeconds * M_PI / (3600 * 180)
  let e0 : Binary64 := 84381.406
  let arcSeconds := e0 - 46.836769 * t - 0.0001831 * t2 + 0.00200340 * t3 - 0.000000576 * t4
    - 0.0000000434 * t5
  let eA := arcSeconds * M_PI / (3600 * 180)
  let arcSeconds := 10.556403 * t - 2.3814292 * t2 - 0.00121197 * t3 + 0.000170663 * t4
    - 0.0000000560 * t5
  let chiA := arcSeconds * M_PI / (3600 * 180)
  let arcSeconds := 2.650545 + 2306.083227 * t + 0.2988499 * t2 + 0.01801828 * t3
    - 0.000005971 * t4 - 0.0000003173 * t5
  let zetaA := arcSeconds * M_PI / (3600 * 180)
  let arcSeconds := -2.650545 + 2306.077181 * t + 1.0927348 * t2 + 0.01826837 * t3
    - 0.000028596 * t4 - 0.0000002904 * t5
  let zA := arcSeconds * M_PI / (3600 * 180)
  let arcSeconds := 2004.19103 * t - 0.4294934 * t2 - 0.04182264 * t3 - 0.000007089 * t4
    - 0.0000001274 * t5
  let thetaA := arcSeconds * M_PI / (3600 * 180)
  { pA := pA, eA := eA, chiA := chiA, zetaA := zetaA, zA := zA, thetaA := thetaA }

/-- The function `convertJ2000ToOfDate`: the pair `(*raOfDate, *declOfDate)`. -/
def convertJ2000ToOfDate (lib : AngleLibrary) (julianCenturiesSince2000Epoch raJ2000
    declJ2000 : Binary64) : Binary64 × Binary64 :=
  let q := generalPrecessionQuantities julianCenturiesSince2000Epoch
  let cosDecl := lib.cos declJ2000
  let sinDecl := lib.sin declJ2000
  let cosTheta := lib.cos q.thetaA
  let sinTheta := lib.sin q.thetaA
  let term := cosDecl * lib.cos (raJ2000 + q.zetaA)
  let A := cosDecl * lib.sin (raJ2000 + q.zetaA)
  let B := cosTheta * term - sinTheta * sinDecl
  let C := sinTheta * term + cosTheta * sinDecl
  let raMinusZ := lib.atan2 A B
  let ra := lib.fmod (raMinusZ + q.zA) (M_PI * 2)
  let ra := if lt ra 0 then ra + M_PI * 2 else ra
  (ra, lib.asin C)

/-- The function `convertToJ2000FromOfDate`: the pair `(*raJ2000, *declJ2000)`. -/
def convertToJ2000FromOfDate (lib : AngleLibrary) (julianCenturiesSince2000Epoch raOfDate
    declOfDate : Binary64) : Binary64 × Binary64 :=
  let T := julianCenturiesSince2000Epoch
  let T2 := T * T
  let t := -T
  let t2 := t * t
  let t3 := t2 * t
  let arcSeconds := (2306.2181 + 1.39656 * T - 0.000139 * T2) * t
    + (0.30188 - 0.000344 * T) * t2 + 0.017998 * t3
  let zetaA := arcSeconds * M_PI / (3600 * 180)
  let arcSeconds := (2306.2181 + 1.39656 * T - 0.000139 * T2) * t
    + (1.09468 + 0.000066 * T) * t2 + 0.018203 * t3
  let zA := arcSeconds * M_PI / (3600 * 180)
  let arcSeconds := (2004.3109 - 0.85330 * T - 0.000217 * T2) * t
    - (0.42665 + 0.000217 * T) * t2 - 0.041833 * t3
  let thetaA := arcSeconds * M_PI / (3600 * 180)
  let cosDecl := lib.cos declOfDate
  let sinDecl := lib.sin declOfDate
  let cosTheta := lib.cos thetaA
  let sinTheta := lib.sin thetaA
  let term := cosDecl * lib.cos (raOfDate + zetaA)
  let A := cosDecl * lib.sin (raOfDate + zetaA)
  let B := cosTheta * term - sinTheta * sinDecl
  let C := sinTheta * term + cosTheta * sinDecl
  let raMinusZ := lib.atan2 A B
  let ra := lib.fmod (raMinusZ + zA) (M_PI * 2)
  let ra := if lt ra 0 then ra + M_PI * 2 else ra
  (ra, lib.asin C)

/-- The function `refineConvertToJ2000FromOfDate`: the pair `(*raJ2000, *declJ2000)`. -/
def refineConvertToJ2000FromOfDate (lib : AngleLibrary) (julianCenturiesSince2000Epoch
    raOfDate declOfDate : Binary64) : Binary64 × Binary64 :=
  let try2000 := convertToJ2000FromOfDate lib julianCenturiesSince2000Epoch raOfDate declOfDate
  let roundTrip := convertJ2000ToOfDate lib julianCenturiesSince2000Epoch try2000.1 try2000.2
  let raOfDateTweak := raOfDate + (raOfDate - roundTrip.1)
  let declOfDateTweak := declOfDate + (declOfDate - roundTrip.2)
  let try2000 := convertToJ2000FromOfDate lib julianCenturiesSince2000Epoch raOfDateTweak
    declOfDateTweak
  let roundTrip := convertJ2000ToOfDate lib julianCenturiesSince2000Epoch try2000.1 try2000.2
  let raOfDateTweak := raOfDateTweak + (raOfDate - roundTrip.1)
  let declOfDateTweak := declOfDateTweak + (declOfDate - roundTrip.2)
  convertToJ2000FromOfDate lib julianCenturiesSince2000Epoch raOfDateTweak declOfDateTweak

end IEEE

/-! ## Invariants of reachable pools -/

theorem getCache_setCache_same (p : ECAstroCachePool) (r : CacheRef) (c : ECAstroCache) :
    (p.setCache r c).getCache r = c := by
  cases r <;> rfl

theorem getCache_setCache_ne (p : ECAstroCachePool) {r r' : CacheRef} (c : ECAstroCache)
    (h : r ≠ r') : (p.setCache r c).getCache r' = p.getCache r' := by
  cases r <;> cases r' <;> first | rfl | exact absurd rfl h

theorem setCache_global (p : ECAstroCachePool) (r : CacheRef) (c : ECAstroCache) :
    (p.setCache r c).currentGlobalCacheFlag = p.currentGlobalCacheFlag := by
  cases r <;> rfl

theorem cacheInv_bump {c : ECAstroCache} (g : Nat) (h : CacheInv c) :
    CacheInv (bumpValidFlagsForLocationIndependentSlotsWithFlagValue c g) := by
  refine ⟨h.1, fun i hi => ?_⟩
  have hlt : ¬ i.val < firstLocationDependentSlotIndex := Nat.not_lt.mpr hi
  simp only [bumpValidFlagsForLocationIndependentSlotsWithFlagValue, hlt, false_and, if_false]
  exact h.2 i hi

theorem cacheInv_pushInvalid {c : ECAstroCache} (d : ESTimeInterval) (h : CacheInv c) :
    CacheInv (pushInvalid c d) := by
  unfold pushInvalid
  by_cases hmax : c.currentFlag = 0xffffffff
  · simp only [hmax, if_true, reinitializeECAstroCache]
    exact ⟨by norm_num, fun i _ => Nat.zero_le _⟩
  · simp only [hmax, if_false]
    have h1 := h.1
    have hlt : c.currentFlag + 1 < 2 ^ 32 := by
      have : c.currentFlag ≠ 4294967295 := hmax
      omega
    have hu : uincr c.currentFlag = c.currentFlag + 1 := Nat.mod_eq_of_lt hlt
    refine ⟨by simpa [hu] using hlt, fun i hi => ?_⟩
    have := h.2 i hi
    simp only [hu]
    omega

theorem cacheInv_pushPrepare {c : ECAstroCache} (slop : ESTimeInterval) (h : CacheInv c) :
    CacheInv (pushPrepare c slop) := by
  unfold pushPrepare
  by_cases h0 : c.currentFlag = 0
  · simp only [h0, if_true]
    refine ⟨by norm_num, fun i hi => ?_⟩
    have := h.2 i hi
    show c.cacheSlotValidFlag i ≤ 1
    omega
  · simp only [h0, if_false]
    exact h

theorem cacheInv_pushCache {c : ECAstroCache} (g : Nat) (d slop : ESTimeInterval)
    (h : CacheInv c) : CacheInv (pushCache g c d slop) := by
  have h1 := cacheInv_pushPrepare slop h
  unfold pushCache
  simp only []
  split_ifs
  all_goals first
    | exact h1
    | exact cacheInv_pushInvalid d h1

theorem cacheInv_writeSlot {c : ECAstroCache} (i : CacheSlotIndex) (v : ESDouble)
    (h : CacheInv c) : CacheInv (c.writeSlot i v) := by
  refine ⟨h.1, fun j hj => ?_⟩
  show (if j = i then c.currentFlag else c.cacheSlotValidFlag j) ≤ c.currentFlag
  split_ifs
  · exact le_rfl
  · exact h.2 j hj

theorem poolInv_setCache {p : ECAstroCachePool} (r : CacheRef) {c : ECAstroCache}
    (hp : PoolInv p) (hc : CacheInv c) : PoolInv (p.setCache r c) := by
  intro r'
  by_cases h : r = r'
  · subst h; rw [getCache_setCache_same]; exact hc
  · rw [getCache_setCache_ne p c h]; exact hp r'

theorem poolInv_congr {p q : ECAstroCachePool} (h : ∀ r, q.getCache r = p.getCache r)
    (hp : PoolInv p) : PoolInv q := fun r => by rw [h r]; exact hp r

theorem poolInv_setup {p : ECAstroCachePool} (lat long : ESDouble) (rb : Bool) (tz : Int)
    (hp : PoolInv p) : PoolInv (setupGlobalCacheFlag p lat long rb tz) := by
  unfold setupGlobalCacheFlag
  split_ifs
  · exact poolInv_congr (fun r => by cases r <;> rfl) hp
  · intro r
    cases r
    · exact cacheInv_bump _ (hp .finalCache)
    · exact hp .tempCache
    · exact hp .refinementCache
    · exact cacheInv_bump _ (hp .midnightCache)
    · exact cacheInv_bump _ (hp .year2000Cache)
  · exact hp

theorem poolInv_push {p : ECAstroCachePool} (v : Option CacheRef) (d slop : ESTimeInterval)
    (hp : PoolInv p) : PoolInv (pushECAstroCacheWithSlopInPool p v d slop).2 := by
  cases v with
  | none => exact poolInv_congr (fun r => by cases r <;> rfl) hp
  | some r =>
    have hp' : PoolInv { p with currentCache := some r } :=
      poolInv_congr (fun r => by cases r <;> rfl) hp
    exact poolInv_setCache r hp' (cacheInv_pushCache _ d slop (hp' r))

theorem poolInv_apply {p : ECAstroCachePool} (op : PoolOp) (hp : PoolInv p) :
    PoolInv (op.apply p) := by
  cases op with
  | setup lat long rb tz => exact poolInv_setup lat long rb tz hp
  | initPool d lat long rb tz =>
    show PoolInv (initializeCachePool p d lat long rb tz)
    unfold initializeCachePool
    simp only [ite_self]
    exact poolInv_push _ _ _ (poolInv_setup lat long rb tz hp)
  | push v d slop => exact poolInv_push v d slop hp
  | pop v => exact poolInv_congr (fun r => by cases r <;> rfl) hp
  | write i v =>
    show PoolInv (match p.currentCache with
      | none => p
      | some r => p.setCache r ((p.getCache r).writeSlot i v))
    cases p.currentCache with
    | none => exact hp
    | some r => exact poolInv_setCache r hp (cacheInv_writeSlot i v (hp r))

theorem poolInv_runOps (ops : List PoolOp) {p : ECAstroCachePool} (hp : PoolInv p) :
    PoolInv (runOps p ops) := by
  induction ops generalizing p with
  | nil => exact hp
  | cons op ops ih => exact ih (poolInv_apply op hp)

theorem poolInv_initialPool : PoolInv initialPool := by
  intro r
  cases r <;> exact ⟨by norm_num [initialPool, ECAstroCachePool.getCache, zeroCache], fun i _ => Nat.zero_le _⟩

theorem poolInv_of_reachable {p : ECAstroCachePool} (h : Reachable p) : PoolInv p := by
  obtain ⟨ops, rfl⟩ := h
  exact poolInv_runOps ops poolInv_initialPool

theorem reachable_runOps {p : ECAstroCachePool} (h : Reachable p) (ops : List PoolOp) :
    Reachable (runOps p ops) := by
  obtain ⟨ops0, rfl⟩ := h
  exact ⟨ops0 ++ ops, by simp [runOps, List.foldl_append]⟩

theorem pushInvalid_locdep_invalid {c : ECAstroCache} (d : ESTimeInterval) (h : CacheInv c)
    (i : CacheSlotIndex) (hi : firstLocationDependentSlotIndex ≤ i.val) :
    ¬ (pushInvalid c d).slotValid i := by
  unfold pushInvalid ECAstroCache.slotValid
  by_cases hmax : c.currentFlag = 0xffffffff
  · simp [hmax, reinitializeECAstroCache]
  · simp only [hmax, if_false]
    have h1 := h.1
    have hlt : c.currentFlag + 1 < 2 ^ 32 := by
      have : c.currentFlag ≠ 4294967295 := hmax
      omega
    have hu : uincr c.currentFlag = c.currentFlag + 1 := Nat.mod_eq_of_lt hlt
    have := h.2 i hi
    simp only [hu]
    omega

theorem pushCache_locdep_invalid {c : ECAstroCache} {g : Nat} (d slop : ESTimeInterval)
    (h : CacheInv c) (hg : c.globalValidFlag ≠ g)
    (i : CacheSlotIndex) (hi : firstLocationDependentSlotIndex ≤ i.val) :
    ¬ (pushCache g c d slop).slotValid i := by
  have h1 := cacheInv_pushPrepare slop h
  have hg1 : (pushPrepare c slop).globalValidFlag ≠ g := by
    unfold pushPrepare
    simp only []
    split_ifs <;> exact hg
  unfold pushCache
  simp only [hg1, ne_eq, not_false_eq_true, if_true]
  exact @pushInvalid_locdep_invalid { pushPrepare c slop with globalValidFlag := g } d h1 i hi

theorem quiet_apply_global {r : CacheRef} {op : PoolOp} (p : ECAstroCachePool)
    (h : op.quietFor r) :
    (op.apply p).currentGlobalCacheFlag = p.currentGlobalCacheFlag := by
  cases op with
  | setup lat long rb tz => exact absurd h id
  | initPool d lat long rb tz => exact absurd h id
  | push v d slop =>
    cases v with
    | none => rfl
    | some r' => exact setCache_global _ _ _
  | pop v => rfl
  | write i v =>
    show (match p.currentCache with
      | none => p
      | some r => p.setCache r ((p.getCache r).writeSlot i v)).currentGlobalCacheFlag = _
    cases p.currentCache with
    | none => rfl
    | some r' => exact setCache_global _ _ _

theorem quiet_apply_flags {r : CacheRef} {op : PoolOp} (p : ECAstroCachePool)
    (h : op.quietFor r) : sameFlags (p.getCache r) ((op.apply p).getCache r) := by
  cases op with
  | setup lat long rb tz => exact absurd h id
  | initPool d lat long rb tz => exact absurd h id
  | push v d slop =>
    cases v with
    | none => cases r <;> exact ⟨rfl, rfl, rfl⟩
    | some r' =>
      have hne : r' ≠ r := fun e => h (by rw [e])
      show sameFlags _ ((ECAstroCachePool.setCache _ r' _).getCache r)
      rw [getCache_setCache_ne _ _ hne]
      cases r <;> exact ⟨rfl, rfl, rfl⟩
  | pop v => cases r <;> exact ⟨rfl, rfl, rfl⟩
  | write i v =>
    show sameFlags _ ((match p.currentCache with
      | none => p
      | some r => p.setCache r ((p.getCache r).writeSlot i v)).getCache r)
    cases p.currentCache with
    | none => exact ⟨rfl, rfl, rfl⟩
    | some r' =>
      by_cases hr : r' = r
      · subst hr; simp only [getCache_setCache_same]; exact ⟨rfl, rfl, rfl⟩
      · simp only [getCache_setCache_ne _ _ hr]; exact ⟨rfl, rfl, rfl⟩

theorem quiet_runOps {r : CacheRef} (ops : List PoolOp) (p : ECAstroCachePool)
    (h : ∀ op ∈ ops, op.quietFor r) :
    (runOps p ops).currentGlobalCacheFlag = p.currentGlobalCacheFlag ∧
    sameFlags (p.getCache r) ((runOps p ops).getCache r) := by
  induction ops generalizing p with
  | nil => exact ⟨rfl, rfl, rfl, rfl⟩
  | cons op ops ih =>
    have hop : op.quietFor r := h op (List.mem_cons_self _ _)
    have ih' := ih (op.apply p) (fun o ho => h o (List.mem_cons_of_mem _ ho))
    have hg := quiet_apply_global p hop
    have hf := quiet_apply_flags p hop
    refine ⟨ih'.1.trans hg, ih'.2.1.trans hf.1, ih'.2.2.1.trans hf.2.1, ih'.2.2.2.trans hf.2.2⟩

/-! ## The cache claims -/

theorem toggleRunningBackward_reachable (n : Nat) {p : ECAstroCachePool} (h : Reachable p) :
    Reachable (toggleRunningBackward n p) := by
  induction n generalizing p with
  | zero => exact h
  | succ n ih =>
    exact ih (reachable_runOps h
      [.setup p.observerLatitude p.observerLongitude (!p.runningBackward) p.tzOffsetSeconds])

theorem toggleRunningBackward_eq (n : Nat) (p : ECAstroCachePool)
    (hp : p.currentGlobalCacheFlag < 2 ^ 32) :
    toggleRunningBackward n p =
      { p with
        runningBackward := if n % 2 = 0 then p.runningBackward else !p.runningBackward
        currentGlobalCacheFlag := (p.currentGlobalCacheFlag + n) % 2 ^ 32 } := by
  induction n generalizing p with
  | zero =>
    have h0 : (p.currentGlobalCacheFlag + 0) % 2 ^ 32 = p.currentGlobalCacheFlag :=
      Nat.mod_eq_of_lt hp
    simp only [toggleRunningBackward, Nat.zero_mod, if_true, h0]
  | succ n ih =>
    have hstep : setupGlobalCacheFlag p p.observerLatitude p.observerLongitude
        (!p.runningBackward) p.tzOffsetSeconds =
        { p with runningBackward := !p.runningBackward
                 currentGlobalCacheFlag := uincr p.currentGlobalCacheFlag } := by
      unfold setupGlobalCacheFlag
      have : (!p.runningBackward) ≠ p.runningBackward := by cases p.runningBackward <;> decide
      simp only [this, ne_eq, not_false_eq_true, if_true]
    have hlt : uincr p.currentGlobalCacheFlag < 2 ^ 32 := Nat.mod_lt _ (by norm_num)
    show toggleRunningBackward n _ = _
    rw [hstep, ih _ hlt]
    have harith : (uincr p.currentGlobalCacheFlag + n) % 2 ^ 32 =
        (p.currentGlobalCacheFlag + (n + 1)) % 2 ^ 32 := by
      unfold uincr
      omega
    have hpar : (if n % 2 = 0 then !p.runningBackward else !(!p.runningBackward)) =
        (if (n + 1) % 2 = 0 then p.runningBackward else !p.runningBackward) := by
      rcases Nat.mod_two_eq_zero_or_one n with h | h
      · have : (n + 1) % 2 = 1 := by omega
        simp [h, this]
      · have : (n + 1) % 2 = 0 := by omega
        simp [h, this]
    simp only [harith, hpar]

theorem push_getCache (q : ECAstroCachePool) (r : CacheRef) (d slop : ESTimeInterval) :
    (pushECAstroCacheWithSlopInPool q (some r) d slop).2.getCache r =
      pushCache q.currentGlobalCacheFlag (q.getCache r) d slop := by
  show (ECAstroCachePool.setCache _ r _).getCache r = _
  rw [getCache_setCache_same]
  cases r <;> rfl

theorem push_global (q : ECAstroCachePool) (v : Option CacheRef) (d slop : ESTimeInterval) :
    (pushECAstroCacheWithSlopInPool q v d slop).2.currentGlobalCacheFlag =
      q.currentGlobalCacheFlag := by
  cases v with
  | none => rfl
  | some r => exact setCache_global _ _ _

theorem setup_location_change {p : ECAstroCachePool} {lat long : ESDouble} {tz : Int}
    (hchange : tz ≠ p.tzOffsetSeconds ∨ ESDouble.ne lat p.observerLatitude = true ∨
      ESDouble.ne long p.observerLongitude = true) (r : CacheRef) :
    (setupGlobalCacheFlag p lat long p.runningBackward tz).currentGlobalCacheFlag =
        uincr p.currentGlobalCacheFlag ∧
      ((setupGlobalCacheFlag p lat long p.runningBackward tz).getCache r).globalValidFlag =
        (p.getCache r).globalValidFlag := by
  unfold setupGlobalCacheFlag
  simp only [ne_eq, not_true_eq_false, if_false, hchange, if_true]
  exact ⟨trivial, by cases r <;> rfl⟩

theorem pushPrepare_flag {c : ECAstroCache} (slop : ESTimeInterval)
    (h : c.currentFlag < 2 ^ 32) :
    (pushPrepare c slop).currentFlag ≠ 0 ∧ (pushPrepare c slop).currentFlag < 2 ^ 32 ∧
      (pushPrepare c slop).globalValidFlag = c.globalValidFlag := by
  unfold pushPrepare
  by_cases h0 : c.currentFlag = 0
  · simp only [h0, if_true]
    exact ⟨by norm_num, by norm_num, trivial⟩
  · simp only [h0, if_false]
    exact ⟨h0, h, trivial⟩

theorem pushInvalid_flag {c : ECAstroCache} (d : ESTimeInterval) (h : c.currentFlag < 2 ^ 32) :
    (pushInvalid c d).currentFlag ≠ 0 ∧ (pushInvalid c d).globalValidFlag = c.globalValidFlag := by
  unfold pushInvalid
  by_cases hmax : c.currentFlag = 0xffffffff
  · simp only [hmax, if_true, reinitializeECAstroCache]
    exact ⟨by norm_num, trivial⟩
  · simp only [hmax, if_false]
    have hlt : c.currentFlag + 1 < 2 ^ 32 := by
      have : c.currentFlag ≠ 4294967295 := hmax
      omega
    have hu : uincr c.currentFlag = c.currentFlag + 1 := Nat.mod_eq_of_lt hlt
    exact ⟨by simp only [hu]; omega, trivial⟩

theorem pushCache_flag {c : ECAstroCache} (g : Nat) (d slop : ESTimeInterval)
    (h : c.currentFlag < 2 ^ 32) :
    (pushCache g c d slop).currentFlag ≠ 0 ∧ (pushCache g c d slop).globalValidFlag = g := by
  obtain ⟨h0, hlt, -⟩ := pushPrepare_flag slop h
  unfold pushCache
  simp only []
  by_cases hg : (pushPrepare c slop).globalValidFlag = g
  · simp only [hg, ne_eq, not_true_eq_false, if_false]
    split_ifs
    all_goals first
      | exact ⟨h0, hg⟩
      | exact ⟨(pushInvalid_flag d hlt).1, (pushInvalid_flag d hlt).2.trans hg⟩
  · simp only [hg, ne_eq, not_false_eq_true, if_true]
    exact @pushInvalid_flag { pushPrepare c slop with globalValidFlag := g } d hlt

theorem pushCache_within_slop {c : ECAstroCache} {g : Nat} {t t' s : ℚ}
    (h0 : c.currentFlag ≠ 0) (hg : c.globalValidFlag = g) (hd : c.dateInterval = .num t)
    (hclose : |t' - t| ≤ s) :
    pushCache g c (.num t') (.num s) = { c with astroSlop := .num s } := by
  have hprep : pushPrepare c (.num s) = { c with astroSlop := .num s } := by
    unfold pushPrepare
    simp only [h0, if_false]
  unfold pushCache
  simp only [hprep, hg, hd, ne_eq, not_true_eq_false, if_false, ESDouble.isnan, ESDouble.sub,
    ESDouble.fabs, ESDouble.gt, decide_eq_true_eq, not_lt.mpr hclose, Bool.false_eq_true]

/-- C1 (code defect, evaluated). The midnight cache holds the TDT centuries for
instant 0 and the observer has moved once since, which bumped the flag of that
location-independent slot ahead of the scope's flag. Pushing the midnight cache with
an instant a whole day away from its stored instant then leaves that slot valid, with
the value cached for the old instant. -/
theorem C1_push_far_instant_keeps_bumped_slot_valid :
    Reachable staleMidnightPool ∧
    staleMidnightPool.midnightCache.dateInterval = .num 0 ∧
    differsByMoreThan (.num 86400) staleMidnightPool.midnightCache.dateInterval
      ASTRO_SLOP_RAW ∧
    ((pushECAstroCacheWithSlopInPool staleMidnightPool (some .midnightCache) (.num 86400)
      ASTRO_SLOP_RAW).2.midnightCache).dateInterval = .num 86400 ∧
    ((pushECAstroCacheWithSlopInPool staleMidnightPool (some .midnightCache) (.num 86400)
      ASTRO_SLOP_RAW).2.midnightCache).slotValid tdtCenturiesSlotIndex ∧
    ((pushECAstroCacheWithSlopInPool staleMidnightPool (some .midnightCache) (.num 86400)
      ASTRO_SLOP_RAW).2.midnightCache).cacheSlots tdtCenturiesSlotIndex = .num 5 := by
  refine ⟨⟨staleMidnightOps, rfl⟩, ?_, ?_, ?_, ?_, ?_⟩ <;> decide!

/-- C2 (code defect, evaluated). The final cache is bound at instant 10 and holds the
Sun's right ascension. Rebinding the pool with the same instant, latitude, time zone
and clock direction but another longitude leaves that location-independent slot
invalid: the scope's flag (3) has run ahead of the global flag (2), so the slot is not
re-stamped. -/
theorem C2_longitude_change_drops_location_independent_slot :
    Reachable sunRACachedPool ∧
    sunRACachedPool.currentCache = some .finalCache ∧
    sunRACachedPool.finalCache.dateInterval = .num 10 ∧
    sunRASlotIndex.val < firstLocationDependentSlotIndex ∧
    sunRACachedPool.finalCache.slotValid sunRASlotIndex ∧
    ESDouble.ne (.num 2) sunRACachedPool.observerLongitude = true ∧
    ¬ (initializeCachePool sunRACachedPool (.num 10) sunRACachedPool.observerLatitude (.num 2)
        sunRACachedPool.runningBackward sunRACachedPool.tzOffsetSeconds).finalCache.slotValid
      sunRASlotIndex := by
  refine ⟨⟨sunRACachedOps, rfl⟩, ?_, ?_, ?_, ?_, ?_, ?_⟩ <;> decide!

/-- C3 (as stated, refuted). After `2 ^ 32 - 1` changes of clock direction the global
flag has wrapped to 0; the longitude change then brings it back to 1, the value the
final cache recorded at its last push, so the next push of the final cache at its
stored instant invalidates nothing and the location-dependent Sun azimuth slot stays
valid. -/
theorem C3_counterexample_global_flag_wraps :
    Reachable wrappedPool ∧
    ESDouble.ne (.num 1) wrappedPool.observerLongitude = true ∧
    firstLocationDependentSlotIndex ≤ sunAzimuthSlotIndex.val ∧
    ((pushECAstroCacheWithSlopInPool
        (setupGlobalCacheFlag wrappedPool wrappedPool.observerLatitude (.num 1)
          wrappedPool.runningBackward wrappedPool.tzOffsetSeconds)
        (some .finalCache) (.num 0) ASTRO_SLOP_RAW).2.finalCache).slotValid
      sunAzimuthSlotIndex := by
  have hreach : Reachable wrappedPool :=
    toggleRunningBackward_reachable _ ⟨sunAzimuthCachedOps, rfl⟩
  have heq : wrappedPool =
      { runOps initialPool sunAzimuthCachedOps with
        runningBackward := true
        currentGlobalCacheFlag := 0 } := by
    unfold wrappedPool
    rw [toggleRunningBackward_eq _ _ (by decide)]
    congr 1
  refine ⟨hreach, ?_, by decide, ?_⟩
  · rw [heq]; decide
  · rw [heq]; decide!

/-- C3 (amended). In a reachable pool, after `setupGlobalCacheFlag` is called with a
changed latitude, longitude or time-zone offset and the same clock direction, and
after any further pops, slot writes and pushes of other scopes, the next push of a
scope leaves every location-dependent slot of that scope invalid, whatever the pushed
instant and slop, provided the global flag the scope recorded at its last push is not
the new value of the global flag (which can only happen after the 32-bit global flag
has wrapped around). -/
theorem C3_location_change_invalidates_location_dependent_slots
    (p : ECAstroCachePool) (hp : Reachable p) (lat long : ESDouble) (tz : Int)
    (hchange : tz ≠ p.tzOffsetSeconds ∨ ESDouble.ne lat p.observerLatitude = true ∨
      ESDouble.ne long p.observerLongitude = true)
    (r : CacheRef)
    (hwrap : (p.getCache r).globalValidFlag ≠ uincr p.currentGlobalCacheFlag)
    (ops : List PoolOp) (hquiet : ∀ op ∈ ops, op.quietFor r)
    (d slop : ESTimeInterval) (i : CacheSlotIndex)
    (hi : firstLocationDependentSlotIndex ≤ i.val) :
    ¬ ((pushECAstroCacheWithSlopInPool
        (runOps (setupGlobalCacheFlag p lat long p.runningBackward tz) ops)
        (some r) d slop).2.getCache r).slotValid i := by
  have hsetup := setup_location_change hchange r
  have hreach : Reachable (runOps (setupGlobalCacheFlag p lat long p.runningBackward tz) ops) :=
    reachable_runOps (reachable_runOps hp [.setup lat long p.runningBackward tz]) ops
  have hinv := poolInv_of_reachable hreach r
  have hq := quiet_runOps ops (setupGlobalCacheFlag p lat long p.runningBackward tz) hquiet
  rw [push_getCache]
  refine pushCache_locdep_invalid d slop hinv ?_ i hi
  rw [hq.1, hq.2.1, hsetup.1, hsetup.2]
  exact hwrap

/-- C3 (amended), at a concrete input: the Sun azimuth cached in the final cache is
invalid after a longitude change, a write of the Sun's right ascension and the next
push of the final cache. -/
theorem C3_location_change_witness :
    ¬ ((pushECAstroCacheWithSlopInPool
        (runOps (setupGlobalCacheFlag (runOps initialPool sunAzimuthCachedOps) (.num 0) (.num 1)
          (runOps initialPool sunAzimuthCachedOps).runningBackward 0)
          [.write sunRASlotIndex (.num 3)])
        (some .finalCache) (.num 0) ASTRO_SLOP_RAW).2.getCache .finalCache).slotValid
      sunAzimuthSlotIndex :=
  C3_location_change_invalidates_location_dependent_slots
    (runOps initialPool sunAzimuthCachedOps) ⟨sunAzimuthCachedOps, rfl⟩ (.num 0) (.num 1) 0
    (Or.inr (Or.inr (by decide))) .finalCache (by decide)
    [.write sunRASlotIndex (.num 3)]
    (by intro op hop; rw [List.mem_singleton] at hop; subst hop; trivial)
    (.num 0) ASTRO_SLOP_RAW sunAzimuthSlotIndex (by decide)

/-- C5. For every pool, non-null scope, instant and slop, the push returns the scope
that was current before the call and makes the given scope current; popping to the
returned scope restores `currentCache`; and a pop changes nothing but `currentCache`. -/
theorem C5_push_returns_previous_and_pop_restores (cachePool : ECAstroCachePool)
    (valueCache : CacheRef) (dateInterval slop : ESTimeInterval) :
    (pushECAstroCacheWithSlopInPool cachePool (some valueCache) dateInterval slop).1 =
      cachePool.currentCache ∧
    (pushECAstroCacheWithSlopInPool cachePool (some valueCache) dateInterval slop).2.currentCache =
      some valueCache ∧
    (popECAstroCacheToInPool
        (pushECAstroCacheWithSlopInPool cachePool (some valueCache) dateInterval slop).2
        (pushECAstroCacheWithSlopInPool cachePool (some valueCache) dateInterval slop).1).currentCache =
      cachePool.currentCache ∧
    (∀ (q : ECAstroCachePool) (x : Option CacheRef),
      popECAstroCacheToInPool q x = { q with currentCache := x }) := by
  refine ⟨rfl, ?_, rfl, fun _ _ => rfl⟩
  cases valueCache <;> rfl

/-- C6 (as stated, refuted). The final cache stores instant 0 and was last pushed with
instant 2 (within the slop of 0, so the stored instant stayed 0). Pushing it again
with instant 4, which is within the slop of 2, invalidates the scope: the flag and the
stored instant change and the cached right ascension is no longer valid. -/
theorem C6_counterexample_drift_from_stored_instant :
    Reachable driftPool ∧
    ¬ differsByMoreThan (.num 4) (.num 2) ASTRO_SLOP_RAW ∧
    driftPool.finalCache.dateInterval = .num 0 ∧
    driftPool.finalCache.slotValid sunRASlotIndex ∧
    ¬ ((pushECAstroCacheWithSlopInPool driftPool (some .finalCache) (.num 4)
        ASTRO_SLOP_RAW).2.finalCache).slotValid sunRASlotIndex ∧
    (pushECAstroCacheWithSlopInPool driftPool (some .finalCache) (.num 4)
        ASTRO_SLOP_RAW).2.finalCache.currentFlag ≠ driftPool.finalCache.currentFlag ∧
    (pushECAstroCacheWithSlopInPool driftPool (some .finalCache) (.num 4)
        ASTRO_SLOP_RAW).2.finalCache.dateInterval = .num 4 := by
  refine ⟨⟨driftOps, rfl⟩, ?_, ?_, ?_, ?_, ?_, ?_⟩ <;> decide!

/-- C6 (amended). Take any pool whose scope `r` has a 32-bit flag, push `r`, and run
any pops, slot writes and pushes of other scopes (none of which changes the global
flag). If the instant then stored in `r` is `t`, pushing `r` again with an instant `t'`
such that `|t' - t| ≤ slop` changes nothing in `r` but the recorded slop: flag, stored
instant, slot values and slot valid flags are all unchanged. -/
theorem C6_repush_within_slop_of_stored_instant
    (p : ECAstroCachePool) (r : CacheRef) (hflag : (p.getCache r).currentFlag < 2 ^ 32)
    (d0 s0 : ESTimeInterval) (ops : List PoolOp) (hquiet : ∀ op ∈ ops, op.quietFor r)
    (t t' s : ℚ)
    (hstored : ((runOps (pushECAstroCacheWithSlopInPool p (some r) d0 s0).2 ops).getCache
      r).dateInterval = .num t)
    (hclose : |t' - t| ≤ s) :
    (pushECAstroCacheWithSlopInPool
        (runOps (pushECAstroCacheWithSlopInPool p (some r) d0 s0).2 ops)
        (some r) (.num t') (.num s)).2.getCache r =
      { (runOps (pushECAstroCacheWithSlopInPool p (some r) d0 s0).2 ops).getCache r with
        astroSlop := .num s } := by
  have hq := quiet_runOps ops (pushECAstroCacheWithSlopInPool p (some r) d0 s0).2 hquiet
  have hpush := pushCache_flag p.currentGlobalCacheFlag d0 s0 hflag
  rw [← push_getCache] at hpush
  rw [push_getCache]
  refine pushCache_within_slop ?_ ?_ hstored hclose
  · rw [hq.2.2.1]; exact hpush.1
  · rw [hq.2.1, hq.1, push_global]; exact hpush.2

/-- C6 (amended), at a concrete input: the final cache is pushed at instant 0, the
Sun's right ascension is cached, and the cache is pushed again at instant 1. -/
theorem C6_repush_within_slop_witness :
    (pushECAstroCacheWithSlopInPool
        (runOps (pushECAstroCacheWithSlopInPool initialPool (some .finalCache) (.num 0)
          ASTRO_SLOP_RAW).2 [.write sunRASlotIndex (.num 5)])
        (some .finalCache) (.num 1) (.num 2)).2.getCache .finalCache =
      { (runOps (pushECAstroCacheWithSlopInPool initialPool (some .finalCache) (.num 0)
          ASTRO_SLOP_RAW).2 [.write sunRASlotIndex (.num 5)]).getCache .finalCache with
        astroSlop := .num 2 } :=
  C6_repush_within_slop_of_stored_instant initialPool .finalCache (by decide) (.num 0)
    ASTRO_SLOP_RAW [.write sunRASlotIndex (.num 5)]
    (by intro op hop; rw [List.mem_singleton] at hop; subst hop; trivial)
    0 1 2 (by decide) (by norm_num)

/-- C7 (code defect, evaluated). The midnight cache holds the TDT centuries and the
observer has moved once since, which bumped the flag of that location-independent slot
ahead of the scope's flag. A change of clock direction followed by the next push of
the midnight cache then leaves that slot valid. -/
theorem C7_direction_change_keeps_bumped_slot_valid :
    Reachable staleMidnightPool ∧
    staleMidnightPool.runningBackward ≠ true ∧
    ((pushECAstroCacheWithSlopInPool
        (setupGlobalCacheFlag staleMidnightPool staleMidnightPool.observerLatitude
          staleMidnightPool.observerLongitude true staleMidnightPool.tzOffsetSeconds)
        (some .midnightCache) (.num 0) ASTRO_SLOP_RAW).2.midnightCache).slotValid
      tdtCenturiesSlotIndex := by
  refine ⟨⟨staleMidnightOps, rfl⟩, by decide!, by decide!⟩

/-! ## The facade claims -/

theorem ESDouble.add_neg (a b : ESDouble) : ESDouble.add a (ESDouble.neg b) = ESDouble.sub a b := by
  cases a <;> cases b <;> simp [ESDouble.add, ESDouble.neg, ESDouble.sub, sub_eq_add_neg]

/-- When the bound scope holds a valid azimuth slot for the planet,
`planetAzimuth(planet, atDateInterval)` returns that slot, whatever the instant. -/
theorem planetAzimuthAt_reads_slot (fn : AstroFunctions) (m : ESAstronomyManager)
    (planetNumber : Int) (atDateInterval : ESTimeInterval) (r : CacheRef)
    (hlegal : planetNumberIllegal planetNumber = false) (hcur : m.currentCache = some r)
    (hvalid : (m.astroCachePool.getCache r).slotValid
      (planetSlot planetAzimuthSlotIndex planetNumber.toNat)) :
    (m.planetAzimuthAt fn planetNumber atDateInterval).1 =
      (m.astroCachePool.getCache r).cacheSlots
        (planetSlot planetAzimuthSlotIndex planetNumber.toNat) := by
  have hc : m.cache = some (m.astroCachePool.getCache r) := by
    simp [ESAstronomyManager.cache, hcur]
  simp [ESAstronomyManager.planetAzimuthAt, hlegal, planetAltAz, hc, cacheHit, cacheRead, hvalid]

/-- C4 (code defect, evaluated). With the facade bound at instant 0 and the Sun's
azimuth cached there, `planetAzimuth(Sun, 5)` violates the guard of `planetAltAz`
(5 is farther than the slop from 0) and returns the azimuth cached for instant 0, not
the azimuth computed for instant 5; with an empty bound scope it computes the azimuth
for instant 5 and stores it in the bound scope, where `planetAzimuth(Sun)` then finds
it. `planetAltitude(Sun, 5)` passes no cache and leaves the facade untouched. -/
theorem C4_planetAzimuth_at_instant_uses_bound_scope :
    cacheDateGuard boundManager.cache (.num 5) = false ∧
    (boundManager.planetAzimuth sampleFunctions 0).1 = .num 0 ∧
    ((boundManager.planetAzimuth sampleFunctions 0).2.planetAzimuthAt sampleFunctions 0
      (.num 5)).1 = .num 0 ∧
    (planetAltAz sampleFunctions 0 (.num 5) boundManager.observerLatitude
      boundManager.observerLongitude true false none).1 = .num (-99 / 20) ∧
    ((boundManager.planetAzimuthAt sampleFunctions 0 (.num 5)).2.astroCachePool.finalCache).slotValid
      (planetSlot planetAzimuthSlotIndex 0) ∧
    ((boundManager.planetAzimuthAt sampleFunctions 0 (.num 5)).2.planetAzimuth sampleFunctions
      0).1 = .num (-99 / 20) ∧
    (boundManager.planetAltitudeAt sampleFunctions 0 (.num 5)).2 = boundManager := by
  refine ⟨by decide!, by decide!, by decide!, by decide!, by decide!, by decide!, rfl⟩

/-- C9. For every calculation method `f`, the search is the two-phase search of the
specification, and its result depends on `f` only through at most two evaluations:
one at the fudged instant (bound instant plus the fudge for next, minus the fudge for
previous) with the facade's pool, and one a look-ahead further (later for next,
earlier for previous) with the pool the first evaluation left. -/
theorem C9_search_is_two_phase_with_at_most_two_evaluations (m : ESAstronomyManager)
    (fudgeSeconds : ESDouble) (f : CalculationMethod) (overrideAltitudeDesired : ESDouble)
    (planetNumber : Nat) (riseNotSet isNext : Bool) (lookahead : ESTimeInterval) :
    m.nextPrevRiseSetInternalWithFudgeInterval fudgeSeconds f overrideAltitudeDesired
        planetNumber riseNotSet isNext lookahead =
      twoPhaseSearch m fudgeSeconds f overrideAltitudeDesired planetNumber riseNotSet isNext
        lookahead ∧
    ∀ g : CalculationMethod,
      g (if isNext then ESDouble.add m.calculationDateInterval fudgeSeconds
          else ESDouble.sub m.calculationDateInterval fudgeSeconds)
          m.observerLatitude m.observerLongitude riseNotSet planetNumber
          overrideAltitudeDesired m.astroCachePool =
        f (if isNext then ESDouble.add m.calculationDateInterval fudgeSeconds
          else ESDouble.sub m.calculationDateInterval fudgeSeconds)
          m.observerLatitude m.observerLongitude riseNotSet planetNumber
          overrideAltitudeDesired m.astroCachePool →
      g (if isNext then
            ESDouble.add (ESDouble.add m.calculationDateInterval fudgeSeconds) lookahead
          else ESDouble.sub (ESDouble.sub m.calculationDateInterval fudgeSeconds) lookahead)
          m.observerLatitude m.observerLongitude riseNotSet planetNumber
          overrideAltitudeDesired
          (f (if isNext then ESDouble.add m.calculationDateInterval fudgeSeconds
            else ESDouble.sub m.calculationDateInterval fudgeSeconds)
            m.observerLatitude m.observerLongitude riseNotSet planetNumber
            overrideAltitudeDesired m.astroCachePool).2.2 =
        f (if isNext then
            ESDouble.add (ESDouble.add m.calculationDateInterval fudgeSeconds) lookahead
          else ESDouble.sub (ESDouble.sub m.calculationDateInterval fudgeSeconds) lookahead)
          m.observerLatitude m.observerLongitude riseNotSet planetNumber
          overrideAltitudeDesired
          (f (if isNext then ESDouble.add m.calculationDateInterval fudgeSeconds
            else ESDouble.sub m.calculationDateInterval fudgeSeconds)
            m.observerLatitude m.observerLongitude riseNotSet planetNumber
            overrideAltitudeDesired m.astroCachePool).2.2 →
      m.nextPrevRiseSetInternalWithFudgeInterval fudgeSeconds g overrideAltitudeDesired
          planetNumber riseNotSet isNext lookahead =
        m.nextPrevRiseSetInternalWithFudgeInterval fudgeSeconds f overrideAltitudeDesired
          planetNumber riseNotSet isNext lookahead := by
  cases isNext
  · refine ⟨?_, fun g h1 h2 => ?_⟩
    · simp only [ESAstronomyManager.nextPrevRiseSetInternalWithFudgeInterval, twoPhaseSearch,
        onRequestedSide, Bool.not_false, if_true, ESDouble.add_neg, Bool.false_eq_true,
        if_false]
    · simp only [Bool.false_eq_true, if_false] at h1 h2
      simp only [ESAstronomyManager.nextPrevRiseSetInternalWithFudgeInterval,
        Bool.not_false, if_true, ESDouble.add_neg, h1, h2]
  · refine ⟨?_, fun g h1 h2 => ?_⟩
    · simp only [ESAstronomyManager.nextPrevRiseSetInternalWithFudgeInterval, twoPhaseSearch,
        onRequestedSide, Bool.not_true, if_true, Bool.false_eq_true, if_false]
    · simp only [if_true] at h1 h2
      simp only [ESAstronomyManager.nextPrevRiseSetInternalWithFudgeInterval,
        Bool.not_true, Bool.false_eq_true, if_false, h1, h2]

/-- C9, at a concrete input: bound at instant 1000, a next-event search with fudge 5
and look-ahead 47520 evaluates the method at 1005 and at 48525 only, so a method that
agrees with `dailyTransit` at these two instants gives the same search result. -/
theorem C9_search_witness :
    boundManagerAt1000.nextPrevRiseSetInternalWithFudgeInterval fudgeFactorSeconds
        dailyTransitAtTwoInstants genericNaN ECPlanetSun true true riseSetLookahead =
      boundManagerAt1000.nextPrevRiseSetInternalWithFudgeInterval fudgeFactorSeconds
        dailyTransit genericNaN ECPlanetSun true true riseSetLookahead :=
  (C9_search_is_two_phase_with_at_most_two_evaluations boundManagerAt1000 fudgeFactorSeconds
    dailyTransit genericNaN ECPlanetSun true true riseSetLookahead).2 dailyTransitAtTwoInstants
    (by norm_num [dailyTransitAtTwoInstants, ESDouble.add, fudgeFactorSeconds,
      boundManagerAt1000, boundManager])
    (by norm_num [dailyTransitAtTwoInstants, ESDouble.add, fudgeFactorSeconds,
      riseSetLookahead, boundManagerAt1000, boundManager])

/-- C10 (code defect, evaluated). `prevPlanettransit(planet)` is
`nextPrevPlanettransit(planet, nextNotPrev = true)` for every planet: on the sample
sky, bound at instant 1000 with an empty scope, it returns the next transit of the Sun
(86400) where `prevSuntransit()` returns the previous one (0), and it fills the
next-transit slot of the Sun, not the previous-transit slot. -/
theorem C10_prevPlanettransit_searches_next_transit :
    (∀ (fn : AstroFunctions) (m : ESAstronomyManager) (planetNumber : Nat),
      m.prevPlanettransit fn planetNumber = m.nextPlanettransit fn planetNumber) ∧
    (boundManagerAt1000.prevPlanettransit sampleFunctions ECPlanetSun).1 = .num 86400 ∧
    (boundManagerAt1000.prevSuntransit sampleFunctions).1 = .num 0 ∧
    ((boundManagerAt1000.prevPlanettransit sampleFunctions
        ECPlanetSun).2.astroCachePool.finalCache).slotValid
      (planetSlot nextPlanettransitSlotIndex ECPlanetSun) ∧
    ¬ ((boundManagerAt1000.prevPlanettransit sampleFunctions
        ECPlanetSun).2.astroCachePool.finalCache).slotValid
      (planetSlot prevPlanettransitSlotIndex ECPlanetSun) := by
  refine ⟨fun _ _ _ => rfl, by decide!, by decide!, by decide!, by decide!⟩

theorem withClockDirection_cache (m : ESAstronomyManager) (b : Bool) :
    (m.withClockDirection b).cache = m.cache := rfl

theorem nextPrevPlanetRiseSetForPlanet_miss (fn : AstroFunctions) (m : ESAstronomyManager)
    (planetNumber : Nat) (riseNotSet nextNotPrev : Bool)
    (hempty : ∀ i, cacheHit m.cache i = false) :
    (m.nextPrevPlanetRiseSetForPlanet fn planetNumber riseNotSet nextNotPrev).1 =
      if m.locationValid then
        (m.nextPrevRiseSetInternalWithFudgeInterval fudgeFactorSeconds
          fn.planetaryRiseSetTimeRefined genericNaN planetNumber riseNotSet
          (xor m.runningBackward nextNotPrev) riseSetLookahead).1
      else genericNaN := by
  unfold ESAstronomyManager.nextPrevPlanetRiseSetForPlanet
  cases hl : m.locationValid
  · simp
  · simp [hempty]

theorem search_withClockDirection (m : ESAstronomyManager) (b : Bool) (fudge : ESDouble)
    (method : CalculationMethod) (o : ESDouble) (p : Nat) (r isNext : Bool)
    (lookahead : ESTimeInterval) :
    ((m.withClockDirection b).nextPrevRiseSetInternalWithFudgeInterval fudge method o p r isNext
        lookahead).1 =
      (m.nextPrevRiseSetInternalWithFudgeInterval fudge method o p r isNext lookahead).1 := by
  unfold ESAstronomyManager.nextPrevRiseSetInternalWithFudgeInterval
    ESAstronomyManager.withClockDirection
  simp only
  split_ifs <;> rfl

theorem backward_next_eq_forward_prev (fn : AstroFunctions) (m : ESAstronomyManager)
    (planetNumber : Nat) (riseNotSet : Bool) (hempty : ∀ i, cacheHit m.cache i = false) :
    ((m.withClockDirection true).nextPrevPlanetRiseSetForPlanet fn planetNumber riseNotSet
        true).1 =
      ((m.withClockDirection false).nextPrevPlanetRiseSetForPlanet fn planetNumber riseNotSet
        false).1 := by
  rw [nextPrevPlanetRiseSetForPlanet_miss fn _ _ _ _ (by simpa using hempty),
    nextPrevPlanetRiseSetForPlanet_miss fn _ _ _ _ (by simpa using hempty),
    search_withClockDirection, search_withClockDirection]
  rfl

theorem boundManagerAt1000_empty : ∀ i, cacheHit boundManagerAt1000.cache i = false := by
  decide!

/-- C11: on a cache miss `nextPrevPlanetRiseSetForPlanet` calls the search with
`isNext = runningBackward XOR nextNotPrev`; hence, from an empty scope at the same instant and
location, each next rise/set query (Sun, Moon, planet) under a backward-running clock computes the
same instant as the corresponding prev query under a forward-running clock. -/
theorem C11_rise_set_queries_honour_clock_direction (fn : AstroFunctions)
    (m : ESAstronomyManager) (planetNumber : Nat) (riseNotSet nextNotPrev : Bool)
    (hempty : ∀ i, cacheHit m.cache i = false) :
    (m.nextPrevPlanetRiseSetForPlanet fn planetNumber riseNotSet nextNotPrev).1 =
      (if m.locationValid then
        (m.nextPrevRiseSetInternalWithFudgeInterval fudgeFactorSeconds
          fn.planetaryRiseSetTimeRefined genericNaN planetNumber riseNotSet
          (xor m.runningBackward nextNotPrev) riseSetLookahead).1
      else genericNaN) ∧
    ((m.withClockDirection true).nextSunrise fn).1 =
      ((m.withClockDirection false).prevSunrise fn).1 ∧
    ((m.withClockDirection true).nextSunset fn).1 =
      ((m.withClockDirection false).prevSunset fn).1 ∧
    ((m.withClockDirection true).nextMoonrise fn).1 =
      ((m.withClockDirection false).prevMoonrise fn).1 ∧
    ((m.withClockDirection true).nextMoonset fn).1 =
      ((m.withClockDirection false).prevMoonset fn).1 ∧
    ((m.withClockDirection true).nextPlanetriseForPlanetNumber fn planetNumber).1 =
      ((m.withClockDirection false).prevPlanetriseForPlanetNumber fn planetNumber).1 ∧
    ((m.withClockDirection true).nextPlanetsetForPlanetNumber fn planetNumber).1 =
      ((m.withClockDirection false).prevPlanetsetForPlanetNumber fn planetNumber).1 :=
  ⟨nextPrevPlanetRiseSetForPlanet_miss fn m planetNumber riseNotSet nextNotPrev hempty,
    backward_next_eq_forward_prev fn m ECPlanetSun true hempty,
    backward_next_eq_forward_prev fn m ECPlanetSun false hempty,
    backward_next_eq_forward_prev fn m ECPlanetMoon true hempty,
    backward_next_eq_forward_prev fn m ECPlanetMoon false hempty,
    backward_next_eq_forward_prev fn m planetNumber true hempty,
    backward_next_eq_forward_prev fn m planetNumber false hempty⟩

/-- Witness for C11: the facade bound at instant 1000 with an empty final cache and a body that
rises at every multiple of 86400 s; the backward next sunrise and the forward previous sunrise are
both the instant 0, while the forward next sunrise is 86400. -/
theorem C11_rise_set_queries_witness :
    ((boundManagerAt1000.withClockDirection true).nextSunrise sampleFunctions).1 =
      ((boundManagerAt1000.withClockDirection false).prevSunrise sampleFunctions).1 ∧
    ((boundManagerAt1000.withClockDirection false).prevSunrise sampleFunctions).1 = .num 0 ∧
    ((boundManagerAt1000.withClockDirection false).nextSunrise sampleFunctions).1 = .num 86400 :=
  ⟨(C11_rise_set_queries_honour_clock_direction sampleFunctions boundManagerAt1000 ECPlanetSun
      true true boundManagerAt1000_empty).2.1, by decide!, by decide!⟩

theorem ESDouble.add_num (a b : ℚ) : ESDouble.add (.num a) (.num b) = .num (a + b) := rfl

theorem ESDouble.sub_num (a b : ℚ) : ESDouble.sub (.num a) (.num b) = .num (a - b) := rfl

theorem ESDouble.fabs_num (a : ℚ) : ESDouble.fabs (.num a) = .num |a| := rfl

theorem ESDouble.map_num (f : ℚ → ℚ) (a : ℚ) : ESDouble.map f (.num a) = .num (f a) := rfl

theorem ESDouble.lt_num (a b : ℚ) : ESDouble.lt (.num a) (.num b) = decide (a < b) := rfl

theorem ESDouble.gt_num (a b : ℚ) : ESDouble.gt (.num a) (.num b) = decide (b < a) := rfl

/-- C15 (code defect, evaluated). For an invalid planet number (negative, greater than the last
legal planet, or Earth) the seven angle and distance queries return the generic NaN and leave
the facade and its cache untouched, but `planetIsUp` returns `true`, not `false`: its guard
returns `nan("")` from a function whose return type is `bool`. -/
theorem C15_invalid_planet_gives_NaN_but_planetIsUp_true (fn : AstroFunctions)
    (ex : AstroFunctionsExt) (m : ESAstronomyManager) (planetNumber : Int)
    (atDateInterval : ESTimeInterval) (correctForParallax : Bool)
    (hillegal : planetNumberIllegal planetNumber = true) :
    m.planetAltitude fn planetNumber = (genericNaN, m) ∧
    m.planetAzimuth fn planetNumber = (genericNaN, m) ∧
    m.planetAltitudeAt fn planetNumber atDateInterval = (genericNaN, m) ∧
    m.planetAzimuthAt fn planetNumber atDateInterval = (genericNaN, m) ∧
    m.planetRA fn planetNumber correctForParallax = (genericNaN, m) ∧
    m.planetRAAt fn planetNumber atDateInterval correctForParallax = (genericNaN, m) ∧
    m.planetDecl fn planetNumber correctForParallax = (genericNaN, m) ∧
    m.planetEclipticLongitude fn planetNumber = (genericNaN, m) ∧
    m.planetEclipticLatitude fn planetNumber = (genericNaN, m) ∧
    m.planetGeocentricDistance fn planetNumber = (genericNaN, m) ∧
    m.planetIsUp fn ex planetNumber = (true, m) := by
  refine ⟨?_, ?_, ?_, ?_, ?_, ?_, ?_, ?_, ?_, ?_, ?_⟩
  · simp [ESAstronomyManager.planetAltitude, hillegal]
  · simp [ESAstronomyManager.planetAzimuth, hillegal]
  · simp [ESAstronomyManager.planetAltitudeAt, hillegal]
  · simp [ESAstronomyManager.planetAzimuthAt, hillegal]
  · simp [ESAstronomyManager.planetRA, hillegal]
  · simp [ESAstronomyManager.planetRAAt, hillegal]
  · simp [ESAstronomyManager.planetDecl, hillegal]
  · simp [ESAstronomyManager.planetEclipticLongitude, hillegal]
  · simp [ESAstronomyManager.planetEclipticLatitude, hillegal]
  · simp [ESAstronomyManager.planetGeocentricDistance, hillegal]
  · simp [ESAstronomyManager.planetIsUp, hillegal, doubleToBool, genericNaN]

/-- Witness for C15: `planetIsUp(-1)` on the facade bound at instant 0 returns `true`, while
`planetAltitude(-1)` returns the generic NaN. -/
theorem C15_invalid_planet_witness :
    boundManager.planetIsUp sampleFunctions sampleFunctionsExt (-1) = (true, boundManager) ∧
    boundManager.planetAltitude sampleFunctions (-1) = (genericNaN, boundManager) :=
  ⟨(C15_invalid_planet_gives_NaN_but_planetIsUp_true sampleFunctions sampleFunctionsExt
      boundManager (-1) (.num 0) true (by decide)).2.2.2.2.2.2.2.2.2.2,
    (C15_invalid_planet_gives_NaN_but_planetIsUp_true sampleFunctions sampleFunctionsExt
      boundManager (-1) (.num 0) true (by decide)).1⟩

/-- A nested `setup(false)` on a bound facade leaves its members alone; at most it pushes the
final cache of the bound pool. -/
theorem nested_setup_keeps_facade (watchTime : ESWatchTime) (environment : ESLocationEnvironment)
    (t : Fin 2) (s : ESAstronomyManagerState) (hb : s.astroCachePool = some t) :
    ∃ s', setupLocalEnvironmentForThreadFromActionButton false watchTime environment t s = s' ∧
    s'.astroCachePool = s.astroCachePool ∧ s'.currentCache = s.currentCache ∧
    s'.calculationDateInterval = s.calculationDateInterval ∧
    s'.observerLatitude = s.observerLatitude ∧ s'.observerLongitude = s.observerLongitude ∧
    s'.locationValid = s.locationValid ∧ s'.watchTime = s.watchTime ∧
    s'.inActionButton = s.inActionButton ∧
    ((s.astroCachePools t).currentCache = some .finalCache →
      (s'.astroCachePools t).currentCache = some .finalCache) ∧
    (s'.astroCachePools t).inActionButton = (s.astroCachePools t).inActionButton := by
  unfold setupLocalEnvironmentForThreadFromActionButton
  rw [hb]
  simp only
  cases hc : s.currentCache with
  | none => exact ⟨_, rfl, hb, hc, rfl, rfl, rfl, rfl, rfl, rfl, fun h => h, rfl⟩
  | some r =>
    simp only
    split_ifs with hd
    · refine ⟨_, rfl, rfl, rfl, rfl, rfl, rfl, rfl, rfl, rfl, fun _ => ?_, ?_⟩
      · simp [Function.update_same, pushECAstroCacheInPool, pushECAstroCacheWithSlopInPool,
          ECAstroCachePool.setCache]
      · simp [Function.update_same, pushECAstroCacheInPool, pushECAstroCacheWithSlopInPool,
          ECAstroCachePool.setCache]
    · exact ⟨_, rfl, hb, hc, rfl, rfl, rfl, rfl, rfl, rfl, fun h => h, rfl⟩

theorem nested_calls_keep_facade (environment : ESLocationEnvironment) (t : Fin 2)
    (calls : List NestedCall) :
    ∀ s : ESAstronomyManagerState, s.astroCachePool = some t → s.inActionButton = true →
    ∃ s', runNestedCalls environment t calls s = some s' ∧
    s'.astroCachePool = s.astroCachePool ∧ s'.currentCache = s.currentCache ∧
    s'.calculationDateInterval = s.calculationDateInterval ∧
    s'.observerLatitude = s.observerLatitude ∧ s'.observerLongitude = s.observerLongitude ∧
    s'.locationValid = s.locationValid ∧ s'.watchTime = s.watchTime ∧
    s'.inActionButton = s.inActionButton ∧
    ((s.astroCachePools t).currentCache = some .finalCache →
      (s'.astroCachePools t).currentCache = some .finalCache) ∧
    (s'.astroCachePools t).inActionButton = (s.astroCachePools t).inActionButton := by
  induction calls with
  | nil => exact fun s _ _ => ⟨s, rfl, rfl, rfl, rfl, rfl, rfl, rfl, rfl, rfl, fun h => h, rfl⟩
  | cons call rest ih =>
    intro s hb hin
    cases call with
    | setup watchTime =>
      obtain ⟨s1, e1, a1, a2, a3, a4, a5, a6, a7, a8, a9, a10⟩ :=
        nested_setup_keeps_facade watchTime environment t s hb
      obtain ⟨s2, e2, b1, b2, b3, b4, b5, b6, b7, b8, b9, b10⟩ :=
        ih s1 (a1.trans hb) (a8.trans hin)
      refine ⟨s2, ?_, b1.trans a1, b2.trans a2, b3.trans a3, b4.trans a4, b5.trans a5,
        b6.trans a6, b7.trans a7, b8.trans a8, fun h => b9 (a9 h), b10.trans a10⟩
      simp only [runNestedCalls, e1, e2]
    | cleanup =>
      obtain ⟨s2, e2, b⟩ := ih s hb hin
      refine ⟨s2, ?_, b⟩
      simp [runNestedCalls, cleanupLocalEnvironmentForThreadFromActionButton, hb, hin, e2]

/-- C14: from an unbound facade, `setup(true)` binds it to the thread's pool, the final cache,
the watch time's instant and the location; every sequence of nested `setup(false)` and
`cleanup(false)` calls returns and leaves the facade bound to the same pool, current scope,
instant and location; and the closing `cleanup(true)` returns the facade to its unbound state
(pool, current scope and watch time null; latitude, longitude and instant zero; location
invalid) with the pool's current scope null and both in-action-button flags false. -/
theorem C14_setup_cleanup_nest_and_unbind (s0 : ESAstronomyManagerState) (t : Fin 2)
    (watchTime : ESWatchTime) (environment : ESLocationEnvironment) (calls : List NestedCall)
    (hunbound : s0.astroCachePool = none) :
    ∃ s1 s2 s3,
      setupLocalEnvironmentForThreadFromActionButton true watchTime environment t s0 = s1 ∧
      s1.astroCachePool = some t ∧ s1.currentCache = some .finalCache ∧
      s1.calculationDateInterval = watchTime.currentTime ∧
      s1.observerLatitude = environment.latitudeRadians ∧
      s1.observerLongitude = environment.longitudeRadians ∧ s1.locationValid = true ∧
      s1.inActionButton = true ∧ (s1.astroCachePools t).inActionButton = true ∧
      runNestedCalls environment t calls s1 = some s2 ∧
      s2.astroCachePool = s1.astroCachePool ∧ s2.currentCache = s1.currentCache ∧
      s2.calculationDateInterval = s1.calculationDateInterval ∧
      s2.observerLatitude = s1.observerLatitude ∧ s2.observerLongitude = s1.observerLongitude ∧
      s2.locationValid = s1.locationValid ∧ s2.watchTime = s1.watchTime ∧
      (s2.astroCachePools t).currentCache = some .finalCache ∧
      cleanupLocalEnvironmentForThreadFromActionButton true s2 = some s3 ∧
      s3.astroCachePool = none ∧ s3.currentCache = none ∧ s3.watchTime = none ∧
      s3.observerLatitude = .num 0 ∧ s3.observerLongitude = .num 0 ∧
      s3.calculationDateInterval = .num 0 ∧ s3.locationValid = false ∧
      (s3.astroCachePools t).currentCache = none ∧ s3.inActionButton = false ∧
      (s3.astroCachePools t).inActionButton = false := by
  have hcur : ∀ (pool : ECAstroCachePool) (d lat long : ESDouble) (b : Bool) (tz : Int),
      (initializeCachePool pool d lat long b tz).currentCache = some .finalCache := by
    intro pool d lat long b tz
    simp [initializeCachePool, pushECAstroCacheInPool, pushECAstroCacheWithSlopInPool,
      ECAstroCachePool.setCache]
  have h1 : ∃ s1,
      setupLocalEnvironmentForThreadFromActionButton true watchTime environment t s0 = s1 ∧
      s1.astroCachePool = some t ∧ s1.currentCache = some .finalCache ∧
      s1.calculationDateInterval = watchTime.currentTime ∧
      s1.observerLatitude = environment.latitudeRadians ∧
      s1.observerLongitude = environment.longitudeRadians ∧ s1.locationValid = true ∧
      s1.inActionButton = true ∧ (s1.astroCachePools t).inActionButton = true ∧
      (s1.astroCachePools t).currentCache = some .finalCache ∧ s1.watchTime = some watchTime := by
    unfold setupLocalEnvironmentForThreadFromActionButton
    rw [hunbound]
    refine ⟨_, rfl, rfl, hcur _ _ _ _ _ _, rfl, rfl, rfl, rfl, rfl, ?_, ?_, rfl⟩
    · simp [Function.update_same]
    · simp [Function.update_same, hcur]
  obtain ⟨s1, e1, a1, a2, a3, a4, a5, a6, a7, a8, a9, a10⟩ := h1
  obtain ⟨s2, e2, b1, b2, b3, b4, b5, b6, b7, b8, b9, b10⟩ :=
    nested_calls_keep_facade environment t calls s1 a1 a7
  refine ⟨s1, s2,
    { s2 with
      inActionButton := false
      astroCachePools := Function.update s2.astroCachePools t
        (releaseCachePoolForThisThread
          { s2.astroCachePools t with inActionButton := false }) }.unbind,
    e1, a1, a2, a3, a4, a5, a6, a7, a8, e2, b1, b2, b3, b4, b5, b6, b7, b9 a9, ?_, ?_⟩
  · unfold cleanupLocalEnvironmentForThreadFromActionButton
    rw [b1.trans a1]
    rfl
  · simp [ESAstronomyManagerState.unbind, Function.update_same, releaseCachePoolForThisThread,
      popECAstroCacheToInPool]

/-- Witness for C14: a new facade on the main thread, opened at instant 1000, with two levels
of nested calls before the closing `cleanup(true)`. -/
theorem C14_setup_cleanup_witness :
    ∃ s2 s3,
      runNestedCalls ⟨0, .num 0, .num 0⟩ 0
        [.setup ⟨.num 2000, false, 0⟩, .setup ⟨.num 3000, true, 0⟩, .cleanup, .cleanup]
        (setupLocalEnvironmentForThreadFromActionButton true ⟨.num 1000, false, 0⟩
          ⟨0, .num 0, .num 0⟩ 0 newManagerState) = some s2 ∧
      s2.calculationDateInterval = .num 1000 ∧
      cleanupLocalEnvironmentForThreadFromActionButton true s2 = some s3 ∧
      s3.astroCachePool = none ∧ (s3.astroCachePools 0).currentCache = none := by
  obtain ⟨s1, s2, s3, e1, _, _, a3, _, _, _, _, _, e2, _, _, b3, _, _, _, _, _, e3, c1, _, _, _,
      _, _, _, c8, _, _⟩ :=
    C14_setup_cleanup_nest_and_unbind newManagerState 0 ⟨.num 1000, false, 0⟩
      ⟨0, .num 0, .num 0⟩
      [.setup ⟨.num 2000, false, 0⟩, .setup ⟨.num 3000, true, 0⟩, .cleanup, .cleanup] rfl
  subst e1
  exact ⟨s2, s3, e2, b3.trans a3, e3, c1, c8⟩

theorem eclipseClamp_solar (br : EclipseBranch) (hflag : br.solarNotLunar = true)
    (hk : eclipseKindIsMoreSolarThanLunar br.eclipseKind = true) :
    eclipseKindIsMoreSolarThanLunar (eclipseClamp br).2 = true := by
  unfold eclipseClamp
  simp only [hflag, if_true]
  split_ifs
  · exact hk
  · rfl
  · exact hk

theorem eclipseClamp_lunar (br : EclipseBranch) (hflag : br.solarNotLunar = false)
    (hk : eclipseKindIsMoreSolarThanLunar br.eclipseKind = false) :
    eclipseKindIsMoreSolarThanLunar (eclipseClamp br).2 = false := by
  unfold eclipseClamp
  simp only [hflag, Bool.false_eq_true, if_false]
  split_ifs
  · exact hk
  · rfl
  · exact hk

theorem eclipseSolarBranch_kind (fn : AstroFunctions) (ex : AstroFunctionsExt)
    (d lat long : ESDouble) (b : EclipseBodies) :
    eclipseKindIsMoreSolarThanLunar (eclipseSolarBranch fn ex d lat long b).eclipseKind = true := by
  unfold eclipseSolarBranch
  simp only
  split_ifs <;> rfl

theorem eclipseLunarBranch_kind (fn : AstroFunctions) (ex : AstroFunctionsExt)
    (d lat long : ESDouble) (b : EclipseBodies) :
    eclipseKindIsMoreSolarThanLunar (eclipseLunarBranch fn ex d lat long b).eclipseKind =
      false := by
  unfold eclipseLunarBranch
  simp only
  split_ifs <;> rfl

theorem sampleFmod_small (x y : ℚ) (hx : 0 ≤ x) (hxy : x < y) :
    sampleFunctionsExt.fmod x y = x := by
  have hy : 0 < y := lt_of_le_of_lt hx hxy
  have hfloor : ⌊x / y⌋ = 0 := by
    rw [Int.floor_eq_iff]
    constructor
    · simp only [Int.cast_zero]
      exact div_nonneg hx hy.le
    · simp only [Int.cast_zero, zero_add]
      exact (div_lt_one hy).mpr hxy
  show x - y * ((⌊x / y⌋ : ℤ) : ℚ) = x
  rw [hfloor]
  simp

/-- C13 (code defect, evaluated). On a cache miss with both right ascensions in `[0, 2π)`,
`calculateEclipse` takes the solar branch exactly when the plain difference `|moon - sun|` is
below `π / 2`: the quick check applies `fmod(·, 2π)` to a value already below `2π`. When the
two right ascensions lie on opposite sides of the 0 / 2π wrap, more than `3π / 2` apart as
numbers, they are less than 90 degrees apart around the circle and yet the lunar branch is
taken. -/
theorem C13_quick_check_compares_plain_difference (fn : AstroFunctions)
    (ex : AstroFunctionsExt) (d lat long : ESDouble) (cache : Option ECAstroCache)
    (sunRA moonRA : ℚ)
    (hmiss : (cacheHit cache eclipseSeparationSlotIndex &&
      cacheHit cache eclipseKindSlotIndex) = false)
    (hsun : (eclipseBodies fn ex d long cache).sunRightAscension = .num sunRA)
    (hmoon : (eclipseBodies fn ex d long cache).moonRightAscension = .num moonRA)
    (hsun0 : 0 ≤ sunRA) (hsun1 : sunRA < M_PI * 2) (hmoon0 : 0 ≤ moonRA)
    (hmoon1 : moonRA < M_PI * 2)
    (hfmod : ∀ x y, 0 ≤ x → x < y → ex.fmod x y = x) :
    eclipseKindIsMoreSolarThanLunar (calculateEclipse fn ex d lat long cache).eclipseKind =
      decide (|moonRA - sunRA| < M_PI / 2) ∧
    (|moonRA - sunRA| ≤ 3 * M_PI / 2 ∨
      (min |moonRA - sunRA| (M_PI * 2 - |moonRA - sunRA|) < M_PI / 2 ∧
        eclipseKindIsMoreSolarThanLunar (calculateEclipse fn ex d lat long cache).eclipseKind =
          false)) := by
  have hpi : (0 : ℚ) < M_PI := by norm_num [M_PI]
  have hcalc : (calculateEclipse fn ex d lat long cache).eclipseKind =
      (eclipseClamp (eclipseBranch fn ex d lat long (eclipseBodies fn ex d long cache))).2 := by
    simp only [calculateEclipse, hmiss, Bool.false_eq_true, if_false]
  have habs : |moonRA - sunRA| < M_PI * 2 := by
    rw [abs_lt]
    constructor <;> linarith
  have hdelta : eclipseRADelta ex (eclipseBodies fn ex d long cache) =
      .num |moonRA - sunRA| := by
    simp only [eclipseRADelta, hsun, hmoon, ESDouble.sub_num, ESDouble.fabs_num,
      ESDouble.map_num, hfmod _ _ (abs_nonneg _) habs]
  have hmain : eclipseKindIsMoreSolarThanLunar
      (calculateEclipse fn ex d lat long cache).eclipseKind =
        decide (|moonRA - sunRA| < M_PI / 2) := by
    rw [hcalc]
    unfold eclipseBranch
    rw [hdelta, ESDouble.lt_num]
    by_cases hc : |moonRA - sunRA| < M_PI / 2
    · simp only [hc, decide_True, if_true]
      exact eclipseClamp_solar _ rfl (eclipseSolarBranch_kind fn ex d lat long _)
    · simp only [hc, decide_False, if_false, Bool.false_eq_true]
      exact eclipseClamp_lunar _ rfl (eclipseLunarBranch_kind fn ex d lat long _)
  refine ⟨hmain, ?_⟩
  by_cases hfar : |moonRA - sunRA| ≤ 3 * M_PI / 2
  · exact .inl hfar
  · right
    have hfar' : 3 * M_PI / 2 < |moonRA - sunRA| := not_le.mp hfar
    refine ⟨lt_of_le_of_lt (min_le_right _ _) (by linarith), ?_⟩
    rw [hmain]
    simp only [decide_eq_false_iff_not, not_lt]
    linarith

/-- Witness for C13: the Sun at right ascension 1/10 and the Moon at 31/5, which are about
0.18 rad apart around the circle; the kind reported is a lunar one. -/
theorem C13_quick_check_witness :
    eclipseKindIsMoreSolarThanLunar
      (calculateEclipse sampleFunctionsAcrossWrap sampleFunctionsExt (.num 0) (.num 0) (.num 0)
        none).eclipseKind = false ∧
    min |(31 / 5 : ℚ) - 1 / 10| (M_PI * 2 - |(31 / 5 : ℚ) - 1 / 10|) < M_PI / 2 := by
  have h := (C13_quick_check_compares_plain_difference sampleFunctionsAcrossWrap
    sampleFunctionsExt (.num 0) (.num 0) (.num 0) none (1 / 10) (31 / 5) rfl rfl rfl
    (by norm_num) (by norm_num [M_PI]) (by norm_num) (by norm_num [M_PI]) sampleFmod_small).2
  rcases h with h | h
  · exfalso
    rw [abs_of_pos (by norm_num)] at h
    norm_num [M_PI] at h
  · exact ⟨h.2, h.1⟩

theorem uincr_ne (n : Nat) : uincr n ≠ n := by
  unfold uincr
  intro h
  have h1 : (n + 1) % 2 ^ 32 < 2 ^ 32 := Nat.mod_lt _ (by norm_num)
  have h2 : n < 2 ^ 32 := by omega
  by_cases h3 : n + 1 < 2 ^ 32
  · rw [Nat.mod_eq_of_lt h3] at h
    omega
  · have h4 : n + 1 = 2 ^ 32 := by omega
    rw [h4, Nat.mod_self] at h
    omega

/-- C29 (code defect, evaluated). When the direction argument differs from the stored one,
`setupGlobalCacheFlag` stores only the direction and bumps the global flag: the stored
latitude, longitude and time-zone offset keep their old values. If the latitude argument is an
ordinary number different from the stored one, the stored latitude differs from the argument
after the call, and a second call with the same arguments bumps the global flag again. -/
theorem C29_direction_change_skips_location_update (pool : ECAstroCachePool)
    (latitude storedLatitude : ℚ) (observerLongitude : ESDouble) (runningBackward : Bool)
    (tzOffsetSeconds : Int) (hdirection : runningBackward ≠ pool.runningBackward)
    (hstored : pool.observerLatitude = .num storedLatitude)
    (hlatitude : latitude ≠ storedLatitude) :
    (setupGlobalCacheFlag pool (.num latitude) observerLongitude runningBackward
      tzOffsetSeconds).runningBackward = runningBackward ∧
    (setupGlobalCacheFlag pool (.num latitude) observerLongitude runningBackward
      tzOffsetSeconds).observerLatitude = pool.observerLatitude ∧
    (setupGlobalCacheFlag pool (.num latitude) observerLongitude runningBackward
      tzOffsetSeconds).observerLongitude = pool.observerLongitude ∧
    (setupGlobalCacheFlag pool (.num latitude) observerLongitude runningBackward
      tzOffsetSeconds).tzOffsetSeconds = pool.tzOffsetSeconds ∧
    (setupGlobalCacheFlag pool (.num latitude) observerLongitude runningBackward
      tzOffsetSeconds).observerLatitude ≠ .num latitude ∧
    (setupGlobalCacheFlag
      (setupGlobalCacheFlag pool (.num latitude) observerLongitude runningBackward
        tzOffsetSeconds)
      (.num latitude) observerLongitude runningBackward tzOffsetSeconds).currentGlobalCacheFlag ≠
    (setupGlobalCacheFlag pool (.num latitude) observerLongitude runningBackward
      tzOffsetSeconds).currentGlobalCacheFlag := by
  have h1 : setupGlobalCacheFlag pool (.num latitude) observerLongitude runningBackward
      tzOffsetSeconds =
      { pool with
        runningBackward := runningBackward
        currentGlobalCacheFlag := uincr pool.currentGlobalCacheFlag } := by
    unfold setupGlobalCacheFlag
    rw [if_pos hdirection]
  rw [h1]
  refine ⟨rfl, rfl, rfl, rfl, ?_, ?_⟩
  · show pool.observerLatitude ≠ .num latitude
    rw [hstored]
    intro h
    exact hlatitude (ESDouble.num.inj h).symm
  · unfold setupGlobalCacheFlag
    have hne : ESDouble.ne (.num latitude) pool.observerLatitude = true := by
      rw [hstored]
      simp [ESDouble.ne, hlatitude]
    simp only [ne_eq, not_true_eq_false, if_false, hne, or_true, true_or, if_true]
    exact uincr_ne _

/-- Witness for C29: the pool after `initializeAstroCache` (forward, latitude 0), set up for a
backward-running clock at latitude 1. -/
theorem C29_direction_change_witness :
    (setupGlobalCacheFlag initialPool (.num 1) (.num 0) true 0).observerLatitude = .num 0 ∧
    (setupGlobalCacheFlag initialPool (.num 1) (.num 0) true 0).currentGlobalCacheFlag = 2 ∧
    (setupGlobalCacheFlag (setupGlobalCacheFlag initialPool (.num 1) (.num 0) true 0)
      (.num 1) (.num 0) true 0).currentGlobalCacheFlag = 3 ∧
    (setupGlobalCacheFlag (setupGlobalCacheFlag initialPool (.num 1) (.num 0) true 0)
      (.num 1) (.num 0) true 0).currentGlobalCacheFlag ≠
    (setupGlobalCacheFlag initialPool (.num 1) (.num 0) true 0).currentGlobalCacheFlag :=
  ⟨by decide!, by decide!, by decide!,
    (C29_direction_change_skips_location_update initialPool 1 0 (.num 0) true 0 (by decide) rfl
      (by decide)).2.2.2.2.2⟩

/-- C28 (code defect, evaluated). `getParamsForAltitudeKind` maps the golden-hour and twilight
kinds to +15, -6, -12 and -18 degrees, morning kinds rising and evening kinds setting, and the
kinds `sunRiseMorning` and `sunSetEvening` to a NaN altitude ("no override"). But
`sunTimeForDayForAltitudeKind` returns every NaN altitude at once, so for `sunRiseMorning` and
`sunSetEvening` it returns a NaN in every state and performs no rise/set calculation, while
`sunriseForDay()` and `sunsetForDay()` return ordinary instants (0 and 0 on the sample sky
bound at instant 1000). -/
theorem C28_sunTimeForDay_returns_NaN_for_true_rise_and_set (fn : AstroFunctions)
    (localDateComponents : LocalDateComponents) (m : ESAstronomyManager) :
    getParamsForAltitudeKind sunGoldenHourMorning = (.num (15 * M_PI / 180), true) ∧
    getParamsForAltitudeKind sunGoldenHourEvening = (.num (15 * M_PI / 180), false) ∧
    getParamsForAltitudeKind sunCivilTwilightMorning = (.num (-6 * M_PI / 180), true) ∧
    getParamsForAltitudeKind sunCivilTwilightEvening = (.num (-6 * M_PI / 180), false) ∧
    getParamsForAltitudeKind sunNauticalTwilightMorning = (.num (-12 * M_PI / 180), true) ∧
    getParamsForAltitudeKind sunNauticalTwilightEvening = (.num (-12 * M_PI / 180), false) ∧
    getParamsForAltitudeKind sunAstroTwilightMorning = (.num (-18 * M_PI / 180), true) ∧
    getParamsForAltitudeKind sunAstroTwilightEvening = (.num (-18 * M_PI / 180), false) ∧
    getParamsForAltitudeKind sunRiseMorning = (genericNaN, true) ∧
    getParamsForAltitudeKind sunSetEvening = (genericNaN, false) ∧
    m.sunTimeForDayForAltitudeKind fn localDateComponents sunRiseMorning = (genericNaN, m) ∧
    m.sunTimeForDayForAltitudeKind fn localDateComponents sunSetEvening = (genericNaN, m) ∧
    (boundManagerAt1000.sunriseForDay sampleFunctions sampleLocalDateComponents).1 = .num 0 ∧
    (boundManagerAt1000.sunsetForDay sampleFunctions sampleLocalDateComponents).1 = .num 0 ∧
    (boundManagerAt1000.sunTimeForDayForAltitudeKind sampleFunctions sampleLocalDateComponents
      sunCivilTwilightMorning).1 = .num 0 := by
  refine ⟨by decide!, by decide!, by decide!, by decide!, by decide!, by decide!, by decide!,
    by decide!, by decide!, by decide!, ?_, ?_, by decide!, by decide!, by decide!⟩
  · unfold ESAstronomyManager.sunTimeForDayForAltitudeKind
    have h : getParamsForAltitudeKind sunRiseMorning = (genericNaN, true) := by decide!
    cases hl : m.locationValid <;> simp [h, genericNaN, ESDouble.isnan]
  · unfold ESAstronomyManager.sunTimeForDayForAltitudeKind
    have h : getParamsForAltitudeKind sunSetEvening = (genericNaN, false) := by decide!
    cases hl : m.locationValid <;> simp [h, genericNaN, ESDouble.isnan]

/-- C26 (code defect, evaluated). With the statics in their initial state (start instant 0,
year value 0), every first call without a cache for an instant `t` with `0 < t < 330 days`
takes the memo for valid and computes with the start of year 0 and the year value 0, whatever
the calendar says, and leaves the statics as they were. With a memo that agrees with the
calendar at the instant, the result is that of the un-memoised computation. At `t = 86400`
(2001-01-02), whose calendar year is 2001, the memoised result from the initial state differs
from the un-memoised one. -/
theorem C26_initial_memo_is_taken_for_year_zero (calendar : ESCalendarFunctions) (t : ℚ)
    (memo : YearMemo) (hafter : 0 < t) (hwindow : t < 24 * 3600 * 330) :
    (julianCenturiesSince2000EpochForDateInterval calendar (.num t) none initialYearMemo).1 =
      julianCenturiesFromYearStart (.num t) (.num 0) 0 ∧
    (julianCenturiesSince2000EpochForDateInterval calendar (.num t) none initialYearMemo).2.2 =
      initialYearMemo ∧
    (firstOfYearAndYearValue calendar (.num t) =
        (memo.lastCalculatedFirstInterval, memo.lastYearValue) →
      (julianCenturiesSince2000EpochForDateInterval calendar (.num t) none memo).1 =
        julianCenturiesUnmemoised calendar (.num t)) ∧
    julianCenturiesUnmemoised sampleCalendar (.num 86400) =
      julianCenturiesFromYearStart (.num 86400) (.num 0) 2001 ∧
    (julianCenturiesSince2000EpochForDateInterval sampleCalendar (.num 86400) none
      initialYearMemo).1 ≠ julianCenturiesUnmemoised sampleCalendar (.num 86400) := by
  have hhit : (ESDouble.gt (.num t) initialYearMemo.lastCalculatedFirstInterval &&
      ESDouble.lt (.num t)
        (ESDouble.add initialYearMemo.lastCalculatedFirstInterval (.num (24 * 3600 * 330)))) =
      true := by
    simp only [initialYearMemo, ESDouble.gt_num, ESDouble.add_num, ESDouble.lt_num, zero_add,
      Bool.and_eq_true, decide_eq_true_eq]
    exact ⟨hafter, hwindow⟩
  refine ⟨?_, ?_, ?_, by decide!, by decide!⟩
  · simp only [julianCenturiesSince2000EpochForDateInterval, cacheHit, Bool.false_eq_true,
      if_false, hhit, if_true]
    rfl
  · simp only [julianCenturiesSince2000EpochForDateInterval, cacheHit, Bool.false_eq_true,
      if_false, hhit, if_true]
  · intro hagree
    simp only [julianCenturiesSince2000EpochForDateInterval, cacheHit, Bool.false_eq_true,
      if_false, julianCenturiesUnmemoised, hagree]
    split_ifs <;> rfl

/-- Witness for C26: the first call of the process, for the instant 86400 (2001-01-02 00:00
UT), with the sample calendar. -/
theorem C26_initial_memo_witness :
    (julianCenturiesSince2000EpochForDateInterval sampleCalendar (.num 86400) none
      initialYearMemo).1 = julianCenturiesFromYearStart (.num 86400) (.num 0) 0 ∧
    julianCenturiesFromYearStart (.num 86400) (.num 0) 0 ≠
      julianCenturiesFromYearStart (.num 86400) (.num 0) 2001 :=
  ⟨(C26_initial_memo_is_taken_for_year_zero sampleCalendar 86400 initialYearMemo (by norm_num)
      (by norm_num)).1, by decide!⟩

/-- C27 (counterexample). At epoch 0, right ascension 1 and declination 0 on the sample
functions, `refineConvertToJ2000FromOfDate` calls the forward conversion twice, not three
times, among its five conversions. -/
theorem C27_counterexample_two_forward_conversions :
    ((refineConvertToJ2000FromOfDate sampleFunctions sampleFunctionsExt (.num 0) (.num 1)
      (.num 0)).2.filter ConversionCall.isForward).length = 2 ∧
    (refineConvertToJ2000FromOfDate sampleFunctions sampleFunctionsExt (.num 0) (.num 1)
      (.num 0)).2.length = 5 := by
  constructor <;> rfl

/-- C27 (amended). `refineConvertToJ2000FromOfDate` follows a fixed schedule with no tolerance
test: with `R` the Meeus of-date-to-J2000 conversion and `F` the P03 J2000-to-of-date
conversion it returns `R(x2)` for `x1 = x0 + (x0 - F(R(x0)))`, `x2 = x1 + (x0 - F(R(x1)))`,
and for every input it performs exactly five conversions: three reverse and two forward ones
(two round trips and a final reverse conversion). -/
theorem C27_refine_follows_fixed_schedule (fn : AstroFunctions) (ex : AstroFunctionsExt)
    (T raOfDate declOfDate : ESDouble) :
    (refineConvertToJ2000FromOfDate fn ex T raOfDate declOfDate).1 =
      refinementSchedule (fun x => convertToJ2000FromOfDate fn ex T x.1 x.2)
        (fun x => convertJ2000ToOfDate fn ex T x.1 x.2) (raOfDate, declOfDate) ∧
    (refineConvertToJ2000FromOfDate fn ex T raOfDate declOfDate).2.length = 5 ∧
    ((refineConvertToJ2000FromOfDate fn ex T raOfDate declOfDate).2.filter
      ConversionCall.isForward).length = 2 ∧
    ((refineConvertToJ2000FromOfDate fn ex T raOfDate declOfDate).2.filter
      (fun call => !call.isForward)).length = 3 ∧
    (refineConvertToJ2000FromOfDate fn ex T raOfDate declOfDate).2.map ConversionCall.isForward =
      [false, true, false, true, false] :=
  ⟨rfl, rfl, rfl, rfl, rfl⟩

theorem transitLoopHead_facts (planetNumber : Nat) (st : TransitState)
    (hinv : TransitInv planetNumber st) (hi : st.i < transitNumIterations) :
    TransitInv planetNumber (transitLoopHead planetNumber st) ∧
      (transitLoopHead planetNumber st).i < transitNumIterations ∧
      (transitLoopHead planetNumber st).bodies = st.bodies ∧
      transitMeasure planetNumber (transitLoopHead planetNumber st) =
        transitMeasure planetNumber st := by
  obtain ⟨h1, h2, h3, h4⟩ := hinv
  unfold transitLoopHead
  split_ifs with hc
  · obtain ⟨hm, hi6, hp⟩ := hc
    simp only [TransitInv, transitMeasure, transitNumIterations] at *
    simp [hm, hp, hi6, h3]
  · exact ⟨⟨h1, h2, h3, h4⟩, hi, rfl, rfl⟩

theorem transitAdvance_facts (ex : AstroFunctionsExt) (planetNumber : Nat) (st : TransitState)
    (newDate : ESTimeInterval) (cachePool : ECAstroCachePool)
    (hinv : TransitInv planetNumber st) (hi : st.i < transitNumIterations) :
    match transitAdvance ex planetNumber st newDate cachePool with
    | .done r => r.ranOutOfFuel = false ∧ r.bodies = st.bodies ∧
        r.slotsReached ≤ transitNumIterations
    | .next st1 => TransitInv planetNumber st1 ∧ st1.bodies = st.bodies ∧
        transitMeasure planetNumber st1 + 1 ≤ transitMeasure planetNumber st := by
  obtain ⟨g1, g2, g3, g4⟩ := hinv
  unfold transitAdvance
  generalize ESDouble.lt (ESDouble.fabs (ESDouble.sub newDate st.tryDate)) (.num 0.1) = close
  by_cases hm : planetNumber = ECPlanetMoon ∧ st.precision ≠ .full
  · have hmoon := hm.1
    cases close
    · simp only [Bool.false_eq_true, false_and, if_false, TransitInv, transitMeasure,
        transitNumIterations, if_pos hm] at *
      exact ⟨⟨by omega, by omega, by omega, fun hne => absurd hmoon hne⟩, trivial, by omega⟩
    · simp only [true_and, not_not, if_neg (not_not.mpr hm), if_true, TransitInv,
        transitMeasure, transitNumIterations, if_pos hm] at *
      refine ⟨⟨by omega, by omega, by omega, fun _ => trivial⟩, ?_⟩
      simp only [ne_eq, not_true_eq_false, and_false, if_false]
      omega
  · cases close
    · simp only [Bool.false_eq_true, false_and, if_false, TransitInv, transitMeasure,
        transitNumIterations, if_neg hm] at *
      exact ⟨⟨by omega, by omega, by omega, g4⟩, trivial, by omega⟩
    · simp only [true_and, if_pos hm]
      exact g3

theorem transitLoopBody_facts (fn : AstroFunctions) (ex : AstroFunctionsExt)
    (observerLongitude : ESDouble) (wantHighTransit : Bool) (planetNumber : Nat)
    (st : TransitState) (hinv : TransitInv planetNumber st) (hi : st.i < transitNumIterations) :
    match transitLoopBody fn ex observerLongitude wantHighTransit planetNumber st with
    | .done r => r.ranOutOfFuel = false ∧ r.bodies = st.bodies + 1 ∧
        r.slotsReached ≤ transitNumIterations
    | .next st1 => TransitInv planetNumber st1 ∧ st1.bodies = st.bodies + 1 ∧
        transitMeasure planetNumber st1 + 1 ≤ transitMeasure planetNumber st := by
  obtain ⟨ginv, gi, gb, gm⟩ := transitLoopHead_facts planetNumber st hinv hi
  have key := transitAdvance_facts ex planetNumber
    { transitLoopHead planetNumber st with bodies := (transitLoopHead planetNumber st).bodies + 1 }
    (transitTimeAt fn ex observerLongitude wantHighTransit planetNumber
      (transitLoopHead planetNumber st).tryDate (transitLoopHead planetNumber st).precision
      (transitLoopHead planetNumber st).cachePool).1
    (transitTimeAt fn ex observerLongitude wantHighTransit planetNumber
      (transitLoopHead planetNumber st).tryDate (transitLoopHead planetNumber st).precision
      (transitLoopHead planetNumber st).cachePool).2 ginv gi
  unfold transitLoopBody
  simp only
  revert key
  cases transitAdvance ex planetNumber
    { transitLoopHead planetNumber st with bodies := (transitLoopHead planetNumber st).bodies + 1 }
    (transitTimeAt fn ex observerLongitude wantHighTransit planetNumber
      (transitLoopHead planetNumber st).tryDate (transitLoopHead planetNumber st).precision
      (transitLoopHead planetNumber st).cachePool).1
    (transitTimeAt fn ex observerLongitude wantHighTransit planetNumber
      (transitLoopHead planetNumber st).tryDate (transitLoopHead planetNumber st).precision
      (transitLoopHead planetNumber st).cachePool).2 with
  | done r =>
    intro key
    simp only [gb] at key
    exact key
  | next st1 =>
    intro key
    simp only [gb] at key
    refine ⟨key.1, key.2.1, ?_⟩
    have hm : transitMeasure planetNumber
        { transitLoopHead planetNumber st with
          bodies := (transitLoopHead planetNumber st).bodies + 1 } =
        transitMeasure planetNumber st := by rw [← gm]; rfl
    rw [← hm]
    exact key.2.2

theorem transitLoop_facts (fn : AstroFunctions) (ex : AstroFunctionsExt)
    (observerLongitude : ESDouble) (wantHighTransit : Bool) (planetNumber : Nat) :
    ∀ (fuel : Nat) (st : TransitState), TransitInv planetNumber st →
      transitMeasure planetNumber st < fuel →
      (transitLoop fn ex observerLongitude wantHighTransit planetNumber fuel st).ranOutOfFuel =
          false ∧
        (transitLoop fn ex observerLongitude wantHighTransit planetNumber fuel st).bodies ≤
          st.bodies + transitMeasure planetNumber st ∧
        (transitLoop fn ex observerLongitude wantHighTransit planetNumber fuel st).slotsReached ≤
          transitNumIterations := by
  intro fuel
  induction fuel with
  | zero => intro st _ h; omega
  | succ fuel ih =>
    intro st hinv hfuel
    unfold transitLoop
    by_cases hi : st.i < transitNumIterations
    · rw [if_pos hi]
      have key := transitLoopBody_facts fn ex observerLongitude wantHighTransit planetNumber st
        hinv hi
      have hpos : 1 ≤ transitMeasure planetNumber st := by
        unfold transitMeasure; omega
      revert key
      cases transitLoopBody fn ex observerLongitude wantHighTransit planetNumber st with
      | done r =>
        intro key
        exact ⟨key.1, by rw [key.2.1]; omega, key.2.2⟩
      | next st1 =>
        intro key
        obtain ⟨k1, k2, k3⟩ := key
        obtain ⟨r1, r2, r3⟩ := ih st1 k1 (by omega)
        exact ⟨r1, by simp only at r2 ⊢; omega, r3⟩
    · rw [if_neg hi]
      exact ⟨rfl, Nat.le_add_right _ _, hinv.2.2.1⟩

theorem transitEntry_inv (calculationDateInterval : ESTimeInterval) (planetNumber : Nat)
    (cachePool : ECAstroCachePool) :
    TransitInv planetNumber (transitEntry calculationDateInterval planetNumber cachePool) := by
  refine ⟨Nat.zero_le _, Nat.le_refl _, Nat.zero_le _, fun hne => ?_⟩
  simp [transitEntry, hne]

theorem transitEntry_measure (calculationDateInterval : ESTimeInterval) (planetNumber : Nat)
    (cachePool : ECAstroCachePool) :
    transitMeasure planetNumber (transitEntry calculationDateInterval planetNumber cachePool) =
      if planetNumber = ECPlanetMoon then 8 else 7 := by
  by_cases hm : planetNumber = ECPlanetMoon <;>
    simp [transitMeasure, transitEntry, transitNumIterations, hm]

/-- Every call of `planettransitTimeRefined` is completed by the code within the fuel, after
at most 8 executions of the loop body, 7 for a body other than the Moon, and its writes stay
within the first 7 slots of the arrays. -/
theorem planettransitTimeRefined_facts (fn : AstroFunctions) (ex : AstroFunctionsExt)
    (calculationDateInterval : ESTimeInterval) (observerLatitude observerLongitude : ESDouble)
    (wantHighTransit : Bool) (planetNumber : Nat) (overrideAltitudeDesired : ESDouble)
    (cachePool : ECAstroCachePool) :
    (planettransitTimeRefined fn ex calculationDateInterval observerLatitude observerLongitude
        wantHighTransit planetNumber overrideAltitudeDesired cachePool).ranOutOfFuel = false ∧
      (planettransitTimeRefined fn ex calculationDateInterval observerLatitude observerLongitude
        wantHighTransit planetNumber overrideAltitudeDesired cachePool).bodies ≤
        (if planetNumber = ECPlanetMoon then 8 else 7) ∧
      (planettransitTimeRefined fn ex calculationDateInterval observerLatitude observerLongitude
        wantHighTransit planetNumber overrideAltitudeDesired cachePool).slotsReached ≤
        transitNumIterations := by
  have hm := transitEntry_measure calculationDateInterval planetNumber cachePool
  have key := transitLoop_facts fn ex observerLongitude wantHighTransit planetNumber
    (transitNumIterations + 2) (transitEntry calculationDateInterval planetNumber cachePool)
    (transitEntry_inv calculationDateInterval planetNumber cachePool)
    (by rw [hm]; unfold transitNumIterations; split_ifs <;> omega)
  rw [hm] at key
  unfold planettransitTimeRefined
  refine ⟨key.1, ?_, key.2.2⟩
  have hb : (transitEntry calculationDateInterval planetNumber cachePool).bodies = 0 := rfl
  rw [hb, Nat.zero_add] at key
  exact key.2.1

theorem splitEvaluations_append (log : List RiseSetEvaluation) (e : RiseSetEvaluation) :
    splitEvaluations (log ++ [e]) = splitEvaluations log + (if e.kind = .split then 1 else 0) := by
  unfold splitEvaluations
  rw [List.countP_append]
  by_cases h : e.kind = .split <;> simp [List.countP_cons, h]

theorem polarEvaluations_append (log : List RiseSetEvaluation) (e : RiseSetEvaluation) :
    polarEvaluations (log ++ [e]) =
      polarEvaluations log + (if e.kind ≠ .trial ∧ e.kind ≠ .transit then 1 else 0) := by
  unfold polarEvaluations
  rw [List.countP_append]
  by_cases h : e.kind ≠ .trial ∧ e.kind ≠ .transit
  · simp [List.countP_cons, h]
  · rw [if_neg h]
    simp only [List.countP_cons, List.countP_nil, decide_eq_true_eq, if_neg h, Nat.zero_add]

theorem riseSetConvergenceTest_step (call : RiseSetCall) (hd st : RiseSetState)
    (hi : st.i = hd.i) (hp : st.precision = hd.precision) (hb : st.bodies = hd.bodies + 1)
    (hlt : hd.i < riseSetNumIterations) (hfit : st.fitTries ≤ hd.i + 1)
    (hslots : st.slotsReached ≤ riseSetNumIterations)
    (hsplit : splitEvaluations st.log ≤ (if st.convergedToInvalid then numPolarTries else 0))
    (hpolar : polarSpecial call.observerLatitude = false → polarEvaluations st.log = 0)
    (hfirst : st.firstNan.isnan = true) :
    RiseSetStep call hd (riseSetConvergenceTest call.planetNumber st) := by
  have hsplit10 : splitEvaluations st.log ≤ numPolarTries := by
    refine le_trans hsplit ?_
    split_ifs
    · exact le_refl _
    · exact Nat.zero_le _
  unfold riseSetConvergenceTest
  dsimp only
  simp only [riseSetNumIterations] at hlt hslots
  by_cases hclose : ESDouble.lt (ESDouble.fabs (ESDouble.sub st.lastValidResultDate
    st.lastValidTryDate)) (.num 0.1) = true
  · rw [if_pos hclose]
    by_cases hm : call.planetNumber = ECPlanetMoon ∧ st.precision ≠ .full
    · rw [if_pos hm]
      have hm1 : call.planetNumber = ECPlanetMoon ∧ hd.precision ≠ .full := by
        rw [← hp]; exact hm
      refine ⟨⟨?_, ?_, hslots, hsplit, hpolar, hfirst⟩, hb, ?_⟩
      · show st.i + 1 ≤ riseSetNumIterations
        unfold riseSetNumIterations; omega
      · show st.fitTries ≤ st.i + 1
        omega
      · show riseSetNumIterations - (st.i + 1) +
            (if call.planetNumber = ECPlanetMoon ∧ ECWBPrecision.full ≠ .full then 1 else 0) + 1 ≤
          riseSetNumIterations - hd.i +
            (if call.planetNumber = ECPlanetMoon ∧ hd.precision ≠ .full then 1 else 0)
        rw [if_pos hm1, if_neg (fun h => h.2 rfl)]
        unfold riseSetNumIterations; omega
    · rw [if_neg hm]
      exact ⟨rfl, hb, hslots, hsplit10, hpolar⟩
  · rw [if_neg hclose]
    refine ⟨⟨?_, ?_, hslots, hsplit, hpolar, hfirst⟩, hb, ?_⟩
    · show st.i + 1 ≤ riseSetNumIterations
      unfold riseSetNumIterations; omega
    · show st.fitTries ≤ st.i + 1
      omega
    · show riseSetNumIterations - (st.i + 1) +
          (if call.planetNumber = ECPlanetMoon ∧ st.precision ≠ .full then 1 else 0) + 1 ≤
        riseSetNumIterations - hd.i +
          (if call.planetNumber = ECPlanetMoon ∧ hd.precision ≠ .full then 1 else 0)
      rw [hp, hi]
      unfold riseSetNumIterations; omega
theorem polarBinarySearch_log (fn : AstroFunctions) (ex : AstroFunctionsExt) (call : RiseSetCall)
    (precision : ECWBPrecision) :
    ∀ (polarTries : Nat) (s : PolarState),
      splitEvaluations (polarBinarySearch fn ex call precision polarTries s).log ≤
        splitEvaluations s.log + polarTries := by
  intro polarTries
  induction polarTries with
  | zero => intro s; exact le_refl _
  | succ n ih =>
    intro s
    unfold polarBinarySearch
    dsimp only
    split_ifs
    · show splitEvaluations (s.log ++ [_]) ≤ _
      rw [splitEvaluations_append]
      simp only [if_true]
      omega
    · refine le_trans (ih _) ?_
      show splitEvaluations (s.log ++ [_]) + n ≤ _
      rw [splitEvaluations_append]
      simp only [if_true]
      omega
    · refine le_trans (ih _) ?_
      show splitEvaluations (s.log ++ [_]) + n ≤ _
      rw [splitEvaluations_append]
      simp only [if_true]
      omega

theorem polarFinish_log (fn : AstroFunctions) (ex : AstroFunctionsExt) (call : RiseSetCall)
    (precision : ECWBPrecision) (s : PolarState) :
    splitEvaluations (polarFinish fn ex call precision s).state.log ≤
      splitEvaluations s.log + numPolarTries := by
  unfold polarFinish
  dsimp only
  split_ifs
  · exact polarBinarySearch_log fn ex call precision numPolarTries s
  · exact polarBinarySearch_log fn ex call precision numPolarTries s
  · exact Nat.le_add_right _ _

theorem polarSearch_log (fn : AstroFunctions) (ex : AstroFunctionsExt) (call : RiseSetCall)
    (precision : ECWBPrecision) (tryDate transitT newDate : ESTimeInterval)
    (cachePool : ECAstroCachePool) (log : List RiseSetEvaluation) :
    splitEvaluations
        (polarSearch fn ex call precision tryDate transitT newDate cachePool log).state.log ≤
      splitEvaluations log + numPolarTries := by
  have hprior : ∀ e : RiseSetEvaluation, e.kind = .priorPolar →
      splitEvaluations (log ++ [e]) = splitEvaluations log := by
    intro e he
    rw [splitEvaluations_append, he]
    rfl
  have hnext : ∀ e1 e2 : RiseSetEvaluation, e1.kind = .priorPolar → e2.kind = .nextPolar →
      splitEvaluations (log ++ [e1] ++ [e2]) = splitEvaluations log := by
    intro e1 e2 h1 h2
    rw [splitEvaluations_append, h2, hprior e1 h1]
    rfl
  unfold polarSearch
  dsimp only
  split_ifs
  all_goals first
    | (refine le_trans (polarFinish_log fn ex call precision _) ?_
       first
         | (show splitEvaluations (log ++ [_] ++ [_]) + _ ≤ _
            rw [hnext _ _ rfl rfl])
         | (show splitEvaluations (log ++ [_]) + _ ≤ _
            rw [hprior _ rfl]))
    | (show splitEvaluations (log ++ [_] ++ [_]) ≤ _
       rw [hnext _ _ rfl rfl]
       exact Nat.le_add_right _ _)
    | (show splitEvaluations (log ++ [_]) ≤ _
       rw [hprior _ rfl]
       exact Nat.le_add_right _ _)

theorem recordValid_step (call : RiseSetCall) (ex : AstroFunctionsExt) (hd st : RiseSetState)
    (tryDate newDate : ESTimeInterval)
    (hi : st.i = hd.i) (hp : st.precision = hd.precision) (hb : st.bodies = hd.bodies + 1)
    (hlt : hd.i < riseSetNumIterations) (hfit : st.fitTries ≤ hd.i)
    (hslots : st.slotsReached ≤ riseSetNumIterations)
    (hsplit : splitEvaluations st.log ≤ (if st.convergedToInvalid then numPolarTries else 0))
    (hpolar : polarSpecial call.observerLatitude = false → polarEvaluations st.log = 0)
    (hfirst : st.firstNan.isnan = true) :
    RiseSetStep call hd
      (riseSetConvergenceTest call.planetNumber (st.recordValid ex tryDate newDate)) := by
  refine riseSetConvergenceTest_step call hd _ hi hp hb hlt ?_ ?_ hsplit hpolar hfirst
  · show st.fitTries + 1 ≤ hd.i + 1
    omega
  · show max st.slotsReached (st.fitTries + 1) ≤ riseSetNumIterations
    unfold riseSetNumIterations at *
    omega

theorem riseSetAfterPolar_step (call : RiseSetCall) (ex : AstroFunctionsExt)
    (hd st : RiseSetState) (out : PolarOutcome)
    (hi : st.i = hd.i) (hp : st.precision = hd.precision) (hb : st.bodies = hd.bodies + 1)
    (hlt : hd.i < riseSetNumIterations) (hfit : st.fitTries ≤ hd.i)
    (hslots : st.slotsReached ≤ riseSetNumIterations)
    (hconv : st.convergedToInvalid = true)
    (hsplit : splitEvaluations out.state.log ≤ numPolarTries)
    (hpolar : polarSpecial call.observerLatitude = true)
    (hfirst : st.firstNan.isnan = true) :
    RiseSetStep call hd (riseSetAfterPolar ex call.planetNumber st out) := by
  have hnotpolar : polarSpecial call.observerLatitude = false → False := by
    intro h; rw [h] at hpolar; exact Bool.noConfusion hpolar
  cases out with
  | giveUp s => exact ⟨rfl, hb, hslots, hsplit, fun h => (hnotpolar h).elim⟩
  | found s =>
    refine recordValid_step call ex hd _ s.transitT s.newDate hi hp hb hlt hfit hslots ?_
      (fun h => (hnotpolar h).elim) hfirst
    show splitEvaluations s.log ≤ (if st.convergedToInvalid = true then numPolarTries else 0)
    rw [if_pos hconv]
    exact hsplit

theorem riseSetFirstInvalid_step (fn : AstroFunctions) (ex : AstroFunctionsExt)
    (call : RiseSetCall) (hd st : RiseSetState) (newDate : ESTimeInterval)
    (hi : st.i = hd.i) (hp : st.precision = hd.precision) (hb : st.bodies = hd.bodies + 1)
    (hlt : hd.i < riseSetNumIterations) (hfit : st.fitTries ≤ hd.i)
    (hslots : st.slotsReached ≤ riseSetNumIterations)
    (hsplit : splitEvaluations st.log = 0)
    (hpolar : polarSpecial call.observerLatitude = false → polarEvaluations st.log = 0)
    (hfirst : newDate.isnan = true) :
    RiseSetStep call hd (riseSetFirstInvalid fn ex call st newDate) := by
  have hlog : ∀ e : RiseSetEvaluation, e.kind = .transit →
      splitEvaluations (st.log ++ [e]) = 0 ∧
        (polarSpecial call.observerLatitude = false → polarEvaluations (st.log ++ [e]) = 0) := by
    intro e he
    constructor
    · rw [splitEvaluations_append, he, hsplit]; rfl
    · intro hnp
      rw [polarEvaluations_append, he, hpolar hnp]; rfl
  unfold riseSetFirstInvalid
  dsimp only
  split_ifs with hnan hps
  · refine riseSetAfterPolar_step call ex hd _ _ hi hp hb hlt hfit hslots rfl ?_ hps hfirst
    refine le_trans (polarSearch_log fn ex call _ _ _ _ _ _) ?_
    rw [(hlog _ rfl).1, Nat.zero_add]
  · refine ⟨rfl, hb, hslots, ?_, ?_⟩
    · show splitEvaluations (st.log ++ [_]) ≤ _
      rw [(hlog _ rfl).1]; exact Nat.zero_le _
    · exact (hlog _ rfl).2
  · refine recordValid_step call ex hd _ _ _ hi hp hb hlt hfit hslots ?_ ?_ hfirst
    · show splitEvaluations (st.log ++ [_]) ≤ _
      rw [(hlog _ rfl).1]; exact Nat.zero_le _
    · exact (hlog _ rfl).2

theorem riseSetLoopHead_facts (call : RiseSetCall) (st : RiseSetState)
    (hinv : RiseSetInv call st) (hi : st.i < riseSetNumIterations) :
    RiseSetInv call (riseSetLoopHead call.planetNumber st) ∧
      (riseSetLoopHead call.planetNumber st).i < riseSetNumIterations ∧
      (riseSetLoopHead call.planetNumber st).bodies = st.bodies ∧
      (riseSetLoopHead call.planetNumber st).log = st.log ∧
      (riseSetLoopHead call.planetNumber st).convergedToInvalid = st.convergedToInvalid ∧
      riseSetMeasure call.planetNumber (riseSetLoopHead call.planetNumber st) =
        riseSetMeasure call.planetNumber st := by
  obtain ⟨h1, h2, h3, h4, h5, h6⟩ := hinv
  unfold riseSetLoopHead
  split_ifs with hc
  · obtain ⟨hm, hi19, hp⟩ := hc
    refine ⟨⟨?_, ?_, h3, h4, h5, h6⟩, ?_, rfl, rfl, rfl, ?_⟩
    · show st.i - 1 ≤ riseSetNumIterations
      omega
    · show 0 ≤ st.i - 1
      exact Nat.zero_le _
    · show st.i - 1 < riseSetNumIterations
      omega
    · show riseSetNumIterations - (st.i - 1) +
          (if call.planetNumber = ECPlanetMoon ∧ ECWBPrecision.full ≠ .full then 1 else 0) =
        riseSetNumIterations - st.i +
          (if call.planetNumber = ECPlanetMoon ∧ st.precision ≠ .full then 1 else 0)
      have e1 : (if call.planetNumber = ECPlanetMoon ∧ ECWBPrecision.full ≠ .full then 1 else 0) =
          0 := if_neg (fun h => h.2 rfl)
      have e2 : (if call.planetNumber = ECPlanetMoon ∧ st.precision ≠ .full then 1 else 0) = 1 :=
        if_pos ⟨hm, hp⟩
      rw [e1, e2, hi19]
      rfl
  · exact ⟨⟨h1, h2, h3, h4, h5, h6⟩, hi, rfl, rfl, rfl, rfl⟩

theorem riseSetLoopBody_step (fn : AstroFunctions) (ex : AstroFunctionsExt)
    (call : RiseSetCall) (st : RiseSetState) (hinv : RiseSetInv call st)
    (hi : st.i < riseSetNumIterations) :
    RiseSetStep call st (riseSetLoopBody fn ex call st) := by
  obtain ⟨⟨g1, g2, g3, g4, g5, g6⟩, gi, gb, glog, gconv, gm⟩ :=
    riseSetLoopHead_facts call st hinv hi
  have transfer : ∀ out, RiseSetStep call (riseSetLoopHead call.planetNumber st) out →
      RiseSetStep call st out := by
    intro out hout
    cases out with
    | done r =>
      obtain ⟨k1, k2, k3, k4, k5⟩ := hout
      exact ⟨k1, by rw [← gb]; exact k2, k3, k4, k5⟩
    | next st1 =>
      obtain ⟨k1, k2, k3⟩ := hout
      exact ⟨k1, by rw [← gb]; exact k2, by rw [← gm]; exact k3⟩
  apply transfer
  unfold riseSetLoopBody
  dsimp only
  generalize riseSetLoopHead call.planetNumber st = hd at *
  have hlog : ∀ e : RiseSetEvaluation, e.kind = .trial →
      splitEvaluations (hd.log ++ [e]) = splitEvaluations hd.log ∧
        (polarSpecial call.observerLatitude = false → polarEvaluations (hd.log ++ [e]) = 0) := by
    intro e he
    constructor
    · rw [splitEvaluations_append, he]; rfl
    · intro hnp
      rw [polarEvaluations_append, he, g5 hnp]; rfl
  split_ifs with hnan hconv
  · refine riseSetFirstInvalid_step fn ex call hd _ _ rfl rfl rfl gi g2 g3 ?_ (hlog _ rfl).2 hnan
    show splitEvaluations (hd.log ++ [_]) = 0
    rw [(hlog _ rfl).1]
    rw [hconv] at g4
    simpa using g4
  · refine riseSetConvergenceTest_step call hd _ rfl rfl rfl gi (by
      show hd.fitTries ≤ hd.i + 1
      omega) g3 ?_ (hlog _ rfl).2 g6
    show splitEvaluations (hd.log ++ [_]) ≤ _
    rw [(hlog _ rfl).1]
    exact g4
  · refine recordValid_step call ex hd _ _ _ rfl rfl rfl gi g2 g3 ?_ (hlog _ rfl).2 g6
    show splitEvaluations (hd.log ++ [_]) ≤ _
    rw [(hlog _ rfl).1]
    exact g4

theorem riseSetExhausted_fields (st : RiseSetState) :
    (riseSetExhausted st).ranOutOfFuel = false ∧ (riseSetExhausted st).bodies = st.bodies ∧
      (riseSetExhausted st).slotsReached = st.slotsReached ∧
      (riseSetExhausted st).log = st.log := by
  unfold riseSetExhausted
  split_ifs <;> exact ⟨rfl, rfl, rfl, rfl⟩

theorem riseSetLoop_facts (fn : AstroFunctions) (ex : AstroFunctionsExt) (call : RiseSetCall) :
    ∀ (fuel : Nat) (st : RiseSetState), RiseSetInv call st →
      riseSetMeasure call.planetNumber st < fuel →
      (riseSetLoop fn ex call fuel st).ranOutOfFuel = false ∧
        (riseSetLoop fn ex call fuel st).bodies ≤
          st.bodies + riseSetMeasure call.planetNumber st ∧
        (riseSetLoop fn ex call fuel st).slotsReached ≤ riseSetNumIterations ∧
        splitEvaluations (riseSetLoop fn ex call fuel st).log ≤ numPolarTries ∧
        (polarSpecial call.observerLatitude = false →
          polarEvaluations (riseSetLoop fn ex call fuel st).log = 0) := by
  intro fuel
  induction fuel with
  | zero => intro st _ h; omega
  | succ fuel ih =>
    intro st hinv hfuel
    unfold riseSetLoop
    by_cases hi : st.i < riseSetNumIterations
    · rw [if_pos hi]
      have key := riseSetLoopBody_step fn ex call st hinv hi
      have hpos : 1 ≤ riseSetMeasure call.planetNumber st := by
        unfold riseSetMeasure; omega
      revert key
      cases riseSetLoopBody fn ex call st with
      | done r =>
        intro key
        obtain ⟨k1, k2, k3, k4, k5⟩ := key
        exact ⟨k1, by rw [k2]; omega, k3, k4, k5⟩
      | next st1 =>
        intro key
        obtain ⟨k1, k2, k3⟩ := key
        obtain ⟨r1, r2, r3, r4, r5⟩ := ih st1 k1 (by omega)
        exact ⟨r1, by simp only at r2 ⊢; omega, r3, r4, r5⟩
    · rw [if_neg hi]
      obtain ⟨e1, e2, e3, e4⟩ := riseSetExhausted_fields st
      obtain ⟨h1, h2, h3, h4, h5, -⟩ := hinv
      refine ⟨e1, by rw [e2]; exact Nat.le_add_right _ _, by rw [e3]; exact h3, ?_,
        by rw [e4]; exact h5⟩
      rw [e4]
      refine le_trans h4 ?_
      split_ifs
      · exact le_refl _
      · exact Nat.zero_le _

theorem riseSetEntry_inv (call : RiseSetCall) (calculationDateInterval : ESTimeInterval)
    (cachePool : ECAstroCachePool) :
    RiseSetInv call
      (riseSetEntry calculationDateInterval call.observerLatitude call.planetNumber cachePool) :=
  ⟨Nat.zero_le _, Nat.le_refl _, Nat.zero_le _, Nat.le_refl _, fun _ => rfl, rfl⟩

theorem riseSetEntry_measure (calculationDateInterval : ESTimeInterval)
    (observerLatitude : ESDouble) (planetNumber : Nat) (cachePool : ECAstroCachePool) :
    riseSetMeasure planetNumber
        (riseSetEntry calculationDateInterval observerLatitude planetNumber cachePool) =
      if planetNumber = ECPlanetMoon ∧ polarSpecial observerLatitude = false then 21 else 20 := by
  by_cases hm : planetNumber = ECPlanetMoon <;> cases hps : polarSpecial observerLatitude <;>
    simp [riseSetMeasure, riseSetEntry, riseSetNumIterations, hm, hps]

/-- Every call of `planetaryRiseSetTimeRefined` is completed by the code within the fuel,
after at most 21 executions of the loop body, 20 for a body other than the Moon and at a
polar latitude, with at most 10 binary-search evaluations; its writes stay within the first
20 slots of the arrays; and away from the polar latitudes it makes no polar evaluation. -/
theorem planetaryRiseSetTimeRefined_facts (fn : AstroFunctions) (ex : AstroFunctionsExt)
    (calculationDateInterval : ESTimeInterval) (observerLatitude observerLongitude : ESDouble)
    (riseNotSet : Bool) (planetNumber : Nat) (overrideAltitudeDesired : ESDouble)
    (cachePool : ECAstroCachePool) :
    (planetaryRiseSetTimeRefined fn ex calculationDateInterval observerLatitude
        observerLongitude riseNotSet planetNumber overrideAltitudeDesired cachePool).ranOutOfFuel =
        false ∧
      (planetaryRiseSetTimeRefined fn ex calculationDateInterval observerLatitude
        observerLongitude riseNotSet planetNumber overrideAltitudeDesired cachePool).bodies ≤
        (if planetNumber = ECPlanetMoon ∧ polarSpecial observerLatitude = false then 21
          else 20) ∧
      (planetaryRiseSetTimeRefined fn ex calculationDateInterval observerLatitude
        observerLongitude riseNotSet planetNumber overrideAltitudeDesired cachePool).slotsReached ≤
        riseSetNumIterations ∧
      splitEvaluations (planetaryRiseSetTimeRefined fn ex calculationDateInterval
        observerLatitude observerLongitude riseNotSet planetNumber overrideAltitudeDesired
        cachePool).log ≤ numPolarTries ∧
      (polarSpecial observerLatitude = false →
        polarEvaluations (planetaryRiseSetTimeRefined fn ex calculationDateInterval
          observerLatitude observerLongitude riseNotSet planetNumber overrideAltitudeDesired
          cachePool).log = 0) := by
  have hm := riseSetEntry_measure calculationDateInterval observerLatitude planetNumber cachePool
  have key := riseSetLoop_facts fn ex
    ⟨observerLatitude, observerLongitude, riseNotSet, planetNumber, overrideAltitudeDesired⟩
    (riseSetNumIterations + 2)
    (riseSetEntry calculationDateInterval observerLatitude planetNumber cachePool)
    (riseSetEntry_inv _ calculationDateInterval cachePool)
    (by
      show riseSetMeasure planetNumber _ < _
      rw [hm]; unfold riseSetNumIterations; split_ifs <;> omega)
  obtain ⟨k1, k2, k3, k4, k5⟩ := key
  refine ⟨k1, ?_, k3, k4, k5⟩
  have hb : (riseSetEntry calculationDateInterval observerLatitude planetNumber
    cachePool).bodies = 0 := rfl
  have k2b : (planetaryRiseSetTimeRefined fn ex calculationDateInterval observerLatitude
      observerLongitude riseNotSet planetNumber overrideAltitudeDesired cachePool).bodies ≤
      (riseSetEntry calculationDateInterval observerLatitude planetNumber cachePool).bodies +
        riseSetMeasure planetNumber
          (riseSetEntry calculationDateInterval observerLatitude planetNumber cachePool) := k2
  rw [hb, Nat.zero_add, hm] at k2b
  exact k2b

theorem riseSetTimeAt_polar_ignores_override (fn : AstroFunctions) (ex : AstroFunctionsExt)
    (call : RiseSetCall) (other : ESDouble) (instant : ESTimeInterval)
    (precision : ECWBPrecision) (cachePool : ECAstroCachePool) :
    riseSetTimeAt fn ex { call with overrideAltitudeDesired := other } false instant precision
        cachePool =
      riseSetTimeAt fn ex call false instant precision cachePool := by
  unfold riseSetTimeAt
  simp only [Bool.false_eq_true, false_and, if_false]

theorem polarBinarySearch_ignores_override (fn : AstroFunctions) (ex : AstroFunctionsExt)
    (call : RiseSetCall) (other : ESDouble) (precision : ECWBPrecision) :
    ∀ (polarTries : Nat) (s : PolarState),
      polarBinarySearch fn ex { call with overrideAltitudeDesired := other } precision
          polarTries s =
        polarBinarySearch fn ex call precision polarTries s := by
  intro polarTries
  induction polarTries with
  | zero => intro s; rfl
  | succ n ih =>
    intro s
    unfold polarBinarySearch
    simp only [riseSetTimeAt_polar_ignores_override, ih]

theorem polarFinish_ignores_override (fn : AstroFunctions) (ex : AstroFunctionsExt)
    (call : RiseSetCall) (other : ESDouble) (precision : ECWBPrecision) (s : PolarState) :
    polarFinish fn ex { call with overrideAltitudeDesired := other } precision s =
      polarFinish fn ex call precision s := by
  unfold polarFinish
  simp only [polarBinarySearch_ignores_override]

theorem polarSearch_ignores_override (fn : AstroFunctions) (ex : AstroFunctionsExt)
    (call : RiseSetCall) (other : ESDouble) (precision : ECWBPrecision)
    (tryDate transitT newDate : ESTimeInterval) (cachePool : ECAstroCachePool)
    (log : List RiseSetEvaluation) :
    polarSearch fn ex { call with overrideAltitudeDesired := other } precision tryDate transitT
        newDate cachePool log =
      polarSearch fn ex call precision tryDate transitT newDate cachePool log := by
  unfold polarSearch
  simp only [riseSetTimeAt_polar_ignores_override, polarFinish_ignores_override]

theorem riseSetTimeAt_honours_override (fn : AstroFunctions) (ex : AstroFunctionsExt)
    (call : RiseSetCall) (instant : ESTimeInterval) (precision : ECWBPrecision)
    (cachePool : ECAstroCachePool) (h : call.overrideAltitudeDesired.isnan = false) :
    (riseSetTimeAt fn ex call true instant precision cachePool).altitude =
      call.overrideAltitudeDesired := by
  unfold riseSetTimeAt
  simp only [h, and_self, if_true]

/-- C22 (counterexample): in a sky where no trial converges, the Moon takes 8 executions of
the loop body of `planettransitTimeRefined` and 21 of the main loop body of
`planetaryRiseSetTimeRefined`, above the caps 7 and 20. -/
theorem C22_counterexample_moon_gets_extra_passes :
    (planettransitTimeRefined driftingSky sampleFunctionsExt (.num 0) (.num 0) (.num 0) true
        ECPlanetMoon genericNaN initialPool).bodies = 8 ∧
      (planetaryRiseSetTimeRefined driftingSky sampleFunctionsExt (.num 0) (.num 0) (.num 0) true
        ECPlanetMoon genericNaN initialPool).bodies = 21 := by
  decide!

/-- C22 (amended): both solvers are completed by the code for every body and every input:
`planettransitTimeRefined` executes its loop body at most 7 times, 8 for the Moon, and
`planetaryRiseSetTimeRefined` executes its main loop body at most 20 times, 21 for the Moon
away from the polar latitudes, with at most 10 binary-search evaluations. -/
theorem C22_solvers_end_within_fixed_caps (fn : AstroFunctions) (ex : AstroFunctionsExt)
    (calculationDateInterval : ESTimeInterval) (observerLatitude observerLongitude : ESDouble)
    (wantHighTransit riseNotSet : Bool) (planetNumber : Nat) (overrideAltitudeDesired : ESDouble)
    (cachePool : ECAstroCachePool) :
    (planettransitTimeRefined fn ex calculationDateInterval observerLatitude observerLongitude
        wantHighTransit planetNumber overrideAltitudeDesired cachePool).ranOutOfFuel = false ∧
      (planettransitTimeRefined fn ex calculationDateInterval observerLatitude observerLongitude
        wantHighTransit planetNumber overrideAltitudeDesired cachePool).bodies ≤
        (if planetNumber = ECPlanetMoon then 8 else 7) ∧
      (planetaryRiseSetTimeRefined fn ex calculationDateInterval observerLatitude
        observerLongitude riseNotSet planetNumber overrideAltitudeDesired cachePool).ranOutOfFuel =
        false ∧
      (planetaryRiseSetTimeRefined fn ex calculationDateInterval observerLatitude
        observerLongitude riseNotSet planetNumber overrideAltitudeDesired cachePool).bodies ≤
        (if planetNumber = ECPlanetMoon ∧ polarSpecial observerLatitude = false then 21
          else 20) ∧
      splitEvaluations (planetaryRiseSetTimeRefined fn ex calculationDateInterval
        observerLatitude observerLongitude riseNotSet planetNumber overrideAltitudeDesired
        cachePool).log ≤ 10 := by
  obtain ⟨t1, t2, -⟩ := planettransitTimeRefined_facts fn ex calculationDateInterval
    observerLatitude observerLongitude wantHighTransit planetNumber overrideAltitudeDesired
    cachePool
  obtain ⟨r1, r2, -, r4, -⟩ := planetaryRiseSetTimeRefined_facts fn ex calculationDateInterval
    observerLatitude observerLongitude riseNotSet planetNumber overrideAltitudeDesired cachePool
  exact ⟨t1, t2, r1, r2, r4⟩

/-- C23 (counterexample): in a sky where every trial of the Sun gives a valid crossing 100
seconds after the trial instant, `planetaryRiseSetTimeRefined` uses its 20 passes, every
recorded evaluation returned an ordinary instant, and the call returns the generic NaN. -/
theorem C23_counterexample_exhausted_run_returns_NaN :
    (planetaryRiseSetTimeRefined driftingSky sampleFunctionsExt (.num 0) (.num 0) (.num 0) true
        ECPlanetSun genericNaN initialPool).returnDate = genericNaN ∧
      (planetaryRiseSetTimeRefined driftingSky sampleFunctionsExt (.num 0) (.num 0) (.num 0) true
        ECPlanetSun genericNaN initialPool).bodies = 20 ∧
      (planetaryRiseSetTimeRefined driftingSky sampleFunctionsExt (.num 0) (.num 0) (.num 0) true
        ECPlanetSun genericNaN initialPool).log.map (fun e => e.event) =
        (List.range 20).map (fun k : Nat => ESDouble.num (100 * (k : ℚ) + 100)) := by
  decide!

/-- C23 (amended): when the loop of `planetaryRiseSetTimeRefined` has used its passes and a
valid crossing was found, the call returns the most recent valid crossing only when the last
difference is at most 60 seconds in absolute value; when it is larger the call returns the
value of `firstNan`, a NaN, and stores `firstTransit` through `riseSetOrTransit`. -/
theorem C23_exhausted_run_returns_last_crossing_within_60_seconds (fn : AstroFunctions)
    (ex : AstroFunctionsExt) (call : RiseSetCall) (fuel : Nat) (st : RiseSetState)
    (hinv : RiseSetInv call st) (hexhausted : riseSetNumIterations ≤ st.i)
    (hvalid : st.lastValidResultDate.isnan = false) :
    riseSetLoop fn ex call (fuel + 1) st = riseSetExhausted st ∧
      (riseSetExhausted st).ranOutOfFuel = false ∧
      (riseSetExhausted st).returnDate =
        (if ESDouble.gt (ESDouble.fabs st.lastDelta) (.num 60) then st.firstNan
          else st.lastValidResultDate) ∧
      (riseSetExhausted st).riseSetOrTransit =
        (if ESDouble.gt (ESDouble.fabs st.lastDelta) (.num 60) then st.firstTransit
          else st.lastValidResultDate) ∧
      st.firstNan.isnan = true := by
  have hloop : riseSetLoop fn ex call (fuel + 1) st = riseSetExhausted st := by
    unfold riseSetLoop
    rw [if_neg (Nat.not_lt.mpr hexhausted)]
  refine ⟨hloop, (riseSetExhausted_fields st).1, ?_, ?_, hinv.2.2.2.2.2⟩
  · unfold riseSetExhausted
    rw [hvalid]
    simp only [Bool.false_eq_true, if_false]
    split_ifs <;> rfl
  · unfold riseSetExhausted
    rw [hvalid]
    simp only [Bool.false_eq_true, if_false]
    split_ifs <;> rfl

/-- C23 (witness): from the state `exhaustedState`, whose last difference is 100 seconds, the
call returns the generic NaN. -/
theorem C23_exhausted_run_witness :
    riseSetLoop driftingSky sampleFunctionsExt midLatitudeCall 1 exhaustedState =
        riseSetExhausted exhaustedState ∧
      (riseSetExhausted exhaustedState).returnDate = genericNaN :=
  ⟨(C23_exhausted_run_returns_last_crossing_within_60_seconds driftingSky sampleFunctionsExt
      midLatitudeCall 0 exhaustedState
      ⟨by decide, by decide, by decide, by decide, fun _ => by decide, rfl⟩ (by decide) rfl).1,
    by decide!⟩

/-- C24 (counterexample): at latitude 89.5 degrees, which is not within 0.1 degree of a pole,
a Sun that never crosses the horizon at the trial and transit instants is evaluated 13 hours
before and 13 hours after as well: the polar handling is performed. -/
theorem C24_counterexample_polar_handling_at_89_5_degrees :
    ESDouble.gt (ESDouble.fabs (.num (M_PI / 180 * 89.5))) (.num (M_PI / 180 * 89.9)) = false ∧
      polarSpecial (.num (M_PI / 180 * 89.5)) = true ∧
      (planetaryRiseSetTimeRefined polarSky sampleFunctionsExt (.num 1000)
        (.num (M_PI / 180 * 89.5)) (.num 0) true ECPlanetSun genericNaN initialPool).log.map
          (fun e => e.kind) = [.trial, .transit, .priorPolar, .nextPolar] := by
  decide!

/-- C24 (amended): the polar handling of `planetaryRiseSetTimeRefined` is tied to
`|latitude| > 89` degrees: at every other latitude no call makes an evaluation 13 hours
before or after or a binary-search evaluation, and a result that is still a NaN at the
transit instant is returned at once, with the transit instant stored through
`riseSetOrTransit`. -/
theorem C24_polar_handling_needs_latitude_above_89_degrees (fn : AstroFunctions)
    (ex : AstroFunctionsExt) (calculationDateInterval : ESTimeInterval) (call : RiseSetCall)
    (cachePool : ECAstroCachePool) (entry : RiseSetState) (newDate : ESTimeInterval)
    (hlatitude : polarSpecial call.observerLatitude = false)
    (hpersists : (riseSetAtTransit fn ex call entry newDate).2.event.isnan = true) :
    (∀ q : ℚ, polarSpecial (.num q) = true ↔ M_PI / 180 * 89 < |q|) ∧
      polarEvaluations (planetaryRiseSetTimeRefined fn ex calculationDateInterval
        call.observerLatitude call.observerLongitude call.riseNotSet call.planetNumber
        call.overrideAltitudeDesired cachePool).log = 0 ∧
      ∃ r, riseSetFirstInvalid fn ex call entry newDate = .done r ∧
        r.returnDate = (riseSetAtTransit fn ex call entry newDate).2.event ∧
        r.riseSetOrTransit = (riseSetAtTransit fn ex call entry newDate).1 ∧
        r.log = entry.log ++ [RiseSetEvaluation.mk .transit
          (riseSetAtTransit fn ex call entry newDate).1
          (riseSetAtTransit fn ex call entry newDate).2.altitude
          (riseSetAtTransit fn ex call entry newDate).2.event] := by
  refine ⟨fun q => ?_, ?_, ?_⟩
  · unfold polarSpecial
    rw [ESDouble.fabs_num, ESDouble.gt_num]
    exact decide_eq_true_iff
  · exact (planetaryRiseSetTimeRefined_facts fn ex calculationDateInterval call.observerLatitude
      call.observerLongitude call.riseNotSet call.planetNumber call.overrideAltitudeDesired
      cachePool).2.2.2.2 hlatitude
  · unfold riseSetFirstInvalid
    dsimp only
    rw [if_pos hpersists, hlatitude]
    exact ⟨_, rfl, rfl, rfl, rfl⟩

/-- C24 (witness): at latitude 1/2 in `polarSky` the rise of the Sun asked at instant 1000 is
a NaN at the trial and at the transit instant, and the call returns
`kECAlwaysAboveHorizon` after these two evaluations. -/
theorem C24_polar_handling_witness :
    polarSpecial midLatitudeCall.observerLatitude = false ∧
      (riseSetAtTransit polarSky sampleFunctionsExt midLatitudeCall
        (riseSetEntry (.num 1000) (.num (1 / 2)) ECPlanetSun initialPool)
        kECAlwaysAboveHorizon).2.event = kECAlwaysAboveHorizon ∧
      polarEvaluations (planetaryRiseSetTimeRefined polarSky sampleFunctionsExt (.num 1000)
        midLatitudeCall.observerLatitude midLatitudeCall.observerLongitude
        midLatitudeCall.riseNotSet midLatitudeCall.planetNumber
        midLatitudeCall.overrideAltitudeDesired initialPool).log = 0 :=
  ⟨by decide!, by decide!,
    (C24_polar_handling_needs_latitude_above_89_degrees polarSky sampleFunctionsExt (.num 1000)
      midLatitudeCall initialPool
      (riseSetEntry (.num 1000) (.num (1 / 2)) ECPlanetSun initialPool) kECAlwaysAboveHorizon
      (by decide!) (by decide!)).2.1⟩

/-- C25 (code bug): the polar branch of `planetaryRiseSetTimeRefined` never reads the
override altitude, while the evaluations at the trial and transit instants take it as their
target: with the override 1/2 at latitude 89.5 degrees the trial and transit evaluations aim
at 1/2 and the two polar evaluations aim at the computed altitude, the same as in the call
without an override. -/
theorem C25_polar_evaluations_ignore_the_override :
    (∀ (fn : AstroFunctions) (ex : AstroFunctionsExt) (call : RiseSetCall) (other : ESDouble)
        (precision : ECWBPrecision) (tryDate transitT newDate : ESTimeInterval)
        (cachePool : ECAstroCachePool) (log : List RiseSetEvaluation),
        polarSearch fn ex { call with overrideAltitudeDesired := other } precision tryDate
            transitT newDate cachePool log =
          polarSearch fn ex call precision tryDate transitT newDate cachePool log) ∧
      (∀ (fn : AstroFunctions) (ex : AstroFunctionsExt) (call : RiseSetCall) (target : ℚ)
        (instant : ESTimeInterval) (precision : ECWBPrecision) (cachePool : ECAstroCachePool),
        (riseSetTimeAt fn ex { call with overrideAltitudeDesired := .num target } true instant
          precision cachePool).altitude = .num target) ∧
      (planetaryRiseSetTimeRefined polarSky sampleFunctionsExt (.num 1000)
        (.num (M_PI / 180 * 89.5)) (.num 0) true ECPlanetSun (.num (1 / 2)) initialPool).log.map
          (fun e => (e.kind, decide (e.altitude = .num (1 / 2)))) =
        [(.trial, true), (.transit, true), (.priorPolar, false), (.nextPolar, false)] ∧
      ((planetaryRiseSetTimeRefined polarSky sampleFunctionsExt (.num 1000)
        (.num (M_PI / 180 * 89.5)) (.num 0) true ECPlanetSun (.num (1 / 2)) initialPool).log.drop
          2).map (fun e => e.altitude) =
        ((planetaryRiseSetTimeRefined polarSky sampleFunctionsExt (.num 1000)
          (.num (M_PI / 180 * 89.5)) (.num 0) true ECPlanetSun genericNaN initialPool).log.drop
            2).map (fun e => e.altitude) := by
  refine ⟨?_, ?_, by decide!, by decide!⟩
  · intro fn ex call other precision tryDate transitT newDate cachePool log
    exact polarSearch_ignores_override fn ex call other precision tryDate transitT newDate
      cachePool log
  · intro fn ex call target instant precision cachePool
    exact riseSetTimeAt_honours_override fn ex _ instant precision cachePool rfl

/-- C30: every write into the arrays `tryDates` and `results` of the two solvers is in
bounds, for every body and every input: in `planettransitTimeRefined` the writes stay within
the first 7 slots, in `planetaryRiseSetTimeRefined` within the first 20 of the 31 slots; a
body that never converges reaches slot 7 and slot 20. -/
theorem C30_array_writes_stay_in_bounds (fn : AstroFunctions) (ex : AstroFunctionsExt)
    (calculationDateInterval : ESTimeInterval) (observerLatitude observerLongitude : ESDouble)
    (wantHighTransit riseNotSet : Bool) (planetNumber : Nat) (overrideAltitudeDesired : ESDouble)
    (cachePool : ECAstroCachePool) :
    (planettransitTimeRefined fn ex calculationDateInterval observerLatitude observerLongitude
        wantHighTransit planetNumber overrideAltitudeDesired cachePool).slotsReached ≤
        transitNumIterations ∧
      (planetaryRiseSetTimeRefined fn ex calculationDateInterval observerLatitude
        observerLongitude riseNotSet planetNumber overrideAltitudeDesired cachePool).slotsReached ≤
        riseSetNumIterations ∧
      riseSetNumIterations < riseSetArrayLength ∧
      (planettransitTimeRefined driftingSky sampleFunctionsExt (.num 0) (.num 0) (.num 0) true
        ECPlanetSun genericNaN initialPool).slotsReached = 7 ∧
      (planetaryRiseSetTimeRefined driftingSky sampleFunctionsExt (.num 0) (.num 0) (.num 0) true
        ECPlanetSun genericNaN initialPool).slotsReached = 20 :=
  ⟨(planettransitTimeRefined_facts fn ex calculationDateInterval observerLatitude
      observerLongitude wantHighTransit planetNumber overrideAltitudeDesired cachePool).2.2,
    (planetaryRiseSetTimeRefined_facts fn ex calculationDateInterval observerLatitude
      observerLongitude riseNotSet planetNumber overrideAltitudeDesired cachePool).2.2.1,
    by decide, by decide!, by decide!⟩

/-! ## Lemmas on binary64 rounding and operations -/

namespace IEEE

theorem twoPow_eq (e : ℤ) : twoPow e = (2 : ℚ) ^ e := by
  unfold twoPow
  split_ifs with h
  · obtain ⟨n, rfl⟩ := Int.eq_ofNat_of_zero_le h
    simp [zpow_natCast]
  · push_neg at h
    obtain ⟨n, hn⟩ := Int.eq_ofNat_of_zero_le (show (0 : ℤ) ≤ -e by omega)
    have he : e = -(n : ℤ) := by omega
    subst he
    simp [zpow_neg, zpow_natCast]

theorem twoPow_pos (e : ℤ) : 0 < twoPow e := by
  rw [twoPow_eq]; positivity

theorem twoPow_add (a b : ℤ) : twoPow (a + b) = twoPow a * twoPow b := by
  rw [twoPow_eq, twoPow_eq, twoPow_eq, zpow_add₀ (by norm_num : (2 : ℚ) ≠ 0)]

theorem twoPow_le_twoPow {a b : ℤ} (h : a ≤ b) : twoPow a ≤ twoPow b := by
  rw [twoPow_eq, twoPow_eq]
  exact zpow_le_zpow_right₀ (by norm_num) h

theorem twoPow_lt_twoPow_iff {a b : ℤ} : twoPow a < twoPow b ↔ a < b := by
  rw [twoPow_eq, twoPow_eq]
  exact zpow_lt_zpow_iff_right₀ (by norm_num)

theorem log2Fuel_eq : ∀ (fuel n : Nat), n ≤ fuel → log2Fuel fuel n = Nat.log2 n := by
  intro fuel
  induction fuel with
  | zero =>
    intro n hn
    have : n = 0 := by omega
    subst this
    rw [Nat.log2]
    simp [log2Fuel]
  | succ fuel ih =>
    intro n hn
    rw [Nat.log2]
    unfold log2Fuel
    by_cases h : 2 ≤ n
    · rw [if_pos h, if_pos h, ih (n / 2) (by omega)]
    · rw [if_neg h, if_neg h]

theorem natLog2_bounds (n : Nat) (hn : n ≠ 0) : 2 ^ natLog2 n ≤ n ∧ n < 2 ^ (natLog2 n + 1) := by
  have h : natLog2 n = Nat.log2 n := log2Fuel_eq n n (Nat.le_refl n)
  rw [h]
  exact ⟨Nat.log2_self_le hn, Nat.lt_log2_self⟩

/-- The exponent `floorLog2 q` is the integer part of the binary logarithm of `q > 0`. -/
theorem floorLog2_bounds (q : ℚ) (hq : 0 < q) :
    twoPow (floorLog2 q) ≤ q ∧ q < twoPow (floorLog2 q + 1) := by
  have hnum : 0 < q.num := Rat.num_pos.mpr hq
  have hn0 : q.num.natAbs ≠ 0 := by
    intro h; rw [Int.natAbs_eq_zero] at h; omega
  have hd0 : q.den ≠ 0 := q.den_nz
  obtain ⟨hn1, hn2⟩ := natLog2_bounds q.num.natAbs hn0
  obtain ⟨hd1, hd2⟩ := natLog2_bounds q.den hd0
  have hqeq : q = (q.num.natAbs : ℚ) / (q.den : ℚ) := by
    have h1 : ((q.num.natAbs : ℤ) : ℚ) = (q.num : ℚ) := by
      rw [Int.natAbs_of_nonneg hnum.le]
    have h2 : ((q.num.natAbs : ℕ) : ℚ) = ((q.num.natAbs : ℤ) : ℚ) := (Int.cast_natCast _).symm
    rw [h2, h1]
    exact (Rat.num_div_den q).symm
  have hdpos : (0 : ℚ) < (q.den : ℚ) := by exact_mod_cast Nat.pos_of_ne_zero hd0
  set a := natLog2 q.num.natAbs with ha
  set b := natLog2 q.den with hb
  have hn1q : (2 : ℚ) ^ a ≤ (q.num.natAbs : ℚ) := by exact_mod_cast hn1
  have hn2q : (q.num.natAbs : ℚ) < (2 : ℚ) ^ (a + 1) := by exact_mod_cast hn2
  have hd1q : (2 : ℚ) ^ b ≤ (q.den : ℚ) := by exact_mod_cast hd1
  have hd2q : (q.den : ℚ) < (2 : ℚ) ^ (b + 1) := by exact_mod_cast hd2
  -- q < 2 ^ (a - b + 1)
  have hupper : q < twoPow ((a : ℤ) - (b : ℤ) + 1) := by
    rw [twoPow_eq, hqeq, div_lt_iff₀ hdpos]
    have h2b : (0 : ℚ) < (2 : ℚ) ^ b := by positivity
    calc (q.num.natAbs : ℚ) < (2 : ℚ) ^ (a + 1) := hn2q
      _ = (2 : ℚ) ^ ((a : ℤ) - (b : ℤ) + 1) * (2 : ℚ) ^ b := by
        rw [← zpow_natCast, ← zpow_natCast, ← zpow_add₀ (by norm_num : (2 : ℚ) ≠ 0)]
        congr 1
        push_cast
        ring
      _ ≤ (2 : ℚ) ^ ((a : ℤ) - (b : ℤ) + 1) * (q.den : ℚ) := by
        apply mul_le_mul_of_nonneg_left hd1q
        positivity
  have hlower : twoPow ((a : ℤ) - (b : ℤ) - 1) ≤ q := by
    rw [twoPow_eq, hqeq, le_div_iff₀ hdpos]
    calc (2 : ℚ) ^ ((a : ℤ) - (b : ℤ) - 1) * (q.den : ℚ)
        ≤ (2 : ℚ) ^ ((a : ℤ) - (b : ℤ) - 1) * (2 : ℚ) ^ (b + 1) := by
          apply mul_le_mul_of_nonneg_left hd2q.le
          positivity
      _ = (2 : ℚ) ^ a := by
        rw [← zpow_natCast, ← zpow_natCast, ← zpow_add₀ (by norm_num : (2 : ℚ) ≠ 0)]
        congr 1
        push_cast
        ring
      _ ≤ (q.num.natAbs : ℚ) := hn1q
  unfold floorLog2
  simp only
  rw [← ha, ← hb]
  split_ifs with h
  · exact ⟨h, hupper⟩
  · push_neg at h
    refine ⟨hlower, ?_⟩
    have : (a : ℤ) - (b : ℤ) - 1 + 1 = (a : ℤ) - (b : ℤ) := by ring
    rw [this]
    exact h

theorem floorLog2_le_of_le (q : ℚ) (hq : 0 < q) (k : ℤ) (h : q ≤ twoPow k) : floorLog2 q ≤ k := by
  have h1 := (floorLog2_bounds q hq).1
  have h2 : twoPow (floorLog2 q) ≤ twoPow k := le_trans h1 h
  by_contra hc
  push_neg at hc
  have := twoPow_lt_twoPow_iff.mpr hc
  exact absurd h2 (not_le.mpr this)

theorem floorLog2_mono (x y : ℚ) (hx : 0 < x) (hxy : x ≤ y) : floorLog2 x ≤ floorLog2 y := by
  have hy : 0 < y := lt_of_lt_of_le hx hxy
  have h1 := (floorLog2_bounds x hx).1
  have h2 := (floorLog2_bounds y hy).2
  have h3 : twoPow (floorLog2 x) < twoPow (floorLog2 y + 1) :=
    lt_of_le_of_lt (le_trans h1 hxy) h2
  have := twoPow_lt_twoPow_iff.mp h3
  omega

end IEEE
namespace IEEE

theorem roundHalfEven_cases (x : ℚ) : roundHalfEven x = ⌊x⌋ ∨ roundHalfEven x = ⌊x⌋ + 1 := by
  unfold roundHalfEven
  split_ifs <;> simp

theorem roundHalfEven_sub_le (x : ℚ) : (roundHalfEven x : ℚ) - x ≤ 1 / 2 := by
  have h1 : (⌊x⌋ : ℚ) ≤ x := Int.floor_le x
  unfold roundHalfEven
  split_ifs with ha hb hc
  · linarith
  · push_cast; linarith
  · linarith
  · push_cast
    have : x - ⌊x⌋ = 1 / 2 := le_antisymm (not_lt.mp hb) (not_lt.mp ha)
    linarith

theorem sub_roundHalfEven_le (x : ℚ) : x - (roundHalfEven x : ℚ) ≤ 1 / 2 := by
  have h2 : x < (⌊x⌋ : ℚ) + 1 := Int.lt_floor_add_one x
  unfold roundHalfEven
  split_ifs with ha hb hc
  · linarith
  · push_cast; linarith
  · have : x - ⌊x⌋ = 1 / 2 := le_antisymm (not_lt.mp hb) (not_lt.mp ha)
    linarith
  · push_cast; linarith

theorem abs_roundHalfEven_sub_le (x : ℚ) : |(roundHalfEven x : ℚ) - x| ≤ 1 / 2 := by
  rw [abs_le]
  constructor
  · have := sub_roundHalfEven_le x
    linarith
  · exact roundHalfEven_sub_le x

theorem roundHalfEven_intCast (n : ℤ) : roundHalfEven (n : ℚ) = n := by
  unfold roundHalfEven
  rw [Int.floor_intCast]
  simp

theorem roundHalfEven_mono {x y : ℚ} (h : x ≤ y) : roundHalfEven x ≤ roundHalfEven y := by
  have hf : ⌊x⌋ ≤ ⌊y⌋ := Int.floor_mono h
  rcases lt_or_eq_of_le hf with hlt | heq
  · have hx : roundHalfEven x ≤ ⌊x⌋ + 1 := by
      rcases roundHalfEven_cases x with h1 | h1 <;> omega
    have hy : ⌊y⌋ ≤ roundHalfEven y := by
      rcases roundHalfEven_cases y with h1 | h1 <;> omega
    omega
  · unfold roundHalfEven
    rw [← heq]
    have hr : x - ⌊x⌋ ≤ y - ⌊x⌋ := by linarith
    split_ifs with a1 a2 a3 a4 a5 a6 a7 a8 a9 <;> first | omega | (exfalso; linarith)

theorem roundHalfEven_nonneg {x : ℚ} (h : 0 ≤ x) : 0 ≤ roundHalfEven x := by
  have := roundHalfEven_mono h
  have h0 : roundHalfEven (0 : ℚ) = 0 := by
    have := roundHalfEven_intCast 0
    simpa using this
  omega

end IEEE
namespace IEEE

theorem ulpOf_pos (q : ℚ) : 0 < ulpOf q := twoPow_pos _

theorem minExponent_le_exponentOf (q : ℚ) : minExponent ≤ exponentOf q := le_max_right _ _

theorem exponentOf_neg (q : ℚ) : exponentOf (-q) = exponentOf q := by
  unfold exponentOf
  rw [abs_neg]

theorem ulpOf_neg (q : ℚ) : ulpOf (-q) = ulpOf q := by
  unfold ulpOf
  rw [exponentOf_neg]

theorem lt_twoPow_exponentOf (q : ℚ) (hq : 0 < q) : q < twoPow (exponentOf q + 1) := by
  have h := (floorLog2_bounds q hq).2
  refine lt_of_lt_of_le h (twoPow_le_twoPow ?_)
  unfold exponentOf
  rw [abs_of_pos hq]
  have := le_max_left (floorLog2 q) minExponent
  omega

theorem twoPow_exponentOf_le (q : ℚ) (hq : 0 < q) (h : minExponent < exponentOf q) :
    twoPow (exponentOf q) ≤ q := by
  have hb := (floorLog2_bounds q hq).1
  unfold exponentOf at h ⊢
  rw [abs_of_pos hq] at h ⊢
  have : max (floorLog2 q) minExponent = floorLog2 q := by
    rcases le_total (floorLog2 q) minExponent with h1 | h1
    · rw [max_eq_right h1] at h
      exact absurd h (lt_irrefl _)
    · exact max_eq_left h1
  rw [this]
  exact hb

theorem exponentOf_mono (x y : ℚ) (hx : 0 < x) (hxy : x ≤ y) : exponentOf x ≤ exponentOf y := by
  have hy : 0 < y := lt_of_lt_of_le hx hxy
  unfold exponentOf
  rw [abs_of_pos hx, abs_of_pos hy]
  exact max_le_max (floorLog2_mono x y hx hxy) (le_refl _)

theorem exponentOf_le (q : ℚ) (hq : 0 < q) (k : ℤ) (hk : minExponent ≤ k) (h : q ≤ twoPow k) :
    exponentOf q ≤ k := by
  unfold exponentOf
  rw [abs_of_pos hq]
  exact max_le (floorLog2_le_of_le q hq k h) hk

theorem roundToGrid_pos_eq (q : ℚ) (hq : 0 < q) :
    roundToGrid q = (roundHalfEven (q / ulpOf q) : ℚ) * ulpOf q := by
  unfold roundToGrid
  rw [if_neg (ne_of_gt hq), if_pos hq]

theorem roundToGrid_zero : roundToGrid 0 = 0 := by
  unfold roundToGrid
  rw [if_pos rfl]

theorem roundToGrid_neg (q : ℚ) : roundToGrid (-q) = -roundToGrid q := by
  rcases lt_trichotomy q 0 with h | h | h
  · have h' : 0 < -q := by linarith
    rw [roundToGrid_pos_eq (-q) h']
    unfold roundToGrid
    rw [if_neg (ne_of_lt h), if_neg (not_lt.mpr h.le), ulpOf_neg, neg_neg]
  · subst h
    simp [roundToGrid_zero]
  · rw [roundToGrid_pos_eq q h]
    unfold roundToGrid
    have h' : -q < 0 := by linarith
    rw [if_neg (ne_of_lt h'), if_neg (not_lt.mpr h'.le), ulpOf_neg, neg_neg]

theorem roundToGrid_nonneg {q : ℚ} (hq : 0 ≤ q) : 0 ≤ roundToGrid q := by
  rcases eq_or_lt_of_le hq with h | h
  · rw [← h, roundToGrid_zero]
  · rw [roundToGrid_pos_eq q h]
    have h1 : 0 ≤ q / ulpOf q := div_nonneg hq (ulpOf_pos q).le
    have h2 : (0 : ℚ) ≤ (roundHalfEven (q / ulpOf q) : ℚ) := by
      exact_mod_cast roundHalfEven_nonneg h1
    exact mul_nonneg h2 (ulpOf_pos q).le

theorem roundToGrid_nonpos {q : ℚ} (hq : q ≤ 0) : roundToGrid q ≤ 0 := by
  have h := roundToGrid_nonneg (show 0 ≤ -q by linarith)
  rw [roundToGrid_neg] at h
  linarith

/-- Rounding moves a number by at most half the spacing of its binade. -/
theorem abs_roundToGrid_sub_le (q : ℚ) : |roundToGrid q - q| ≤ ulpOf q / 2 := by
  have key : ∀ x : ℚ, 0 < x → |roundToGrid x - x| ≤ ulpOf x / 2 := by
    intro x hx
    rw [roundToGrid_pos_eq x hx]
    have hu := ulpOf_pos x
    have h1 := abs_roundHalfEven_sub_le (x / ulpOf x)
    have h2 : (roundHalfEven (x / ulpOf x) : ℚ) * ulpOf x - x =
        ((roundHalfEven (x / ulpOf x) : ℚ) - x / ulpOf x) * ulpOf x := by
      field_simp
    rw [h2, abs_mul, abs_of_pos hu]
    calc |(roundHalfEven (x / ulpOf x) : ℚ) - x / ulpOf x| * ulpOf x
        ≤ 1 / 2 * ulpOf x := mul_le_mul_of_nonneg_right h1 hu.le
      _ = ulpOf x / 2 := by ring
  rcases lt_trichotomy q 0 with h | h | h
  · have := key (-q) (by linarith)
    rw [roundToGrid_neg, ulpOf_neg] at this
    have e : -roundToGrid q - -q = -(roundToGrid q - q) := by ring
    rw [e, abs_neg] at this
    exact this
  · subst h
    rw [roundToGrid_zero]
    simp only [sub_zero, abs_zero]
    exact (div_pos (ulpOf_pos 0) (by norm_num)).le
  · exact key q h

/-- The spacing in the binade of a number of magnitude at most `2 ^ k`. -/
theorem ulpOf_le (q : ℚ) (hq : q ≠ 0) (k : ℤ) (hk : minExponent ≤ k) (h : |q| ≤ twoPow k) :
    ulpOf q ≤ twoPow (k - 52) := by
  unfold ulpOf
  apply twoPow_le_twoPow
  have hpos : 0 < |q| := abs_pos.mpr hq
  have := exponentOf_le |q| hpos k hk h
  have he : exponentOf |q| = exponentOf q := by
    unfold exponentOf
    rw [abs_abs]
  rw [he] at this
  omega

/-- The rounding error of a number of magnitude at most `2 ^ k` is at most `2 ^ (k - 53)`. -/
theorem abs_roundToGrid_sub_le_twoPow (q : ℚ) (k : ℤ) (hk : minExponent ≤ k)
    (h : |q| ≤ twoPow k) : |roundToGrid q - q| ≤ twoPow (k - 53) := by
  by_cases hq : q = 0
  · subst hq
    rw [roundToGrid_zero]
    simp only [sub_zero, abs_zero]
    exact (twoPow_pos _).le
  · have h1 := abs_roundToGrid_sub_le q
    have h2 := ulpOf_le q hq k hk h
    have h3 : twoPow (k - 52) = twoPow (k - 53) * 2 := by
      have : k - 52 = (k - 53) + 1 := by ring
      rw [this, twoPow_add]
      congr 1
    rw [h3] at h2
    linarith

/-- Rounding is monotone. -/
theorem roundToGrid_mono {x y : ℚ} (h : x ≤ y) : roundToGrid x ≤ roundToGrid y := by
  have key : ∀ a b : ℚ, 0 < a → a ≤ b → roundToGrid a ≤ roundToGrid b := by
    intro a b ha hab
    have hb : 0 < b := lt_of_lt_of_le ha hab
    have he := exponentOf_mono a b ha hab
    rw [roundToGrid_pos_eq a ha, roundToGrid_pos_eq b hb]
    rcases eq_or_lt_of_le he with heq | hlt
    · have hu : ulpOf a = ulpOf b := by unfold ulpOf; rw [heq]
      rw [hu]
      apply mul_le_mul_of_nonneg_right _ (ulpOf_pos b).le
      have : a / ulpOf b ≤ b / ulpOf b := div_le_div_of_nonneg_right hab (ulpOf_pos b).le
      exact_mod_cast roundHalfEven_mono this
    · -- the binade of `a` is below the binade of `b`
      have h1 : (roundHalfEven (a / ulpOf a) : ℚ) * ulpOf a ≤ twoPow (exponentOf a + 1) := by
        have hlt1 := lt_twoPow_exponentOf a ha
        have hdiv : a / ulpOf a ≤ ((2 ^ 53 : ℤ) : ℚ) := by
          rw [div_le_iff₀ (ulpOf_pos a)]
          have : ((2 ^ 53 : ℤ) : ℚ) * ulpOf a = twoPow (exponentOf a + 1) := by
            unfold ulpOf
            have e1 : exponentOf a + 1 = 53 + (exponentOf a - 52) := by ring
            rw [e1, twoPow_add]
            congr 1
          rw [this]
          exact hlt1.le
        have hr := roundHalfEven_mono hdiv
        rw [roundHalfEven_intCast] at hr
        have hr' : (roundHalfEven (a / ulpOf a) : ℚ) ≤ ((2 ^ 53 : ℤ) : ℚ) := by exact_mod_cast hr
        calc (roundHalfEven (a / ulpOf a) : ℚ) * ulpOf a
            ≤ ((2 ^ 53 : ℤ) : ℚ) * ulpOf a := mul_le_mul_of_nonneg_right hr' (ulpOf_pos a).le
          _ = twoPow (exponentOf a + 1) := by
            unfold ulpOf
            have e1 : exponentOf a + 1 = 53 + (exponentOf a - 52) := by ring
            rw [e1, twoPow_add]
            congr 1
      have h2 : twoPow (exponentOf b) ≤ (roundHalfEven (b / ulpOf b) : ℚ) * ulpOf b := by
        have hmin : minExponent < exponentOf b :=
          lt_of_le_of_lt (minExponent_le_exponentOf a) hlt
        have hge := twoPow_exponentOf_le b hb hmin
        have hmul : ((2 ^ 52 : ℤ) : ℚ) * ulpOf b = twoPow (exponentOf b) := by
          unfold ulpOf
          have e1 : exponentOf b = 52 + (exponentOf b - 52) := by ring
          nth_rewrite 2 [e1]
          rw [twoPow_add]
          congr 1
        have hdiv : ((2 ^ 52 : ℤ) : ℚ) ≤ b / ulpOf b := by
          rw [le_div_iff₀ (ulpOf_pos b), hmul]
          exact hge
        have hr := roundHalfEven_mono hdiv
        rw [roundHalfEven_intCast] at hr
        have hr' : ((2 ^ 52 : ℤ) : ℚ) ≤ (roundHalfEven (b / ulpOf b) : ℚ) := by exact_mod_cast hr
        calc twoPow (exponentOf b) = ((2 ^ 52 : ℤ) : ℚ) * ulpOf b := hmul.symm
          _ ≤ (roundHalfEven (b / ulpOf b) : ℚ) * ulpOf b :=
            mul_le_mul_of_nonneg_right hr' (ulpOf_pos b).le
      have h3 : twoPow (exponentOf a + 1) ≤ twoPow (exponentOf b) :=
        twoPow_le_twoPow (by omega)
      linarith
  rcases lt_or_le 0 x with hx | hx
  · exact key x y hx h
  · rcases le_or_lt 0 y with hy | hy
    · exact le_trans (roundToGrid_nonpos hx) (roundToGrid_nonneg hy)
    · have := key (-y) (-x) (by linarith) (by linarith)
      rw [roundToGrid_neg, roundToGrid_neg] at this
      linarith

theorem roundToGrid_le_of_le {x c : ℚ} (hc : roundToGrid c = c) (h : x ≤ c) :
    roundToGrid x ≤ c := by
  have := roundToGrid_mono h
  rw [hc] at this
  exact this

theorem le_roundToGrid_of_le {x c : ℚ} (hc : roundToGrid c = c) (h : c ≤ x) :
    c ≤ roundToGrid x := by
  have := roundToGrid_mono h
  rw [hc] at this
  exact this

theorem abs_roundToGrid_le {x c : ℚ} (hc : roundToGrid c = c) (h : |x| ≤ c) :
    |roundToGrid x| ≤ c := by
  rw [abs_le] at h ⊢
  constructor
  · have := le_roundToGrid_of_le (c := -c) (by rw [roundToGrid_neg, hc]) h.1
    exact this
  · exact roundToGrid_le_of_le hc h.2

end IEEE
namespace Binary64

theorem zero_isFinite (negative : Bool) : (zero negative).isFinite = true := by
  cases negative <;> rfl

theorem zero_toRat (negative : Bool) : (zero negative).toRat = 0 := by
  cases negative <;> rfl

/-- Below the overflow threshold the result of an operation is an ordinary number or a zero:
the rounded exact result. -/
theorem ofExact_of_lt (q : ℚ) (negativeZero : Bool)
    (h : |IEEE.roundToGrid q| < IEEE.overflowThreshold) :
    (ofExact q negativeZero).isFinite = true ∧
      (ofExact q negativeZero).toRat = IEEE.roundToGrid q := by
  unfold ofExact
  split_ifs with h1 h2 h3
  · subst h1
    rw [IEEE.roundToGrid_zero]
    exact ⟨zero_isFinite _, zero_toRat _⟩
  · rw [h2]
    exact ⟨zero_isFinite _, zero_toRat _⟩
  · exact absurd h (not_lt.mpr h3)
  · exact ⟨rfl, rfl⟩

theorem ofExact_of_le (q : ℚ) (negativeZero : Bool) (c : ℚ) (hc : IEEE.roundToGrid c = c)
    (hlt : c < IEEE.overflowThreshold) (h : |q| ≤ c) :
    (ofExact q negativeZero).isFinite = true ∧
      (ofExact q negativeZero).toRat = IEEE.roundToGrid q :=
  ofExact_of_lt q negativeZero (lt_of_le_of_lt (IEEE.abs_roundToGrid_le hc h) hlt)

theorem neg_isFinite (a : Binary64) (ha : a.isFinite = true) : (neg a).isFinite = true := by
  cases a with
  | finite q =>
    simp only [neg]
    split_ifs <;> rfl
  | negZero => rfl
  | infinity n => simp [isFinite] at ha
  | nan p => simp [isFinite] at ha

theorem neg_toRat (a : Binary64) : (neg a).toRat = -a.toRat := by
  cases a with
  | finite q =>
    simp only [neg]
    split_ifs with h
    · subst h; simp [toRat]
    · rfl
  | negZero => simp [neg, toRat]
  | infinity n => simp [neg, toRat]
  | nan p => simp [neg, toRat]

theorem add_of_isFinite (a b : Binary64) (ha : a.isFinite = true) (hb : b.isFinite = true) :
    add a b = ofExact (a.toRat + b.toRat) (a.isNegative && b.isNegative) := by
  cases a with
  | finite x =>
    cases b with
    | finite y => rfl
    | negZero =>
      simp only [add, toRat, add_zero, isNegative, Bool.and_true]
      unfold ofExact
      by_cases hx : x = 0
      · subst hx; simp
      · rw [if_neg hx, if_neg hx]
    | infinity n => simp [isFinite] at hb
    | nan p => simp [isFinite] at hb
  | negZero =>
    cases b with
    | finite y =>
      simp only [add, toRat, zero_add, isNegative, Bool.true_and]
      unfold ofExact
      by_cases hy : y = 0
      · subst hy; simp
      · rw [if_neg hy, if_neg hy]
    | negZero => simp [add, toRat, isNegative, ofExact, zero]
    | infinity n => simp [isFinite] at hb
    | nan p => simp [isFinite] at hb
  | infinity n => simp [isFinite] at ha
  | nan p => simp [isFinite] at ha

theorem sub_of_isFinite (a b : Binary64) (ha : a.isFinite = true) (hb : b.isFinite = true) :
    sub a b = ofExact (a.toRat - b.toRat) (a.isNegative && (neg b).isNegative) := by
  unfold sub
  rw [add_of_isFinite a (neg b) ha (neg_isFinite b hb), neg_toRat, sub_eq_add_neg]

theorem mul_of_isFinite (a b : Binary64) (ha : a.isFinite = true) (hb : b.isFinite = true) :
    mul a b = ofExact (a.toRat * b.toRat) (xor a.isNegative b.isNegative) := by
  cases a with
  | finite x =>
    cases b with
    | finite y => rfl
    | negZero =>
      simp only [mul, toRat, mul_zero, isNegative, Bool.xor_true]
      simp [ofExact]
    | infinity n => simp [isFinite] at hb
    | nan p => simp [isFinite] at hb
  | negZero =>
    cases b with
    | finite y =>
      simp only [mul, toRat, zero_mul, isNegative, Bool.true_xor]
      simp [ofExact]
    | negZero => simp [mul, toRat, isNegative, ofExact, zero]
    | infinity n => simp [isFinite] at hb
    | nan p => simp [isFinite] at hb
  | infinity n => simp [isFinite] at ha
  | nan p => simp [isFinite] at ha

theorem div_of_isFinite (a b : Binary64) (ha : a.isFinite = true) (hb : b.isFinite = true)
    (hb0 : b.toRat ≠ 0) :
    div a b = ofExact (a.toRat / b.toRat) (xor a.isNegative b.isNegative) := by
  cases a with
  | finite x =>
    cases b with
    | finite y =>
      have hy : y ≠ 0 := hb0
      simp only [div, toRat, isNegative, if_neg hy]
    | negZero => exact absurd rfl hb0
    | infinity n => simp [isFinite] at hb
    | nan p => simp [isFinite] at hb
  | negZero =>
    cases b with
    | finite y =>
      have hy : y ≠ 0 := hb0
      simp only [div, toRat, zero_div, isNegative, Bool.true_xor, if_neg hy]
      simp [ofExact]
    | negZero => exact absurd rfl hb0
    | infinity n => simp [isFinite] at hb
    | nan p => simp [isFinite] at hb
  | infinity n => simp [isFinite] at ha
  | nan p => simp [isFinite] at ha

theorem lt_of_isFinite (a b : Binary64) (ha : a.isFinite = true) (hb : b.isFinite = true) :
    lt a b = decide (a.toRat < b.toRat) := by
  cases a <;> cases b <;> first
    | rfl
    | (exfalso; revert ha; simp [isFinite]; done)
    | (exfalso; revert hb; simp [isFinite]; done)

theorem le_of_isFinite (a b : Binary64) (ha : a.isFinite = true) (hb : b.isFinite = true) :
    le a b = decide (a.toRat ≤ b.toRat) := by
  cases a <;> cases b <;> first
    | rfl
    | (exfalso; revert ha; simp [isFinite]; done)
    | (exfalso; revert hb; simp [isFinite]; done)

theorem eq_of_isFinite (a b : Binary64) (ha : a.isFinite = true) (hb : b.isFinite = true) :
    eq a b = decide (a.toRat = b.toRat) := by
  cases a <;> cases b <;> first
    | rfl
    | (exfalso; revert ha; simp [isFinite]; done)
    | (exfalso; revert hb; simp [isFinite]; done)

theorem fabs_isFinite (a : Binary64) (ha : a.isFinite = true) : (fabs a).isFinite = true := by
  cases a <;> first | rfl | simp [isFinite] at ha

theorem fabs_toRat (a : Binary64) : (fabs a).toRat = |a.toRat| := by
  cases a <;> simp [fabs, toRat]

end Binary64
namespace IEEE

theorem floorLog2_twoPow (k : ℤ) : floorLog2 (twoPow k) = k := by
  have hb := floorLog2_bounds (twoPow k) (twoPow_pos k)
  have h1 : floorLog2 (twoPow k) ≤ k := floorLog2_le_of_le _ (twoPow_pos k) k (le_refl _)
  have h2 := twoPow_lt_twoPow_iff.mp hb.2
  omega

/-- The powers of two from `2 ^ (-1074)` on are on the binary64 grid. -/
theorem roundToGrid_twoPow (k : ℤ) (hk : -1074 ≤ k) : roundToGrid (twoPow k) = twoPow k := by
  rw [roundToGrid_pos_eq _ (twoPow_pos k)]
  have he : exponentOf (twoPow k) = max k minExponent := by
    unfold exponentOf
    rw [abs_of_pos (twoPow_pos k), floorLog2_twoPow]
  have hm : 0 ≤ k - (max k minExponent - 52) := by
    unfold minExponent
    rcases le_total k (-1022) with h | h
    · rw [max_eq_right h]; omega
    · rw [max_eq_left h]; omega
  obtain ⟨m, hm'⟩ := Int.eq_ofNat_of_zero_le hm
  have hdiv : twoPow k / ulpOf (twoPow k) = (((2 ^ m : ℕ) : ℤ) : ℚ) := by
    unfold ulpOf
    rw [he, div_eq_iff (ne_of_gt (twoPow_pos _))]
    have e1 : k = (m : ℤ) + (max k minExponent - 52) := by omega
    nth_rewrite 1 [e1]
    rw [twoPow_add]
    congr 1
  rw [hdiv, roundHalfEven_intCast, ← hdiv]
  exact div_mul_cancel₀ _ (ne_of_gt (ulpOf_pos _))

end IEEE

namespace Binary64

theorem twoPow_lt_overflowThreshold (k : ℤ) (hk : k ≤ 1023) :
    IEEE.twoPow k < IEEE.overflowThreshold :=
  IEEE.twoPow_lt_twoPow_iff.mpr (by omega)

/-- The result of an operation whose exact result has magnitude at most `2 ^ k`. -/
theorem ofExact_approx (q : ℚ) (negativeZero : Bool) (k : ℤ) (hk1 : IEEE.minExponent ≤ k)
    (hk2 : k ≤ 1023) (h : |q| ≤ IEEE.twoPow k) :
    (ofExact q negativeZero).isFinite = true ∧
      |(ofExact q negativeZero).toRat - q| ≤ IEEE.twoPow (k - 53) ∧
      |(ofExact q negativeZero).toRat| ≤ IEEE.twoPow k ∧
      (ofExact q negativeZero).toRat = IEEE.roundToGrid q := by
  have hc : IEEE.roundToGrid (IEEE.twoPow k) = IEEE.twoPow k :=
    IEEE.roundToGrid_twoPow k (by unfold IEEE.minExponent at hk1; omega)
  obtain ⟨h1, h2⟩ := ofExact_of_le q negativeZero (IEEE.twoPow k) hc
    (twoPow_lt_overflowThreshold k hk2) h
  refine ⟨h1, ?_, ?_, h2⟩
  · rw [h2]
    exact IEEE.abs_roundToGrid_sub_le_twoPow q k hk1 h
  · rw [h2]
    exact IEEE.abs_roundToGrid_le hc h

theorem add_approx (a b : Binary64) (k : ℤ) (ha : a.isFinite = true) (hb : b.isFinite = true)
    (hk1 : IEEE.minExponent ≤ k) (hk2 : k ≤ 1023) (h : |a.toRat + b.toRat| ≤ IEEE.twoPow k) :
    (add a b).isFinite = true ∧
      |(add a b).toRat - (a.toRat + b.toRat)| ≤ IEEE.twoPow (k - 53) ∧
      |(add a b).toRat| ≤ IEEE.twoPow k ∧
      (add a b).toRat = IEEE.roundToGrid (a.toRat + b.toRat) := by
  rw [add_of_isFinite a b ha hb]
  exact ofExact_approx _ _ k hk1 hk2 h

theorem sub_approx (a b : Binary64) (k : ℤ) (ha : a.isFinite = true) (hb : b.isFinite = true)
    (hk1 : IEEE.minExponent ≤ k) (hk2 : k ≤ 1023) (h : |a.toRat - b.toRat| ≤ IEEE.twoPow k) :
    (sub a b).isFinite = true ∧
      |(sub a b).toRat - (a.toRat - b.toRat)| ≤ IEEE.twoPow (k - 53) ∧
      |(sub a b).toRat| ≤ IEEE.twoPow k ∧
      (sub a b).toRat = IEEE.roundToGrid (a.toRat - b.toRat) := by
  rw [sub_of_isFinite a b ha hb]
  exact ofExact_approx _ _ k hk1 hk2 h

theorem mul_approx (a b : Binary64) (k : ℤ) (ha : a.isFinite = true) (hb : b.isFinite = true)
    (hk1 : IEEE.minExponent ≤ k) (hk2 : k ≤ 1023) (h : |a.toRat * b.toRat| ≤ IEEE.twoPow k) :
    (mul a b).isFinite = true ∧
      |(mul a b).toRat - (a.toRat * b.toRat)| ≤ IEEE.twoPow (k - 53) ∧
      |(mul a b).toRat| ≤ IEEE.twoPow k ∧
      (mul a b).toRat = IEEE.roundToGrid (a.toRat * b.toRat) := by
  rw [mul_of_isFinite a b ha hb]
  exact ofExact_approx _ _ k hk1 hk2 h

theorem div_approx (a b : Binary64) (k : ℤ) (ha : a.isFinite = true) (hb : b.isFinite = true)
    (hb0 : b.toRat ≠ 0) (hk1 : IEEE.minExponent ≤ k) (hk2 : k ≤ 1023)
    (h : |a.toRat / b.toRat| ≤ IEEE.twoPow k) :
    (div a b).isFinite = true ∧
      |(div a b).toRat - (a.toRat / b.toRat)| ≤ IEEE.twoPow (k - 53) ∧
      |(div a b).toRat| ≤ IEEE.twoPow k ∧
      (div a b).toRat = IEEE.roundToGrid (a.toRat / b.toRat) := by
  rw [div_of_isFinite a b ha hb hb0]
  exact ofExact_approx _ _ k hk1 hk2 h

end Binary64

namespace Binary64

theorem overflowThreshold_pos : 0 < IEEE.overflowThreshold := IEEE.twoPow_pos 1024

/-- The three shapes of the result of an operation: an ordinary number or zero (the rounded
exact result, below the overflow threshold), or an infinity of the sign of the exact result. -/
theorem ofExact_cases (q : ℚ) (negativeZero : Bool) :
    ((ofExact q negativeZero).isFinite = true ∧
        (ofExact q negativeZero).toRat = IEEE.roundToGrid q ∧
        |IEEE.roundToGrid q| < IEEE.overflowThreshold) ∨
      (ofExact q negativeZero = infinity false ∧ IEEE.overflowThreshold ≤ IEEE.roundToGrid q) ∨
      (ofExact q negativeZero = infinity true ∧
        IEEE.roundToGrid q ≤ -IEEE.overflowThreshold) := by
  unfold ofExact
  split_ifs with h1 h2 h3
  · left
    subst h1
    rw [IEEE.roundToGrid_zero, abs_zero]
    exact ⟨zero_isFinite _, zero_toRat _, overflowThreshold_pos⟩
  · left
    rw [h2, abs_zero]
    exact ⟨zero_isFinite _, zero_toRat _, overflowThreshold_pos⟩
  · right
    by_cases hq : q < 0
    · right
      refine ⟨by simp [hq], ?_⟩
      have h := IEEE.roundToGrid_nonpos hq.le
      rw [abs_of_nonpos h] at h3
      linarith
    · left
      refine ⟨by simp [hq], ?_⟩
      have h := IEEE.roundToGrid_nonneg (not_lt.mp hq)
      rw [abs_of_nonneg h] at h3
      exact h3
  · left
    exact ⟨rfl, rfl, not_le.mp h3⟩

theorem ofExact_not_nan (q : ℚ) (negativeZero : Bool) : (ofExact q negativeZero).isnan = false := by
  rcases ofExact_cases q negativeZero with ⟨h, -, -⟩ | ⟨h, -⟩ | ⟨h, -⟩
  · revert h
    cases ofExact q negativeZero <;> simp [isFinite, isnan]
  · rw [h]; rfl
  · rw [h]; rfl

theorem le_of_lt (a b : Binary64) (h : lt a b = true) : le a b = true := by
  cases a <;> cases b <;> simp_all [lt, le, toRat] <;> exact h.le

theorem isnan_of_isFinite (a : Binary64) (h : a.isFinite = true) : a.isnan = false := by
  cases a <;> simp_all [isFinite, isnan]

end Binary64

namespace IEEE

theorem one_eq : (1 : Binary64) = .finite 1 := by decide!

theorem two_eq : (2 : Binary64) = .finite 2 := by decide!

theorem three_eq : (3 : Binary64) = .finite 3 := by decide!

theorem roundToGrid_one : roundToGrid 1 = 1 := by decide!

theorem roundToGrid_two : roundToGrid 2 = 2 := by decide!

theorem two_lt_overflowThreshold : (2 : ℚ) < overflowThreshold := by
  have h := twoPow_lt_twoPow_iff.mpr (show (1 : ℤ) < 1024 by norm_num)
  have e : twoPow 1 = 2 := by rw [twoPow_eq]; norm_num
  rw [e] at h
  exact h

end IEEE

namespace Binary64

/-- The result of an operation is at most a binary64 number `c` that its exact result does
not exceed. -/
theorem ofExact_le_finite (u c : ℚ) (z : Bool) (hc : IEEE.roundToGrid c = c)
    (hcthr : c < IEEE.overflowThreshold) (h : u ≤ c) : le (ofExact u z) (finite c) = true := by
  rcases ofExact_cases u z with ⟨a1, a2, -⟩ | ⟨a1, a2⟩ | ⟨a1, -⟩
  · rw [le_of_isFinite _ (finite c) a1 rfl, a2]
    exact decide_eq_true (IEEE.roundToGrid_le_of_le hc h)
  · exfalso
    have := IEEE.roundToGrid_le_of_le hc h
    linarith
  · rw [a1]; rfl

/-- The result of an operation is at least a binary64 number `c` that its exact result is not
below. -/
theorem finite_le_ofExact (u c : ℚ) (z : Bool) (hc : IEEE.roundToGrid c = c)
    (hcthr : -IEEE.overflowThreshold < c) (h : c ≤ u) :
    le (finite c) (ofExact u z) = true := by
  rcases ofExact_cases u z with ⟨a1, a2, -⟩ | ⟨a1, -⟩ | ⟨a1, a2⟩
  · rw [le_of_isFinite (finite c) _ rfl a1, a2]
    exact decide_eq_true (IEEE.le_roundToGrid_of_le hc h)
  · rw [a1]; rfl
  · exfalso
    have := IEEE.le_roundToGrid_of_le hc h
    linarith

theorem toRat_le_of_le_finite (a : Binary64) (c : ℚ) (ha : a.isFinite = true)
    (h : le a (finite c) = true) : a.toRat ≤ c := by
  rw [le_of_isFinite a (finite c) ha rfl] at h
  exact of_decide_eq_true h

theorem le_toRat_of_finite_le (a : Binary64) (c : ℚ) (ha : a.isFinite = true)
    (h : le (finite c) a = true) : c ≤ a.toRat := by
  rw [le_of_isFinite (finite c) a rfl ha] at h
  exact of_decide_eq_true h

/-- Adding 1 to a value that is at most 0, or at most 1, gives at most 1, or at most 2. -/
theorem one_add_le (a : Binary64) (c : ℚ) (hc : IEEE.roundToGrid (1 + c) = 1 + c)
    (hcthr : 1 + c < IEEE.overflowThreshold) (h : le a (finite c) = true) :
    le (add (finite 1) a) (finite (1 + c)) = true := by
  cases a with
  | finite q =>
    have hq : q ≤ c := toRat_le_of_le_finite (finite q) c rfl h
    exact ofExact_le_finite _ _ _ hc hcthr (by linarith)
  | negZero =>
    have hq : (0 : ℚ) ≤ c := toRat_le_of_le_finite negZero c rfl h
    exact ofExact_le_finite _ _ _ hc hcthr (by linarith)
  | infinity n =>
    cases n
    · simp [le] at h
    · rfl
  | nan p => simp [le] at h

/-- Adding 1 to a value that is at least 0, or at least 1, gives at least 1, or at least 2. -/
theorem le_one_add (a : Binary64) (c : ℚ) (hc : IEEE.roundToGrid (1 + c) = 1 + c)
    (hcthr : -IEEE.overflowThreshold < 1 + c) (h : le (finite c) a = true) :
    le (finite (1 + c)) (add (finite 1) a) = true := by
  cases a with
  | finite q =>
    have hq : c ≤ q := le_toRat_of_finite_le (finite q) c rfl h
    exact finite_le_ofExact _ _ _ hc hcthr (by linarith)
  | negZero =>
    have hq : c ≤ (0 : ℚ) := le_toRat_of_finite_le negZero c rfl h
    exact finite_le_ofExact _ _ _ hc hcthr (by linarith)
  | infinity n =>
    cases n
    · rfl
    · simp [le] at h
  | nan p => simp [le] at h

/-- The clamp of `calculateEclipse`: a value that is not a NaN is brought into `[0, 3]`, and
bounds by 1 or 2 are kept. -/
theorem clamp_facts (a : Binary64) (ha : a.isnan = false) :
    (if lt a (finite 0) = true then finite 0
        else if gt a (finite 3) = true then finite 3 else a).isFinite = true ∧
      0 ≤ (if lt a (finite 0) = true then finite 0
        else if gt a (finite 3) = true then finite 3 else a).toRat ∧
      (if lt a (finite 0) = true then finite 0
        else if gt a (finite 3) = true then finite 3 else a).toRat ≤ 3 ∧
      (∀ c : ℚ, 0 ≤ c → le a (finite c) = true →
        (if lt a (finite 0) = true then finite 0
          else if gt a (finite 3) = true then finite 3 else a).toRat ≤ c) ∧
      (∀ c : ℚ, c ≤ 3 → le (finite c) a = true →
        c ≤ (if lt a (finite 0) = true then finite 0
          else if gt a (finite 3) = true then finite 3 else a).toRat) ∧
      (∀ c : ℚ, c ≤ 3 → le a (finite c) = true → gt a (finite 3) = false) := by
  cases a with
  | finite q =>
    simp only [lt, gt, le, toRat, decide_eq_true_eq]
    by_cases h0 : q < 0
    · simp only [h0, if_true, isFinite, toRat]
      refine ⟨trivial, le_refl _, by norm_num, fun c hc _ => hc, fun c _ h => by linarith, ?_⟩
      intro c hc h
      exact decide_eq_false (by linarith)
    · by_cases h3 : 3 < q
      · simp only [h0, h3, if_true, if_false, isFinite, toRat]
        refine ⟨trivial, by norm_num, le_refl _, fun c _ h => by linarith, fun c hc _ => hc, ?_⟩
        intro c hc h
        linarith
      · simp only [h0, h3, if_false, isFinite, toRat]
        exact ⟨trivial, not_lt.mp h0, not_lt.mp h3, fun c _ h => h, fun c _ h => h,
          fun c _ _ => rfl⟩
  | negZero =>
    simp only [lt, gt, le, toRat, decide_eq_true_eq]
    norm_num [isFinite, toRat]
  | infinity n =>
    cases n
    · simp only [lt, gt, le, toRat]
      norm_num [isFinite, toRat]
    · simp only [lt, gt, le, toRat]
      norm_num [isFinite, toRat]
  | nan p => simp [isnan] at ha

theorem not_lt_zero_of_gt_three (a : Binary64) (h : gt a (finite 3) = true) :
    lt a (finite 0) = false := by
  cases a with
  | finite q =>
    simp only [gt, lt, toRat, decide_eq_true_eq] at h
    simp only [lt, toRat]
    exact decide_eq_false (by linarith)
  | negZero =>
    simp only [gt, lt, toRat, decide_eq_true_eq] at h
    norm_num at h
  | infinity n =>
    cases n
    · rfl
    · simp [gt, lt] at h
  | nan p => simp [gt, lt] at h

theorem one_add_isnan (a : Binary64) (ha : a.isnan = false) :
    (add (finite 1) a).isnan = false := by
  cases a with
  | finite q => exact ofExact_not_nan _ _
  | negZero => exact ofExact_not_nan _ _
  | infinity n => rfl
  | nan p => simp [isnan] at ha

end Binary64

namespace Binary64

theorem Bounded.mono {a : Binary64} {i k : ℤ} (h : Bounded a i) (hik : i ≤ k) : Bounded a k :=
  ⟨h.1, le_trans h.2 (IEEE.twoPow_le_twoPow hik)⟩

theorem twoPow_add_twoPow_le {i j k : ℤ} (hik : i < k) (hjk : j < k) :
    IEEE.twoPow i + IEEE.twoPow j ≤ IEEE.twoPow k := by
  have h1 : IEEE.twoPow i ≤ IEEE.twoPow (k - 1) := IEEE.twoPow_le_twoPow (by omega)
  have h2 : IEEE.twoPow j ≤ IEEE.twoPow (k - 1) := IEEE.twoPow_le_twoPow (by omega)
  have h3 : IEEE.twoPow k = IEEE.twoPow (k - 1) + IEEE.twoPow (k - 1) := by
    have e : k = 1 + (k - 1) := by ring
    have e1 : IEEE.twoPow 1 = 2 := by rw [IEEE.twoPow_eq]; norm_num
    nth_rewrite 1 [e]
    rw [IEEE.twoPow_add, e1]
    ring
  linarith

/-- The sum of two bounded values is bounded, one binade higher. -/
theorem add_bounded {a b : Binary64} {i j : ℤ} (k : ℤ) (ha : Bounded a i) (hb : Bounded b j)
    (hik : i < k) (hjk : j < k) (hmin : IEEE.minExponent ≤ k) (hmax : k ≤ 1023) :
    Bounded (a + b) k ∧ (a + b).toRat = IEEE.roundToGrid (a.toRat + b.toRat) := by
  have h := add_approx a b k ha.1 hb.1 hmin hmax
    (le_trans (abs_add _ _) (le_trans (add_le_add ha.2 hb.2) (twoPow_add_twoPow_le hik hjk)))
  exact ⟨⟨h.1, h.2.2.1⟩, h.2.2.2⟩

/-- The difference of two bounded values is bounded, one binade higher. -/
theorem sub_bounded {a b : Binary64} {i j : ℤ} (k : ℤ) (ha : Bounded a i) (hb : Bounded b j)
    (hik : i < k) (hjk : j < k) (hmin : IEEE.minExponent ≤ k) (hmax : k ≤ 1023) :
    Bounded (a - b) k ∧ (a - b).toRat = IEEE.roundToGrid (a.toRat - b.toRat) := by
  have h := sub_approx a b k ha.1 hb.1 hmin hmax
    (le_trans (abs_sub _ _) (le_trans (add_le_add ha.2 hb.2) (twoPow_add_twoPow_le hik hjk)))
  exact ⟨⟨h.1, h.2.2.1⟩, h.2.2.2⟩

/-- The product of two bounded values is bounded by the product of the bounds. -/
theorem mul_bounded {a b : Binary64} {i j : ℤ} (k : ℤ) (ha : Bounded a i) (hb : Bounded b j)
    (hk : i + j ≤ k) (hmin : IEEE.minExponent ≤ k) (hmax : k ≤ 1023) :
    Bounded (a * b) k ∧ (a * b).toRat = IEEE.roundToGrid (a.toRat * b.toRat) := by
  have h0 : |a.toRat * b.toRat| ≤ IEEE.twoPow k := by
    rw [abs_mul]
    calc |a.toRat| * |b.toRat| ≤ IEEE.twoPow i * IEEE.twoPow j :=
          mul_le_mul ha.2 hb.2 (abs_nonneg _) (IEEE.twoPow_pos i).le
      _ = IEEE.twoPow (i + j) := (IEEE.twoPow_add i j).symm
      _ ≤ IEEE.twoPow k := IEEE.twoPow_le_twoPow hk
  have h := mul_approx a b k ha.1 hb.1 hmin hmax h0
  exact ⟨⟨h.1, h.2.2.1⟩, h.2.2.2⟩

/-- The quotient of a bounded value by a value bounded away from zero is bounded. -/
theorem div_bounded {a b : Binary64} {i j : ℤ} (k : ℤ) (ha : Bounded a i)
    (hb : b.isFinite = true) (hlow : IEEE.twoPow j ≤ |b.toRat|) (hk : i - j ≤ k)
    (hmin : IEEE.minExponent ≤ k) (hmax : k ≤ 1023) :
    Bounded (a / b) k ∧ (a / b).toRat = IEEE.roundToGrid (a.toRat / b.toRat) := by
  have hbpos : 0 < |b.toRat| := lt_of_lt_of_le (IEEE.twoPow_pos j) hlow
  have hb0 : b.toRat ≠ 0 := abs_pos.mp hbpos
  have h0 : |a.toRat / b.toRat| ≤ IEEE.twoPow k := by
    rw [abs_div, div_le_iff₀ hbpos]
    calc |a.toRat| ≤ IEEE.twoPow i := ha.2
      _ = IEEE.twoPow (i - j) * IEEE.twoPow j := by
          rw [← IEEE.twoPow_add]; congr 1; ring
      _ ≤ IEEE.twoPow k * |b.toRat| :=
          mul_le_mul (IEEE.twoPow_le_twoPow hk) hlow (IEEE.twoPow_pos j).le
            (IEEE.twoPow_pos k).le
  have h := div_approx a b k ha.1 hb hb0 hmin hmax h0
  exact ⟨⟨h.1, h.2.2.1⟩, h.2.2.2⟩

theorem neg_bounded {a : Binary64} {i : ℤ} (ha : Bounded a i) : Bounded (-a) i := by
  refine ⟨neg_isFinite a ha.1, ?_⟩
  show |(neg a).toRat| ≤ _
  rw [neg_toRat, abs_neg]
  exact ha.2

theorem fabs_bounded {a : Binary64} {i : ℤ} (ha : Bounded a i) : Bounded (fabs a) i := by
  refine ⟨fabs_isFinite a ha.1, ?_⟩
  rw [fabs_toRat, abs_abs]
  exact ha.2

end Binary64

namespace IEEE

theorem kEC1990Epoch_eq : kEC1990Epoch = .finite (-347241600) := by decide!

theorem kECJulianDateOf1990Epoch_eq : kECJulianDateOf1990Epoch = .finite (4895783 / 2) := by
  decide!

theorem secondsPerDay_eq : ((24 : Binary64) * 3600) = .finite 86400 := by decide!

/-- The rounding error of `julianDateForDate` for instants within `2 ^ 40` seconds of the
reference date. -/
theorem julianDateForDate_approx (t : Binary64) (hfin : t.isFinite = true)
    (ht : |t.toRat| ≤ 2 ^ 40) :
    (julianDateForDate t).isFinite = true ∧
      |(julianDateForDate t).toRat - (4903821 / 2 + t.toRat / 86400)| ≤ 1 / 2 ^ 26 := by
  have e41 : twoPow 41 = 2 ^ 41 := by rw [twoPow_eq]; norm_num
  have e25 : twoPow 25 = 2 ^ 25 := by rw [twoPow_eq]; norm_num
  have e26 : twoPow 26 = 2 ^ 26 := by rw [twoPow_eq]; norm_num
  have em12 : twoPow (41 - 53) = 1 / 2 ^ 12 := by rw [twoPow_eq]; norm_num
  have em28 : twoPow (25 - 53) = 1 / 2 ^ 28 := by rw [twoPow_eq]; norm_num
  have em27 : twoPow (26 - 53) = 1 / 2 ^ 27 := by rw [twoPow_eq]; norm_num
  have hmin : minExponent ≤ 25 := by unfold minExponent; norm_num
  have hmin41 : minExponent ≤ 41 := by unfold minExponent; norm_num
  have hmin26 : minExponent ≤ 26 := by unfold minExponent; norm_num
  obtain ⟨ht1, ht2⟩ := abs_le.mp ht
  have hjd : julianDateForDate t
      = Binary64.add (.finite (4895783 / 2)) (Binary64.div (Binary64.sub t (.finite (-347241600))) (.finite 86400)) := by
    show kECJulianDateOf1990Epoch + ((t - kEC1990Epoch) / (24 * 3600)) = _
    rw [kEC1990Epoch_eq, kECJulianDateOf1990Epoch_eq, secondsPerDay_eq]
    rfl
  rw [hjd]
  -- the subtraction
  have hs := Binary64.sub_approx t (.finite (-347241600)) 41 hfin rfl hmin41 (by norm_num)
    (by
      rw [e41]
      show |t.toRat - (-347241600)| ≤ 2 ^ 41
      rw [abs_le]; constructor <;> linarith)
  obtain ⟨hs1, hs2, hs3, -⟩ := hs
  rw [em12] at hs2
  rw [e41] at hs3
  have hst : (Binary64.finite (-347241600)).toRat = -347241600 := rfl
  rw [hst] at hs2
  generalize Binary64.sub t (.finite (-347241600)) = s at hs1 hs2 hs3 ⊢
  obtain ⟨hs2a, hs2b⟩ := abs_le.mp hs2
  obtain ⟨hs3a, hs3b⟩ := abs_le.mp hs3
  -- the division
  have hd := Binary64.div_approx s (.finite 86400) 25 hs1 rfl (by show (86400 : ℚ) ≠ 0; norm_num)
    hmin (by norm_num)
    (by
      rw [e25]
      show |s.toRat / 86400| ≤ 2 ^ 25
      rw [abs_le]; constructor
      · rw [le_div_iff₀ (by norm_num)]; linarith
      · rw [div_le_iff₀ (by norm_num)]; linarith)
  obtain ⟨hd1, hd2, hd3, -⟩ := hd
  rw [em28] at hd2
  rw [e25] at hd3
  have hdt : (Binary64.finite 86400).toRat = 86400 := rfl
  rw [hdt] at hd2
  generalize Binary64.div s (.finite 86400) = d at hd1 hd2 hd3 ⊢
  obtain ⟨hd2a, hd2b⟩ := abs_le.mp hd2
  obtain ⟨hd3a, hd3b⟩ := abs_le.mp hd3
  -- the addition
  have ha := Binary64.add_approx (.finite (4895783 / 2)) d 26 rfl hd1 hmin26 (by norm_num)
    (by
      rw [e26]
      show |(4895783 / 2 : ℚ) + d.toRat| ≤ 2 ^ 26
      rw [abs_le]; constructor <;> linarith)
  obtain ⟨ha1, ha2, -, -⟩ := ha
  rw [em27] at ha2
  have hat : (Binary64.finite (4895783 / 2)).toRat = 4895783 / 2 := rfl
  rw [hat] at ha2
  constructor
  · exact ha1
  · have e : (4903821 / 2 + t.toRat / 86400 : ℚ) = 4895783 / 2 + (t.toRat - (-347241600)) / 86400 := by
      ring
    generalize Binary64.add (.finite (4895783 / 2)) d = r at ha2 ⊢
    obtain ⟨ha2a, ha2b⟩ := abs_le.mp ha2
    rw [e, abs_le]
    have h1 : (t.toRat - (-347241600)) / 86400 = s.toRat / 86400 - (s.toRat - (t.toRat - (-347241600))) / 86400 := by
      ring
    have h2 : (s.toRat - (t.toRat - (-347241600))) / 86400 ≤ 1 / 2 ^ 28 := by
      rw [div_le_iff₀ (by norm_num)]; linarith
    have h3 : -(1 / 2 ^ 28) ≤ (s.toRat - (t.toRat - (-347241600))) / 86400 := by
      rw [le_div_iff₀ (by norm_num)]; linarith
    constructor <;> linarith

end IEEE

namespace IEEE

theorem lt_of_eq_finite (y c : Binary64) (q : ℚ) (hy : y.isFinite = true) (hc : c = .finite q) :
    Binary64.lt y c = decide (y.toRat < q) := by
  rw [hc]; exact Binary64.lt_of_isFinite y (.finite q) hy rfl

theorem le_of_eq_finite (y c : Binary64) (q : ℚ) (hy : y.isFinite = true) (hc : c = .finite q) :
    Binary64.le y c = decide (y.toRat ≤ q) := by
  rw [hc]; exact Binary64.le_of_isFinite y (.finite q) hy rfl

theorem ge_of_eq_finite (y c : Binary64) (q : ℚ) (hy : y.isFinite = true) (hc : c = .finite q) :
    Binary64.ge y c = decide (q ≤ y.toRat) := by
  rw [hc]; exact Binary64.le_of_isFinite (.finite q) y rfl hy

theorem gt_of_eq_finite (y c : Binary64) (q : ℚ) (hy : y.isFinite = true) (hc : c = .finite q) :
    Binary64.gt y c = decide (q < y.toRat) := by
  rw [hc]; exact Binary64.lt_of_isFinite (.finite q) y rfl hy

/-- The `if` chain of `espenakDeltaT` for an ordinary year, with the comparisons read on the
value of the year. -/
theorem espenakDeltaT_chain (y : Binary64) (hy : y.isFinite = true) :
    espenakDeltaT y =
      if 2005 ≤ y.toRat ∧ y.toRat ≤ 2050 then (espenakSegment .from2005to2050 y, .from2005to2050)
      else if y.toRat < -500 ∨ 2150 ≤ y.toRat then (espenakSegment .outside y, .outside)
      else if y.toRat < 500 then (espenakSegment .before500 y, .before500)
      else if y.toRat < 1600 then (espenakSegment .before1600 y, .before1600)
      else if y.toRat < 1700 then (espenakSegment .before1700 y, .before1700)
      else if y.toRat < 1800 then (espenakSegment .before1800 y, .before1800)
      else if y.toRat < 1860 then (espenakSegment .before1860 y, .before1860)
      else if y.toRat < 1900 then (espenakSegment .before1900 y, .before1900)
      else if y.toRat < 1920 then (espenakSegment .before1920 y, .before1920)
      else if y.toRat < 1941 then (espenakSegment .before1941 y, .before1941)
      else if y.toRat < 1961 then (espenakSegment .before1961 y, .before1961)
      else if y.toRat < 1986 then (espenakSegment .before1986 y, .before1986)
      else if y.toRat < 2005 then (espenakSegment .before2005 y, .before2005)
      else if y.toRat < 2150 then (espenakSegment .before2150 y, .before2150)
      else (0, .fallThrough) := by
  have c1 := ge_of_eq_finite y 2005 2005 hy (by decide!)
  have c2 := le_of_eq_finite y 2050 2050 hy (by decide!)
  have c3 := lt_of_eq_finite y (-500) (-500) hy (by decide!)
  have c4 := ge_of_eq_finite y 2150 2150 hy (by decide!)
  have d500 := lt_of_eq_finite y 500 500 hy (by decide!)
  have d1600 := lt_of_eq_finite y 1600 1600 hy (by decide!)
  have d1700 := lt_of_eq_finite y 1700 1700 hy (by decide!)
  have d1800 := lt_of_eq_finite y 1800 1800 hy (by decide!)
  have d1860 := lt_of_eq_finite y 1860 1860 hy (by decide!)
  have d1900 := lt_of_eq_finite y 1900 1900 hy (by decide!)
  have d1920 := lt_of_eq_finite y 1920 1920 hy (by decide!)
  have d1941 := lt_of_eq_finite y 1941 1941 hy (by decide!)
  have d1961 := lt_of_eq_finite y 1961 1961 hy (by decide!)
  have d1986 := lt_of_eq_finite y 1986 1986 hy (by decide!)
  have d2005 := lt_of_eq_finite y 2005 2005 hy (by decide!)
  have d2150 := lt_of_eq_finite y 2150 2150 hy (by decide!)
  unfold espenakDeltaT
  rw [c1, c2, c3, c4, d500, d1600, d1700, d1800, d1860, d1900, d1920, d1941, d1961, d1986, d2005, d2150]
  simp only [Bool.and_eq_true, Bool.or_eq_true, decide_eq_true_eq]
  rfl

end IEEE

namespace IEEE

/-- On each year interval `espenakDeltaT` returns the polynomial of that segment, with its
label. -/
theorem espenakDeltaT_of_interval (y : Binary64) (hy : y.isFinite = true) (b : EspenakBranch)
    (hb : espenakInterval y.toRat b) : espenakDeltaT y = (espenakSegment b y, b) := by
  have hc := espenakDeltaT_chain y hy
  cases b with
  | from2005to2050 =>
    have hb : _ ∧ _ := hb
    rw [hc, if_pos hb]
  | outside =>
    have hb : _ ∨ _ := hb
    rw [hc, if_neg (fun h => by rcases hb with hb | hb <;> linarith [h.1, h.2]), if_pos hb]
  | before500 =>
    have hb : _ ∧ _ := hb
    rw [hc, if_neg (fun h => by linarith [h.1, hb.2]),
      if_neg (fun h => by rcases h with h | h <;> linarith [hb.1, hb.2]),
      if_pos hb.2]
  | before1600 =>
    have hb : _ ∧ _ := hb
    rw [hc, if_neg (fun h => by linarith [h.1, hb.2]),
      if_neg (fun h => by rcases h with h | h <;> linarith [hb.1, hb.2]),
      if_neg (fun h => by linarith [hb.1]),
      if_pos hb.2]
  | before1700 =>
    have hb : _ ∧ _ := hb
    rw [hc, if_neg (fun h => by linarith [h.1, hb.2]),
      if_neg (fun h => by rcases h with h | h <;> linarith [hb.1, hb.2]),
      if_neg (fun h => by linarith [hb.1]),
      if_neg (fun h => by linarith [hb.1]),
      if_pos hb.2]
  | before1800 =>
    have hb : _ ∧ _ := hb
    rw [hc, if_neg (fun h => by linarith [h.1, hb.2]),
      if_neg (fun h => by rcases h with h | h <;> linarith [hb.1, hb.2]),
      if_neg (fun h => by linarith [hb.1]),
      if_neg (fun h => by linarith [hb.1]),
      if_neg (fun h => by linarith [hb.1]),
      if_pos hb.2]
  | before1860 =>
    have hb : _ ∧ _ := hb
    rw [hc, if_neg (fun h => by linarith [h.1, hb.2]),
      if_neg (fun h => by rcases h with h | h <;> linarith [hb.1, hb.2]),
      if_neg (fun h => by linarith [hb.1]),
      if_neg (fun h => by linarith [hb.1]),
      if_neg (fun h => by linarith [hb.1]),
      if_neg (fun h => by linarith [hb.1]),
      if_pos hb.2]
  | before1900 =>
    have hb : _ ∧ _ := hb
    rw [hc, if_neg (fun h => by linarith [h.1, hb.2]),
      if_neg (fun h => by rcases h with h | h <;> linarith [hb.1, hb.2]),
      if_neg (fun h => by linarith [hb.1]),
      if_neg (fun h => by linarith [hb.1]),
      if_neg (fun h => by linarith [hb.1]),
      if_neg (fun h => by linarith [hb.1]),
      if_neg (fun h => by linarith [hb.1]),
      if_pos hb.2]
  | before1920 =>
    have hb : _ ∧ _ := hb
    rw [hc, if_neg (fun h => by linarith [h.1, hb.2]),
      if_neg (fun h => by rcases h with h | h <;> linarith [hb.1, hb.2]),
      if_neg (fun h => by linarith [hb.1]),
      if_neg (fun h => by linarith [hb.1]),
      if_neg (fun h => by linarith [hb.1]),
      if_neg (fun h => by linarith [hb.1]),
      if_neg (fun h => by linarith [hb.1]),
      if_neg (fun h => by linarith [hb.1]),
      if_pos hb.2]
  | before1941 =>
    have hb : _ ∧ _ := hb
    rw [hc, if_neg (fun h => by linarith [h.1, hb.2]),
      if_neg (fun h => by rcases h with h | h <;> linarith [hb.1, hb.2]),
      if_neg (fun h => by linarith [hb.1]),
      if_neg (fun h => by linarith [hb.1]),
      if_neg (fun h => by linarith [hb.1]),
      if_neg (fun h => by linarith [hb.1]),
      if_neg (fun h => by linarith [hb.1]),
      if_neg (fun h => by linarith [hb.1]),
      if_neg (fun h => by linarith [hb.1]),
      if_pos hb.2]
  | before1961 =>
    have hb : _ ∧ _ := hb
    rw [hc, if_neg (fun h => by linarith [h.1, hb.2]),
      if_neg (fun h => by rcases h with h | h <;> linarith [hb.1, hb.2]),
      if_neg (fun h => by linarith [hb.1]),
      if_neg (fun h => by linarith [hb.1]),
      if_neg (fun h => by linarith [hb.1]),
      if_neg (fun h => by linarith [hb.1]),
      if_neg (fun h => by linarith [hb.1]),
      if_neg (fun h => by linarith [hb.1]),
      if_neg (fun h => by linarith [hb.1]),
      if_neg (fun h => by linarith [hb.1]),
      if_pos hb.2]
  | before1986 =>
    have hb : _ ∧ _ := hb
    rw [hc, if_neg (fun h => by linarith [h.1, hb.2]),
      if_neg (fun h => by rcases h with h | h <;> linarith [hb.1, hb.2]),
      if_neg (fun h => by linarith [hb.1]),
      if_neg (fun h => by linarith [hb.1]),
      if_neg (fun h => by linarith [hb.1]),
      if_neg (fun h => by linarith [hb.1]),
      if_neg (fun h => by linarith [hb.1]),
      if_neg (fun h => by linarith [hb.1]),
      if_neg (fun h => by linarith [hb.1]),
      if_neg (fun h => by linarith [hb.1]),
      if_neg (fun h => by linarith [hb.1]),
      if_pos hb.2]
  | before2005 =>
    have hb : _ ∧ _ := hb
    rw [hc, if_neg (fun h => by linarith [h.1, hb.2]),
      if_neg (fun h => by rcases h with h | h <;> linarith [hb.1, hb.2]),
      if_neg (fun h => by linarith [hb.1]),
      if_neg (fun h => by linarith [hb.1]),
      if_neg (fun h => by linarith [hb.1]),
      if_neg (fun h => by linarith [hb.1]),
      if_neg (fun h => by linarith [hb.1]),
      if_neg (fun h => by linarith [hb.1]),
      if_neg (fun h => by linarith [hb.1]),
      if_neg (fun h => by linarith [hb.1]),
      if_neg (fun h => by linarith [hb.1]),
      if_neg (fun h => by linarith [hb.1]),
      if_pos hb.2]
  | before2150 =>
    have hb : _ ∧ _ := hb
    rw [hc, if_neg (fun h => by linarith [h.2, hb.1]),
      if_neg (fun h => by rcases h with h | h <;> linarith [hb.1, hb.2]),
      if_neg (fun h => by linarith [hb.1]),
      if_neg (fun h => by linarith [hb.1]),
      if_neg (fun h => by linarith [hb.1]),
      if_neg (fun h => by linarith [hb.1]),
      if_neg (fun h => by linarith [hb.1]),
      if_neg (fun h => by linarith [hb.1]),
      if_neg (fun h => by linarith [hb.1]),
      if_neg (fun h => by linarith [hb.1]),
      if_neg (fun h => by linarith [hb.1]),
      if_neg (fun h => by linarith [hb.1]),
      if_neg (fun h => by linarith [hb.1]),
      if_pos hb.2]
  | fallThrough => exact hb.elim

/-- Every year lies in one of the intervals. -/
theorem espenakInterval_total (q : ℚ) : ∃ b, espenakInterval q b := by
  by_cases h0 : q < -500 ∨ 2150 ≤ q
  · exact ⟨.outside, h0⟩
  have h1 : -500 ≤ q := not_lt.mp (fun h => h0 (.inl h))
  have h2 : q < 2150 := not_le.mp (fun h => h0 (.inr h))
  by_cases g500 : q < 500
  · exact ⟨.before500, h1, g500⟩
  have k500 : (500 : ℚ) ≤ q := not_lt.mp g500
  by_cases g1600 : q < 1600
  · exact ⟨.before1600, k500, g1600⟩
  have k1600 : (1600 : ℚ) ≤ q := not_lt.mp g1600
  by_cases g1700 : q < 1700
  · exact ⟨.before1700, k1600, g1700⟩
  have k1700 : (1700 : ℚ) ≤ q := not_lt.mp g1700
  by_cases g1800 : q < 1800
  · exact ⟨.before1800, k1700, g1800⟩
  have k1800 : (1800 : ℚ) ≤ q := not_lt.mp g1800
  by_cases g1860 : q < 1860
  · exact ⟨.before1860, k1800, g1860⟩
  have k1860 : (1860 : ℚ) ≤ q := not_lt.mp g1860
  by_cases g1900 : q < 1900
  · exact ⟨.before1900, k1860, g1900⟩
  have k1900 : (1900 : ℚ) ≤ q := not_lt.mp g1900
  by_cases g1920 : q < 1920
  · exact ⟨.before1920, k1900, g1920⟩
  have k1920 : (1920 : ℚ) ≤ q := not_lt.mp g1920
  by_cases g1941 : q < 1941
  · exact ⟨.before1941, k1920, g1941⟩
  have k1941 : (1941 : ℚ) ≤ q := not_lt.mp g1941
  by_cases g1961 : q < 1961
  · exact ⟨.before1961, k1941, g1961⟩
  have k1961 : (1961 : ℚ) ≤ q := not_lt.mp g1961
  by_cases g1986 : q < 1986
  · exact ⟨.before1986, k1961, g1986⟩
  have k1986 : (1986 : ℚ) ≤ q := not_lt.mp g1986
  by_cases g2005 : q < 2005
  · exact ⟨.before2005, k1986, g2005⟩
  have k2005 : (2005 : ℚ) ≤ q := not_lt.mp g2005
  by_cases g2050 : q ≤ 2050
  · exact ⟨.from2005to2050, k2005, g2050⟩
  exact ⟨.before2150, not_le.mp g2050, h2⟩

end IEEE

namespace IEEE

theorem M_PI_eq : M_PI = .finite (884279719003555 / 281474976710656) := by decide!

theorem twoPi_eq : M_PI * 2 = .finite (884279719003555 / 140737488355328) := by decide!

theorem zero_eq : (0 : Binary64) = .finite 0 := by decide!

theorem roundToGrid_twoPi :
    roundToGrid (884279719003555 / 140737488355328) = 884279719003555 / 140737488355328 := by
  decide!

/-- The wrap of `convertLSTtoGST` and `convertGSTtoLST`: a value between -4 and 10 is brought
into `[0, 2π]` by adding or subtracting the binary64 number `2π` once, with a rounding error
of at most `2 ^ (-50)`. -/
theorem wrap_cases (x : Binary64) (hx : x.isFinite = true) (h1 : -4 ≤ x.toRat)
    (h2 : x.toRat ≤ 10) :
    (x.toRat < 0 ∧ Binary64.lt x 0 = true ∧ (x + M_PI * 2).isFinite = true ∧
        |(x + M_PI * 2).toRat - (x.toRat + 884279719003555 / 140737488355328)| ≤ 1 / 2 ^ 50 ∧
        0 ≤ (x + M_PI * 2).toRat ∧
        (x + M_PI * 2).toRat ≤ 884279719003555 / 140737488355328) ∨
      (884279719003555 / 140737488355328 < x.toRat ∧ Binary64.lt x 0 = false ∧
        Binary64.gt x (M_PI * 2) = true ∧ (x - M_PI * 2).isFinite = true ∧
        |(x - M_PI * 2).toRat - (x.toRat - 884279719003555 / 140737488355328)| ≤ 1 / 2 ^ 50 ∧
        0 ≤ (x - M_PI * 2).toRat ∧
        (x - M_PI * 2).toRat ≤ 884279719003555 / 140737488355328) ∨
      (0 ≤ x.toRat ∧ x.toRat ≤ 884279719003555 / 140737488355328 ∧
        Binary64.lt x 0 = false ∧ Binary64.gt x (M_PI * 2) = false) := by
  have e3 : twoPow 3 = 8 := by rw [twoPow_eq]; norm_num
  have em50 : twoPow (3 - 53) = 1 / 2 ^ 50 := by rw [twoPow_eq]; norm_num
  have hmin : minExponent ≤ 3 := by unfold minExponent; norm_num
  have hlt : Binary64.lt x 0 = decide (x.toRat < 0) := lt_of_eq_finite x 0 0 hx zero_eq
  have hgt : Binary64.gt x (M_PI * 2) = decide (884279719003555 / 140737488355328 < x.toRat) :=
    gt_of_eq_finite x (M_PI * 2) _ hx twoPi_eq
  have hP : (Binary64.finite (884279719003555 / 140737488355328)).toRat =
      884279719003555 / 140737488355328 := rfl
  rcases lt_or_le x.toRat 0 with hneg | hnonneg
  · left
    have ha := Binary64.add_approx x (.finite (884279719003555 / 140737488355328)) 3 hx rfl hmin
      (by norm_num)
      (by rw [e3, hP, abs_le]; constructor <;> linarith)
    obtain ⟨ha1, ha2, -, ha4⟩ := ha
    rw [em50, hP] at ha2
    rw [hP] at ha4
    have hadd : x + M_PI * 2 = Binary64.add x (.finite (884279719003555 / 140737488355328)) := by
      rw [twoPi_eq]; rfl
    rw [hadd]
    refine ⟨hneg, ?_, ha1, ha2, ?_, ?_⟩
    · rw [hlt]; exact decide_eq_true hneg
    · rw [ha4]
      exact roundToGrid_nonneg (by linarith)
    · rw [ha4]
      exact roundToGrid_le_of_le roundToGrid_twoPi (by linarith)
  · rcases lt_or_le (884279719003555 / 140737488355328) x.toRat with hbig | hsmall
    · right; left
      have hs := Binary64.sub_approx x (.finite (884279719003555 / 140737488355328)) 3 hx rfl hmin
        (by norm_num)
        (by rw [e3, hP, abs_le]; constructor <;> linarith)
      obtain ⟨hs1, hs2, -, hs4⟩ := hs
      rw [em50, hP] at hs2
      rw [hP] at hs4
      have hsub : x - M_PI * 2 = Binary64.sub x (.finite (884279719003555 / 140737488355328)) := by
        rw [twoPi_eq]; rfl
      rw [hsub]
      refine ⟨hbig, ?_, ?_, hs1, hs2, ?_, ?_⟩
      · rw [hlt]; exact decide_eq_false (not_lt.mpr hnonneg)
      · rw [hgt]; exact decide_eq_true hbig
      · rw [hs4]
        exact roundToGrid_nonneg (by linarith)
      · rw [hs4]
        exact roundToGrid_le_of_le roundToGrid_twoPi (by linarith)
    · right; right
      refine ⟨hnonneg, hsmall, ?_, ?_⟩
      · rw [hlt]; exact decide_eq_false (not_lt.mpr hnonneg)
      · rw [hgt]; exact decide_eq_false (not_lt.mpr hsmall)

end IEEE

namespace IEEE

/-- The rounding error of `convertLSTtoGST` when the difference of sidereal time and longitude
is between -7/2 and 19/2. -/
theorem convertLSTtoGST_approx (lst long : Binary64) (hlst : lst.isFinite = true)
    (hlong : long.isFinite = true) (h1 : -7 / 2 ≤ lst.toRat - long.toRat)
    (h2 : lst.toRat - long.toRat ≤ 19 / 2) :
    ((convertLSTtoGST lst long = (lst - long + M_PI * 2, -1) ∧
          Binary64.lt (lst - long) 0 = true) ∨
        (convertLSTtoGST lst long = (lst - long - M_PI * 2, 1) ∧
          Binary64.lt (lst - long) 0 = false ∧ Binary64.gt (lst - long) (M_PI * 2) = true) ∨
        (convertLSTtoGST lst long = (lst - long, 0) ∧
          Binary64.lt (lst - long) 0 = false ∧ Binary64.gt (lst - long) (M_PI * 2) = false)) ∧
      (convertLSTtoGST lst long).1.isFinite = true ∧
      0 ≤ (convertLSTtoGST lst long).1.toRat ∧
      (convertLSTtoGST lst long).1.toRat ≤ 884279719003555 / 140737488355328 ∧
      ((convertLSTtoGST lst long).2 = -1 ∨ (convertLSTtoGST lst long).2 = 0 ∨
        (convertLSTtoGST lst long).2 = 1) ∧
      |(convertLSTtoGST lst long).1.toRat - (lst.toRat - long.toRat -
        ((convertLSTtoGST lst long).2 : ℚ) * (884279719003555 / 140737488355328))| ≤
          1 / 2 ^ 48 := by
  have e4 : twoPow 4 = 16 := by rw [twoPow_eq]; norm_num
  have em49 : twoPow (4 - 53) = 1 / 2 ^ 49 := by rw [twoPow_eq]; norm_num
  have hmin : minExponent ≤ 4 := by unfold minExponent; norm_num
  have hs := Binary64.sub_approx lst long 4 hlst hlong hmin (by norm_num)
    (by rw [e4, abs_le]; constructor <;> linarith)
  obtain ⟨hs1, hs2, -, -⟩ := hs
  rw [em49] at hs2
  have hdef : convertLSTtoGST lst long =
      if Binary64.lt (lst - long) 0 = true then (lst - long + M_PI * 2, -1)
      else if Binary64.gt (lst - long) (M_PI * 2) = true then (lst - long - M_PI * 2, 1)
      else (lst - long, 0) := rfl
  have hx : lst - long = Binary64.sub lst long := rfl
  rw [hdef, hx]
  generalize Binary64.sub lst long = x at hs1 hs2 ⊢
  obtain ⟨hs2a, hs2b⟩ := abs_le.mp hs2
  have hp : (0 : ℚ) < 1 / 2 ^ 49 := by norm_num
  rcases wrap_cases x hs1 (by linarith) (by linarith) with
    ⟨c1, c2, c3, c4, c5, c6⟩ | ⟨c1, c2, c3, c4, c5, c6, c7⟩ | ⟨c1, c2, c3, c4⟩
  · rw [if_pos c2]
    refine ⟨.inl ⟨rfl, c2⟩, c3, c5, c6, .inl rfl, ?_⟩
    obtain ⟨c4a, c4b⟩ := abs_le.mp c4
    show |(x + M_PI * 2).toRat - (lst.toRat - long.toRat -
      (((-1 : ℤ)) : ℚ) * (884279719003555 / 140737488355328))| ≤ 1 / 2 ^ 48
    rw [abs_le]
    push_cast
    constructor <;> linarith
  · rw [if_neg (by rw [c2]; simp), if_pos c3]
    refine ⟨.inr (.inl ⟨rfl, c2, c3⟩), c4, c6, c7, .inr (.inr rfl), ?_⟩
    obtain ⟨c5a, c5b⟩ := abs_le.mp c5
    show |(x - M_PI * 2).toRat - (lst.toRat - long.toRat -
      (((1 : ℤ)) : ℚ) * (884279719003555 / 140737488355328))| ≤ 1 / 2 ^ 48
    rw [abs_le]
    push_cast
    constructor <;> linarith
  · rw [if_neg (by rw [c3]; simp), if_neg (by rw [c4]; simp)]
    refine ⟨.inr (.inr ⟨rfl, c3, c4⟩), hs1, c1, c2, .inr (.inl rfl), ?_⟩
    show |x.toRat - (lst.toRat - long.toRat -
      (((0 : ℤ)) : ℚ) * (884279719003555 / 140737488355328))| ≤ 1 / 2 ^ 48
    rw [abs_le]
    push_cast
    constructor <;> linarith

/-- The rounding error of `convertGSTtoLST` for a sum of sidereal time and longitude between
-7/2 and 19/2. -/
theorem convertGSTtoLST_approx (gst long : Binary64) (hgst : gst.isFinite = true)
    (hlong : long.isFinite = true) (h1 : -7 / 2 ≤ gst.toRat + long.toRat)
    (h2 : gst.toRat + long.toRat ≤ 19 / 2) :
    (convertGSTtoLST gst long).isFinite = true ∧
      0 ≤ (convertGSTtoLST gst long).toRat ∧
      (convertGSTtoLST gst long).toRat ≤ 884279719003555 / 140737488355328 ∧
      ∃ k : ℤ, (k = -1 ∨ k = 0 ∨ k = 1) ∧
        |(convertGSTtoLST gst long).toRat - (gst.toRat + long.toRat +
          (k : ℚ) * (884279719003555 / 140737488355328))| ≤ 1 / 2 ^ 49 + 1 / 2 ^ 50 := by
  have e4 : twoPow 4 = 16 := by rw [twoPow_eq]; norm_num
  have em49 : twoPow (4 - 53) = 1 / 2 ^ 49 := by rw [twoPow_eq]; norm_num
  have hmin : minExponent ≤ 4 := by unfold minExponent; norm_num
  have hs := Binary64.add_approx gst long 4 hgst hlong hmin (by norm_num)
    (by rw [e4, abs_le]; constructor <;> linarith)
  obtain ⟨hs1, hs2, -, -⟩ := hs
  rw [em49] at hs2
  have hdef : convertGSTtoLST gst long =
      if Binary64.lt (gst + long) 0 = true then gst + long + M_PI * 2
      else if Binary64.gt (gst + long) (M_PI * 2) = true then gst + long - M_PI * 2
      else gst + long := rfl
  have hx : gst + long = Binary64.add gst long := rfl
  rw [hdef, hx]
  generalize Binary64.add gst long = x at hs1 hs2 ⊢
  obtain ⟨hs2a, hs2b⟩ := abs_le.mp hs2
  have hp : (0 : ℚ) < 1 / 2 ^ 49 := by norm_num
  have hp50 : (0 : ℚ) < 1 / 2 ^ 50 := by norm_num
  rcases wrap_cases x hs1 (by linarith) (by linarith) with
    ⟨c1, c2, c3, c4, c5, c6⟩ | ⟨c1, c2, c3, c4, c5, c6, c7⟩ | ⟨c1, c2, c3, c4⟩
  · rw [if_pos c2]
    refine ⟨c3, c5, c6, 1, .inr (.inr rfl), ?_⟩
    obtain ⟨c4a, c4b⟩ := abs_le.mp c4
    rw [abs_le]
    push_cast
    constructor <;> linarith
  · rw [if_neg (by rw [c2]; simp), if_pos c3]
    refine ⟨c4, c6, c7, -1, .inl rfl, ?_⟩
    obtain ⟨c5a, c5b⟩ := abs_le.mp c5
    rw [abs_le]
    push_cast
    constructor <;> linarith
  · rw [if_neg (by rw [c3]; simp), if_neg (by rw [c4]; simp)]
    refine ⟨hs1, c1, c2, 0, .inr (.inl rfl), ?_⟩
    rw [abs_le]
    push_cast
    constructor <;> linarith

end IEEE

namespace IEEE

/-- The decisions of `extrapolateToYEqualX` for three or more points, on the quantities of
`quadraticFit`. -/
theorem extrapolateToYEqualX_three (x y : Nat → Binary64) (numValues : Nat)
    (hn : 3 ≤ numValues) :
    extrapolateToYEqualX x y numValues =
      if (Binary64.ne (quadraticFit x y numValues).X1 (quadraticFit x y numValues).X2 &&
          Binary64.ne (quadraticFit x y numValues).X1 (quadraticFit x y numValues).X3 &&
          Binary64.ne (quadraticFit x y numValues).X2 (quadraticFit x y numValues).X3) = true then
        if Binary64.ne (quadraticFit x y numValues).C2 0 = true then
          if Binary64.ge (quadraticFit x y numValues).D 0 = true then
            if Binary64.lt
                (Binary64.fabs
                  ((quadraticFit x y numValues).root1 - (quadraticFit x y numValues).Y3))
                (Binary64.fabs
                  ((quadraticFit x y numValues).root2 - (quadraticFit x y numValues).Y3)) =
                true then
              if Binary64.lt
                  (Binary64.fabs
                    ((quadraticFit x y numValues).root1 - (quadraticFit x y numValues).Y3))
                  (24 * 3600) = true then
                (quadraticFit x y numValues).root1 + (quadraticFit x y numValues).offset
              else linearFit (x (numValues - 2)) (y (numValues - 2)) (x (numValues - 1))
                (y (numValues - 1))
            else if Binary64.lt
                (Binary64.fabs
                  ((quadraticFit x y numValues).root2 - (quadraticFit x y numValues).Y3))
                (24 * 3600) = true then
              (quadraticFit x y numValues).root2 + (quadraticFit x y numValues).offset
            else linearFit (x (numValues - 2)) (y (numValues - 2)) (x (numValues - 1))
              (y (numValues - 1))
          else linearFit (x (numValues - 2)) (y (numValues - 2)) (x (numValues - 1))
            (y (numValues - 1))
        else linearFit (x (numValues - 2)) (y (numValues - 2)) (x (numValues - 1))
          (y (numValues - 1))
      else linearFit (x (numValues - 2)) (y (numValues - 2)) (x (numValues - 1))
        (y (numValues - 1)) := by
  unfold extrapolateToYEqualX
  rw [if_neg (by omega), if_pos (by omega)]

end IEEE

namespace IEEE

end IEEE

namespace Binary64

end Binary64

namespace IEEE

end IEEE

namespace IEEE

/-- The scale `1 + N / Dn` of `calculateEclipse` for an ordinary numerator and an ordinary
positive denominator: it is not a NaN, and it is ordered against 1 and 2 as the numerator is
against 0 and the denominator. -/
theorem eclipseScale_facts (N Dn : Binary64) (hN : N.isFinite = true)
    (hD : Dn.isFinite = true) (hd : 0 < Dn.toRat) :
    ((1 : Binary64) + N / Dn).isnan = false ∧
      (N.toRat ≤ 0 → Binary64.le ((1 : Binary64) + N / Dn) (.finite 1) = true) ∧
      (0 ≤ N.toRat → Binary64.le (.finite 1) ((1 : Binary64) + N / Dn) = true) ∧
      (N.toRat ≤ Dn.toRat → Binary64.le ((1 : Binary64) + N / Dn) (.finite 2) = true) ∧
      (Dn.toRat ≤ N.toRat → Binary64.le (.finite 2) ((1 : Binary64) + N / Dn) = true) := by
  have hdiv : N / Dn = Binary64.ofExact (N.toRat / Dn.toRat)
      (xor N.isNegative Dn.isNegative) := Binary64.div_of_isFinite N Dn hN hD (ne_of_gt hd)
  have hadd : (1 : Binary64) + N / Dn = Binary64.add (.finite 1) (N / Dn) := by
    rw [one_eq]; rfl
  have hthr := two_lt_overflowThreshold
  have e10 : roundToGrid (1 + 0) = 1 + 0 := by rw [add_zero]; exact roundToGrid_one
  have e11 : roundToGrid (1 + 1) = 1 + 1 := by
    rw [show (1 + 1 : ℚ) = 2 by norm_num]; exact roundToGrid_two
  rw [hadd, hdiv]
  refine ⟨Binary64.one_add_isnan _ (Binary64.ofExact_not_nan _ _), ?_, ?_, ?_, ?_⟩
  · intro h
    have h1 := Binary64.ofExact_le_finite (N.toRat / Dn.toRat) 0
      (xor N.isNegative Dn.isNegative) roundToGrid_zero (by linarith)
      (div_nonpos_of_nonpos_of_nonneg h hd.le)
    have h2 := Binary64.one_add_le _ 0 e10 (by linarith) h1
    rw [add_zero] at h2
    exact h2
  · intro h
    have h1 := Binary64.finite_le_ofExact (N.toRat / Dn.toRat) 0
      (xor N.isNegative Dn.isNegative) roundToGrid_zero (by linarith) (div_nonneg h hd.le)
    have h2 := Binary64.le_one_add _ 0 e10 (by linarith) h1
    rw [add_zero] at h2
    exact h2
  · intro h
    have h1 := Binary64.ofExact_le_finite (N.toRat / Dn.toRat) 1
      (xor N.isNegative Dn.isNegative) roundToGrid_one (by linarith)
      ((div_le_one hd).mpr h)
    have h2 := Binary64.one_add_le _ 1 e11 (by linarith) h1
    rw [show (1 + 1 : ℚ) = 2 by norm_num] at h2
    exact h2
  · intro h
    have h1 := Binary64.finite_le_ofExact (N.toRat / Dn.toRat) 1
      (xor N.isNegative Dn.isNegative) roundToGrid_one (by linarith)
      ((one_le_div hd).mpr h)
    have h2 := Binary64.le_one_add _ 1 e11 (by linarith) h1
    rw [show (1 + 1 : ℚ) = 2 by norm_num] at h2
    exact h2

/-- The clamped scale of `calculateEclipse` for an ordinary separation `s` and ordinary
thresholds `T` (total) and `P` (partial) of magnitude at most `2 ^ 14` whose computed
difference is positive. -/
theorem eclipseClamp_facts (s T P raw S : Binary64) (hs : s.Bounded 14) (hT : T.Bounded 14)
    (hP : P.Bounded 14) (hden : Binary64.lt 0 (P - T) = true)
    (hraw : raw = 1 + (s - T) / (P - T))
    (hS : S = if Binary64.lt raw 0 = true then 0 else if Binary64.gt raw 3 = true then 3
      else raw) :
    S.isFinite = true ∧ 0 ≤ S.toRat ∧ S.toRat ≤ 3 ∧
      (s.toRat ≤ T.toRat → S.toRat ≤ 1 ∧ Binary64.gt raw 3 = false) ∧
      (T.toRat ≤ s.toRat → 1 ≤ S.toRat) ∧
      (s.toRat ≤ P.toRat → S.toRat ≤ 2 ∧ Binary64.gt raw 3 = false) ∧
      (P.toRat ≤ s.toRat → 2 ≤ S.toRat) ∧
      (Binary64.gt raw 3 = true → S = 3) := by
  have hmin : minExponent ≤ 15 := by unfold minExponent; norm_num
  obtain ⟨⟨n1, -⟩, n4⟩ := Binary64.sub_bounded 15 hs hT (by norm_num) (by norm_num) hmin
    (by norm_num)
  obtain ⟨⟨d1, -⟩, d4⟩ := Binary64.sub_bounded 15 hP hT (by norm_num) (by norm_num) hmin
    (by norm_num)
  have hd : 0 < (P - T).toRat := by
    rw [zero_eq, Binary64.lt_of_isFinite (.finite 0) _ rfl d1] at hden
    exact of_decide_eq_true hden
  obtain ⟨f1, f2, f3, f4, f5⟩ := eclipseScale_facts (s - T) (P - T) n1 d1 hd
  rw [← hraw] at f1 f2 f3 f4 f5
  rw [zero_eq, three_eq] at hS
  obtain ⟨c1, c2, c3, c4, c5, c6⟩ := Binary64.clamp_facts raw f1
  rw [← hS] at c1 c2 c3 c4 c5
  rw [three_eq]
  refine ⟨c1, c2, c3, ?_, ?_, ?_, ?_, ?_⟩
  · intro h
    have hn : (s - T).toRat ≤ 0 := by
      rw [n4]; exact roundToGrid_nonpos (by linarith)
    exact ⟨c4 1 (by norm_num) (f2 hn), c6 1 (by norm_num) (f2 hn)⟩
  · intro h
    have hn : 0 ≤ (s - T).toRat := by
      rw [n4]; exact roundToGrid_nonneg (by linarith)
    exact c5 1 (by norm_num) (f3 hn)
  · intro h
    have hn : (s - T).toRat ≤ (P - T).toRat := by
      rw [n4, d4]; exact roundToGrid_mono (by linarith)
    exact ⟨c4 2 (by norm_num) (f4 hn), c6 2 (by norm_num) (f4 hn)⟩
  · intro h
    have hn : (P - T).toRat ≤ (s - T).toRat := by
      rw [n4, d4]; exact roundToGrid_mono (by linarith)
    exact c5 2 (by norm_num) (f5 hn)
  · intro h
    rw [hS, Binary64.not_lt_zero_of_gt_three raw h, if_neg (by simp), if_pos h]

theorem half_bounded {a : Binary64} {i : ℤ} (ha : a.Bounded i) (hmin : minExponent ≤ i - 1)
    (hmax : i - 1 ≤ 1023) :
    (a / 2).Bounded (i - 1) ∧ (a / 2).toRat = roundToGrid (a.toRat / 2) := by
  have h := Binary64.div_bounded (b := .finite 2) (j := 1) (i - 1) ha rfl
    (by
      have e1 : twoPow 1 = 2 := by rw [twoPow_eq]; norm_num
      rw [e1]
      show (2 : ℚ) ≤ |2|
      norm_num)
    (le_refl _) hmin hmax
  have e : a / 2 = a / Binary64.finite 2 := by rw [two_eq]
  rw [e]
  exact h

/-- The thresholds of the solar branch for bounded angular sizes. -/
theorem solarThresholds_bounded (sun moon : Binary64) (hsun : sun.Bounded 10)
    (hmoon : moon.Bounded 10) :
    (sun / 2 + moon / 2).Bounded 14 ∧ (moon / 2 - sun / 2).Bounded 14 ∧
      (sun / 2 - moon / 2).isFinite = true ∧
      (sun / 2 - moon / 2).toRat = -(moon / 2 - sun / 2).toRat := by
  have hmin : ∀ k : ℤ, 0 ≤ k → minExponent ≤ k := by
    intro k hk; unfold minExponent; omega
  obtain ⟨hs, -⟩ := half_bounded hsun (hmin _ (by norm_num)) (by norm_num)
  obtain ⟨hm, -⟩ := half_bounded hmoon (hmin _ (by norm_num)) (by norm_num)
  obtain ⟨hP, -⟩ := Binary64.add_bounded 14 hs hm (by norm_num) (by norm_num)
    (hmin _ (by norm_num)) (by norm_num)
  obtain ⟨hT, hT'⟩ := Binary64.sub_bounded 14 hm hs (by norm_num) (by norm_num)
    (hmin _ (by norm_num)) (by norm_num)
  obtain ⟨hA, hA'⟩ := Binary64.sub_bounded 14 hs hm (by norm_num) (by norm_num)
    (hmin _ (by norm_num)) (by norm_num)
  refine ⟨hP, hT, hA.1, ?_⟩
  rw [hA', hT', ← roundToGrid_neg]
  congr 1
  ring

/-- The thresholds of the lunar branch for bounded sizes and parallaxes. -/
theorem lunarThresholds_bounded (sun moon sunParallax moonParallax : Binary64)
    (hsun : sun.Bounded 10) (hmoon : moon.Bounded 10) (hsp : sunParallax.Bounded 10)
    (hmp : moonParallax.Bounded 10) :
    (moon / 2 + 2 * umbralAngularRadius moonParallax (sun / 2) sunParallax / 2).Bounded 14 ∧
      (2 * umbralAngularRadius moonParallax (sun / 2) sunParallax / 2 - moon / 2).Bounded 14 := by
  have hmin : ∀ k : ℤ, 0 ≤ k → minExponent ≤ k := by
    intro k hk; unfold minExponent; omega
  obtain ⟨hs, -⟩ := half_bounded hsun (hmin _ (by norm_num)) (by norm_num)
  obtain ⟨hm, -⟩ := half_bounded hmoon (hmin _ (by norm_num)) (by norm_num)
  have hc : (1.01 : Binary64).Bounded 1 := by decide!
  have h2 : (2 : Binary64).Bounded 1 := by decide!
  obtain ⟨h1, -⟩ := Binary64.mul_bounded 11 hc hmp (by norm_num) (hmin _ (by norm_num))
    (by norm_num)
  obtain ⟨h3, -⟩ := Binary64.sub_bounded 12 h1 hs (by norm_num) (by norm_num)
    (hmin _ (by norm_num)) (by norm_num)
  obtain ⟨h4, -⟩ := Binary64.add_bounded 13 h3 hsp (by norm_num) (by norm_num)
    (hmin _ (by norm_num)) (by norm_num)
  have hu : umbralAngularRadius moonParallax (sun / 2) sunParallax =
      1.01 * moonParallax - sun / 2 + sunParallax := rfl
  rw [hu]
  obtain ⟨h5, -⟩ := Binary64.mul_bounded 14 h2 h4 (by norm_num) (hmin _ (by norm_num))
    (by norm_num)
  obtain ⟨h6, -⟩ := half_bounded h5 (hmin _ (by norm_num)) (by norm_num)
  obtain ⟨hP, -⟩ := Binary64.add_bounded 14 hm h6 (by norm_num) (by norm_num)
    (hmin _ (by norm_num)) (by norm_num)
  obtain ⟨hT, -⟩ := Binary64.sub_bounded 14 h6 hm (by norm_num) (by norm_num)
    (hmin _ (by norm_num)) (by norm_num)
  exact ⟨hP, hT⟩

end IEEE

namespace IEEE

/-- The parts of the result of `calculateEclipse` that do not depend on the branch. -/
theorem calculateEclipse_common (v : EclipseCallResults) :
    (calculateEclipse v).rawSeparation =
        1 + ((calculateEclipse v).physicalSeparation -
            (calculateEclipse v).separationAtTotalEclipse) /
          ((calculateEclipse v).separationAtPartialEclipse -
            (calculateEclipse v).separationAtTotalEclipse) ∧
      (calculateEclipse v).abstractSeparation =
        (if Binary64.lt (calculateEclipse v).rawSeparation 0 = true then 0
          else if Binary64.gt (calculateEclipse v).rawSeparation 3 = true then 3
          else (calculateEclipse v).rawSeparation) ∧
      (calculateEclipse v).eclipseKind =
        (if Binary64.lt (calculateEclipse v).rawSeparation 0 = true then
            (calculateEclipse v).branchKind
          else if Binary64.gt (calculateEclipse v).rawSeparation 3 = true then
            (if (calculateEclipse v).solarNotLunar = true then ECEclipseKind.ECEclipseNoneSolar
              else ECEclipseKind.ECEclipseNoneLunar)
          else (calculateEclipse v).branchKind) ∧
      (calculateEclipse v).angularSep = (calculateEclipse v).physicalSeparation :=
  ⟨rfl, rfl, rfl, rfl⟩

/-- The solar branch of `calculateEclipse`. -/
theorem calculateEclipse_solar (v : EclipseCallResults)
    (h : Binary64.lt v.raDelta (M_PI / 2) = true) :
    (calculateEclipse v).physicalSeparation = v.solarSeparation ∧
      (calculateEclipse v).separationAtPartialEclipse =
        v.sunAngularSize / 2 + v.moonAngularSize / 2 ∧
      (calculateEclipse v).separationAtTotalEclipse =
        v.moonAngularSize / 2 - v.sunAngularSize / 2 ∧
      (calculateEclipse v).notUp = Binary64.lt v.sunAltitude v.sunAltAtRiseSet ∧
      (calculateEclipse v).shadowAngularSize = 0 ∧
      (calculateEclipse v).branchKind =
        (if Binary64.lt v.sunAltitude v.sunAltAtRiseSet = true then
            ECEclipseKind.ECEclipseSolarNotUp
          else if Binary64.gt v.solarSeparation
              (v.sunAngularSize / 2 + v.moonAngularSize / 2) = true then
            ECEclipseKind.ECEclipseNoneSolar
          else if Binary64.lt v.solarSeparation
              (v.sunAngularSize / 2 - v.moonAngularSize / 2) = true then
            ECEclipseKind.ECEclipseAnnularSolar
          else if Binary64.gt v.solarSeparation
              (v.moonAngularSize / 2 - v.sunAngularSize / 2) = true then
            ECEclipseKind.ECEclipsePartialSolar
          else ECEclipseKind.ECEclipseTotalSolar) := by
  simp only [calculateEclipse, h, if_true]
  exact ⟨trivial, trivial, trivial, trivial, trivial, trivial⟩

/-- The lunar branch of `calculateEclipse`. -/
theorem calculateEclipse_lunar (v : EclipseCallResults)
    (h : Binary64.lt v.raDelta (M_PI / 2) = false) :
    (calculateEclipse v).physicalSeparation = v.lunarSeparation ∧
      (calculateEclipse v).separationAtPartialEclipse =
        v.moonAngularSize / 2 +
          2 * umbralAngularRadius v.moonParallax (v.sunAngularSize / 2) v.sunParallax / 2 ∧
      (calculateEclipse v).separationAtTotalEclipse =
        2 * umbralAngularRadius v.moonParallax (v.sunAngularSize / 2) v.sunParallax / 2 -
          v.moonAngularSize / 2 ∧
      (calculateEclipse v).notUp = Binary64.lt v.moonAltitude v.moonAltAtRiseSet ∧
      (calculateEclipse v).shadowAngularSize =
        2 * umbralAngularRadius v.moonParallax (v.sunAngularSize / 2) v.sunParallax ∧
      (calculateEclipse v).branchKind =
        (if Binary64.lt v.moonAltitude v.moonAltAtRiseSet = true then
            ECEclipseKind.ECEclipseLunarNotUp
          else if Binary64.gt v.lunarSeparation
              (v.moonAngularSize / 2 +
                2 * umbralAngularRadius v.moonParallax (v.sunAngularSize / 2) v.sunParallax /
                  2) = true then
            ECEclipseKind.ECEclipseNoneLunar
          else if Binary64.gt v.lunarSeparation
              (2 * umbralAngularRadius v.moonParallax (v.sunAngularSize / 2) v.sunParallax / 2 -
                v.moonAngularSize / 2) = true then
            ECEclipseKind.ECEclipsePartialLunar
          else ECEclipseKind.ECEclipseTotalLunar) := by
  simp only [calculateEclipse, h, Bool.false_eq_true, if_false]
  exact ⟨trivial, trivial, trivial, trivial, trivial, trivial⟩

/-- How the kind set by the branch places the separation against the thresholds. -/
theorem calculateEclipse_branch (v : EclipseCallResults)
    (hsun : v.sunAngularSize.Bounded 10) (hmoon : v.moonAngularSize.Bounded 10)
    (hsunParallax : v.sunParallax.Bounded 10) (hmoonParallax : v.moonParallax.Bounded 10)
    (hsolar : v.solarSeparation.Bounded 10) (hlunar : v.lunarSeparation.Bounded 10)
    (hsolar0 : 0 ≤ v.solarSeparation.toRat) :
    (calculateEclipse v).physicalSeparation.Bounded 14 ∧
      (calculateEclipse v).separationAtTotalEclipse.Bounded 14 ∧
      (calculateEclipse v).separationAtPartialEclipse.Bounded 14 ∧
      ((calculateEclipse v).branchKind.isTotal = true →
        (calculateEclipse v).physicalSeparation.toRat ≤
          (calculateEclipse v).separationAtTotalEclipse.toRat) ∧
      ((calculateEclipse v).branchKind.isPartialOrAnnular = true →
        (calculateEclipse v).separationAtTotalEclipse.toRat ≤
            (calculateEclipse v).physicalSeparation.toRat ∧
          (calculateEclipse v).physicalSeparation.toRat ≤
            (calculateEclipse v).separationAtPartialEclipse.toRat) ∧
      ((calculateEclipse v).branchKind.isNone = true →
        (calculateEclipse v).separationAtPartialEclipse.toRat ≤
          (calculateEclipse v).physicalSeparation.toRat) ∧
      ((calculateEclipse v).notUp = false →
        (calculateEclipse v).branchKind.isTotal = true ∨
          (calculateEclipse v).branchKind.isPartialOrAnnular = true ∨
          (calculateEclipse v).branchKind.isNone = true) := by
  by_cases h : Binary64.lt v.raDelta (M_PI / 2) = true
  · obtain ⟨e1, e2, e3, e4, -, e6⟩ := calculateEclipse_solar v h
    obtain ⟨hP, hT, hA, hA'⟩ := solarThresholds_bounded _ _ hsun hmoon
    rw [e1, e2, e3, e4, e6]
    have c1 := Binary64.lt_of_isFinite v.solarSeparation _ hsolar.1 hP.1
    have c2 := Binary64.lt_of_isFinite _ v.solarSeparation hP.1 hsolar.1
    have c3 := Binary64.lt_of_isFinite v.solarSeparation _ hsolar.1 hA
    have c4 := Binary64.lt_of_isFinite _ v.solarSeparation hT.1 hsolar.1
    rw [hA'] at c3
    simp only [Binary64.gt, c2, c3, c4, decide_eq_true_eq]
    generalize (v.moonAngularSize / 2 - v.sunAngularSize / 2).toRat = T at *
    generalize (v.sunAngularSize / 2 + v.moonAngularSize / 2).toRat = P at *
    generalize v.solarSeparation.toRat = s at *
    refine ⟨hsolar.mono (by norm_num), hT, hP, ?_, ?_, ?_, ?_⟩
    · intro hk
      split_ifs at hk with g1 g2 g3 g4 <;> simp [ECEclipseKind.isTotal] at hk
      exact not_lt.mp g4
    · intro hk
      split_ifs at hk with g1 g2 g3 g4 <;> simp [ECEclipseKind.isPartialOrAnnular] at hk
      · exact ⟨by linarith, not_lt.mp g2⟩
      · exact ⟨g4.le, not_lt.mp g2⟩
    · intro hk
      split_ifs at hk with g1 g2 g3 g4 <;> simp [ECEclipseKind.isNone] at hk
      exact g2.le
    · intro hup
      rw [if_neg (by rw [hup]; simp)]
      split_ifs <;> simp [ECEclipseKind.isTotal, ECEclipseKind.isPartialOrAnnular,
        ECEclipseKind.isNone]
  · have h' : Binary64.lt v.raDelta (M_PI / 2) = false := by
      cases hh : Binary64.lt v.raDelta (M_PI / 2)
      · rfl
      · exact absurd hh h
    obtain ⟨e1, e2, e3, e4, -, e6⟩ := calculateEclipse_lunar v h'
    obtain ⟨hP, hT⟩ := lunarThresholds_bounded _ _ _ _ hsun hmoon hsunParallax hmoonParallax
    rw [e1, e2, e3, e4, e6]
    have c2 := Binary64.lt_of_isFinite _ v.lunarSeparation hP.1 hlunar.1
    have c4 := Binary64.lt_of_isFinite _ v.lunarSeparation hT.1 hlunar.1
    simp only [Binary64.gt, c2, c4, decide_eq_true_eq]
    generalize (2 * umbralAngularRadius v.moonParallax (v.sunAngularSize / 2) v.sunParallax / 2 -
      v.moonAngularSize / 2).toRat = T at *
    generalize (v.moonAngularSize / 2 +
      2 * umbralAngularRadius v.moonParallax (v.sunAngularSize / 2) v.sunParallax / 2).toRat =
        P at *
    generalize v.lunarSeparation.toRat = s at *
    refine ⟨hlunar.mono (by norm_num), hT, hP, ?_, ?_, ?_, ?_⟩
    · intro hk
      split_ifs at hk with g1 g2 g3 <;> simp [ECEclipseKind.isTotal] at hk
      exact not_lt.mp g3
    · intro hk
      split_ifs at hk with g1 g2 g3 <;> simp [ECEclipseKind.isPartialOrAnnular] at hk
      exact ⟨g3.le, not_lt.mp g2⟩
    · intro hk
      split_ifs at hk with g1 g2 g3 <;> simp [ECEclipseKind.isNone] at hk
      exact g2.le
    · intro hup
      rw [if_neg (by rw [hup]; simp)]
      split_ifs <;> simp [ECEclipseKind.isTotal, ECEclipseKind.isPartialOrAnnular,
        ECEclipseKind.isNone]

/-- The override of the kind at the end of `calculateEclipse`: the kind of the branch is kept
unless the separation is clamped at 3. -/
theorem eclipseKind_cases (raw : Binary64) (K Kn Kfinal : ECEclipseKind)
    (hK : Kfinal = if Binary64.lt raw 0 = true then K
      else if Binary64.gt raw 3 = true then Kn else K) :
    (Binary64.gt raw 3 = true ∧ Kfinal = Kn) ∨ (Binary64.gt raw 3 = false ∧ Kfinal = K) := by
  cases hg : Binary64.gt raw 3
  · right
    refine ⟨rfl, ?_⟩
    rw [hK, hg]
    simp
  · left
    refine ⟨rfl, ?_⟩
    have h0 := Binary64.not_lt_zero_of_gt_three raw (by rw [← three_eq]; exact hg)
    rw [← zero_eq] at h0
    rw [hK, h0, hg]
    rfl

/-- The agreement of the final kind with the clamped separation, from the place of the
separation `s` against the thresholds `T` and `P`. -/
theorem eclipseKind_agrees (S raw : Binary64) (K Kn Kfinal : ECEclipseKind) (notUp : Bool)
    (s T P : ℚ) (hKn : Kn.isNone = true)
    (hK : Kfinal = if Binary64.lt raw 0 = true then K
      else if Binary64.gt raw 3 = true then Kn else K)
    (f4 : s ≤ T → S.toRat ≤ 1 ∧ Binary64.gt raw 3 = false) (f5 : T ≤ s → 1 ≤ S.toRat)
    (f6 : s ≤ P → S.toRat ≤ 2 ∧ Binary64.gt raw 3 = false) (f7 : P ≤ s → 2 ≤ S.toRat)
    (f8 : Binary64.gt raw 3 = true → S = 3)
    (k1 : K.isTotal = true → s ≤ T) (k2 : K.isPartialOrAnnular = true → T ≤ s ∧ s ≤ P)
    (k3 : K.isNone = true → P ≤ s)
    (k4 : notUp = false → K.isTotal = true ∨ K.isPartialOrAnnular = true ∨ K.isNone = true) :
    (Kfinal.isTotal = true → S.toRat ≤ 1) ∧
      (Kfinal.isPartialOrAnnular = true → 1 ≤ S.toRat ∧ S.toRat ≤ 2) ∧
      (Kfinal.isNone = true → 2 ≤ S.toRat) ∧
      (notUp = false →
        (S.toRat < 1 → Kfinal.isTotal = true) ∧
        (1 < S.toRat → S.toRat < 2 → Kfinal.isPartialOrAnnular = true) ∧
        (2 < S.toRat → Kfinal.isNone = true)) ∧
      (Binary64.gt raw 3 = true → S = 3 ∧ Kfinal.isNone = true) := by
  have h3 : ((3 : Binary64)).toRat = 3 := by rw [three_eq]; rfl
  have hexcl : ∀ k : ECEclipseKind, k.isNone = true →
      k.isTotal = false ∧ k.isPartialOrAnnular = false := by
    intro k hk
    cases k <;> simp_all [ECEclipseKind.isNone, ECEclipseKind.isTotal,
      ECEclipseKind.isPartialOrAnnular]
  rcases eclipseKind_cases raw K Kn Kfinal hK with ⟨hg, hk⟩ | ⟨hg, hk⟩
  · have hS := f8 hg
    subst hk
    obtain ⟨x1, x2⟩ := hexcl _ hKn
    rw [hS, h3, x1, x2]
    refine ⟨fun h => ?_, fun h => ?_, fun _ => by norm_num, fun _ => ⟨fun h => ?_, fun _ h => ?_,
      fun _ => hKn⟩, fun _ => ⟨rfl, hKn⟩⟩
    · exact absurd h (by decide)
    · exact absurd h (by decide)
    · norm_num at h
    · norm_num at h
  · subst hk
    refine ⟨fun h => (f4 (k1 h)).1, fun h => ⟨f5 (k2 h).1, (f6 (k2 h).2).1⟩, fun h => f7 (k3 h),
      fun hup => ?_, fun h => ?_⟩
    · rcases k4 hup with ht | hp | hn
      · have := (f4 (k1 ht)).1
        refine ⟨fun _ => ht, fun h _ => ?_, fun h => ?_⟩ <;> exfalso <;> linarith
      · have h1 := f5 (k2 hp).1
        have h2 := (f6 (k2 hp).2).1
        refine ⟨fun h => ?_, fun _ _ => hp, fun h => ?_⟩ <;> exfalso <;> linarith
      · have := f7 (k3 hn)
        refine ⟨fun h => ?_, fun h h' => ?_, fun _ => hn⟩ <;> exfalso <;> linarith
    · rw [h] at hg
      exact absurd hg (by decide)

end IEEE

namespace IEEE

/-- A rounded number is on the binary64 grid: rounding it again changes nothing. -/
theorem roundToGrid_idem (q : ℚ) : roundToGrid (roundToGrid q) = roundToGrid q := by
  have key : ∀ x : ℚ, 0 < x → roundToGrid (roundToGrid x) = roundToGrid x := by
    intro x hx
    have hr0 : 0 ≤ roundToGrid x := roundToGrid_nonneg hx.le
    rcases eq_or_lt_of_le hr0 with h0 | hpos
    · rw [← h0, roundToGrid_zero]
    have hemin := minExponent_le_exponentOf x
    unfold minExponent at hemin
    have htop : roundToGrid (twoPow (exponentOf x + 1)) = twoPow (exponentOf x + 1) :=
      roundToGrid_twoPow _ (by omega)
    have hle : roundToGrid x ≤ twoPow (exponentOf x + 1) :=
      roundToGrid_le_of_le htop (lt_twoPow_exponentOf x hx).le
    rcases eq_or_lt_of_le hle with heq | hlt
    · rw [heq, htop]
    have hexp : exponentOf (roundToGrid x) = exponentOf x := by
      have hb := floorLog2_bounds (roundToGrid x) hpos
      have h1 : floorLog2 (roundToGrid x) < exponentOf x + 1 :=
        twoPow_lt_twoPow_iff.mp (lt_of_le_of_lt hb.1 hlt)
      unfold exponentOf
      rw [abs_of_pos hpos]
      rcases eq_or_lt_of_le (minExponent_le_exponentOf x) with hmin | hmin
      · have h2 : exponentOf x = max (floorLog2 |x|) minExponent := rfl
        rw [← h2, ← hmin]
        apply max_eq_right
        rw [hmin]
        omega
      · have hbot : twoPow (exponentOf x) ≤ roundToGrid x :=
          le_roundToGrid_of_le (roundToGrid_twoPow _ (by omega))
            (twoPow_exponentOf_le x hx hmin)
        have h3 : exponentOf x < floorLog2 (roundToGrid x) + 1 :=
          twoPow_lt_twoPow_iff.mp (lt_of_le_of_lt hbot hb.2)
        have h4 : floorLog2 (roundToGrid x) = exponentOf x := by omega
        have h2 : exponentOf x = max (floorLog2 |x|) minExponent := rfl
        rw [h4, ← h2]
        apply max_eq_left
        exact le_of_lt hmin
    have hulp : ulpOf (roundToGrid x) = ulpOf x := by
      unfold ulpOf
      rw [hexp]
    rw [roundToGrid_pos_eq (roundToGrid x) hpos, hulp]
    nth_rewrite 1 [roundToGrid_pos_eq x hx]
    rw [mul_div_assoc, div_self (ne_of_gt (ulpOf_pos x)), mul_one, roundHalfEven_intCast]
    exact (roundToGrid_pos_eq x hx).symm
  rcases lt_trichotomy q 0 with h | h | h
  · have := key (-q) (by linarith)
    rw [roundToGrid_neg, roundToGrid_neg] at this
    linarith
  · subst h
    rw [roundToGrid_zero, roundToGrid_zero]
  · exact key q h

end IEEE

namespace Binary64

theorem add_bd {a b : Binary64} {i j : ℤ} (k : ℤ) (ha : Bounded a i) (hb : Bounded b j)
    (h : i < k ∧ j < k ∧ -1022 ≤ k ∧ k ≤ 1023) : Bounded (a + b) k :=
  (add_bounded k ha hb h.1 h.2.1 h.2.2.1 h.2.2.2).1

theorem sub_bd {a b : Binary64} {i j : ℤ} (k : ℤ) (ha : Bounded a i) (hb : Bounded b j)
    (h : i < k ∧ j < k ∧ -1022 ≤ k ∧ k ≤ 1023) : Bounded (a - b) k :=
  (sub_bounded k ha hb h.1 h.2.1 h.2.2.1 h.2.2.2).1

theorem mul_bd {a b : Binary64} {i j : ℤ} (k : ℤ) (ha : Bounded a i) (hb : Bounded b j)
    (h : i + j ≤ k ∧ -1022 ≤ k ∧ k ≤ 1023) : Bounded (a * b) k :=
  (mul_bounded k ha hb h.1 h.2.1 h.2.2).1

theorem div_bd {a b : Binary64} {i j : ℤ} (k : ℤ) (ha : Bounded a i)
    (hb : b.isFinite = true ∧ IEEE.twoPow j ≤ |b.toRat|)
    (h : i - j ≤ k ∧ -1022 ≤ k ∧ k ≤ 1023) : Bounded (a / b) k :=
  (div_bounded k ha hb.1 hb.2 h.1 h.2.1 h.2.2).1

theorem ite_bd {a b : Binary64} {k : ℤ} (c : Bool) (ha : Bounded a k) (hb : Bounded b k) :
    Bounded (if c = true then a else b) k := by
  cases c
  · exact hb
  · exact ha

end Binary64

namespace IEEE

open Binary64

theorem twoPi_bounded : (M_PI * 2).Bounded 3 := by decide!

end IEEE

namespace IEEE

open Binary64

/-- Each polynomial of `espenakDeltaT` is an ordinary number of magnitude at most `2 ^ 100` for
a year of magnitude at most `2 ^ 33`, with a year of magnitude at most `2 ^ 12` in the
segments between -500 and 2150. -/
theorem espenakSegment_bounded (b : EspenakBranch) (yearValue : Binary64)
    (hy : yearValue.Bounded 33)
    (hsmall : b ≠ .from2005to2050 → b ≠ .outside → yearValue.Bounded 12) :
    (espenakSegment b yearValue).Bounded 100 := by
  have c0 : (2000 : Binary64).Bounded 11 := by decide!
  have c1 : (62.92 : Binary64).Bounded 6 := by decide!
  have c2 : (0.32217 : Binary64).Bounded 0 := by decide!
  have c3 : (0.005589 : Binary64).Bounded 0 := by decide!
  have c4 : (1820 : Binary64).Bounded 11 := by decide!
  have c5 : (-20 : Binary64).Bounded 5 := by decide!
  have c6 : (32 : Binary64).Bounded 5 := by decide!
  have c7 : (10583.6 : Binary64).Bounded 14 := by decide!
  have c8 : (1014.41 : Binary64).Bounded 10 := by decide!
  have c9 : (33.78311 : Binary64).Bounded 6 := by decide!
  have c10 : (5.952053 : Binary64).Bounded 3 := by decide!
  have c11 : (0.1798452 : Binary64).Bounded 0 := by decide!
  have c12 : (0.022174192 : Binary64).Bounded 0 := by decide!
  have c13 : (0.0090316521 : Binary64).Bounded 0 := by decide!
  have c14 : (1000 : Binary64).Bounded 10 := by decide!
  have c15 : (1574.2 : Binary64).Bounded 11 := by decide!
  have c16 : (556.01 : Binary64).Bounded 10 := by decide!
  have c17 : (71.23472 : Binary64).Bounded 7 := by decide!
  have c18 : (0.319781 : Binary64).Bounded 0 := by decide!
  have c19 : (0.8503463 : Binary64).Bounded 0 := by decide!
  have c20 : (0.005050998 : Binary64).Bounded 0 := by decide!
  have c21 : (0.0083572073 : Binary64).Bounded 0 := by decide!
  have c22 : (1600 : Binary64).Bounded 11 := by decide!
  have c23 : (120 : Binary64).Bounded 7 := by decide!
  have c24 : (0.9808 : Binary64).Bounded 0 := by decide!
  have c25 : (0.01532 : Binary64).Bounded 0 := by decide!
  have c26 : (1700 : Binary64).Bounded 11 := by decide!
  have c27 : (8.83 : Binary64).Bounded 4 := by decide!
  have c28 : (0.1603 : Binary64).Bounded 0 := by decide!
  have c29 : (0.0059285 : Binary64).Bounded 0 := by decide!
  have c30 : (0.00013336 : Binary64).Bounded 0 := by decide!
  have c31 : (1800 : Binary64).Bounded 11 := by decide!
  have c32 : (13.72 : Binary64).Bounded 4 := by decide!
  have c33 : (0.332447 : Binary64).Bounded 0 := by decide!
  have c34 : (0.0068612 : Binary64).Bounded 0 := by decide!
  have c35 : (0.0041116 : Binary64).Bounded 0 := by decide!
  have c36 : (0.00037436 : Binary64).Bounded 0 := by decide!
  have c37 : (0.0000121272 : Binary64).Bounded 0 := by decide!
  have c38 : (0.0000001699 : Binary64).Bounded 0 := by decide!
  have c39 : (0.000000000875 : Binary64).Bounded 0 := by decide!
  have c40 : (1860 : Binary64).Bounded 11 := by decide!
  have c41 : (7.62 : Binary64).Bounded 3 := by decide!
  have c42 : (0.5737 : Binary64).Bounded 0 := by decide!
  have c43 : (0.251754 : Binary64).Bounded 0 := by decide!
  have c44 : (0.01680668 : Binary64).Bounded 0 := by decide!
  have c45 : (0.0004473624 : Binary64).Bounded 0 := by decide!
  have c46 : (1900 : Binary64).Bounded 11 := by decide!
  have c47 : (-2.79 : Binary64).Bounded 2 := by decide!
  have c48 : (1.494119 : Binary64).Bounded 1 := by decide!
  have c49 : (0.0598939 : Binary64).Bounded 0 := by decide!
  have c50 : (0.0061966 : Binary64).Bounded 0 := by decide!
  have c51 : (0.000197 : Binary64).Bounded 0 := by decide!
  have c52 : (1920 : Binary64).Bounded 11 := by decide!
  have c53 : (21.20 : Binary64).Bounded 5 := by decide!
  have c54 : (0.84493 : Binary64).Bounded 0 := by decide!
  have c55 : (0.076100 : Binary64).Bounded 0 := by decide!
  have c56 : (0.0020936 : Binary64).Bounded 0 := by decide!
  have c57 : (1950 : Binary64).Bounded 11 := by decide!
  have c58 : (29.07 : Binary64).Bounded 5 := by decide!
  have c59 : (0.407 : Binary64).Bounded 0 := by decide!
  have c60 : (1975 : Binary64).Bounded 11 := by decide!
  have c61 : (45.45 : Binary64).Bounded 6 := by decide!
  have c62 : (1.067 : Binary64).Bounded 1 := by decide!
  have c63 : (63.86 : Binary64).Bounded 6 := by decide!
  have c64 : (0.3345 : Binary64).Bounded 0 := by decide!
  have c65 : (0.060374 : Binary64).Bounded 0 := by decide!
  have c66 : (0.0017275 : Binary64).Bounded 0 := by decide!
  have c67 : (0.000651814 : Binary64).Bounded 0 := by decide!
  have c68 : (0.00002373599 : Binary64).Bounded 0 := by decide!
  have c69 : (0.5628 : Binary64).Bounded 0 := by decide!
  have c70 : (2150 : Binary64).Bounded 12 := by decide!
  have cd0 : (100 : Binary64).isFinite = true ∧ twoPow 6 ≤ |(100 : Binary64).toRat| := by decide!
  have cd1 : (7129 : Binary64).isFinite = true ∧ twoPow 12 ≤ |(7129 : Binary64).toRat| := by decide!
  have cd2 : (1174000 : Binary64).isFinite = true ∧ twoPow 20 ≤ |(1174000 : Binary64).toRat| := by decide!
  have cd3 : (233174 : Binary64).isFinite = true ∧ twoPow 17 ≤ |(233174 : Binary64).toRat| := by decide!
  have cd4 : (233 : Binary64).isFinite = true ∧ twoPow 7 ≤ |(233 : Binary64).toRat| := by decide!
  have cd5 : (2547 : Binary64).isFinite = true ∧ twoPow 11 ≤ |(2547 : Binary64).toRat| := by decide!
  have cd6 : (260 : Binary64).isFinite = true ∧ twoPow 8 ≤ |(260 : Binary64).toRat| := by decide!
  have cd7 : (718 : Binary64).isFinite = true ∧ twoPow 9 ≤ |(718 : Binary64).toRat| := by decide!
  have z : (0 : Binary64).Bounded 100 := by decide!
  cases b
  · -- from2005to2050
    have ht := sub_bd 34 hy c0 (by decide)
    have ht2 := mul_bd 68 ht ht (by decide)
    exact (add_bd 69 (add_bd 35 c1 (mul_bd 34 c2 ht (by decide)) (by decide)) (mul_bd 68 c3 ht2 (by decide)) (by decide)).mono (by decide)
  · -- outside
    have hu := div_bd 28 (sub_bd 34 hy c4 (by decide)) cd0 (by decide)
    exact (add_bd 62 c5 (mul_bd 61 (mul_bd 33 c6 hu (by decide)) hu (by decide)) (by decide)).mono (by decide)
  · -- before500
    have hs := hsmall (by decide) (by decide)
    have hu := div_bd 6 hs cd0 (by decide)
    have hu2 := mul_bd 12 hu hu (by decide)
    have hu3 := mul_bd 18 hu2 hu (by decide)
    have hu4 := mul_bd 24 hu2 hu2 (by decide)
    have hu5 := mul_bd 30 hu3 hu2 (by decide)
    have hu6 := mul_bd 36 hu3 hu3 (by decide)
    exact (add_bd 37 (add_bd 31 (sub_bd 25 (sub_bd 22 (add_bd 19 (sub_bd 17 c7 (mul_bd 16 c8 hu (by decide)) (by decide)) (mul_bd 18 c9 hu2 (by decide)) (by decide)) (mul_bd 21 c10 hu3 (by decide)) (by decide)) (mul_bd 24 c11 hu4 (by decide)) (by decide)) (mul_bd 30 c12 hu5 (by decide)) (by decide)) (mul_bd 36 c13 hu6 (by decide)) (by decide)).mono (by decide)
  · -- before1600
    have hs := hsmall (by decide) (by decide)
    have hu := div_bd 7 (sub_bd 13 hs c14 (by decide)) cd0 (by decide)
    have hu2 := mul_bd 14 hu hu (by decide)
    have hu3 := mul_bd 21 hu2 hu (by decide)
    have hu4 := mul_bd 28 hu2 hu2 (by decide)
    have hu5 := mul_bd 35 hu3 hu2 (by decide)
    have hu6 := mul_bd 42 hu3 hu3 (by decide)
    exact (add_bd 43 (sub_bd 36 (sub_bd 29 (add_bd 23 (add_bd 22 (sub_bd 18 c15 (mul_bd 17 c16 hu (by decide)) (by decide)) (mul_bd 21 c17 hu2 (by decide)) (by decide)) (mul_bd 21 c18 hu3 (by decide)) (by decide)) (mul_bd 28 c19 hu4 (by decide)) (by decide)) (mul_bd 35 c20 hu5 (by decide)) (by decide)) (mul_bd 42 c21 hu6 (by decide)) (by decide)).mono (by decide)
  · -- before1700
    have hs := hsmall (by decide) (by decide)
    have ht := sub_bd 13 hs c22 (by decide)
    have ht2 := mul_bd 26 ht ht (by decide)
    have ht3 := mul_bd 39 ht2 ht (by decide)
    exact (add_bd 28 (sub_bd 27 (sub_bd 14 c23 (mul_bd 13 c24 ht (by decide)) (by decide)) (mul_bd 26 c25 ht2 (by decide)) (by decide)) (div_bd 27 ht3 cd1 (by decide)) (by decide)).mono (by decide)
  · -- before1800
    have hs := hsmall (by decide) (by decide)
    have ht := sub_bd 13 hs c26 (by decide)
    have ht2 := mul_bd 26 ht ht (by decide)
    have ht3 := mul_bd 39 ht2 ht (by decide)
    have ht4 := mul_bd 52 ht2 ht2 (by decide)
    exact (sub_bd 41 (add_bd 40 (sub_bd 27 (add_bd 14 c27 (mul_bd 13 c28 ht (by decide)) (by decide)) (mul_bd 26 c29 ht2 (by decide)) (by decide)) (mul_bd 39 c30 ht3 (by decide)) (by decide)) (div_bd 32 ht4 cd2 (by decide)) (by decide)).mono (by decide)
  · -- before1860
    have hs := hsmall (by decide) (by decide)
    have ht := sub_bd 13 hs c31 (by decide)
    have ht2 := mul_bd 26 ht ht (by decide)
    have ht3 := mul_bd 39 ht2 ht (by decide)
    have ht4 := mul_bd 52 ht2 ht2 (by decide)
    have ht5 := mul_bd 65 ht3 ht2 (by decide)
    have ht6 := mul_bd 78 ht3 ht3 (by decide)
    have ht7 := mul_bd 91 ht4 ht3 (by decide)
    exact (add_bd 92 (sub_bd 79 (add_bd 66 (sub_bd 53 (add_bd 40 (add_bd 27 (sub_bd 14 c32 (mul_bd 13 c33 ht (by decide)) (by decide)) (mul_bd 26 c34 ht2 (by decide)) (by decide)) (mul_bd 39 c35 ht3 (by decide)) (by decide)) (mul_bd 52 c36 ht4 (by decide)) (by decide)) (mul_bd 65 c37 ht5 (by decide)) (by decide)) (mul_bd 78 c38 ht6 (by decide)) (by decide)) (mul_bd 91 c39 ht7 (by decide)) (by decide)).mono (by decide)
  · -- before1900
    have hs := hsmall (by decide) (by decide)
    have ht := sub_bd 13 hs c40 (by decide)
    have ht2 := mul_bd 26 ht ht (by decide)
    have ht3 := mul_bd 39 ht2 ht (by decide)
    have ht4 := mul_bd 52 ht2 ht2 (by decide)
    have ht5 := mul_bd 65 ht3 ht2 (by decide)
    exact (add_bd 54 (sub_bd 53 (add_bd 40 (sub_bd 27 (add_bd 14 c41 (mul_bd 13 c42 ht (by decide)) (by decide)) (mul_bd 26 c43 ht2 (by decide)) (by decide)) (mul_bd 39 c44 ht3 (by decide)) (by decide)) (mul_bd 52 c45 ht4 (by decide)) (by decide)) (div_bd 48 ht5 cd3 (by decide)) (by decide)).mono (by decide)
  · -- before1920
    have hs := hsmall (by decide) (by decide)
    have ht := sub_bd 13 hs c46 (by decide)
    have ht2 := mul_bd 26 ht ht (by decide)
    have ht3 := mul_bd 39 ht2 ht (by decide)
    have ht4 := mul_bd 52 ht2 ht2 (by decide)
    exact (sub_bd 53 (add_bd 40 (sub_bd 27 (add_bd 15 c47 (mul_bd 14 c48 ht (by decide)) (by decide)) (mul_bd 26 c49 ht2 (by decide)) (by decide)) (mul_bd 39 c50 ht3 (by decide)) (by decide)) (mul_bd 52 c51 ht4 (by decide)) (by decide)).mono (by decide)
  · -- before1941
    have hs := hsmall (by decide) (by decide)
    have ht := sub_bd 13 hs c52 (by decide)
    have ht2 := mul_bd 26 ht ht (by decide)
    have ht3 := mul_bd 39 ht2 ht (by decide)
    exact (add_bd 40 (sub_bd 27 (add_bd 14 c53 (mul_bd 13 c54 ht (by decide)) (by decide)) (mul_bd 26 c55 ht2 (by decide)) (by decide)) (mul_bd 39 c56 ht3 (by decide)) (by decide)).mono (by decide)
  · -- before1961
    have hs := hsmall (by decide) (by decide)
    have ht := sub_bd 13 hs c57 (by decide)
    have ht2 := mul_bd 26 ht ht (by decide)
    have ht3 := mul_bd 39 ht2 ht (by decide)
    exact (add_bd 29 (sub_bd 20 (add_bd 14 c58 (mul_bd 13 c59 ht (by decide)) (by decide)) (div_bd 19 ht2 cd4 (by decide)) (by decide)) (div_bd 28 ht3 cd5 (by decide)) (by decide)).mono (by decide)
  · -- before1986
    have hs := hsmall (by decide) (by decide)
    have ht := sub_bd 13 hs c60 (by decide)
    have ht2 := mul_bd 26 ht ht (by decide)
    have ht3 := mul_bd 39 ht2 ht (by decide)
    exact (sub_bd 31 (sub_bd 19 (add_bd 15 c61 (mul_bd 14 c62 ht (by decide)) (by decide)) (div_bd 18 ht2 cd6 (by decide)) (by decide)) (div_bd 30 ht3 cd7 (by decide)) (by decide)).mono (by decide)
  · -- before2005
    have hs := hsmall (by decide) (by decide)
    have ht := sub_bd 13 hs c0 (by decide)
    have ht2 := mul_bd 26 ht ht (by decide)
    have ht3 := mul_bd 39 ht2 ht (by decide)
    have ht4 := mul_bd 52 ht2 ht2 (by decide)
    have ht5 := mul_bd 65 ht3 ht2 (by decide)
    exact (add_bd 66 (add_bd 53 (add_bd 40 (sub_bd 27 (add_bd 14 c63 (mul_bd 13 c64 ht (by decide)) (by decide)) (mul_bd 26 c65 ht2 (by decide)) (by decide)) (mul_bd 39 c66 ht3 (by decide)) (by decide)) (mul_bd 52 c67 ht4 (by decide)) (by decide)) (mul_bd 65 c68 ht5 (by decide)) (by decide)).mono (by decide)
  · -- before2150
    have hs := hsmall (by decide) (by decide)
    have ht1 := div_bd 7 (sub_bd 13 hs c4 (by decide)) cd0 (by decide)
    exact (sub_bd 21 (add_bd 20 c5 (mul_bd 19 (mul_bd 12 c6 ht1 (by decide)) ht1 (by decide)) (by decide)) (mul_bd 13 c69 (sub_bd 13 c70 hs (by decide)) (by decide)) (by decide)).mono (by decide)
  · exact z

theorem ite_fst_bounded {c : Prop} [Decidable c] (x : Binary64) (l : EspenakBranch)
    (b : Binary64 × EspenakBranch) (ha : x.Bounded 100) (hb : b.1.Bounded 100) :
    (if c then (x, l) else b).1.Bounded 100 := by
  split_ifs
  · exact ha
  · exact hb

/-- The value of `espenakDeltaT` is an ordinary number of magnitude at most `2 ^ 100` for a
year of magnitude at most `2 ^ 33`. -/
theorem espenakDeltaT_bounded (yearValue : Binary64) (hy : yearValue.Bounded 33) :
    (espenakDeltaT yearValue).1.Bounded 100 := by
  have e12 : twoPow 12 = 4096 := by rw [twoPow_eq]; norm_num
  have key : ∀ b, (-500 ≤ yearValue.toRat ∧ yearValue.toRat < 2150 ∨ b = .from2005to2050 ∨
      b = .outside) → (espenakSegment b yearValue).Bounded 100 := by
    intro b hb
    refine espenakSegment_bounded b yearValue hy (fun h1 h2 => ?_)
    rcases hb with hb | hb | hb
    · refine ⟨hy.1, ?_⟩
      rw [e12, abs_le]
      constructor <;> linarith [hb.1, hb.2]
    · exact absurd hb h1
    · exact absurd hb h2
  have z : ((0 : Binary64), EspenakBranch.fallThrough).1.Bounded 100 := by decide!
  rw [espenakDeltaT_chain yearValue hy.1]
  by_cases h1 : 2005 ≤ yearValue.toRat ∧ yearValue.toRat ≤ 2050
  · rw [if_pos h1]
    exact key _ (Or.inr (Or.inl rfl))
  rw [if_neg h1]
  by_cases h2 : yearValue.toRat < -500 ∨ 2150 ≤ yearValue.toRat
  · rw [if_pos h2]
    exact key _ (Or.inr (Or.inr rfl))
  rw [if_neg h2]
  have hr : -500 ≤ yearValue.toRat ∧ yearValue.toRat < 2150 := by
    push_neg at h2
    exact h2
  iterate 12 refine ite_fst_bounded _ _ _ (key _ (Or.inl hr)) ?_
  exact z

end IEEE

namespace IEEE

open Binary64

/-! ### The cache pool keeps its slots bounded -/

theorem pushCache_cacheSlots (g : Nat) (c : ECAstroCache) (d slop : Binary64) :
    (pushCache g c d slop).cacheSlots = c.cacheSlots := by
  unfold pushCache pushInvalid pushPrepare reinitializeECAstroCache
  dsimp only
  split_ifs <;> rfl

theorem getCache_setCache (p : ECAstroCachePool) (r r' : CacheRef) (c : ECAstroCache) :
    (p.setCache r c).getCache r' = if r' = r then c else p.getCache r' := by
  cases r <;> cases r' <;> rfl

theorem poolBounded_setCache (p : ECAstroCachePool) (r : CacheRef) (c : ECAstroCache)
    (hp : PoolBounded (some p)) (hc : c.SlotsBounded) : PoolBounded (some (p.setCache r c)) := by
  intro q hq r'
  cases hq
  rw [getCache_setCache]
  split_ifs
  · exact hc
  · exact hp p rfl r'

theorem poolBounded_push (p : ECAstroCachePool) (r : Option CacheRef) (d : Binary64)
    (hp : PoolBounded (some p)) : PoolBounded (some (pushECAstroCacheInPool p r d).2) := by
  unfold pushECAstroCacheInPool pushECAstroCacheWithSlopInPool
  cases r with
  | none =>
    intro q hq r'
    cases hq
    exact hp p rfl r'
  | some r =>
    refine poolBounded_setCache _ r _ ?_ ?_
    · intro q hq r'
      cases hq
      exact hp p rfl r'
    · have h := hp p rfl r
      unfold ECAstroCache.SlotsBounded at h ⊢
      rw [pushCache_cacheSlots]
      exact h

theorem poolBounded_pop (p : ECAstroCachePool) (r : Option CacheRef)
    (hp : PoolBounded (some p)) : PoolBounded (some (popECAstroCacheToInPool p r)) := by
  intro q hq r'
  cases hq
  exact hp p rfl r'

theorem cacheBounded_currentCacheOf (cachePool : Option ECAstroCachePool)
    (hp : PoolBounded cachePool) : CacheBounded (currentCacheOf cachePool) := by
  intro c hc
  cases cachePool with
  | none => cases hc
  | some p =>
    unfold currentCacheOf at hc
    dsimp only at hc
    cases hcur : p.currentCache with
    | none => rw [hcur] at hc; cases hc
    | some r =>
      rw [hcur] at hc
      cases hc
      exact hp p rfl r

theorem poolBounded_storeCurrent (cachePool : Option ECAstroCachePool)
    (cache : Option ECAstroCache) (hp : PoolBounded cachePool) (hc : CacheBounded cache) :
    PoolBounded (storeCurrent cachePool cache) := by
  cases cachePool with
  | none =>
    intro q hq
    cases hq
  | some p =>
    unfold storeCurrent
    dsimp only
    cases hcur : p.currentCache with
    | none => exact hp
    | some r =>
      cases cache with
      | none => exact hp
      | some c => exact poolBounded_setCache p r c hp (hc c rfl)

theorem poolBounded_map_pop (cachePool : Option ECAstroCachePool) (r : Option CacheRef)
    (hp : PoolBounded cachePool) :
    PoolBounded (cachePool.map fun p => popECAstroCacheToInPool p r) := by
  cases cachePool with
  | none =>
    intro q hq
    cases hq
  | some p => exact poolBounded_pop p r hp

/-- A guarded write keeps the slots bounded when the value written to one of the three slots
is bounded as that slot requires. -/
theorem cacheBounded_cacheWrite (cache : Option ECAstroCache) (i : CacheSlotIndex)
    (v : Binary64) (hc : CacheBounded cache)
    (h0 : i = priorUTMidnightSlotIndex → v.Bounded 37)
    (h1 : i = tdtCenturiesSlotIndex → v.Bounded 110)
    (h2 : i = tdtCenturiesDeltaTSlotIndex → v.Bounded 110) :
    CacheBounded (cacheWrite cache i v) := by
  intro c' hc'
  cases cache with
  | none => cases hc'
  | some c =>
    cases hc'
    obtain ⟨a0, a1, a2⟩ := hc c rfl
    refine ⟨?_, ?_, ?_⟩
    · show (if priorUTMidnightSlotIndex = i then v else _).Bounded 37
      split_ifs with h
      · exact h0 h.symm
      · exact a0
    · show (if tdtCenturiesSlotIndex = i then v else _).Bounded 110
      split_ifs with h
      · exact h1 h.symm
      · exact a1
    · show (if tdtCenturiesDeltaTSlotIndex = i then v else _).Bounded 110
      split_ifs with h
      · exact h2 h.symm
      · exact a2

theorem cacheBounded_cacheStore (cache : Option ECAstroCache) (i : CacheSlotIndex)
    (v : Binary64) (hc : CacheBounded cache)
    (h0 : i = priorUTMidnightSlotIndex → v.Bounded 37)
    (h1 : i = tdtCenturiesSlotIndex → v.Bounded 110)
    (h2 : i = tdtCenturiesDeltaTSlotIndex → v.Bounded 110) :
    CacheBounded (cacheStore cache i v) := by
  intro c' hc'
  cases cache with
  | none => cases hc'
  | some c =>
    cases hc'
    obtain ⟨a0, a1, a2⟩ := hc c rfl
    refine ⟨?_, ?_, ?_⟩
    · show (if priorUTMidnightSlotIndex = i then v else _).Bounded 37
      split_ifs with h
      · exact h0 h.symm
      · exact a0
    · show (if tdtCenturiesSlotIndex = i then v else _).Bounded 110
      split_ifs with h
      · exact h1 h.symm
      · exact a1
    · show (if tdtCenturiesDeltaTSlotIndex = i then v else _).Bounded 110
      split_ifs with h
      · exact h2 h.symm
      · exact a2

/-- A slot read after a hit is bounded as the slot requires. -/
theorem cacheRead_bounded (cache : Option ECAstroCache) (i : CacheSlotIndex)
    (hc : CacheBounded cache) (hit : cacheHit cache i = true) :
    (i = priorUTMidnightSlotIndex → (cacheRead cache i).Bounded 37) ∧
      (i = tdtCenturiesSlotIndex → (cacheRead cache i).Bounded 110) := by
  cases cache with
  | none => cases hit
  | some c =>
    obtain ⟨a0, a1, -⟩ := hc c rfl
    constructor
    · intro h
      subst h
      exact a0
    · intro h
      subst h
      exact a1

theorem cacheRead_deltaT_bounded (cache : Option ECAstroCache) (i : CacheSlotIndex)
    (hc : CacheBounded cache) (hit : cacheHit cache i = true) :
    (cacheRead cache tdtCenturiesDeltaTSlotIndex).Bounded 110 := by
  cases cache with
  | none => cases hit
  | some c => exact (hc c rfl).2.2

/-! ### The memo guards -/

theorem lt_le_finite (d x : Binary64) (m : ℚ) (hd : d.isFinite = true)
    (h : lt d x = true) (h' : le x (finite m) = true) : d.toRat < m := by
  cases x with
  | finite q =>
    rw [lt_of_isFinite d (finite q) hd rfl] at h
    rw [le_of_isFinite (finite q) (finite m) rfl rfl] at h'
    exact lt_of_lt_of_le (of_decide_eq_true h) (of_decide_eq_true h')
  | negZero =>
    rw [lt_of_isFinite d negZero hd rfl] at h
    rw [le_of_isFinite negZero (finite m) rfl rfl] at h'
    exact lt_of_lt_of_le (of_decide_eq_true h) (of_decide_eq_true h')
  | infinity n =>
    cases n
    · cases h'
    · cases d <;> first | cases h | cases hd
  | nan p => cases h'

/-- A static that passes the test `d > l && d < l + c` of a memo, for an instant `d` and a
span `c` both of magnitude at most `D`, is an ordinary number in `[-2 D, D)`. -/
theorem guard_bounded (d l c : Binary64) (D : ℚ) (hd : d.isFinite = true)
    (hdD : |d.toRat| ≤ D) (hc : c.isFinite = true) (hcD : c.toRat ≤ D)
    (hgrid : roundToGrid (-D) = -D) (hthr : -D < overflowThreshold)
    (h1 : gt d l = true) (h2 : lt d (l + c) = true) :
    l.isFinite = true ∧ |l.toRat| ≤ 2 * D := by
  have hD0 : 0 ≤ D := le_trans (abs_nonneg _) hdD
  obtain ⟨hd1, hd2⟩ := abs_le.mp hdD
  cases l with
  | finite q =>
    refine ⟨rfl, ?_⟩
    have hq : q < d.toRat := by
      have := h1
      unfold gt at this
      rw [lt_of_isFinite (finite q) d rfl hd] at this
      exact of_decide_eq_true this
    rw [abs_le]
    refine ⟨?_, by show q ≤ 2 * D; linarith⟩
    by_contra hcon
    push_neg at hcon
    have hsum : q + c.toRat ≤ -D := by
      show q + c.toRat ≤ -D
      have : (finite q).toRat = q := rfl
      linarith
    have hle := ofExact_le_finite (q + c.toRat) (-D) ((finite q).isNegative && c.isNegative)
      hgrid hthr hsum
    have e : (finite q + c : Binary64) = ofExact (q + c.toRat)
        ((finite q).isNegative && c.isNegative) := add_of_isFinite (finite q) c rfl hc
    rw [e] at h2
    have := lt_le_finite d _ (-D) hd h2 hle
    linarith
  | negZero =>
    refine ⟨rfl, ?_⟩
    show |(0 : ℚ)| ≤ 2 * D
    rw [abs_zero]
    linarith
  | infinity n =>
    exfalso
    cases n
    · cases d <;> cases h1
    · have e : (infinity true + c : Binary64) = infinity true := by
        cases c <;> first | rfl | cases hc
      rw [e] at h2
      cases d <;> first | cases h2 | cases hd
  | nan p =>
    exfalso
    cases d <;> cases h1

end IEEE

namespace IEEE

open Binary64

/-! ### The time conversions return bounded values -/

theorem ofInt_bounded (n : Int) (hn : |n| ≤ 2 ^ 31) : (ofInt n).Bounded 31 := by
  have h : |(n : ℚ)| ≤ twoPow 31 := by
    rw [twoPow_eq]
    have h1 : ((|n| : ℤ) : ℚ) ≤ ((2 ^ 31 : ℤ) : ℚ) := by exact_mod_cast hn
    rw [Int.cast_abs] at h1
    norm_num at h1 ⊢
    exact h1
  have := ofExact_approx (n : ℚ) false 31 (by decide) (by decide) h
  exact ⟨this.1, this.2.2.1⟩

/-- The Julian centuries and delta T computed from an instant within `2 ^ 38` seconds, a start
of the year within `2 ^ 40` seconds and a year value in the range of a C `int` are ordinary
numbers. -/
theorem julianCenturiesFromYearStart_bounded (ut first : Binary64) (n : Int)
    (hut : ut.Bounded 38) (hfirst : first.Bounded 40) (hn : |n| ≤ 2 ^ 31) :
    (julianCenturiesFromYearStart ut first n).1.Bounded 110 ∧
      (julianCenturiesFromYearStart ut first n).2.Bounded 110 := by
  have cY : ((365.25 : Binary64) * 24 * 3600).isFinite = true ∧
      twoPow 24 ≤ |((365.25 : Binary64) * 24 * 3600).toRat| := by decide!
  have cD : ((24 : Binary64) * 3600).isFinite = true ∧
      twoPow 16 ≤ |((24 : Binary64) * 3600).toRat| := by decide!
  have cE : kEC1990Epoch.Bounded 29 := by decide!
  have c90 : kECJulianDateOf1990Epoch.Bounded 22 := by decide!
  have c00 : kECJulianDateOf2000Epoch.Bounded 22 := by decide!
  have cC : kECJulianDaysPerCentury.isFinite = true ∧
      twoPow 15 ≤ |kECJulianDaysPerCentury.toRat| := by decide!
  have hyear := add_bd 33 (ofInt_bounded n hn)
    (div_bd 17 (sub_bd 41 hut hfirst (by decide)) cY (by decide)) (by decide)
  have het := add_bd 101 hut (espenakDeltaT_bounded _ hyear) (by decide)
  have hjd := add_bd 87 c90 (div_bd 86 (sub_bd 102 het cE (by decide)) cD (by decide))
    (by decide)
  have hc := div_bd 73 (sub_bd 88 hjd c00 (by decide)) cC (by decide)
  have hdt := sub_bd 102 het hut (by decide)
  exact ⟨hc.mono (by decide), hdt.mono (by decide)⟩

/-- The Greenwich sidereal time of `convertUTToGSTP03x` is an ordinary number of magnitude at
most 16 when the epoch and delta T are of magnitude at most `2 ^ 110` and `fmod` returns
ordinary numbers of magnitude at most 8. -/
theorem convertUTToGSTP03x_bounded (tb : TimeBase)
    (hfmod : ∀ x : Binary64, x.isFinite = true → (tb.fmod x (M_PI * 2)).Bounded 3)
    (t dT utr : Binary64) (ht : t.Bounded 110) (hdT : dT.Bounded 110) (hutr : utr.Bounded 3) :
    (convertUTToGSTP03x tb t dT utr).Bounded 4 := by
  have hJ : (24 * 3600 * kECJulianDaysPerCentury).isFinite = true ∧
      twoPow 31 ≤ |(24 * 3600 * kECJulianDaysPerCentury).toRat| := by decide!
  have c0 : (24110.5493771 : Binary64).Bounded 15 := by decide!
  have c1 : (8640184.79447825 : Binary64).Bounded 24 := by decide!
  have c2 : (307.4771013 : Binary64).Bounded 9 := by decide!
  have c3 : (0.092772110 : Binary64).Bounded 0 := by decide!
  have c4 : (0.0000002926 : Binary64).Bounded 0 := by decide!
  have c5 : (0.00000199708 : Binary64).Bounded 0 := by decide!
  have c6 : (0.000000002454 : Binary64).Bounded 0 := by decide!
  have cK : (M_PI / (12.0 * 3600)).Bounded 0 := by decide!
  have htu := sub_bd 111 ht (div_bd 79 hdT hJ (by decide)) (by decide)
  have ht2 := mul_bd 220 ht ht (by decide)
  have ht3 := mul_bd 330 ht2 ht (by decide)
  have ht4 := mul_bd 440 ht2 ht2 (by decide)
  have ht5 := mul_bd 550 ht3 ht2 (by decide)
  have s1 := add_bd 136 c0 (mul_bd 135 c1 htu (by decide)) (by decide)
  have s2 := add_bd 137 s1 (mul_bd 121 c2 (sub_bd 112 ht htu (by decide)) (by decide))
    (by decide)
  have s3 := add_bd 221 s2 (mul_bd 220 c3 ht2 (by decide)) (by decide)
  have s4 := sub_bd 331 s3 (mul_bd 330 c4 ht3 (by decide)) (by decide)
  have s5 := sub_bd 441 s4 (mul_bd 440 c5 ht4 (by decide)) (by decide)
  have s6 := sub_bd 551 s5 (mul_bd 550 c6 ht5 (by decide)) (by decide)
  have g2 := add_bd 552 (mul_bd 551 s6 cK (by decide)) hutr (by decide)
  have g3 := hfmod _ g2.1
  exact ite_bd _ (add_bd 4 g3 twoPi_bounded (by decide)) (g3.mono (by decide))

/-- Both universal times of `convertGSTtoUT` are ordinary numbers of magnitude at most
`2 ^ 11`. -/
theorem universalTimesFromT0_bounded (gst T0 : Binary64) (hgst : gst.Bounded 8)
    (hT0 : T0.Bounded 4) :
    (universalTimesFromT0 gst T0).1.Bounded 11 ∧ (universalTimesFromT0 gst T0).2.Bounded 11 := by
  have m1 : (-1 : Binary64).Bounded 11 := by decide!
  have cU : kECUTUnitsPerGSTUnit.Bounded 0 := by decide!
  have cU2 : (kECUTUnitsPerGSTUnit * (M_PI * 2)).Bounded 3 := by decide!
  have hut := sub_bd 9 hgst hT0 (by decide)
  have hw := ite_bd (Binary64.lt (gst - T0) 0)
    (add_bd 10 hut twoPi_bounded (by decide))
    (ite_bd (Binary64.gt (gst - T0) (M_PI * 2))
      (sub_bd 10 hut twoPi_bounded (by decide)) (hut.mono (by decide)))
  have hu := mul_bd 10 hw cU (by decide)
  have hu2 := add_bd 11 hu cU2 (by decide)
  exact ⟨hu.mono (by decide), ite_bd _ m1 hu2⟩

end IEEE

namespace IEEE

open Binary64

theorem twoPow_38 : twoPow 38 = 2 ^ 38 := by rw [twoPow_eq]; norm_num

theorem twoPow_36 : twoPow 36 = 2 ^ 36 := by rw [twoPow_eq]; norm_num

/-- The static `lastCalculatedFirstInterval` that passes the test of the memo for an instant
within `2 ^ 38` seconds is an ordinary number of magnitude at most `2 ^ 39`. -/
theorem yearMemo_guard (d l : Binary64) (hd : d.Bounded 38)
    (h : (gt d l && lt d (l + 24 * 3600 * 330)) = true) : l.Bounded 39 := by
  rw [Bool.and_eq_true] at h
  have hc : ((24 : Binary64) * 3600 * 330).isFinite = true ∧
      ((24 : Binary64) * 3600 * 330).toRat ≤ 2 ^ 38 := by decide!
  have e39 : twoPow 39 = 2 * 2 ^ 38 := by rw [twoPow_eq]; norm_num
  have hg : roundToGrid (-(2 ^ 38 : ℚ)) = -(2 ^ 38 : ℚ) := by
    rw [roundToGrid_neg, ← twoPow_38, roundToGrid_twoPow 38 (by decide)]
  have hthr : -(2 ^ 38 : ℚ) < overflowThreshold :=
    lt_of_lt_of_le (by norm_num) overflowThreshold_pos.le
  have := guard_bounded d l _ (2 ^ 38) hd.1 (by rw [← twoPow_38]; exact hd.2) hc.1 hc.2 hg hthr
    h.1 h.2
  exact ⟨this.1, by rw [e39]; exact this.2⟩

/-- The static `lastCalculatedMidnight` that passes the test of the memo for an instant within
`2 ^ 36` seconds is an ordinary number of magnitude at most `2 ^ 37`. -/
theorem midnightMemo_guard (d l : Binary64) (hd : d.Bounded 36)
    (h : (gt d l && lt d (l + 24 * 3600)) = true) : l.Bounded 37 := by
  rw [Bool.and_eq_true] at h
  have hc : ((24 : Binary64) * 3600).isFinite = true ∧
      ((24 : Binary64) * 3600).toRat ≤ 2 ^ 36 := by decide!
  have e37 : twoPow 37 = 2 * 2 ^ 36 := by rw [twoPow_eq]; norm_num
  have hg : roundToGrid (-(2 ^ 36 : ℚ)) = -(2 ^ 36 : ℚ) := by
    rw [roundToGrid_neg, ← twoPow_36, roundToGrid_twoPow 36 (by decide)]
  have hthr : -(2 ^ 36 : ℚ) < overflowThreshold :=
    lt_of_lt_of_le (by norm_num) overflowThreshold_pos.le
  have := guard_bounded d l _ (2 ^ 36) hd.1 (by rw [← twoPow_36]; exact hd.2) hc.1 hc.2 hg hthr
    h.1 h.2
  exact ⟨this.1, by rw [e37]; exact this.2⟩

/-- `priorUTMidnightForDateInterval` returns an ordinary number of magnitude at most `2 ^ 37`
for an instant within `2 ^ 36` seconds, and leaves the slots bounded. -/
theorem priorUTMidnightForDateInterval_bounded (tb : TimeBase)
    (hmid : ∀ d : Binary64, d.Bounded 36 → (priorUTMidnightForDateRaw tb d).Bounded 37)
    (d : Binary64) (cache : Option ECAstroCache) (l : Binary64) (hd : d.Bounded 36)
    (hc : CacheBounded cache) :
    (priorUTMidnightForDateInterval tb d cache l).1.Bounded 37 ∧
      CacheBounded (priorUTMidnightForDateInterval tb d cache l).2.1 := by
  unfold priorUTMidnightForDateInterval
  by_cases hit : cacheHit cache priorUTMidnightSlotIndex = true
  · rw [if_pos hit]
    exact ⟨(cacheRead_bounded cache _ hc hit).1 rfl, hc⟩
  · rw [if_neg hit]
    dsimp only
    have hval : (if (gt d l && lt d (l + 24 * 3600)) = true then l
        else priorUTMidnightForDateRaw tb d).Bounded 37 := by
      by_cases hg : (gt d l && lt d (l + 24 * 3600)) = true
      · rw [if_pos hg]
        exact midnightMemo_guard d l hd hg
      · rw [if_neg hg]
        exact hmid d hd
    exact ⟨hval, cacheBounded_cacheWrite cache _ _ hc (fun _ => hval)
      (fun h => absurd h (by decide)) (fun h => absurd h (by decide))⟩

/-- `julianCenturiesSince2000EpochForDateInterval` returns ordinary numbers for an instant
within `2 ^ 38` seconds, and leaves the slots bounded and `lastYearValue` in range. -/
theorem julianCenturies_bounded (tb : TimeBase)
    (hyear : ∀ d : Binary64, d.Bounded 38 → (firstOfYearAndYearValue tb d).1.Bounded 39 ∧
      |(firstOfYearAndYearValue tb d).2| ≤ 2 ^ 31)
    (d : Binary64) (cache : Option ECAstroCache) (memo : YearMemo) (hd : d.Bounded 38)
    (hc : CacheBounded cache) (hm : |memo.lastYearValue| ≤ 2 ^ 31) :
    (julianCenturiesSince2000EpochForDateInterval tb d cache memo).1.1.Bounded 110 ∧
      (julianCenturiesSince2000EpochForDateInterval tb d cache memo).1.2.Bounded 110 ∧
      CacheBounded (julianCenturiesSince2000EpochForDateInterval tb d cache memo).2.1 ∧
      |(julianCenturiesSince2000EpochForDateInterval tb d cache memo).2.2.lastYearValue| ≤
        2 ^ 31 := by
  unfold julianCenturiesSince2000EpochForDateInterval
  by_cases hit : cacheHit cache tdtCenturiesSlotIndex = true
  · rw [if_pos hit]
    exact ⟨(cacheRead_bounded cache _ hc hit).2 rfl, cacheRead_deltaT_bounded cache _ hc hit, hc,
      hm⟩
  · rw [if_neg hit]
    dsimp only
    have key : ∀ m : YearMemo, m.lastCalculatedFirstInterval.Bounded 40 →
        |m.lastYearValue| ≤ 2 ^ 31 →
        (julianCenturiesFromYearStart d m.lastCalculatedFirstInterval m.lastYearValue).1.Bounded
            110 ∧
          (julianCenturiesFromYearStart d m.lastCalculatedFirstInterval m.lastYearValue).2.Bounded
            110 ∧
          CacheBounded (cacheStore
            (cacheWrite (cacheWrite cache tdtCenturiesSlotIndex
              (julianCenturiesFromYearStart d m.lastCalculatedFirstInterval m.lastYearValue).1)
              tdtHundredCenturiesSlotIndex
              ((julianCenturiesFromYearStart d m.lastCalculatedFirstInterval
                m.lastYearValue).1 / 100))
            tdtCenturiesDeltaTSlotIndex
            (julianCenturiesFromYearStart d m.lastCalculatedFirstInterval m.lastYearValue).2) ∧
          |m.lastYearValue| ≤ 2 ^ 31 := by
      intro m h1 h2
      obtain ⟨a, b⟩ := julianCenturiesFromYearStart_bounded d m.lastCalculatedFirstInterval
        m.lastYearValue hd h1 h2
      refine ⟨a, b, ?_, h2⟩
      refine cacheBounded_cacheStore _ _ _ ?_ (fun h => absurd h (by decide))
        (fun h => absurd h (by decide)) (fun _ => b)
      refine cacheBounded_cacheWrite _ _ _ ?_ (fun h => absurd h (by decide))
        (fun h => absurd h (by decide)) (fun h => absurd h (by decide))
      exact cacheBounded_cacheWrite _ _ _ hc (fun h => absurd h (by decide)) (fun _ => a)
        (fun h => absurd h (by decide))
    by_cases hg : (gt d memo.lastCalculatedFirstInterval &&
        lt d (memo.lastCalculatedFirstInterval + 24 * 3600 * 330)) = true
    · rw [if_pos hg]
      exact key memo ((yearMemo_guard d _ hd hg).mono (by decide)) hm
    · rw [if_neg hg]
      exact key _ ((hyear d hd).1.mono (by decide)) (hyear d hd).2

/-- `convertGSTtoUT` returns ordinary numbers of magnitude at most `2 ^ 11` for a midnight
within `2 ^ 38` seconds, and leaves the slots bounded and `lastYearValue` in range. -/
theorem convertGSTtoUT_bounded (tb : TimeBase)
    (hyear : ∀ d : Binary64, d.Bounded 38 → (firstOfYearAndYearValue tb d).1.Bounded 39 ∧
      |(firstOfYearAndYearValue tb d).2| ≤ 2 ^ 31)
    (hfmod : ∀ x : Binary64, x.isFinite = true → (tb.fmod x (M_PI * 2)).Bounded 3)
    (gst midnight : Binary64) (cachePool : Option ECAstroCachePool) (memo : YearMemo)
    (hgst : gst.Bounded 8) (hmidnight : midnight.Bounded 38) (hp : PoolBounded cachePool)
    (hm : |memo.lastYearValue| ≤ 2 ^ 31) :
    (convertGSTtoUT tb gst midnight cachePool memo).1.1.Bounded 11 ∧
      (convertGSTtoUT tb gst midnight cachePool memo).1.2.Bounded 11 ∧
      PoolBounded (convertGSTtoUT tb gst midnight cachePool memo).2.1 ∧
      |(convertGSTtoUT tb gst midnight cachePool memo).2.2.lastYearValue| ≤ 2 ^ 31 := by
  have z : (0 : Binary64).Bounded 3 := by decide!
  cases cachePool with
  | none =>
    have hnone : CacheBounded none := fun c hc => by cases hc
    obtain ⟨a, b, -, e⟩ := julianCenturies_bounded tb hyear midnight none memo hmidnight hnone hm
    have hu := universalTimesFromT0_bounded gst _ hgst
      (convertUTToGSTP03x_bounded tb hfmod _ _ _ a b z)
    exact ⟨hu.1, hu.2, hp, e⟩
  | some pool =>
    have hpush := poolBounded_push pool (some .midnightCache) midnight hp
    obtain ⟨a, b, c, e⟩ := julianCenturies_bounded tb hyear midnight
      (currentCacheOf (some (pushECAstroCacheInPool pool (some .midnightCache) midnight).2)) memo
      hmidnight (cacheBounded_currentCacheOf _ hpush) hm
    have hu := universalTimesFromT0_bounded gst _ hgst
      (convertUTToGSTP03x_bounded tb hfmod _ _ _ a b z)
    exact ⟨hu.1, hu.2, poolBounded_map_pop _ _ (poolBounded_storeCurrent _ _ hpush c), e⟩

end IEEE

namespace IEEE

open Binary64

/-- An instant of `convertGSTtoUTclosest`: a midnight plus a universal time in radians turned
into seconds. -/
theorem midnightPlus_bounded (p u : Binary64) (hp : p.Bounded 38) (hu : u.Bounded 11) :
    (p + u * (12 * 3600) / M_PI).Bounded 39 := by
  have c : ((12 : Binary64) * 3600).Bounded 16 := by decide!
  have hpi : M_PI.isFinite = true ∧ twoPow 1 ≤ |M_PI.toRat| := by decide!
  exact add_bd 39 hp (div_bd 26 (mul_bd 27 hu c (by decide)) hpi (by decide)) (by decide)

/-- The instant `convertGSTtoUTclosest` returns is an ordinary number when the instant asked
for is within `2 ^ 36` seconds of the reference date, the calendar returns bounded values and
the state is bounded; the state it leaves is bounded. -/
theorem convertGSTtoUTclosest_bounded (tb : TimeBase)
    (hmid : ∀ d : Binary64, d.Bounded 36 → (priorUTMidnightForDateRaw tb d).Bounded 37)
    (hyear : ∀ d : Binary64, d.Bounded 38 → (firstOfYearAndYearValue tb d).1.Bounded 39 ∧
      |(firstOfYearAndYearValue tb d).2| ≤ 2 ^ 31)
    (hfmod : ∀ x : Binary64, x.isFinite = true → (tb.fmod x (M_PI * 2)).Bounded 3)
    (gst date : Binary64) (s : TimeState) (hgst : gst.Bounded 8) (hdate : date.Bounded 36)
    (hs : s.Bounded) :
    (convertGSTtoUTclosest tb gst date s).1.Bounded 39 ∧
      (convertGSTtoUTclosest tb gst date s).2.Bounded := by
  have cd : ((24 : Binary64) * 3600.0).Bounded 17 := by decide!
  obtain ⟨hp, hpc⟩ := priorUTMidnightForDateInterval_bounded tb hmid date
    (currentCacheOf s.cachePool) s.lastCalculatedMidnight hdate
    (cacheBounded_currentCacheOf _ hs.1)
  have hp38 := hp.mono (show (37 : ℤ) ≤ 38 by decide)
  have hnext := add_bd 38 hp cd (by decide)
  have hprev := sub_bd 38 hp cd (by decide)
  have hpool := poolBounded_storeCurrent s.cachePool _ hs.1 hpc
  have h0 := convertGSTtoUT_bounded tb hyear hfmod gst _ _ s.yearMemo hgst hp38 hpool hs.2
  have h1 := convertGSTtoUT_bounded tb hyear hfmod gst _ _ _ hgst hnext h0.2.2.1 h0.2.2.2
  have h2 := convertGSTtoUT_bounded tb hyear hfmod gst _ _ _ hgst hprev h0.2.2.1 h0.2.2.2
  unfold convertGSTtoUTclosest
  dsimp only
  split_ifs
  · exact ⟨midnightPlus_bounded _ _ hp38 h0.2.1, h0.2.2.1, h0.2.2.2⟩
  · exact ⟨midnightPlus_bounded _ _ hnext h1.1, h1.2.2.1, h1.2.2.2⟩
  · exact ⟨midnightPlus_bounded _ _ hprev h2.2.1, h2.2.2.1, h2.2.2.2⟩
  · exact ⟨midnightPlus_bounded _ _ hprev h2.1, h2.2.2.1, h2.2.2.2⟩
  · exact ⟨midnightPlus_bounded _ _ hp38 h0.1, h0.2.2.1, h0.2.2.2⟩

/-- The Greenwich sidereal time of `convertLSTtoGST` is bounded. -/
theorem convertLSTtoGST_bounded (lst long : Binary64) (hlst : lst.Bounded 6)
    (hlong : long.Bounded 2) : (convertLSTtoGST lst long).1.Bounded 8 := by
  have hg := sub_bd 7 hlst hlong (by decide)
  unfold convertLSTtoGST
  dsimp only
  split_ifs
  · exact add_bd 8 hg twoPi_bounded (by decide)
  · exact sub_bd 8 hg twoPi_bounded (by decide)
  · exact hg.mono (by decide)

/-- The hypotheses on the C library under which `riseSetTime` is analysed: the sine of an
ordinary number is in `[-1, 1]`, the cosine of a number strictly between `-π/2` and `π/2`
(in binary64: of magnitude at most `M_PI / 2`) is in `[2 ^ (-64), 1]`, and the arc cosine of a
number in `[-1, 1]` is an ordinary number of magnitude at most 4. -/
theorem riseSetCosH_facts (lib : MathLibrary)
    (hsin : ∀ x : Binary64, x.isFinite = true → (lib.sin x).Bounded 0)
    (hcos : ∀ x : Binary64, x.isFinite = true → |x.toRat| ≤ (M_PI / 2).toRat →
      (lib.cos x).isFinite = true ∧ twoPow (-64) ≤ (lib.cos x).toRat ∧ (lib.cos x).toRat ≤ 1)
    (decl lat alt : Binary64) (hdecl : decl.isFinite = true)
    (hdecl2 : |decl.toRat| ≤ (M_PI / 2).toRat) (hlat : lat.isFinite = true)
    (hlat2 : |lat.toRat| ≤ (M_PI / 2).toRat) (halt : alt.isFinite = true) :
    (riseSetCosH lib decl lat alt).isFinite = true ∧
      (riseSetCosH lib decl lat alt).toRat =
        roundToGrid ((lib.sin alt - lib.sin lat * lib.sin decl).toRat /
          (lib.cos lat * lib.cos decl).toRat) ∧
      (lib.sin alt - lib.sin lat * lib.sin decl).toRat =
        roundToGrid ((lib.sin alt).toRat - (lib.sin lat * lib.sin decl).toRat) ∧
      0 < (lib.cos lat * lib.cos decl).toRat ∧
      roundToGrid (lib.cos lat * lib.cos decl).toRat = (lib.cos lat * lib.cos decl).toRat := by
  obtain ⟨cl1, cl2, cl3⟩ := hcos lat hlat hlat2
  obtain ⟨cd1, cd2, cd3⟩ := hcos decl hdecl hdecl2
  have e0 : twoPow 0 = 1 := by rw [twoPow_eq]; norm_num
  have e64 : (0 : ℚ) < twoPow (-64) := twoPow_pos _
  have bl : (lib.cos lat).Bounded 0 := ⟨cl1, by rw [e0, abs_le]; constructor <;> linarith⟩
  have bd : (lib.cos decl).Bounded 0 := ⟨cd1, by rw [e0, abs_le]; constructor <;> linarith⟩
  obtain ⟨hD, hD'⟩ := mul_bounded 0 bl bd (by decide) (by decide) (by decide)
  have hprod : twoPow (-128) ≤ (lib.cos lat).toRat * (lib.cos decl).toRat := by
    have e : twoPow (-128) = twoPow (-64) * twoPow (-64) := by
      rw [← twoPow_add]; rfl
    rw [e]
    exact mul_le_mul cl2 cd2 e64.le (by linarith)
  have hDlow : twoPow (-128) ≤ (lib.cos lat * lib.cos decl).toRat := by
    rw [hD']
    exact le_roundToGrid_of_le (roundToGrid_twoPow _ (by decide)) hprod
  have hDpos : 0 < (lib.cos lat * lib.cos decl).toRat := lt_of_lt_of_le (twoPow_pos _) hDlow
  obtain ⟨hN, hN'⟩ := sub_bounded 1 (hsin alt halt)
    (mul_bd 0 (hsin lat hlat) (hsin decl hdecl) (by decide)) (by decide) (by decide) (by decide)
    (by decide)
  obtain ⟨hC, hC'⟩ := div_bounded (j := -128) 129 hN hD.1
    (by rw [abs_of_pos hDpos]; exact hDlow) (by decide) (by decide) (by decide)
  refine ⟨hC.1, hC', hN', hDpos, ?_⟩
  rw [hD', roundToGrid_idem]

end IEEE

namespace IEEE

open Binary64

theorem minusOne_eq : (-1.0 : Binary64) = .finite (-1) := by decide!

theorem plusOne_eq : (1.0 : Binary64) = .finite 1 := by decide!

/-- When neither sentinel is returned, `riseSetTime` returns an ordinary instant and leaves a
bounded state. -/
theorem riseSetTime_ordinary (lib : MathLibrary) (tb : TimeBase) (riseNotSet : Bool)
    (ra decl lat long alt date : Binary64) (s : TimeState)
    (hacos : ∀ x : Binary64, x.isFinite = true → |x.toRat| ≤ 1 → (lib.acos x).Bounded 2)
    (hmid : ∀ d : Binary64, d.Bounded 36 → (priorUTMidnightForDateRaw tb d).Bounded 37)
    (hyear : ∀ d : Binary64, d.Bounded 38 → (firstOfYearAndYearValue tb d).1.Bounded 39 ∧
      |(firstOfYearAndYearValue tb d).2| ≤ 2 ^ 31)
    (hfmod : ∀ x : Binary64, x.isFinite = true → (tb.fmod x (M_PI * 2)).Bounded 3)
    (hs : s.Bounded)
    (hra : ra.Bounded 3) (hlong : long.Bounded 2) (hdate : date.Bounded 36)
    (hfin : (riseSetCosH lib decl lat alt).isFinite = true)
    (h1 : Binary64.lt (riseSetCosH lib decl lat alt) (-1.0) = false)
    (h2 : Binary64.gt (riseSetCosH lib decl lat alt) 1.0 = false) :
    (riseSetTime lib tb riseNotSet ra decl lat long alt date s).1.Bounded 39 ∧
      (riseSetTime lib tb riseNotSet ra decl lat long alt date s).2.Bounded := by
  have hc : |(riseSetCosH lib decl lat alt).toRat| ≤ 1 := by
    rw [minusOne_eq, Binary64.lt_of_isFinite _ (.finite (-1)) hfin rfl] at h1
    rw [plusOne_eq, Binary64.gt, Binary64.lt_of_isFinite (.finite 1) _ rfl hfin] at h2
    have a1 := of_decide_eq_false h1
    have a2 := of_decide_eq_false h2
    rw [abs_le]
    exact ⟨not_lt.mp a1, not_lt.mp a2⟩
  have hH := hacos _ hfin hc
  have hinner : (if riseNotSet = true then M_PI * 2 - lib.acos (riseSetCosH lib decl lat alt)
      else lib.acos (riseSetCosH lib decl lat alt)).Bounded 4 :=
    ite_bd _ (sub_bd 4 twoPi_bounded hH (by decide)) (hH.mono (by decide))
  have hL := add_bd 5 hra hinner (by decide)
  have hL2 := ite_bd
    (Binary64.gt (ra + (if riseNotSet = true then
        M_PI * 2 - lib.acos (riseSetCosH lib decl lat alt)
      else lib.acos (riseSetCosH lib decl lat alt))) (M_PI * 2))
    (sub_bd 6 hL twoPi_bounded (by decide)) (hL.mono (by decide))
  have hG := convertLSTtoGST_bounded _ long hL2 hlong
  have hR := convertGSTtoUTclosest_bounded tb hmid hyear hfmod _ date s hG hdate hs
  unfold riseSetTime
  dsimp only
  rw [if_neg (by rw [h1]; simp), if_neg (by rw [h2]; simp)]
  exact hR

/-- The sentinels are returned on the computed `cosH` alone, and the state is left as it
was. -/
theorem riseSetTime_sentinel (lib : MathLibrary) (tb : TimeBase) (riseNotSet : Bool)
    (ra decl lat long alt date : Binary64) (s : TimeState) :
    (Binary64.lt (riseSetCosH lib decl lat alt) (-1.0) = true →
        riseSetTime lib tb riseNotSet ra decl lat long alt date s =
          (kECAlwaysAboveHorizon, s)) ∧
      (Binary64.lt (riseSetCosH lib decl lat alt) (-1.0) = false →
        Binary64.gt (riseSetCosH lib decl lat alt) 1.0 = true →
        riseSetTime lib tb riseNotSet ra decl lat long alt date s =
          (kECAlwaysBelowHorizon, s)) := by
  constructor
  · intro h
    unfold riseSetTime
    dsimp only
    rw [if_pos h]
  · intro h h'
    unfold riseSetTime
    dsimp only
    rw [if_neg (by rw [h]; simp), if_pos h']

/-- A computed `cosH` below -1, or above 1, places the sine of the altitude strictly outside
the band `sin(lat) sin(decl) ± cos(lat) cos(decl)`, the two products rounded. -/
theorem riseSetCosH_outside (n d c sa p : ℚ) (hd : 0 < d) (hdgrid : roundToGrid d = d)
    (hc : c = roundToGrid (n / d)) (hn : n = roundToGrid (sa - p)) :
    (c < -1 → sa < p - d) ∧ (1 < c → p + d < sa) := by
  have hm1 : roundToGrid (-1) = -1 := by rw [roundToGrid_neg, roundToGrid_one]
  have hmd : roundToGrid (-d) = -d := by rw [roundToGrid_neg, hdgrid]
  constructor
  · intro h
    by_contra hcon
    push_neg at hcon
    have h1 : -d ≤ n := by
      rw [hn]
      exact le_roundToGrid_of_le hmd (by linarith)
    have h2 : -1 ≤ n / d := by
      rw [le_div_iff₀ hd]
      linarith
    have h3 := le_roundToGrid_of_le hm1 h2
    rw [← hc] at h3
    linarith
  · intro h
    by_contra hcon
    push_neg at hcon
    have h1 : n ≤ d := by
      rw [hn]
      exact roundToGrid_le_of_le hdgrid (by linarith)
    have h2 : n / d ≤ 1 := by
      rw [div_le_iff₀ hd]
      linarith
    have h3 := roundToGrid_le_of_le roundToGrid_one h2
    rw [← hc] at h3
    linarith

theorem sampleLibrary_sin (x : Binary64) : (sampleLibrary.sin x).Bounded 0 := by
  have e0 : twoPow 0 = 1 := by rw [twoPow_eq]; norm_num
  show (if x = -(M_PI / 2) then (-1 : Binary64)
    else if x.isFinite = true ∧ |x.toRat| ≤ 1 then x else 0).Bounded 0
  split_ifs with h1 h2
  · decide!
  · exact ⟨h2.1, by rw [e0]; exact h2.2⟩
  · decide!

theorem sampleLibrary_cos (x : Binary64) :
    (sampleLibrary.cos x).isFinite = true ∧ twoPow (-64) ≤ (sampleLibrary.cos x).toRat ∧
      (sampleLibrary.cos x).toRat ≤ 1 := by
  show ((1 : Binary64)).isFinite = true ∧ twoPow (-64) ≤ ((1 : Binary64)).toRat ∧
    ((1 : Binary64)).toRat ≤ 1
  decide!

theorem sampleLibrary_acos (x : Binary64) : (sampleLibrary.acos x).Bounded 2 := by
  show (if x = -1 then M_PI else M_PI / 2).Bounded 2
  split_ifs <;> decide!

theorem floor_mul_bounds (t c : ℚ) (hc : 0 < c) :
    ((⌊t / c⌋ : ℤ) : ℚ) * c ≤ t ∧ t - c < ((⌊t / c⌋ : ℤ) : ℚ) * c := by
  have f1 := Int.floor_le (t / c)
  have f2 := Int.lt_floor_add_one (t / c)
  rw [le_div_iff₀ hc] at f1
  rw [div_lt_iff₀ hc] at f2
  constructor <;> linarith

/-- The sample calendar returns the start of the day, within `2 ^ 37` seconds for an instant
within `2 ^ 36` seconds. -/
theorem sampleTimeBase_midnight (d : Binary64) (hd : d.Bounded 36) :
    (sampleTimeBase.timeIntervalFromUTCDateComponents
      { sampleTimeBase.UTCDateComponentsFromTimeInterval d with
        hour := 0, minute := 0, seconds := 0 }).Bounded 37 := by
  have e36 : twoPow 36 = 2 ^ 36 := by rw [twoPow_eq]; norm_num
  have e37 : twoPow 37 = 2 ^ 37 := by rw [twoPow_eq]; norm_num
  have h := hd.2
  rw [e36, abs_le] at h
  obtain ⟨y1, y2⟩ := floor_mul_bounds d.toRat 31536000 (by norm_num)
  obtain ⟨d1, d2⟩ := floor_mul_bounds (d.toRat - sampleYearStart d.toRat) 86400 (by norm_num)
  have hq : |31536000 * (((2001 + ⌊d.toRat / 31536000⌋ - 2001 : ℤ) : ℤ) : ℚ) +
      86400 * (((1 + ⌊(d.toRat - sampleYearStart d.toRat) / 86400⌋ - 1 : ℤ) : ℤ) : ℚ)| ≤
      twoPow 37 := by
    have e1 : (2001 + ⌊d.toRat / 31536000⌋ - 2001 : ℤ) = ⌊d.toRat / 31536000⌋ := by ring
    have e2 : (1 + ⌊(d.toRat - sampleYearStart d.toRat) / 86400⌋ - 1 : ℤ) =
        ⌊(d.toRat - sampleYearStart d.toRat) / 86400⌋ := by ring
    rw [e1, e2, e37, abs_le]
    unfold sampleYearStart at d1 d2 ⊢
    constructor <;> linarith
  have := ofExact_approx _ false 37 (by decide) (by decide) hq
  exact ⟨this.1, this.2.2.1⟩

/-- The sample calendar returns a start of the year within `2 ^ 39` seconds and a year in the
range of a C `int` for an instant within `2 ^ 38` seconds. -/
theorem sampleTimeBase_year (d : Binary64) (hd : d.Bounded 38) :
    (sampleTimeBase.timeIntervalFromUTCDateComponents
      { sampleTimeBase.UTCDateComponentsFromTimeInterval d with
        month := 1, day := 1, hour := 0, minute := 0, seconds := 0 }).Bounded 39 ∧
      |(if (sampleTimeBase.UTCDateComponentsFromTimeInterval d).era ≠ 0 then
          (sampleTimeBase.UTCDateComponentsFromTimeInterval d).year
        else 1 - (sampleTimeBase.UTCDateComponentsFromTimeInterval d).year)| ≤ 2 ^ 31 := by
  have e38 : twoPow 38 = 2 ^ 38 := by rw [twoPow_eq]; norm_num
  have e39 : twoPow 39 = 2 ^ 39 := by rw [twoPow_eq]; norm_num
  have h := hd.2
  rw [e38, abs_le] at h
  obtain ⟨y1, y2⟩ := floor_mul_bounds d.toRat 31536000 (by norm_num)
  constructor
  · have hq : |31536000 * (((2001 + ⌊d.toRat / 31536000⌋ - 2001 : ℤ) : ℤ) : ℚ) +
        86400 * (((1 - 1 : ℤ) : ℤ) : ℚ)| ≤ twoPow 39 := by
      have e1 : (2001 + ⌊d.toRat / 31536000⌋ - 2001 : ℤ) = ⌊d.toRat / 31536000⌋ := by ring
      rw [e1, e39, abs_le]
      norm_num
      constructor <;> linarith
    have := ofExact_approx _ false 39 (by decide) (by decide) hq
    exact ⟨this.1, this.2.2.1⟩
  · show |(if (1 : ℤ) ≠ 0 then 2001 + ⌊d.toRat / 31536000⌋
      else 1 - (2001 + ⌊d.toRat / 31536000⌋))| ≤ 2 ^ 31
    rw [if_pos (by decide)]
    have hY : (-10000 : ℚ) ≤ ((⌊d.toRat / 31536000⌋ : ℤ) : ℚ) ∧
        ((⌊d.toRat / 31536000⌋ : ℤ) : ℚ) ≤ 10000 := by
      constructor <;> nlinarith [h.1, h.2]
    have hY1 : (-10000 : ℤ) ≤ ⌊d.toRat / 31536000⌋ := by exact_mod_cast hY.1
    have hY2 : ⌊d.toRat / 31536000⌋ ≤ (10000 : ℤ) := by exact_mod_cast hY.2
    rw [abs_le]
    constructor <;> omega

theorem sampleTimeBase_fmod (x : Binary64) : (sampleTimeBase.fmod x (M_PI * 2)).Bounded 3 := by
  have hm : (M_PI * 2).toRat ≠ 0 := by decide!
  have hm8 : |(M_PI * 2).toRat| ≤ 8 := by decide!
  have hmpos : 0 < |(M_PI * 2).toRat| := abs_pos.mpr hm
  have e3 : twoPow 3 = 8 := by rw [twoPow_eq]; norm_num
  show (if (M_PI * 2).toRat = 0 then Binary64.nan 0
    else Binary64.finite ((if x.toRat < 0 then -1 else 1) *
      (|x.toRat| - |(M_PI * 2).toRat| * (⌊|x.toRat| / |(M_PI * 2).toRat|⌋ : ℤ)))).Bounded 3
  rw [if_neg hm]
  refine ⟨rfl, ?_⟩
  show |(if x.toRat < 0 then -1 else 1) *
      (|x.toRat| - |(M_PI * 2).toRat| * (⌊|x.toRat| / |(M_PI * 2).toRat|⌋ : ℤ))| ≤ twoPow 3
  have f1 := Int.floor_le (|x.toRat| / |(M_PI * 2).toRat|)
  have f2 := Int.lt_floor_add_one (|x.toRat| / |(M_PI * 2).toRat|)
  rw [le_div_iff₀ hmpos] at f1
  rw [div_lt_iff₀ hmpos] at f2
  have hs : |(if x.toRat < 0 then (-1 : ℚ) else 1)| = 1 := by
    split_ifs <;> norm_num
  rw [abs_mul, hs, one_mul, e3, abs_le]
  constructor <;> nlinarith [f1, f2, hm8, hmpos]

theorem sampleTimeState_bounded : sampleTimeState.Bounded := by
  refine ⟨poolBounded_push zeroPool _ _ (fun pool h r => ?_), by decide⟩
  cases h
  have z : (0 : Binary64).Bounded 37 ∧ (0 : Binary64).Bounded 110 ∧ (0 : Binary64).Bounded 110 := by
    decide!
  cases r <;> exact z

end IEEE

namespace IEEE

end IEEE

/-! ## Claims settled over binary64 arithmetic -/

/-- C16 (counterexample): for the binary64 instant 189617120.90466553 the instant one day of
seconds later is again a binary64 number, yet its Julian date is one unit in the last place
(`2 ^ (-31)` day) short of the Julian date of the first instant plus 1. -/
theorem C16_counterexample_one_day_adds_less_than_1 :
    IEEE.sampleInstant + 86400 = IEEE.sampleInstantNextDay ∧
      IEEE.sampleInstantNextDay.toRat = IEEE.sampleInstant.toRat + 86400 ∧
      IEEE.julianDateForDate IEEE.sampleInstantNextDay ≠
        IEEE.julianDateForDate IEEE.sampleInstant + 1 ∧
      (IEEE.julianDateForDate IEEE.sampleInstantNextDay).toRat =
        (IEEE.julianDateForDate IEEE.sampleInstant).toRat + 1 - 1 / 2 ^ 31 := by
  decide!

/-- C16 (amended): in binary64 arithmetic `julianDateForDate` is the linear map
`JD(t) = 2447891.5 + (t + 347241600) / 86400 = 2451910.5 + t / 86400` up to rounding: for
every instant `t` within `2 ^ 40` seconds of the reference date the result is an ordinary
number within `2 ^ (-26)` day of that value, so one day of seconds adds 1 to within
`2 ^ (-25)` day; the J2000.0 instant `t = -31579200` maps to exactly 2451545.0 and the test
instant `t = -500839200` to exactly 2446113.75. -/
theorem C16_julianDateForDate_is_linear_up_to_rounding (t u : Binary64)
    (ht : t.isFinite = true) (ht40 : |t.toRat| ≤ 2 ^ 40)
    (hu : u.isFinite = true) (hu40 : |u.toRat| ≤ 2 ^ 40)
    (hday : u.toRat = t.toRat + 86400) :
    (IEEE.julianDateForDate t).isFinite = true ∧
      |(IEEE.julianDateForDate t).toRat - (2451910.5 + t.toRat / 86400)| ≤ 1 / 2 ^ 26 ∧
      (2447891.5 + (t.toRat + 347241600) / 86400 : ℚ) = 2451910.5 + t.toRat / 86400 ∧
      |(IEEE.julianDateForDate u).toRat - ((IEEE.julianDateForDate t).toRat + 1)| ≤ 1 / 2 ^ 25 ∧
      IEEE.julianDateForDate (-31579200) = 2451545.0 ∧
      IEEE.julianDateForDate (-500839200) = 2446113.75 := by
  obtain ⟨h1, h2⟩ := IEEE.julianDateForDate_approx t ht ht40
  obtain ⟨-, h3⟩ := IEEE.julianDateForDate_approx u hu hu40
  have e : (2451910.5 : ℚ) = 4903821 / 2 := by norm_num
  rw [e]
  refine ⟨h1, h2, by ring, ?_, by decide!, by decide!⟩
  rw [hday] at h3
  obtain ⟨h2a, h2b⟩ := abs_le.mp h2
  obtain ⟨h3a, h3b⟩ := abs_le.mp h3
  rw [abs_le]
  constructor <;> linarith

/-- Witness for C16: the instant 189617120.90466553 and the instant one day later. -/
theorem C16_julianDateForDate_witness :
    (IEEE.julianDateForDate IEEE.sampleInstant).isFinite = true ∧
      |(IEEE.julianDateForDate IEEE.sampleInstant).toRat -
        (2451910.5 + IEEE.sampleInstant.toRat / 86400)| ≤ 1 / 2 ^ 26 ∧
      (2447891.5 + (IEEE.sampleInstant.toRat + 347241600) / 86400 : ℚ) =
        2451910.5 + IEEE.sampleInstant.toRat / 86400 ∧
      |(IEEE.julianDateForDate IEEE.sampleInstantNextDay).toRat -
        ((IEEE.julianDateForDate IEEE.sampleInstant).toRat + 1)| ≤ 1 / 2 ^ 25 ∧
      IEEE.julianDateForDate (-31579200) = 2451545.0 ∧
      IEEE.julianDateForDate (-500839200) = 2446113.75 :=
  C16_julianDateForDate_is_linear_up_to_rounding IEEE.sampleInstant IEEE.sampleInstantNextDay
    rfl (by decide!) rfl (by decide!) (by decide!)

/-- C17: for every ordinary year, in binary64 arithmetic, `espenakDeltaT` executes the return
statement of a segment exactly when the year lies in the stated interval of that segment, the
intervals partition the line, and the value returned is the polynomial of that segment; on
`[2005, 2050]` it is `62.92 + 0.32217 t + 0.005589 t^2` with `t = y - 2000` and for `y < -500`
or `y >= 2150` it is `-20 + 32 ((y - 1820)/100)^2`, each operation rounded as in the source;
the assertion `yearValue > 2050` holds in the last polynomial branch and the trailing
`return 0` is not reached. -/
theorem C17_espenakDeltaT_selects_its_polynomial_by_year_intervals (yearValue : Binary64)
    (hfin : yearValue.isFinite = true) :
    (∀ b, (IEEE.espenakDeltaT yearValue).2 = b ↔ espenakInterval yearValue.toRat b) ∧
      (∃! b, espenakInterval yearValue.toRat b) ∧
      (IEEE.espenakDeltaT yearValue).1 =
        IEEE.espenakSegment (IEEE.espenakDeltaT yearValue).2 yearValue ∧
      (2005 ≤ yearValue.toRat ∧ yearValue.toRat ≤ 2050 →
        (IEEE.espenakDeltaT yearValue).1 =
          62.92 + 0.32217 * (yearValue - 2000) +
            0.005589 * ((yearValue - 2000) * (yearValue - 2000))) ∧
      (yearValue.toRat < -500 ∨ 2150 ≤ yearValue.toRat →
        (IEEE.espenakDeltaT yearValue).1 =
          -20 + 32 * ((yearValue - 1820) / 100) * ((yearValue - 1820) / 100)) ∧
      ((IEEE.espenakDeltaT yearValue).2 = .before2150 → Binary64.gt yearValue 2050 = true) ∧
      (IEEE.espenakDeltaT yearValue).2 ≠ .fallThrough := by
  have key := IEEE.espenakDeltaT_of_interval yearValue hfin
  obtain ⟨b0, hb0⟩ := IEEE.espenakInterval_total yearValue.toRat
  have h0 := key b0 hb0
  have hiff : ∀ b, (IEEE.espenakDeltaT yearValue).2 = b ↔ espenakInterval yearValue.toRat b := by
    intro b
    constructor
    · intro h
      rw [h0] at h
      exact h ▸ hb0
    · intro h
      rw [key b h]
  refine ⟨hiff, ⟨b0, hb0, ?_⟩, ?_, ?_, ?_, ?_, ?_⟩
  · intro b hb
    have h1 := key b hb
    rw [h0] at h1
    exact (congrArg Prod.snd h1).symm
  · rw [h0]
  · intro h
    rw [key .from2005to2050 h]
    rfl
  · intro h
    rw [key .outside h]
    rfl
  · intro h
    have hi : _ ∧ _ := (hiff .before2150).mp h
    rw [IEEE.gt_of_eq_finite yearValue 2050 2050 hfin (by decide!)]
    exact decide_eq_true hi.1
  · intro h
    exact (hiff .fallThrough).mp h

/-- Witness for C17: the year 2008.5 (July 1, 2008) lies in `[2005, 2050]`. -/
theorem C17_espenakDeltaT_witness :
    (IEEE.espenakDeltaT 2008.5).2 = .from2005to2050 ∧
      (IEEE.espenakDeltaT 2008.5).1 =
        62.92 + 0.32217 * ((2008.5 : Binary64) - 2000) +
          0.005589 * (((2008.5 : Binary64) - 2000) * ((2008.5 : Binary64) - 2000)) :=
  have h := C17_espenakDeltaT_selects_its_polynomial_by_year_intervals 2008.5 (by decide!)
  ⟨(h.1 .from2005to2050).mpr (show _ ∧ _ by decide!), h.2.2.2.1 (by decide!)⟩

/-- C18 (counterexample): for `lst = 0.1` and the longitude `0.3`, both in the stated ranges,
`convertLSTtoGST` wraps once (day offset -1) and `convertGSTtoLST` of the result returns
0.09999999999999964, not `lst`; for `lst = 2 ^ (-60)` the round trip returns `2π`. -/
theorem C18_counterexample_round_trip_is_not_exact :
    IEEE.convertLSTtoGST 0.1 0.3 = (6.083185307179586, -1) ∧
      IEEE.convertGSTtoLST (IEEE.convertLSTtoGST 0.1 0.3).1 0.3 = 0.09999999999999964 ∧
      IEEE.convertGSTtoLST (IEEE.convertLSTtoGST 0.1 0.3).1 0.3 ≠ 0.1 ∧
      IEEE.convertGSTtoLST (IEEE.convertLSTtoGST (.finite (1 / 2 ^ 60)) 0.3).1 0.3 =
        IEEE.M_PI * 2 := by
  decide!

/-- C18 (amended): in binary64 arithmetic, for every `lst` strictly between 0 and `2π` and
every longitude in `[-π, π]` (`π` the constant `M_PI`), `convertLSTtoGST` returns the rounded
difference `lst - longitude`, plus `2π` with day offset -1 when it is negative, minus `2π`
with day offset +1 when it exceeds `2π`, unchanged with day offset 0 otherwise; the result is
in `[0, 2π]` and within `2 ^ (-48)` of the exact wrapped difference. `convertGSTtoLST` of that
result at the same longitude is within `2 ^ (-47)` of `lst`, or of `lst + 2π` when `lst` is
within `2 ^ (-47)` of 0, or of `lst - 2π` when `lst` is within `2 ^ (-47)` of `2π`. The test
input `lst = 0h24m5.23s`, longitude -64 degrees gives exactly the binary64 value of
`gst = 4h40m5.23s` with day offset 0. -/
theorem C18_convertLSTtoGST_wraps_once_and_round_trips_up_to_rounding (lst long : Binary64)
    (hlst : lst.isFinite = true) (hlong : long.isFinite = true)
    (hlo : 0 < lst.toRat) (hhi : lst.toRat < (IEEE.M_PI * 2).toRat)
    (hwest : -IEEE.M_PI.toRat ≤ long.toRat) (heast : long.toRat ≤ IEEE.M_PI.toRat) :
    ((IEEE.convertLSTtoGST lst long = (lst - long + IEEE.M_PI * 2, -1) ∧
          Binary64.lt (lst - long) 0 = true) ∨
        (IEEE.convertLSTtoGST lst long = (lst - long - IEEE.M_PI * 2, 1) ∧
          Binary64.lt (lst - long) 0 = false ∧
          Binary64.gt (lst - long) (IEEE.M_PI * 2) = true) ∨
        (IEEE.convertLSTtoGST lst long = (lst - long, 0) ∧
          Binary64.lt (lst - long) 0 = false ∧
          Binary64.gt (lst - long) (IEEE.M_PI * 2) = false)) ∧
      (IEEE.convertLSTtoGST lst long).1.isFinite = true ∧
      0 ≤ (IEEE.convertLSTtoGST lst long).1.toRat ∧
      (IEEE.convertLSTtoGST lst long).1.toRat ≤ (IEEE.M_PI * 2).toRat ∧
      |(IEEE.convertLSTtoGST lst long).1.toRat - (lst.toRat - long.toRat -
        ((IEEE.convertLSTtoGST lst long).2 : ℚ) * (IEEE.M_PI * 2).toRat)| ≤ 1 / 2 ^ 48 ∧
      (IEEE.convertGSTtoLST (IEEE.convertLSTtoGST lst long).1 long).isFinite = true ∧
      (|(IEEE.convertGSTtoLST (IEEE.convertLSTtoGST lst long).1 long).toRat - lst.toRat| ≤
          1 / 2 ^ 47 ∨
        (lst.toRat ≤ 1 / 2 ^ 47 ∧
          |(IEEE.convertGSTtoLST (IEEE.convertLSTtoGST lst long).1 long).toRat -
            (lst.toRat + (IEEE.M_PI * 2).toRat)| ≤ 1 / 2 ^ 47) ∨
        ((IEEE.M_PI * 2).toRat - lst.toRat ≤ 1 / 2 ^ 47 ∧
          |(IEEE.convertGSTtoLST (IEEE.convertLSTtoGST lst long).1 long).toRat -
            (lst.toRat - (IEEE.M_PI * 2).toRat)| ≤ 1 / 2 ^ 47)) ∧
      IEEE.convertLSTtoGST ((0 + 24 / 60.0 + 5.23 / 3600.0) * IEEE.M_PI / 12.0)
          (-64 * IEEE.M_PI / 180.0) =
        ((4 + 40 / 60.0 + 5.23 / 3600.0) * IEEE.M_PI / 12.0, 0) := by
  have hP : (IEEE.M_PI * 2).toRat = 884279719003555 / 140737488355328 := by
    rw [IEEE.twoPi_eq]; rfl
  have hpi : IEEE.M_PI.toRat = 884279719003555 / 281474976710656 := by
    rw [IEEE.M_PI_eq]; rfl
  rw [hP] at hhi ⊢
  rw [hpi] at hwest heast
  obtain ⟨g1, g2, g3, g4, g5, g6⟩ := IEEE.convertLSTtoGST_approx lst long hlst hlong
    (by linarith) (by linarith)
  generalize IEEE.convertLSTtoGST lst long = g at g1 g2 g3 g4 g5 g6 ⊢
  obtain ⟨r1, r2, r3, k, hk, r4⟩ := IEEE.convertGSTtoLST_approx g.1 long g2
    hlong (by linarith) (by linarith)
  generalize IEEE.convertGSTtoLST g.1 long = r at r1 r2 r3 r4 ⊢
  refine ⟨g1, g2, g3, g4, g6, r1, ?_, by decide!⟩
  obtain ⟨g6a, g6b⟩ := abs_le.mp g6
  obtain ⟨r4a, r4b⟩ := abs_le.mp r4
  have hoff : ((g.2 : ℚ) = -1 ∨ (g.2 : ℚ) = 0 ∨ (g.2 : ℚ) = 1) := by
    rcases g5 with h | h | h <;> rw [h] <;> norm_num
  have hk' : ((k : ℚ) = -1 ∨ (k : ℚ) = 0 ∨ (k : ℚ) = 1) := by
    rcases hk with h | h | h <;> rw [h] <;> norm_num
  generalize (g.2 : ℚ) = o at g6a g6b hoff
  generalize (k : ℚ) = c at r4a r4b hk'
  rcases hoff with ho | ho | ho <;> rcases hk' with hc | hc | hc <;> subst ho <;> subst hc
  · -- offset -1, second wrap -1: the round trip is exact up to rounding
    left; rw [abs_le]; constructor <;> linarith
  · right; left
    refine ⟨by linarith, ?_⟩
    rw [abs_le]; constructor <;> linarith
  · exfalso; linarith
  · right; right
    refine ⟨by linarith, ?_⟩
    rw [abs_le]; constructor <;> linarith
  · left; rw [abs_le]; constructor <;> linarith
  · right; left
    refine ⟨by linarith, ?_⟩
    rw [abs_le]; constructor <;> linarith
  · exfalso; linarith
  · right; right
    refine ⟨by linarith, ?_⟩
    rw [abs_le]; constructor <;> linarith
  · left; rw [abs_le]; constructor <;> linarith

/-- Witness for C18: `lst = 0.1` at the longitude `0.3`. -/
theorem C18_convertLSTtoGST_witness :
    (IEEE.convertLSTtoGST 0.1 0.3).1.isFinite = true ∧
      0 ≤ (IEEE.convertLSTtoGST 0.1 0.3).1.toRat ∧
      (IEEE.convertLSTtoGST 0.1 0.3).1.toRat ≤ (IEEE.M_PI * 2).toRat ∧
      |(IEEE.convertLSTtoGST 0.1 0.3).1.toRat - ((0.1 : Binary64).toRat - (0.3 : Binary64).toRat -
        ((IEEE.convertLSTtoGST 0.1 0.3).2 : ℚ) * (IEEE.M_PI * 2).toRat)| ≤ 1 / 2 ^ 48 :=
  have h := C18_convertLSTtoGST_wraps_once_and_round_trips_up_to_rounding 0.1 0.3
    (by decide!) (by decide!) (by decide!) (by decide!) (by decide!) (by decide!)
  ⟨h.2.1, h.2.2.1, h.2.2.2.1, h.2.2.2.2.1⟩

/-- C21 (counterexample): the points `(0, 0)`, `(1, 2)`, `(2, 6)` lie on `x² + x`, whose
equation `P(x) = x` has zero discriminant; the code computes the discriminant 0 and returns
the quadratic root 0, not the linear fit 0.6666666666666667. The points `(0, -59)`, `(6, -56)`,
`(41, -38.5)` lie on a line, a degenerate quadratic, yet the computed leading coefficient is
not zero and the code returns the quadratic root -128, not the linear fit -118. With one
point the code returns `y[0]`. -/
theorem C21_counterexample_zero_discriminant_returns_the_root :
    fixedPointDiscriminant 0 0 1 2 2 6 = 0 ∧
      (IEEE.quadraticFit (IEEE.threeValues 0 1 2) (IEEE.threeValues 0 2 6) 3).D = .finite 0 ∧
      IEEE.extrapolateToYEqualX (IEEE.threeValues 0 1 2) (IEEE.threeValues 0 2 6) 3 = 0 ∧
      IEEE.linearFit 1 2 2 6 = 0.6666666666666667 ∧
      lagrangeLeadingCoefficient 0 (-59) 6 (-56) 41 (-38.5) = 0 ∧
      Binary64.ne (IEEE.quadraticFit (IEEE.threeValues 0 6 41)
        (IEEE.threeValues (-59) (-56) (-38.5)) 3).C2 0 = true ∧
      IEEE.extrapolateToYEqualX (IEEE.threeValues 0 6 41)
        (IEEE.threeValues (-59) (-56) (-38.5)) 3 = -128 ∧
      IEEE.linearFit 6 (-56) 41 (-38.5) = -118 ∧
      IEEE.extrapolateToYEqualX (IEEE.threeValues 5 5 5) (IEEE.threeValues 7 7 7) 1 = 7 := by
  decide!

/-- C21 (amended): `extrapolateToYEqualX` returns `y[0]` when one point is available and the
linear fit through the last two points (`linearFit`) when two are. With three or more points
it returns the linear fit in exactly these cases, all read on the binary64 quantities the code
computes: the last three abscissae, offset by `x[n-3]`, are not pairwise distinct; the computed
leading coefficient `C2` is zero; the computed discriminant `D` fails `D >= 0` (it is negative
or a NaN); or the candidate root nearer to the latest `y` is not less than 24 hours from it.
In every other case, a zero discriminant included, it returns that candidate root plus the
offset. -/
theorem C21_extrapolateToYEqualX_linear_fit_cases (x y : Nat → Binary64) (numValues : Nat)
    (hn : 3 ≤ numValues) :
    (∀ x' y' : Nat → Binary64, IEEE.extrapolateToYEqualX x' y' 1 = y' 0) ∧
      (∀ x' y' : Nat → Binary64,
        IEEE.extrapolateToYEqualX x' y' 2 = IEEE.linearFit (x' 0) (y' 0) (x' 1) (y' 1)) ∧
      (((Binary64.ne (IEEE.quadraticFit x y numValues).X1 (IEEE.quadraticFit x y numValues).X2 &&
            Binary64.ne (IEEE.quadraticFit x y numValues).X1
              (IEEE.quadraticFit x y numValues).X3 &&
            Binary64.ne (IEEE.quadraticFit x y numValues).X2
              (IEEE.quadraticFit x y numValues).X3) = false ∨
          Binary64.ne (IEEE.quadraticFit x y numValues).C2 0 = false ∨
          Binary64.ge (IEEE.quadraticFit x y numValues).D 0 = false ∨
          (Binary64.lt
              (Binary64.fabs ((IEEE.quadraticFit x y numValues).root1 -
                (IEEE.quadraticFit x y numValues).Y3))
              (Binary64.fabs ((IEEE.quadraticFit x y numValues).root2 -
                (IEEE.quadraticFit x y numValues).Y3)) = true ∧
            Binary64.lt
              (Binary64.fabs ((IEEE.quadraticFit x y numValues).root1 -
                (IEEE.quadraticFit x y numValues).Y3)) (24 * 3600) = false) ∨
          (Binary64.lt
              (Binary64.fabs ((IEEE.quadraticFit x y numValues).root1 -
                (IEEE.quadraticFit x y numValues).Y3))
              (Binary64.fabs ((IEEE.quadraticFit x y numValues).root2 -
                (IEEE.quadraticFit x y numValues).Y3)) = false ∧
            Binary64.lt
              (Binary64.fabs ((IEEE.quadraticFit x y numValues).root2 -
                (IEEE.quadraticFit x y numValues).Y3)) (24 * 3600) = false)) →
        IEEE.extrapolateToYEqualX x y numValues =
          IEEE.linearFit (x (numValues - 2)) (y (numValues - 2)) (x (numValues - 1))
            (y (numValues - 1))) ∧
      ((Binary64.ne (IEEE.quadraticFit x y numValues).X1 (IEEE.quadraticFit x y numValues).X2 &&
            Binary64.ne (IEEE.quadraticFit x y numValues).X1
              (IEEE.quadraticFit x y numValues).X3 &&
            Binary64.ne (IEEE.quadraticFit x y numValues).X2
              (IEEE.quadraticFit x y numValues).X3) = true →
        Binary64.ne (IEEE.quadraticFit x y numValues).C2 0 = true →
        Binary64.ge (IEEE.quadraticFit x y numValues).D 0 = true →
        (Binary64.lt
            (Binary64.fabs ((IEEE.quadraticFit x y numValues).root1 -
              (IEEE.quadraticFit x y numValues).Y3))
            (Binary64.fabs ((IEEE.quadraticFit x y numValues).root2 -
              (IEEE.quadraticFit x y numValues).Y3)) = true →
          Binary64.lt
            (Binary64.fabs ((IEEE.quadraticFit x y numValues).root1 -
              (IEEE.quadraticFit x y numValues).Y3)) (24 * 3600) = true →
          IEEE.extrapolateToYEqualX x y numValues =
            (IEEE.quadraticFit x y numValues).root1 + (IEEE.quadraticFit x y numValues).offset) ∧
        (Binary64.lt
            (Binary64.fabs ((IEEE.quadraticFit x y numValues).root1 -
              (IEEE.quadraticFit x y numValues).Y3))
            (Binary64.fabs ((IEEE.quadraticFit x y numValues).root2 -
              (IEEE.quadraticFit x y numValues).Y3)) = false →
          Binary64.lt
            (Binary64.fabs ((IEEE.quadraticFit x y numValues).root2 -
              (IEEE.quadraticFit x y numValues).Y3)) (24 * 3600) = true →
          IEEE.extrapolateToYEqualX x y numValues =
            (IEEE.quadraticFit x y numValues).root2 +
              (IEEE.quadraticFit x y numValues).offset)) ∧
      (((IEEE.quadraticFit x y numValues).D = .finite 0 ∨
          (IEEE.quadraticFit x y numValues).D = .negZero) →
        Binary64.ge (IEEE.quadraticFit x y numValues).D 0 = true) := by
  have h3 := IEEE.extrapolateToYEqualX_three x y numValues hn
  refine ⟨fun x' y' => rfl, fun x' y' => rfl, ?_, ?_, ?_⟩
  · intro h
    rw [h3]
    rcases h with h | h | h | ⟨h, h'⟩ | ⟨h, h'⟩
    · rw [if_neg (by rw [h]; simp)]
    · by_cases c1 : (Binary64.ne (IEEE.quadraticFit x y numValues).X1
          (IEEE.quadraticFit x y numValues).X2 &&
          Binary64.ne (IEEE.quadraticFit x y numValues).X1
            (IEEE.quadraticFit x y numValues).X3 &&
          Binary64.ne (IEEE.quadraticFit x y numValues).X2
            (IEEE.quadraticFit x y numValues).X3) = true
      · rw [if_pos c1, if_neg (by rw [h]; simp)]
      · rw [if_neg c1]
    · simp only [h, Bool.false_eq_true, if_false, ite_self]
    · simp only [h, h', Bool.false_eq_true, if_false, if_true, ite_self]
    · simp only [h, h', Bool.false_eq_true, if_false, ite_self]
  · intro c1 c2 c3
    rw [h3, if_pos c1, if_pos c2, if_pos c3]
    constructor
    · intro c4 c5
      rw [if_pos c4, if_pos c5]
    · intro c4 c5
      rw [if_neg (by rw [c4]; simp), if_pos c5]
  · intro h
    rcases h with h | h <;> rw [h] <;> decide!

/-- Witness for C21: the three points `(0, 0)`, `(1, 2)`, `(2, 6)`, where the code returns the
second candidate root, 0. -/
theorem C21_extrapolateToYEqualX_witness :
    IEEE.extrapolateToYEqualX (IEEE.threeValues 0 1 2) (IEEE.threeValues 0 2 6) 3 =
      (IEEE.quadraticFit (IEEE.threeValues 0 1 2) (IEEE.threeValues 0 2 6) 3).root2 +
        (IEEE.quadraticFit (IEEE.threeValues 0 1 2) (IEEE.threeValues 0 2 6) 3).offset :=
  ((C21_extrapolateToYEqualX_linear_fit_cases (IEEE.threeValues 0 1 2) (IEEE.threeValues 0 2 6)
    3 (by decide)).2.2.2.1 (by decide!) (by decide!) (by decide!)).2 (by decide!) (by decide!)

/-- C12 (counterexample): with the Sun up, the angular sizes 0.0093 (Sun) and 0.0091 (Moon)
and the separation 0.009200000000000002, the next binary64 number above the partial-eclipse
threshold, the kind is "none" although the abstract separation is exactly 2; with both sizes
0.0093 and the separation `1e-20` the kind is partial although the abstract separation is
exactly 1. -/
theorem C12_counterexample_kind_boundaries_are_rounded :
    (IEEE.calculateEclipse (IEEE.sampleSolarEclipse 0.0093 0.0091 0.009200000000000002)).notUp =
        false ∧
      (IEEE.calculateEclipse
        (IEEE.sampleSolarEclipse 0.0093 0.0091 0.009200000000000002)).eclipseKind =
          .ECEclipseNoneSolar ∧
      (IEEE.calculateEclipse
        (IEEE.sampleSolarEclipse 0.0093 0.0091 0.009200000000000002)).abstractSeparation = 2 ∧
      (IEEE.calculateEclipse (IEEE.sampleSolarEclipse 0.0093 0.0093 1e-20)).notUp = false ∧
      (IEEE.calculateEclipse (IEEE.sampleSolarEclipse 0.0093 0.0093 1e-20)).eclipseKind =
        .ECEclipsePartialSolar ∧
      (IEEE.calculateEclipse (IEEE.sampleSolarEclipse 0.0093 0.0093 1e-20)).abstractSeparation =
        1 := by
  decide!

/-- C12 (amended): in binary64 arithmetic, on a cache miss, for angular sizes, parallaxes and
separations of magnitude at most `2 ^ 10`, a non-negative separation and thresholds whose
computed difference `sPartial - sTotal` is positive, `calculateEclipse` returns the abstract
separation `1 + (s - sTotal) / (sPartial - sTotal)`, each operation rounded, clamped to
`[0, 3]`. The kind agrees with the documented scale up to the rounding of the boundaries: a
total kind has separation `<= 1`, a partial or annular kind has separation in `[1, 2]` and a
kind "none" has separation `>= 2`; so whenever the body is up, a separation below 1 is total,
one strictly between 1 and 2 is partial or annular, and one above 2 is "none". Whenever the
separation is clamped at 3 the kind is "none", also when the body is not up. -/
theorem C12_eclipse_separation_scale_up_to_rounding (v : IEEE.EclipseCallResults)
    (hsun : v.sunAngularSize.Bounded 10) (hmoon : v.moonAngularSize.Bounded 10)
    (hsunParallax : v.sunParallax.Bounded 10) (hmoonParallax : v.moonParallax.Bounded 10)
    (hsolar : v.solarSeparation.Bounded 10) (hlunar : v.lunarSeparation.Bounded 10)
    (hsolar0 : 0 ≤ v.solarSeparation.toRat)
    (hden : Binary64.lt 0 ((IEEE.calculateEclipse v).separationAtPartialEclipse -
      (IEEE.calculateEclipse v).separationAtTotalEclipse) = true) :
    (IEEE.calculateEclipse v).rawSeparation =
        1 + ((IEEE.calculateEclipse v).physicalSeparation -
            (IEEE.calculateEclipse v).separationAtTotalEclipse) /
          ((IEEE.calculateEclipse v).separationAtPartialEclipse -
            (IEEE.calculateEclipse v).separationAtTotalEclipse) ∧
      (IEEE.calculateEclipse v).abstractSeparation =
        (if Binary64.lt (IEEE.calculateEclipse v).rawSeparation 0 = true then 0
          else if Binary64.gt (IEEE.calculateEclipse v).rawSeparation 3 = true then 3
          else (IEEE.calculateEclipse v).rawSeparation) ∧
      (IEEE.calculateEclipse v).abstractSeparation.isFinite = true ∧
      0 ≤ (IEEE.calculateEclipse v).abstractSeparation.toRat ∧
      (IEEE.calculateEclipse v).abstractSeparation.toRat ≤ 3 ∧
      ((IEEE.calculateEclipse v).eclipseKind.isTotal = true →
        (IEEE.calculateEclipse v).abstractSeparation.toRat ≤ 1) ∧
      ((IEEE.calculateEclipse v).eclipseKind.isPartialOrAnnular = true →
        1 ≤ (IEEE.calculateEclipse v).abstractSeparation.toRat ∧
          (IEEE.calculateEclipse v).abstractSeparation.toRat ≤ 2) ∧
      ((IEEE.calculateEclipse v).eclipseKind.isNone = true →
        2 ≤ (IEEE.calculateEclipse v).abstractSeparation.toRat) ∧
      ((IEEE.calculateEclipse v).notUp = false →
        ((IEEE.calculateEclipse v).abstractSeparation.toRat < 1 →
          (IEEE.calculateEclipse v).eclipseKind.isTotal = true) ∧
        (1 < (IEEE.calculateEclipse v).abstractSeparation.toRat →
          (IEEE.calculateEclipse v).abstractSeparation.toRat < 2 →
          (IEEE.calculateEclipse v).eclipseKind.isPartialOrAnnular = true) ∧
        (2 < (IEEE.calculateEclipse v).abstractSeparation.toRat →
          (IEEE.calculateEclipse v).eclipseKind.isNone = true)) ∧
      (Binary64.gt (IEEE.calculateEclipse v).rawSeparation 3 = true →
        (IEEE.calculateEclipse v).abstractSeparation = 3 ∧
          (IEEE.calculateEclipse v).eclipseKind.isNone = true) := by
  obtain ⟨e1, e2, e3, -⟩ := IEEE.calculateEclipse_common v
  obtain ⟨bs, bT, bP, k1, k2, k3, k4⟩ := IEEE.calculateEclipse_branch v hsun hmoon hsunParallax
    hmoonParallax hsolar hlunar hsolar0
  obtain ⟨f1, f2, f3, f4, f5, f6, f7, f8⟩ := IEEE.eclipseClamp_facts _ _ _ _ _ bs bT bP hden e1 e2
  have hnone : (if (IEEE.calculateEclipse v).solarNotLunar = true then
      ECEclipseKind.ECEclipseNoneSolar else ECEclipseKind.ECEclipseNoneLunar).isNone = true := by
    split_ifs <;> rfl
  exact ⟨e1, e2, f1, f2, f3,
    IEEE.eclipseKind_agrees _ _ _ _ _ _ _ _ _ hnone e3 f4 f5 f6 f7 f8 k1 k2 k3 k4⟩

/-- Witness for C12: the Sun up, the angular sizes 0.0093 and 0.0091 and the separation 0.004,
a partial solar eclipse. -/
theorem C12_eclipse_separation_witness :
    (IEEE.calculateEclipse (IEEE.sampleSolarEclipse 0.0093 0.0091 0.004)).eclipseKind =
        .ECEclipsePartialSolar ∧
      1 ≤ (IEEE.calculateEclipse
        (IEEE.sampleSolarEclipse 0.0093 0.0091 0.004)).abstractSeparation.toRat ∧
      (IEEE.calculateEclipse
        (IEEE.sampleSolarEclipse 0.0093 0.0091 0.004)).abstractSeparation.toRat ≤ 2 :=
  have h := C12_eclipse_separation_scale_up_to_rounding
    (IEEE.sampleSolarEclipse 0.0093 0.0091 0.004) (by decide!) (by decide!) (by decide!)
    (by decide!) (by decide!) (by decide!) (by decide!) (by decide!)
  ⟨by decide!, h.2.2.2.2.2.2.1 (by decide!)⟩

/-- C8 (counterexample): with the target altitude `-π/2` and latitude and declination
`1e-10`, and the correctly rounded library values `sin(-π/2) = -1`, `sin(1e-10) = 1e-10`,
`cos(1e-10) = 1`, the inequality `sin(alt) < sin(lat) sin(decl) - cos(lat) cos(decl)` holds,
yet the computed `cosH` is exactly -1 and `riseSetTime` returns an ordinary instant, not the
"always above horizon" sentinel. -/
theorem C8_counterexample_cosH_rounds_to_minus_one :
    (IEEE.sampleLibrary.sin (-(IEEE.M_PI / 2))).toRat <
        (IEEE.sampleLibrary.sin 1e-10).toRat * (IEEE.sampleLibrary.sin 1e-10).toRat -
          (IEEE.sampleLibrary.cos 1e-10).toRat * (IEEE.sampleLibrary.cos 1e-10).toRat ∧
      IEEE.riseSetCosH IEEE.sampleLibrary 1e-10 1e-10 (-(IEEE.M_PI / 2)) = -1 ∧
      (IEEE.riseSetTime IEEE.sampleLibrary IEEE.sampleTimeBase true 1 1e-10 1e-10 0.5
        (-(IEEE.M_PI / 2)) IEEE.sampleInstant IEEE.initialTimeState).1 = 189586832.39681354 ∧
      (IEEE.riseSetTime IEEE.sampleLibrary IEEE.sampleTimeBase true 1 1e-10 1e-10 0.5
        (-(IEEE.M_PI / 2)) IEEE.sampleInstant IEEE.initialTimeState).1 ≠
        IEEE.kECAlwaysAboveHorizon := by
  decide!

/-- C8 (amended): in binary64 arithmetic, for a latitude and a declination strictly between
`-π/2` and `π/2` (of magnitude at most `M_PI / 2`) and every ordinary target altitude,
`riseSetTime` returns the "always above horizon" sentinel exactly when the computed
`cosH = (sin(alt) - sin(lat) sin(decl)) / (cos(lat) cos(decl))`, each operation rounded, is
below -1, the "always below horizon" sentinel exactly when it is above 1, and an ordinary
instant in every other case. A computed `cosH` below -1 implies
`sin(alt) < sin(lat) sin(decl) - cos(lat) cos(decl)` and one above 1 implies
`sin(alt) > sin(lat) sin(decl) + cos(lat) cos(decl)`, with the two products rounded; the
converses fail at the boundary. The two sentinels differ from each other and from the generic
NaN. The C library is assumed to return a sine in `[-1, 1]`, a cosine in `[2 ^ (-64), 1]` on
that range and an arc cosine of magnitude at most 4 on `[-1, 1]`; the calendar library to
return a start of the day within `2 ^ 37` seconds for an instant within `2 ^ 36`, and a start
of the year within `2 ^ 39` seconds and a year in the range of a C `int` for an instant within
`2 ^ 38`; `ESUtil::fmod(x, 2π)` to be of magnitude at most 8. The right ascension is of
magnitude at most 8, the longitude at most 4, the instant at most `2 ^ 36` seconds, and the
cache slots and statics hold bounded values. -/
theorem C8_riseSetTime_sentinels_on_computed_cosH (lib : IEEE.MathLibrary) (tb : IEEE.TimeBase)
    (riseNotSet : Bool) (ra decl lat long alt date : Binary64) (s : IEEE.TimeState)
    (hsin : ∀ x : Binary64, x.isFinite = true → (lib.sin x).Bounded 0)
    (hcos : ∀ x : Binary64, x.isFinite = true → |x.toRat| ≤ (IEEE.M_PI / 2).toRat →
      (lib.cos x).isFinite = true ∧ IEEE.twoPow (-64) ≤ (lib.cos x).toRat ∧
        (lib.cos x).toRat ≤ 1)
    (hacos : ∀ x : Binary64, x.isFinite = true → |x.toRat| ≤ 1 → (lib.acos x).Bounded 2)
    (hmid : ∀ d : Binary64, d.Bounded 36 →
      (tb.timeIntervalFromUTCDateComponents
        { tb.UTCDateComponentsFromTimeInterval d with
          hour := 0, minute := 0, seconds := 0 }).Bounded 37)
    (hyear : ∀ d : Binary64, d.Bounded 38 →
      (tb.timeIntervalFromUTCDateComponents
        { tb.UTCDateComponentsFromTimeInterval d with
          month := 1, day := 1, hour := 0, minute := 0, seconds := 0 }).Bounded 39 ∧
        |(if (tb.UTCDateComponentsFromTimeInterval d).era ≠ 0 then
            (tb.UTCDateComponentsFromTimeInterval d).year
          else 1 - (tb.UTCDateComponentsFromTimeInterval d).year)| ≤ 2 ^ 31)
    (hfmod : ∀ x : Binary64, x.isFinite = true → (tb.fmod x (IEEE.M_PI * 2)).Bounded 3)
    (hs : s.Bounded)
    (hra : ra.Bounded 3) (hlong : long.Bounded 2) (hdate : date.Bounded 36)
    (hdecl : decl.isFinite = true) (hdecl2 : |decl.toRat| ≤ (IEEE.M_PI / 2).toRat)
    (hlat : lat.isFinite = true) (hlat2 : |lat.toRat| ≤ (IEEE.M_PI / 2).toRat)
    (halt : alt.isFinite = true) :
    ((IEEE.riseSetTime lib tb riseNotSet ra decl lat long alt date s).1 =
          IEEE.kECAlwaysAboveHorizon ↔
        Binary64.lt (IEEE.riseSetCosH lib decl lat alt) (-1.0) = true) ∧
      ((IEEE.riseSetTime lib tb riseNotSet ra decl lat long alt date s).1 =
          IEEE.kECAlwaysBelowHorizon ↔
        Binary64.gt (IEEE.riseSetCosH lib decl lat alt) 1.0 = true) ∧
      (Binary64.lt (IEEE.riseSetCosH lib decl lat alt) (-1.0) = false →
        Binary64.gt (IEEE.riseSetCosH lib decl lat alt) 1.0 = false →
        (IEEE.riseSetTime lib tb riseNotSet ra decl lat long alt date s).1.isFinite = true) ∧
      (Binary64.lt (IEEE.riseSetCosH lib decl lat alt) (-1.0) = true →
        (lib.sin alt).toRat <
          (lib.sin lat * lib.sin decl).toRat - (lib.cos lat * lib.cos decl).toRat) ∧
      (Binary64.gt (IEEE.riseSetCosH lib decl lat alt) 1.0 = true →
        (lib.sin lat * lib.sin decl).toRat + (lib.cos lat * lib.cos decl).toRat <
          (lib.sin alt).toRat) ∧
      IEEE.kECAlwaysAboveHorizon ≠ IEEE.kECAlwaysBelowHorizon ∧
      IEEE.kECAlwaysAboveHorizon ≠ .nan 0 ∧ IEEE.kECAlwaysBelowHorizon ≠ .nan 0 := by
  obtain ⟨hfin, hc, hn, hd, hdgrid⟩ := IEEE.riseSetCosH_facts lib hsin hcos decl lat alt hdecl
    hdecl2 hlat hlat2 halt
  obtain ⟨o1, o2⟩ := IEEE.riseSetCosH_outside _ _ _ _ _ hd hdgrid hc hn
  obtain ⟨s1, s2⟩ := IEEE.riseSetTime_sentinel lib tb riseNotSet ra decl lat long alt date s
  have hord := IEEE.riseSetTime_ordinary lib tb riseNotSet ra decl lat long alt date s hacos hmid
    hyear hfmod hs hra hlong hdate hfin
  have hlt : Binary64.lt (IEEE.riseSetCosH lib decl lat alt) (-1.0) =
      decide ((IEEE.riseSetCosH lib decl lat alt).toRat < -1) := by
    rw [IEEE.minusOne_eq]
    exact Binary64.lt_of_isFinite _ (.finite (-1)) hfin rfl
  have hgt : Binary64.gt (IEEE.riseSetCosH lib decl lat alt) 1.0 =
      decide (1 < (IEEE.riseSetCosH lib decl lat alt).toRat) := by
    rw [IEEE.plusOne_eq]
    exact Binary64.lt_of_isFinite (.finite 1) _ rfl hfin
  have hab : IEEE.kECAlwaysAboveHorizon ≠ IEEE.kECAlwaysBelowHorizon := by decide
  generalize IEEE.riseSetTime lib tb riseNotSet ra decl lat long alt date s = r at s1 s2 hord ⊢
  generalize hL : Binary64.lt (IEEE.riseSetCosH lib decl lat alt) (-1.0) = L at *
  generalize hG : Binary64.gt (IEEE.riseSetCosH lib decl lat alt) 1.0 = G at *
  have hexcl : L = true → G = false := by
    intro h
    rw [hlt] at h
    rw [hgt]
    have := of_decide_eq_true h
    exact decide_eq_false (by linarith)
  have hnotnan : ∀ p : Nat, L = false → G = false → r.1 ≠ .nan p := by
    intro p a b hr
    have := (hord a b).1.1
    rw [hr] at this
    exact Bool.noConfusion this
  have t1 : L = true → r.1 = IEEE.kECAlwaysAboveHorizon := fun h => by rw [s1 h]
  have t2 : L = false → G = true → r.1 = IEEE.kECAlwaysBelowHorizon := fun h h' => by
    rw [s2 h h']
  refine ⟨⟨fun hr => ?_, t1⟩, ⟨fun hr => ?_, fun h => ?_⟩, fun a b => (hord a b).1.1, ?_, ?_,
    hab, by decide, by decide⟩
  · cases L
    · cases G
      · exact absurd hr (hnotnan 2 rfl rfl)
      · rw [t2 rfl rfl] at hr
        exact absurd hr.symm hab
    · rfl
  · cases L
    · cases G
      · exact absurd hr (hnotnan 1 rfl rfl)
      · rfl
    · rw [t1 rfl] at hr
      exact absurd hr hab
  · cases L
    · exact t2 rfl h
    · have := hexcl rfl
      rw [h] at this
      exact absurd this (by decide)
  · intro h
    rw [hlt] at h
    exact o1 (of_decide_eq_true h)
  · intro h
    rw [hgt] at h
    have := o2 (of_decide_eq_true h)
    linarith

/-- Witness for C8: the sample library and calendar, a pool whose final cache is current, the
target altitude `-π/2` at latitude and declination `1e-10`, where the computed `cosH` is -1
and an ordinary instant is returned. -/
theorem C8_riseSetTime_witness :
    (IEEE.riseSetTime IEEE.sampleLibrary IEEE.sampleTimeBase true 1 1e-10 1e-10 0.5
      (-(IEEE.M_PI / 2)) IEEE.sampleInstant IEEE.sampleTimeState).1.isFinite = true :=
  (C8_riseSetTime_sentinels_on_computed_cosH IEEE.sampleLibrary IEEE.sampleTimeBase true 1 1e-10
    1e-10 0.5 (-(IEEE.M_PI / 2)) IEEE.sampleInstant IEEE.sampleTimeState
    (fun x _ => IEEE.sampleLibrary_sin x) (fun x _ _ => IEEE.sampleLibrary_cos x)
    (fun x _ _ => IEEE.sampleLibrary_acos x) IEEE.sampleTimeBase_midnight
    IEEE.sampleTimeBase_year (fun x _ => IEEE.sampleTimeBase_fmod x)
    IEEE.sampleTimeState_bounded
    (by decide!) (by decide!) (by decide!) (by decide!) (by decide!) (by decide!) (by decide!)
    (by decide!)).2.2.1 (by decide!) (by decide!)

end ESAstro
